import Mathlib

/-!
# QEagleLib: the serialization engine

A shallow embedding of the parse/serialize code of `src/QEagleLib.cpp`.

* `QString` is Lean's `String`, used only through its character list.
* `double` fields are rationals (`ℚ`); the text form of a number is not computed here:
  `QString::arg`, `QString::toDouble` and `QString::toInt` are the fields of a
  `NumberText`, which every reader and writer takes as its first argument.
* A `QDomElement` is a handle: either null, or a node together with the siblings that
  follow it (what `nextSiblingElement` walks).
* A method that mutates `*this` takes the object and returns the new one next to the
  returned `bool`.
* A `QList` of owned objects is a list of values. A loop `while (!c.isNull()) { ...;
  c = c.nextSiblingElement(tag); }` is a map or a fold over `whileElements tag c`, the
  handles the loop visits.
* A writer is split in two: `xmlElement` is the element the method builds, `writeToXML`
  the guarded `root.appendChild(e)`. A handle refers to its node, so a child appended
  before it is filled is appended here when it is complete.
-/

namespace Eagle

/-! ## QString -/

/-- The call `str.at(i)`. Positions past the end read the terminating NUL that a
`QString` buffer always carries (a release build; a debug build asserts). -/
def QString.at (str : String) (i : Nat) : Char := str.data.getD i (Char.ofNat 0)

/-- The call `str.mid(pos)`: the text from position `pos` to the end. -/
def QString.mid (str : String) (pos : Nat) : String := String.mk (str.data.drop pos)

/-- The call `str.isEmpty()`. -/
def QString.isEmpty (str : String) : Bool := str.data.isEmpty

/-! ## Text forms of numbers -/

/-- The number formatting and parsing that Qt supplies. `argDouble x` is
`QString("%1").arg(x)` for a `double`, `argInt n` is the same for an `int`;
`toDouble s` and `toInt s` are `s.toDouble(&ok)` and `s.toInt(&ok)`, `none` standing
for `ok == false`. Both parsers reject the empty string. -/
structure NumberText where
  argDouble : ℚ → String
  toDouble : String → Option ℚ
  argInt : Int → String
  toInt : String → Option Int
  toDouble_empty : toDouble "" = none
  toInt_empty : toInt "" = none

/-- The decimal digits of a natural number. -/
def digitsText (n : Nat) : String := String.mk (Nat.toDigits 10 n)

/-- The decimal text of an integer. -/
def intText : Int → String
  | Int.ofNat n => digitsText n
  | Int.negSucc n => "-" ++ digitsText (n + 1)

/-- The least number of decimal places, at most six, in which a fraction of
denominator `d` is exact. -/
def placesOf (d : Nat) : Option Nat := (List.range 7).find? (fun k => 10 ^ k % d = 0)

/-- The decimal text of a rational with a finite decimal expansion of at most six
places, as `QString::arg` writes such a number: `0`, `-90`, `37.5`, `0.01`. Any other
rational is written `nan`. -/
def decimalText (q : ℚ) : String :=
  match placesOf q.den with
  | some k =>
    let n := q.num.natAbs * (10 ^ k / q.den)
    let sign := if q.num < 0 then "-" else ""
    if k = 0 then sign ++ digitsText n
    else
      let frac := digitsText (n % 10 ^ k)
      sign ++ digitsText (n / 10 ^ k) ++ "." ++
        String.mk (List.replicate (k - frac.length) '0') ++ frac
  | none => "nan"

/-- The value of a decimal digit. -/
def digitValue (ch : Char) : Option Nat :=
  if '0' ≤ ch ∧ ch ≤ '9' then some (ch.toNat - '0'.toNat) else none

/-- Reads a run of decimal digits after the value `acc` read so far. -/
def parseDigitsAux : List Char → Nat → Option Nat
  | [], acc => some acc
  | ch :: cs, acc =>
    match digitValue ch with
    | some d => parseDigitsAux cs (acc * 10 + d)
    | none => none

/-- Reads a non-empty run of decimal digits. -/
def parseDigits : List Char → Option Nat
  | [] => none
  | cs => parseDigitsAux cs 0

/-- Reads `digits` or `digits.digits`. -/
def parseUnsigned (cs : List Char) : Option ℚ :=
  match cs.span (fun ch => ch != '.') with
  | (ip, []) => (parseDigits ip).map (fun n => (n : ℚ))
  | (ip, _ :: fp) =>
    match parseDigits ip, parseDigits fp with
    | some a, some b => some (mkRat (a * 10 ^ fp.length + b) (10 ^ fp.length))
    | _, _ => none

/-- Reads an optionally negative decimal number. -/
def parseDecimal (s : String) : Option ℚ :=
  match s.data with
  | '-' :: cs => (parseUnsigned cs).map (fun q => -q)
  | cs => parseUnsigned cs

/-- Reads an optionally negative decimal integer. -/
def parseInt (s : String) : Option Int :=
  match s.data with
  | '-' :: cs => (parseDigits cs).map (fun n => -(n : Int))
  | cs => (parseDigits cs).map (fun n => (n : Int))

/-- A concrete `NumberText` for evaluating the model on concrete documents: plain
decimal notation, which is what Qt writes and reads for the integers and short decimal
fractions used in the examples of this file. -/
def decimalNumbers : NumberText where
  argDouble := decimalText
  toDouble := parseDecimal
  argInt := intText
  toInt := parseInt
  toDouble_empty := by decide
  toInt_empty := by decide

/-! ## The DOM -/

/-- A DOM tree: an element with its tag name, attributes and children, or a text node. -/
inductive DomTree where
  | element (nodeName : String) (attributes : List (String × String))
      (childNodes : List DomTree)
  | text (nodeValue : String)

/-- A `QDomNode` handle: null, or a node of a tree together with the siblings that
follow it in its parent. -/
inductive QDomNode where
  | null
  | ref (node : DomTree) (following : List DomTree)

/-- A `QDomElement` is a `QDomNode` handle. -/
abbrev QDomElement := QDomNode

/-- A `QDomDocument`, of which the code only asks whether it is null. -/
structure QDomDocument where
  isNull : Bool

/-- The value stored under `name` in an attribute list, the empty string when there
is none. -/
def getAttr (name : String) : List (String × String) → String
  | [] => ""
  | (k, v) :: rest => if k = name then v else getAttr name rest

/-- Stores `value` under `name`, replacing the value of an attribute already there. -/
def setAttr (name value : String) : List (String × String) → List (String × String)
  | [] => [(name, value)]
  | (k, v) :: rest =>
    if k = name then (name, value) :: rest else (k, v) :: setAttr name value rest

/-- The first element named `tagName` in a list of siblings, as a handle. -/
def findElement (tagName : String) : List DomTree → QDomNode
  | [] => QDomNode.null
  | DomTree.element n a cs :: rest =>
    if n = tagName then QDomNode.ref (DomTree.element n a cs) rest
    else findElement tagName rest
  | DomTree.text _ :: rest => findElement tagName rest

mutual
/-- The text of a tree: its text nodes, in document order, joined. -/
def DomTree.innerText : DomTree → String
  | DomTree.element _ _ cs => DomTree.textOfList cs
  | DomTree.text d => d
/-- The joined text of a list of trees. -/
def DomTree.textOfList : List DomTree → String
  | [] => ""
  | t :: ts => t.innerText ++ DomTree.textOfList ts
end

/-- The call `n.isNull()`. -/
def QDomNode.isNull : QDomNode → Bool
  | QDomNode.null => true
  | QDomNode.ref _ _ => false

/-- The call `n.isElement()`. -/
def QDomNode.isElement : QDomNode → Bool
  | QDomNode.ref (DomTree.element _ _ _) _ => true
  | _ => false

/-- The call `n.nodeName()`. -/
def QDomNode.nodeName : QDomNode → String
  | QDomNode.ref (DomTree.element n _ _) _ => n
  | QDomNode.ref (DomTree.text _) _ => "#text"
  | QDomNode.null => ""

/-- The call `e.attribute(name)`. -/
def QDomNode.attribute : QDomNode → String → String
  | QDomNode.ref (DomTree.element _ a _) _, name => getAttr name a
  | _, _ => ""

/-- The call `e.hasAttribute(name)`. -/
def QDomNode.hasAttribute : QDomNode → String → Bool
  | QDomNode.ref (DomTree.element _ a _) _, name => (a.map Prod.fst).contains name
  | _, _ => false

/-- The call `e.text()`. -/
def QDomNode.text : QDomNode → String
  | QDomNode.ref t _ => t.innerText
  | QDomNode.null => ""

/-- The children of the node a handle refers to. -/
def QDomNode.childNodes : QDomNode → List DomTree
  | QDomNode.ref (DomTree.element _ _ cs) _ => cs
  | _ => []

/-- The tag name of an element, `#text` for a text node. -/
def DomTree.nodeName : DomTree → String
  | DomTree.element n _ _ => n
  | DomTree.text _ => "#text"

/-- The nodes that a list of handles refers to, nulls left out. -/
def QDomNode.treesOf : List QDomNode → List DomTree
  | [] => []
  | QDomNode.null :: rest => QDomNode.treesOf rest
  | QDomNode.ref t _ :: rest => t :: QDomNode.treesOf rest

/-- The call `e.nextSiblingElement(tagName)`. -/
def QDomNode.nextSiblingElement : QDomNode → String → QDomNode
  | QDomNode.ref _ following, tagName => findElement tagName following
  | QDomNode.null, _ => QDomNode.null

/-- The call `e.firstChildElement(tagName)`. -/
def QDomNode.firstChildElement (e : QDomNode) (tagName : String) : QDomNode :=
  findElement tagName e.childNodes

/-- The call `n.lastChild()`. -/
def QDomNode.lastChild (n : QDomNode) : QDomNode :=
  match n.childNodes.getLast? with
  | some t => QDomNode.ref t []
  | none => QDomNode.null

/-- The call `host.createElement(tagName)`. -/
def QDomDocument.createElement (host : QDomDocument) (tagName : String) : QDomNode :=
  if host.isNull then QDomNode.null else QDomNode.ref (DomTree.element tagName [] []) []

/-- The call `host.createTextNode(value)`. -/
def QDomDocument.createTextNode (host : QDomDocument) (value : String) : QDomNode :=
  if host.isNull then QDomNode.null else QDomNode.ref (DomTree.text value) []

/-- The call `e.setAttribute(name, value)`. -/
def QDomNode.setAttribute : QDomNode → String → String → QDomNode
  | QDomNode.ref (DomTree.element n a cs) f, name, value =>
    QDomNode.ref (DomTree.element n (setAttr name value a) cs) f
  | e, _, _ => e

/-- The call `e.appendChild(child)`: the node of `child` becomes the last child. -/
def QDomNode.appendChild : QDomNode → QDomNode → QDomNode
  | QDomNode.ref (DomTree.element n a cs) f, QDomNode.ref t _ =>
    QDomNode.ref (DomTree.element n a (cs ++ [t])) f
  | e, _ => e

/-! ## Reading attributes -/

/-- The block `s = e.attribute(name); if (!s.isEmpty()) { bool ok = false;
double value = s.toDouble(&ok); if (ok) { field = value; } }`: the new value of
`field`. -/
def readDouble (c : NumberText) (e : QDomElement) (name : String) (field : ℚ) : ℚ :=
  let s := e.attribute name
  if !QString.isEmpty s then
    match c.toDouble s with
    | some value => value
    | none => field
  else field

/-- The same block with `int value = s.toInt(&ok)`. -/
def readInt (c : NumberText) (e : QDomElement) (name : String) (field : Int) : Int :=
  let s := e.attribute name
  if !QString.isEmpty s then
    match c.toInt s with
    | some value => value
    | none => field
  else field

/-- The block `s = e.attribute(name); if (!s.isEmpty()) { if (s=="yes") { field = true; }
else if (s=="no") { field = false; } }`. -/
def readBool (e : QDomElement) (name : String) (field : Bool) : Bool :=
  let s := e.attribute name
  if !QString.isEmpty s then
    if s = "yes" then true else if s = "no" then false else field
  else field

/-- The block `s = e.attribute(name); if (!s.isEmpty()) { field = s; }`. -/
def readString (e : QDomElement) (name : String) (field : String) : String :=
  let s := e.attribute name
  if !QString.isEmpty s then s else field

/-- The function `CEntity::toString(bool)`. -/
def CEntity.toString (value : Bool) : String := if value then "yes" else "no"

/-! ## The transformation codec -/

/-- What `decodeTransformation` leaves behind: the returned `bool`, the three
reference parameters after the call, and the positions it passed to `str.at()`, in
order. -/
structure Decoded where
  result : Bool
  rotation : ℚ
  reflection : Bool
  spin : Bool
  reads : List Nat
  deriving DecidableEq

/-- The function `decodeTransformation(str, rotation, reflection, spin)`; the last three
arguments are the values the reference parameters hold on entry. -/
def decodeTransformation (c : NumberText) (str : String) (rotation : ℚ)
    (reflection spin : Bool) : Decoded :=
  if 2 ≤ str.length then
    let reflection := false
    let mod_pos := 0
    let isS := 'S' == QString.at str mod_pos
    let reads := [mod_pos]
    let spin := if isS then true else spin
    let mod_pos := if isS then mod_pos + 1 else mod_pos
    let isM := 'M' == QString.at str mod_pos
    let reads := reads ++ [mod_pos]
    let reflection := if isM then true else reflection
    let mod_pos := if isM then mod_pos + 1 else mod_pos
    let isR := 'R' == QString.at str mod_pos
    let reads := reads ++ [mod_pos]
    if isR then
      let mod_pos := mod_pos + 1
      let ss := QString.mid str mod_pos
      match c.toDouble ss with
      | some value => ⟨true, value, reflection, spin, reads⟩
      | none => ⟨false, rotation, reflection, spin, reads⟩
    else ⟨false, rotation, reflection, spin, reads⟩
  else ⟨false, rotation, reflection, spin, []⟩

/-- The function `encodeTransformation(rotation, reflection, spin)`. -/
def encodeTransformation (c : NumberText) (rotation : ℚ) (reflection spin : Bool) :
    String :=
  let result := ""
  let result := if spin then result ++ "S" else result
  let result := if reflection then result ++ "M" else result
  result ++ ("R" ++ c.argDouble rotation)

/-! ## Wire -/

/-- The enumeration `CWire::Style`. -/
inductive CWire.Style where
  | wsContinuous | wsLongDash | wsShortDash | wsDashDot
  deriving DecidableEq, Repr

/-- The enumeration `CWire::Cap`. -/
inductive CWire.Cap where
  | wcFlat | wcRound
  deriving DecidableEq, Repr

/-- The fields of `CWire`. -/
structure CWire where
  m_X1 : ℚ
  m_Y1 : ℚ
  m_X2 : ℚ
  m_Y2 : ℚ
  m_Width : ℚ
  m_Layer : Int
  m_Extent : String
  m_Style : CWire.Style
  m_Curve : ℚ
  m_Cap : CWire.Cap
  deriving DecidableEq

/-- The function `CWire::toString(CWire::Style)`. -/
def CWire.Style.toString : CWire.Style → String
  | wsContinuous => "continuous"
  | wsLongDash => "longdash"
  | wsShortDash => "shortdash"
  | wsDashDot => "dashdot"

/-- The function `CWire::toString(CWire::Cap)`. -/
def CWire.Cap.toString : CWire.Cap → String
  | wcFlat => "flat"
  | wcRound => "round"

/-- The state `CWire::clear()` leaves. -/
def CWire.clear : CWire :=
  { m_X1 := 0, m_Y1 := 0, m_X2 := 1, m_Y2 := 1, m_Width := mkRat 1 10, m_Layer := 1,
    m_Extent := "", m_Style := CWire.Style.wsContinuous, m_Curve := 0,
    m_Cap := CWire.Cap.wcRound }

/-- The method `CWire::readFromXML(root)`. -/
def CWire.readFromXML (c : NumberText) (root : QDomElement) (w : CWire) : Bool × CWire :=
  let e := if root.nodeName != "wire" then root.nextSiblingElement "wire" else root
  if !e.isNull then
    let w := { w with m_X1 := readDouble c e "x1" w.m_X1 }
    let w := { w with m_Y1 := readDouble c e "y1" w.m_Y1 }
    let w := { w with m_X2 := readDouble c e "x2" w.m_X2 }
    let w := { w with m_Y2 := readDouble c e "y2" w.m_Y2 }
    let w := { w with m_Width := readDouble c e "width" w.m_Width }
    let w := { w with m_Layer := readInt c e "layer" w.m_Layer }
    let s := e.attribute "style"
    let w := { w with m_Style :=
      if !QString.isEmpty s then
        if s = "continuous" then CWire.Style.wsContinuous
        else if s = "longdash" then CWire.Style.wsLongDash
        else if s = "shortdash" then CWire.Style.wsShortDash
        else if s = "dashdot" then CWire.Style.wsDashDot
        else w.m_Style
      else w.m_Style }
    let w := { w with m_Curve := readDouble c e "curve" w.m_Curve }
    let s := e.attribute "cap"
    let w := { w with m_Cap :=
      if !QString.isEmpty s then
        if s = "flat" then CWire.Cap.wcFlat
        else if s = "round" then CWire.Cap.wcRound
        else w.m_Cap
      else w.m_Cap }
    (true, w)
  else (false, w)

/-- The element `e` that `CWire::writeToXML` builds and appends to `root`. -/
def CWire.xmlElement (c : NumberText) (w : CWire) (host : QDomDocument) (defaults : Bool) :
    QDomElement :=
  let e := host.createElement "wire"
  let e := e.setAttribute "x1" (c.argDouble w.m_X1)
  let e := e.setAttribute "y1" (c.argDouble w.m_Y1)
  let e := e.setAttribute "x2" (c.argDouble w.m_X2)
  let e := e.setAttribute "y2" (c.argDouble w.m_Y2)
  let e := e.setAttribute "width" (c.argDouble w.m_Width)
  let e := e.setAttribute "layer" (c.argInt w.m_Layer)
  let e := if !QString.isEmpty w.m_Extent then e.setAttribute "extent" w.m_Extent else e
  let e :=
    if defaults || CWire.Style.wsContinuous != w.m_Style then
      e.setAttribute "style" w.m_Style.toString
    else e
  let e :=
    if defaults || (0 : ℚ) != w.m_Curve then e.setAttribute "curve" (c.argDouble w.m_Curve)
    else e
  let e :=
    if defaults || CWire.Cap.wcRound != w.m_Cap then e.setAttribute "cap" w.m_Cap.toString
    else e
  e

/-- The method `CWire::writeToXML(host, root, defaults)`: the returned `bool` and `root`
after the call. -/
def CWire.writeToXML (c : NumberText) (w : CWire) (host : QDomDocument) (root : QDomElement)
    (defaults : Bool) : Bool × QDomElement :=
  if !host.isNull && !root.isNull then
    (true, root.appendChild (w.xmlElement c host defaults))
  else (false, root)

/-! ## Grid units -/

/-- The enumeration `CGrid::Unit`. -/
inductive CGrid.Unit where
  | guMic | guMM | guMil | guInch
  deriving DecidableEq, Repr

/-- The function `CGrid::toString(CGrid::Unit)`. -/
def CGrid.Unit.toString : CGrid.Unit → String
  | guMic => "mic"
  | guMM => "mm"
  | guMil => "mil"
  | guInch => "inch"

/-- The function `CGrid::stringToUnit(name, value)`: `none` for a returned `false`,
which leaves `value` unset. -/
def CGrid.stringToUnit (name : String) : Option CGrid.Unit :=
  if name = "mic" then some CGrid.Unit.guMic
  else if name = "mm" then some CGrid.Unit.guMM
  else if name = "mil" then some CGrid.Unit.guMil
  else if name = "inch" then some CGrid.Unit.guInch
  else none

/-! ## Dimension -/

/-- The enumeration `CDimension::Type`. -/
inductive CDimension.Type where
  | dtParallel | dtHorizontal | dtVertical | dtRadius | dtDiameter | dtLeader
  deriving DecidableEq, Repr

/-- The fields of `CDimension`. -/
structure CDimension where
  m_X1 : ℚ
  m_Y1 : ℚ
  m_X2 : ℚ
  m_Y2 : ℚ
  m_X3 : ℚ
  m_Y3 : ℚ
  m_Layer : Int
  m_DType : CDimension.Type
  m_Width : ℚ
  m_ExtWidth : ℚ
  m_ExtLength : ℚ
  m_ExtOffset : ℚ
  m_TextSize : ℚ
  m_TextRatio : Int
  m_GridUnit : CGrid.Unit
  m_Precision : Int
  m_Visible : Bool
  deriving DecidableEq

/-- The constant `CDimension::DEFAULT_EXT_WIDTH`. -/
def CDimension.DEFAULT_EXT_WIDTH : Int := 0
/-- The constant `CDimension::DEFAULT_EXT_LENGTH`. -/
def CDimension.DEFAULT_EXT_LENGTH : Int := 0
/-- The constant `CDimension::DEFAULT_EXT_OFFSET`. -/
def CDimension.DEFAULT_EXT_OFFSET : Int := 0
/-- The constant `CDimension::DEFAULT_TEXT_RATIO`. -/
def CDimension.DEFAULT_TEXT_RATIO : Int := 8
/-- The constant `CDimension::DEFAULT_GRID_UNIT`. -/
def CDimension.DEFAULT_GRID_UNIT : CGrid.Unit := CGrid.Unit.guMM
/-- The constant `CDimension::DEFAULT_PRECISION`. -/
def CDimension.DEFAULT_PRECISION : Int := 2

/-- The function `CDimension::toString(CDimension::Type)`. -/
def CDimension.Type.toString : CDimension.Type → String
  | dtParallel => "parallel"
  | dtHorizontal => "horizontal"
  | dtVertical => "vertical"
  | dtRadius => "radius"
  | dtDiameter => "diameter"
  | dtLeader => "leader"

/-- The state `CDimension::clear()` leaves. -/
def CDimension.clear : CDimension :=
  { m_X1 := 0, m_Y1 := 0, m_X2 := 0, m_Y2 := 0, m_X3 := 0, m_Y3 := 0, m_Layer := 1,
    m_DType := CDimension.Type.dtParallel, m_Width := mkRat 1 10, m_ExtWidth := 0,
    m_ExtLength := 0, m_ExtOffset := 0, m_TextSize := 1, m_TextRatio := 8,
    m_GridUnit := CGrid.Unit.guMM, m_Precision := 2, m_Visible := false }

/-- The method `CDimension::readFromXML(root)`. The statements after the
`return true;` that follows the `dtype` block (the blocks for `width`, `extwidth`,
`extlength`, `extoffset`, `textsize`, `textratio`, `unit`, `precision` and `visible`)
are never reached and have no counterpart here. -/
def CDimension.readFromXML (c : NumberText) (root : QDomElement) (d : CDimension) :
    Bool × CDimension :=
  let e := if root.nodeName != "dimension" then root.nextSiblingElement "dimension" else root
  if !e.isNull then
    let d := { d with m_X1 := readDouble c e "x1" d.m_X1 }
    let d := { d with m_Y1 := readDouble c e "y1" d.m_Y1 }
    let d := { d with m_X2 := readDouble c e "x2" d.m_X2 }
    let d := { d with m_Y2 := readDouble c e "y2" d.m_Y2 }
    let d := { d with m_X3 := readDouble c e "x3" d.m_X3 }
    let d := { d with m_Y3 := readDouble c e "y3" d.m_Y3 }
    let d := { d with m_Layer := readInt c e "layer" d.m_Layer }
    let s := e.attribute "dtype"
    let d := { d with m_DType :=
      if !QString.isEmpty s then
        if s = "parallel" then CDimension.Type.dtParallel
        else if s = "horizontal" then CDimension.Type.dtHorizontal
        else if s = "vertical" then CDimension.Type.dtVertical
        else if s = "radius" then CDimension.Type.dtRadius
        else if s = "diameter" then CDimension.Type.dtDiameter
        else if s = "leader" then CDimension.Type.dtLeader
        else d.m_DType
      else d.m_DType }
    (true, d)
  else (false, d)

/-- The element `e` that `CDimension::writeToXML` builds and appends to `root`. -/
def CDimension.xmlElement (c : NumberText) (d : CDimension) (host : QDomDocument)
    (defaults : Bool) : QDomElement :=
  let e := host.createElement "dimension"
  let e := e.setAttribute "x1" (c.argDouble d.m_X1)
  let e := e.setAttribute "y1" (c.argDouble d.m_Y1)
  let e := e.setAttribute "x2" (c.argDouble d.m_X2)
  let e := e.setAttribute "y2" (c.argDouble d.m_Y2)
  let e := e.setAttribute "x3" (c.argDouble d.m_X3)
  let e := e.setAttribute "y3" (c.argDouble d.m_Y3)
  let e := e.setAttribute "layer" (c.argInt d.m_Layer)
  let e :=
    if defaults || CDimension.Type.dtParallel != d.m_DType then
      e.setAttribute "dtype" d.m_DType.toString
    else e
  let e := e.setAttribute "width" (c.argDouble d.m_Width)
  let e :=
    if defaults || (CDimension.DEFAULT_EXT_WIDTH : ℚ) != d.m_ExtWidth then
      e.setAttribute "extwidth" (c.argDouble d.m_ExtWidth)
    else e
  let e :=
    if defaults || (CDimension.DEFAULT_EXT_LENGTH : ℚ) != d.m_ExtLength then
      e.setAttribute "extlength" (c.argDouble d.m_ExtLength)
    else e
  let e :=
    if defaults || (CDimension.DEFAULT_EXT_OFFSET : ℚ) != d.m_ExtOffset then
      e.setAttribute "extoffset" (c.argDouble d.m_ExtOffset)
    else e
  let e := e.setAttribute "textsize" (c.argDouble d.m_TextSize)
  let e :=
    if defaults || CDimension.DEFAULT_GRID_UNIT != d.m_GridUnit then
      e.setAttribute "unit" d.m_GridUnit.toString
    else e
  let e :=
    if defaults || CDimension.DEFAULT_PRECISION != d.m_Precision then
      e.setAttribute "precision" (c.argInt d.m_Precision)
    else e
  let e :=
    if defaults || d.m_Visible then e.setAttribute "visible" (CEntity.toString d.m_Visible)
    else e
  e

/-- The method `CDimension::writeToXML(host, root, defaults)`. -/
def CDimension.writeToXML (c : NumberText) (d : CDimension) (host : QDomDocument)
    (root : QDomElement) (defaults : Bool) : Bool × QDomElement :=
  if !host.isNull && !root.isNull then
    (true, root.appendChild (d.xmlElement c host defaults))
  else (false, root)

/-! ## Text -/

/-- The enumeration `CText::Font`. -/
inductive CText.Font where
  | tfVector | tfProportional | tfFixed
  deriving DecidableEq, Repr

/-- The enumeration `CText::Align`. -/
inductive CText.Align where
  | taBottomLeft | taBottomCenter | taBottomRight
  | taCenterLeft | taCenter | taCenterRight
  | taTopLeft | taTopCenter | taTopRight
  deriving DecidableEq, Repr

/-- The fields of `CText`. -/
@[ext] structure CText where
  m_Text : String
  m_X : ℚ
  m_Y : ℚ
  m_Size : ℚ
  m_Layer : Int
  m_Font : CText.Font
  m_Ratio : Int
  m_Rotation : ℚ
  m_Reflection : Bool
  m_Spin : Bool
  m_Align : CText.Align
  m_Distance : Int
  deriving DecidableEq

/-- The constant `CText::DEFAULT_FONT`. -/
def CText.DEFAULT_FONT : CText.Font := CText.Font.tfProportional
/-- The constant `CText::DEFAULT_RATIO`. -/
def CText.DEFAULT_RATIO : Int := 8
/-- The constant `CText::DEFAULT_ROTATION`. -/
def CText.DEFAULT_ROTATION : ℚ := 0
/-- The constant `CText::DEFAULT_ALIGN`. -/
def CText.DEFAULT_ALIGN : CText.Align := CText.Align.taBottomLeft
/-- The constant `CText::DEFAULT_DISTANCE`. -/
def CText.DEFAULT_DISTANCE : Int := 50

/-- The function `CText::toString(CText::Font)`. -/
def CText.Font.toString : CText.Font → String
  | tfVector => "vector"
  | tfProportional => "proportional"
  | tfFixed => "fixed"

/-- The function `CText::toString(CText::Align)`. -/
def CText.Align.toString : CText.Align → String
  | taBottomLeft => "bottom-left"
  | taBottomCenter => "bottom-center"
  | taBottomRight => "bottom-right"
  | taCenterLeft => "center-left"
  | taCenter => "center"
  | taCenterRight => "center-right"
  | taTopLeft => "top-left"
  | taTopCenter => "top-center"
  | taTopRight => "top-right"

/-- The state `CText::clear()` leaves. -/
def CText.clear : CText :=
  { m_Text := "", m_X := 0, m_Y := 0, m_Size := 1, m_Layer := 1,
    m_Font := CText.DEFAULT_FONT, m_Ratio := CText.DEFAULT_RATIO,
    m_Rotation := CText.DEFAULT_ROTATION, m_Reflection := false, m_Spin := false,
    m_Align := CText.DEFAULT_ALIGN, m_Distance := CText.DEFAULT_DISTANCE }

/-- The method `CText::readFromXML(root)`. In the `rot` block `r` is what the call
`decodeTransformation(s,m_Rotation,m_Reflection,m_Spin)` leaves in the three members; the
call is made only when `s` is not empty. -/
def CText.readFromXML (c : NumberText) (root : QDomElement) (t : CText) : Bool × CText :=
  let e := if root.nodeName != "text" then root.nextSiblingElement "text" else root
  if !e.isNull then
    let s := e.text
    let t := { t with m_Text := if !QString.isEmpty s then s else t.m_Text }
    let t := { t with m_X := readDouble c e "x" t.m_X }
    let t := { t with m_Y := readDouble c e "y" t.m_Y }
    let t := { t with m_Size := readDouble c e "size" t.m_Size }
    let t := { t with m_Layer := readInt c e "layer" t.m_Layer }
    let s := e.attribute "font"
    let t := { t with m_Font :=
      if !QString.isEmpty s then
        if s = "vector" then CText.Font.tfVector
        else if s = "proportional" then CText.Font.tfProportional
        else if s = "fixed" then CText.Font.tfFixed
        else t.m_Font
      else t.m_Font }
    let t := { t with m_Ratio := readInt c e "ratio" t.m_Ratio }
    let s := e.attribute "rot"
    let r := decodeTransformation c s t.m_Rotation t.m_Reflection t.m_Spin
    let t := { t with
      m_Rotation := if !QString.isEmpty s then r.rotation else t.m_Rotation
      m_Reflection := if !QString.isEmpty s then r.reflection else t.m_Reflection
      m_Spin := if !QString.isEmpty s then r.spin else t.m_Spin }
    let s := e.attribute "align"
    let t := { t with m_Align :=
      if !QString.isEmpty s then
        if s = "bottom-left" then CText.Align.taBottomLeft
        else if s = "bottom-center" then CText.Align.taBottomCenter
        else if s = "bottom-right" then CText.Align.taBottomRight
        else if s = "center-left" then CText.Align.taCenterLeft
        else if s = "center" then CText.Align.taCenter
        else if s = "center-right" then CText.Align.taCenterRight
        else if s = "top-left" then CText.Align.taTopLeft
        else if s = "top-center" then CText.Align.taTopCenter
        else if s = "top-right" then CText.Align.taTopRight
        else t.m_Align
      else t.m_Align }
    let t := { t with m_Distance := readInt c e "distance" t.m_Distance }
    (true, t)
  else (false, t)

/-- The element `e` that `CText::writeToXML` builds and appends to `root`. -/
def CText.xmlElement (c : NumberText) (t : CText) (host : QDomDocument) (defaults : Bool) :
    QDomElement :=
  let e := host.createElement "text"
  let e := e.setAttribute "x" (c.argDouble t.m_X)
  let e := e.setAttribute "y" (c.argDouble t.m_Y)
  let e := e.setAttribute "size" (c.argDouble t.m_Size)
  let e := e.setAttribute "layer" (c.argInt t.m_Layer)
  let e :=
    if defaults || CText.DEFAULT_FONT != t.m_Font then e.setAttribute "font" t.m_Font.toString
    else e
  let e :=
    if defaults || CText.DEFAULT_RATIO != t.m_Ratio then
      e.setAttribute "ratio" (c.argInt t.m_Ratio)
    else e
  let e :=
    if defaults || CText.DEFAULT_ROTATION != t.m_Rotation || t.m_Reflection || t.m_Spin then
      e.setAttribute "rot" (encodeTransformation c t.m_Rotation t.m_Reflection t.m_Spin)
    else e
  let e :=
    if defaults || CText.Align.taBottomLeft != t.m_Align then
      e.setAttribute "align" t.m_Align.toString
    else e
  let e :=
    if defaults || CText.DEFAULT_DISTANCE != t.m_Distance then
      e.setAttribute "distance" (c.argInt t.m_Distance)
    else e
  let n := host.createTextNode t.m_Text
  let e := e.appendChild n
  e

/-- The method `CText::writeToXML(host, root, defaults)`. -/
def CText.writeToXML (c : NumberText) (t : CText) (host : QDomDocument) (root : QDomElement)
    (defaults : Bool) : Bool × QDomElement :=
  if !host.isNull && !root.isNull then
    (true, root.appendChild (t.xmlElement c host defaults))
  else (false, root)

/-! ## Via -/

/-- The enumeration `CVia::Shape`. -/
inductive CVia.Shape where
  | vsSquare | vsRound | vsOctagon
  deriving DecidableEq, Repr

/-- The fields of `CVia`. -/
structure CVia where
  m_X : ℚ
  m_Y : ℚ
  m_Extent : String
  m_Drill : ℚ
  m_Diameter : ℚ
  m_Shape : CVia.Shape
  m_AlwaysStop : Bool
  deriving DecidableEq

/-- The constant `CVia::DEFAULT_DIAMETER`. -/
def CVia.DEFAULT_DIAMETER : ℚ := 0
/-- The constant `CVia::DEFAULT_SHAPE`. -/
def CVia.DEFAULT_SHAPE : CVia.Shape := CVia.Shape.vsRound

/-- The function `CVia::toString(CVia::Shape)`. -/
def CVia.Shape.toString : CVia.Shape → String
  | vsSquare => "square"
  | vsRound => "round"
  | vsOctagon => "octagon"

/-- The state `CVia::clear()` leaves. -/
def CVia.clear : CVia :=
  { m_X := 0, m_Y := 0, m_Extent := "", m_Drill := mkRat 1 100,
    m_Diameter := CVia.DEFAULT_DIAMETER, m_Shape := CVia.DEFAULT_SHAPE,
    m_AlwaysStop := false }

/-- The method `CVia::readFromXML(root)`. -/
def CVia.readFromXML (c : NumberText) (root : QDomElement) (v : CVia) : Bool × CVia :=
  let e := if root.nodeName != "via" then root.nextSiblingElement "via" else root
  if !e.isNull then
    let v := { v with m_X := readDouble c e "x" v.m_X }
    let v := { v with m_Y := readDouble c e "y" v.m_Y }
    let v := { v with m_Extent := readString e "extent" v.m_Extent }
    let v := { v with m_Drill := readDouble c e "drill" v.m_Drill }
    let v := { v with m_Diameter := readDouble c e "diameter" v.m_Diameter }
    let s := e.attribute "shape"
    let v := { v with m_Shape :=
      if !QString.isEmpty s then
        if s = "square" then CVia.Shape.vsSquare
        else if s = "round" then CVia.Shape.vsRound
        else if s = "octagon" then CVia.Shape.vsOctagon
        else v.m_Shape
      else v.m_Shape }
    let v := { v with m_AlwaysStop := readBool e "alwaysstop" v.m_AlwaysStop }
    (true, v)
  else (false, v)

/-- The element `e` that `CVia::writeToXML` builds and appends to `root`. -/
def CVia.xmlElement (c : NumberText) (v : CVia) (host : QDomDocument) (defaults : Bool) :
    QDomElement :=
  let e := host.createElement "via"
  let e := e.setAttribute "x" (c.argDouble v.m_X)
  let e := e.setAttribute "y" (c.argDouble v.m_Y)
  let e := e.setAttribute "extent" v.m_Extent
  let e := e.setAttribute "drill" (c.argDouble v.m_Drill)
  let e :=
    if defaults || CVia.DEFAULT_DIAMETER != v.m_Diameter then
      e.setAttribute "diameter" (c.argDouble v.m_Diameter)
    else e
  let e :=
    if defaults || CVia.DEFAULT_SHAPE != v.m_Shape then
      e.setAttribute "shape" v.m_Shape.toString
    else e
  let e :=
    if defaults || !v.m_AlwaysStop then
      e.setAttribute "alwaysstop" (CEntity.toString v.m_AlwaysStop)
    else e
  e

/-- The method `CVia::writeToXML(host, root, defaults)`. -/
def CVia.writeToXML (c : NumberText) (v : CVia) (host : QDomDocument) (root : QDomElement)
    (defaults : Bool) : Bool × QDomElement :=
  if !host.isNull && !root.isNull then
    (true, root.appendChild (v.xmlElement c host defaults))
  else (false, root)

/-! ## Pad -/

/-- The enumeration `CPad::Shape`. -/
inductive CPad.Shape where
  | psSquare | psRound | psOctagon | psLong | psOffset
  deriving DecidableEq, Repr

/-- The fields of `CPad`. -/
structure CPad where
  m_Name : String
  m_X : ℚ
  m_Y : ℚ
  m_Drill : ℚ
  m_Diameter : ℚ
  m_Shape : CPad.Shape
  m_Rotation : ℚ
  m_Stop : Bool
  m_Thermals : Bool
  m_First : Bool
  deriving DecidableEq

/-- The constant `CPad::DEFAULT_DIAMETER`. -/
def CPad.DEFAULT_DIAMETER : ℚ := 0
/-- The constant `CPad::DEFAULT_SHAPE`. -/
def CPad.DEFAULT_SHAPE : CPad.Shape := CPad.Shape.psRound
/-- The constant `CPad::DEFAULT_ROTATION`. -/
def CPad.DEFAULT_ROTATION : ℚ := 0

/-- The function `CPad::toString(CPad::Shape)`. -/
def CPad.Shape.toString : CPad.Shape → String
  | psSquare => "square"
  | psRound => "round"
  | psOctagon => "octagon"
  | psLong => "long"
  | psOffset => "offset"

/-- The state `CPad::clear()` leaves. -/
def CPad.clear : CPad :=
  { m_Name := "P$1", m_X := 0, m_Y := 0, m_Drill := mkRat 1 10,
    m_Diameter := CPad.DEFAULT_DIAMETER, m_Shape := CPad.DEFAULT_SHAPE,
    m_Rotation := CPad.DEFAULT_ROTATION, m_Stop := true, m_Thermals := true,
    m_First := false }

/-- The method `CPad::readFromXML(root)`. The locals `reflection` and `spin` handed to
`decodeTransformation` are uninitialised in the source; only the rotation is kept, and
it does not depend on them. -/
def CPad.readFromXML (c : NumberText) (root : QDomElement) (p : CPad) : Bool × CPad :=
  let e := if root.nodeName != "pad" then root.nextSiblingElement "pad" else root
  if !e.isNull then
    let p := { p with m_Name := readString e "name" p.m_Name }
    let p := { p with m_X := readDouble c e "x" p.m_X }
    let p := { p with m_Y := readDouble c e "y" p.m_Y }
    let p := { p with m_Drill := readDouble c e "drill" p.m_Drill }
    let p := { p with m_Diameter := readDouble c e "diameter" p.m_Diameter }
    let s := e.attribute "shape"
    let p := { p with m_Shape :=
      if !QString.isEmpty s then
        if s = "square" then CPad.Shape.psSquare
        else if s = "round" then CPad.Shape.psRound
        else if s = "octagon" then CPad.Shape.psOctagon
        else if s = "long" then CPad.Shape.psLong
        else if s = "offset" then CPad.Shape.psOffset
        else p.m_Shape
      else p.m_Shape }
    let s := e.attribute "rot"
    let p := { p with m_Rotation :=
      if !QString.isEmpty s then (decodeTransformation c s p.m_Rotation false false).rotation
      else p.m_Rotation }
    let p := { p with m_Stop := readBool e "stop" p.m_Stop }
    let p := { p with m_Thermals := readBool e "thermals" p.m_Thermals }
    let p := { p with m_First := readBool e "first" p.m_First }
    (true, p)
  else (false, p)

/-- The element `e` that `CPad::writeToXML` builds and appends to `root`. -/
def CPad.xmlElement (c : NumberText) (p : CPad) (host : QDomDocument) (defaults : Bool) :
    QDomElement :=
  let e := host.createElement "pad"
  let e := e.setAttribute "name" p.m_Name
  let e := e.setAttribute "x" (c.argDouble p.m_X)
  let e := e.setAttribute "y" (c.argDouble p.m_Y)
  let e := e.setAttribute "drill" (c.argDouble p.m_Drill)
  let e :=
    if defaults || CPad.DEFAULT_DIAMETER != p.m_Diameter then
      e.setAttribute "diameter" (c.argDouble p.m_Diameter)
    else e
  let e :=
    if defaults || CPad.DEFAULT_SHAPE != p.m_Shape then
      e.setAttribute "shape" p.m_Shape.toString
    else e
  let e :=
    if defaults || CPad.DEFAULT_ROTATION != p.m_Rotation then
      e.setAttribute "rot" (encodeTransformation c p.m_Rotation false false)
    else e
  let e :=
    if defaults || !p.m_Stop then e.setAttribute "stop" (CEntity.toString p.m_Stop) else e
  let e :=
    if defaults || !p.m_Thermals then
      e.setAttribute "thermals" (CEntity.toString p.m_Thermals)
    else e
  let e :=
    if defaults || p.m_First then e.setAttribute "first" (CEntity.toString p.m_First) else e
  e

/-- The method `CPad::writeToXML(host, root, defaults)`. -/
def CPad.writeToXML (c : NumberText) (p : CPad) (host : QDomDocument) (root : QDomElement)
    (defaults : Bool) : Bool × QDomElement :=
  if !host.isNull && !root.isNull then
    (true, root.appendChild (p.xmlElement c host defaults))
  else (false, root)

/-! ## Description -/

/-- The fields of `CDescription`. -/
structure CDescription where
  m_Description : String
  m_Language : String
  deriving DecidableEq

/-- The state `CDescription::clear()` leaves. -/
def CDescription.clear : CDescription := { m_Description := "", m_Language := "en" }

/-- The method `CDescription::writeToXML(host, root, defaults)`. -/
def CDescription.writeToXML (d : CDescription) (host : QDomDocument) (root : QDomElement)
    (defaults : Bool) : Bool × QDomElement :=
  if !host.isNull && !root.isNull then
    if !QString.isEmpty d.m_Description then
      let e := host.createElement "description"
      let e :=
        if defaults || !(d.m_Language == "en") then e.setAttribute "language" d.m_Language
        else e
      let t := host.createTextNode d.m_Description
      let e := e.appendChild t
      (true, root.appendChild e)
    else (true, root)
  else (false, root)

/-! ## Vertex and Polygon -/

/-- The fields of `CVertex`. -/
structure CVertex where
  m_X : ℚ
  m_Y : ℚ
  m_Curve : ℚ
  deriving DecidableEq

/-- The constant `CVertex::DEFAULT_CURVE`. -/
def CVertex.DEFAULT_CURVE : ℚ := 0

/-- The state `CVertex::clear()` leaves. -/
def CVertex.clear : CVertex := { m_X := 0, m_Y := 0, m_Curve := 0 }

/-- The element `e` that `CVertex::writeToXML` builds and appends to `root`. -/
def CVertex.xmlElement (c : NumberText) (v : CVertex) (host : QDomDocument)
    (defaults : Bool) : QDomElement :=
  let e := host.createElement "vertex"
  let e := e.setAttribute "x" (c.argDouble v.m_X)
  let e := e.setAttribute "y" (c.argDouble v.m_Y)
  let e :=
    if defaults || CVertex.DEFAULT_CURVE != v.m_Curve then
      e.setAttribute "curve" (c.argDouble v.m_Curve)
    else e
  e

/-- The method `CVertex::writeToXML(host, root, defaults)`. -/
def CVertex.writeToXML (c : NumberText) (v : CVertex) (host : QDomDocument)
    (root : QDomElement) (defaults : Bool) : Bool × QDomElement :=
  if !host.isNull && !root.isNull then
    (true, root.appendChild (v.xmlElement c host defaults))
  else (false, root)

/-- The enumeration `CPolygon::Pour`. -/
inductive CPolygon.Pour where
  | ppSolid | ppHatch | ppCutout
  deriving DecidableEq, Repr

/-- The fields of `CPolygon`; the list of owned vertex objects is a list of values. -/
structure CPolygon where
  m_Vertices : List CVertex
  m_Width : ℚ
  m_Layer : Int
  m_Spacing : ℚ
  m_Pour : CPolygon.Pour
  m_Isolate : ℚ
  m_Orphans : Bool
  m_Thermals : Bool
  m_Rank : Int
  deriving DecidableEq

/-- The function `CPolygon::toString(CPolygon::Pour)`. -/
def CPolygon.Pour.toString : CPolygon.Pour → String
  | ppSolid => "solid"
  | ppHatch => "hatch"
  | ppCutout => "cutout"

/-- The state `CPolygon::clear()` leaves. -/
def CPolygon.clear : CPolygon :=
  { m_Vertices := [], m_Width := mkRat 1 10, m_Layer := 1, m_Spacing := mkRat 1 10,
    m_Pour := CPolygon.Pour.ppSolid, m_Isolate := 0, m_Orphans := false,
    m_Thermals := true, m_Rank := 0 }

/-- The element `e` that `CPolygon::writeToXML` builds and appends to `root`. -/
def CPolygon.xmlElement (c : NumberText) (p : CPolygon) (host : QDomDocument)
    (defaults : Bool) : QDomElement :=
  let e := host.createElement "polygon"
  let e := e.setAttribute "width" (c.argDouble p.m_Width)
  let e := e.setAttribute "layer" (c.argInt p.m_Layer)
  let e := e.setAttribute "spacing" (c.argDouble p.m_Spacing)
  let e :=
    if defaults || CPolygon.Pour.ppSolid != p.m_Pour then
      e.setAttribute "pour" p.m_Pour.toString
    else e
  let e := e.setAttribute "isolate" (c.argDouble p.m_Isolate)
  let e :=
    if defaults || p.m_Orphans then e.setAttribute "orphans" (CEntity.toString p.m_Orphans)
    else e
  let e :=
    if defaults || !p.m_Thermals then
      e.setAttribute "thermals" (CEntity.toString p.m_Thermals)
    else e
  let e :=
    if defaults || (0 : Int) != p.m_Rank then e.setAttribute "rank" (c.argInt p.m_Rank)
    else e
  let e := p.m_Vertices.foldl (fun e v => (v.writeToXML c host e defaults).2) e
  e

/-- The method `CPolygon::writeToXML(host, root, defaults)`. -/
def CPolygon.writeToXML (c : NumberText) (p : CPolygon) (host : QDomDocument)
    (root : QDomElement) (defaults : Bool) : Bool × QDomElement :=
  if !host.isNull && !root.isNull then
    (true, root.appendChild (p.xmlElement c host defaults))
  else (false, root)

/-! ## Circle, Rectangle, Frame, Hole, SMD -/

/-- The fields of `CCircle`. -/
structure CCircle where
  m_X : ℚ
  m_Y : ℚ
  m_Radius : ℚ
  m_Width : ℚ
  m_Layer : Int
  deriving DecidableEq

/-- The state `CCircle::clear()` leaves. -/
def CCircle.clear : CCircle :=
  { m_X := 0, m_Y := 0, m_Radius := 1, m_Width := mkRat 1 10, m_Layer := 1 }

/-- The element `e` that `CCircle::writeToXML` builds and appends to `root`. -/
def CCircle.xmlElement (c : NumberText) (l : CCircle) (host : QDomDocument) : QDomElement :=
  let e := host.createElement "circle"
  let e := e.setAttribute "x" (c.argDouble l.m_X)
  let e := e.setAttribute "y" (c.argDouble l.m_Y)
  let e := e.setAttribute "radius" (c.argDouble l.m_Radius)
  let e := e.setAttribute "width" (c.argDouble l.m_Width)
  let e := e.setAttribute "layer" (c.argInt l.m_Layer)
  e

/-- The method `CCircle::writeToXML(host, root, defaults)`. -/
def CCircle.writeToXML (c : NumberText) (l : CCircle) (host : QDomDocument)
    (root : QDomElement) (_defaults : Bool) : Bool × QDomElement :=
  if !host.isNull && !root.isNull then (true, root.appendChild (l.xmlElement c host))
  else (false, root)

/-- The fields of `CRectangle`. -/
structure CRectangle where
  m_X1 : ℚ
  m_Y1 : ℚ
  m_X2 : ℚ
  m_Y2 : ℚ
  m_Layer : Int
  m_Rotation : ℚ
  deriving DecidableEq

/-- The constant `CRectangle::DEFAULT_ROTATION`. -/
def CRectangle.DEFAULT_ROTATION : ℚ := 0

/-- The state `CRectangle::clear()` leaves. -/
def CRectangle.clear : CRectangle :=
  { m_X1 := 0, m_Y1 := 0, m_X2 := 1, m_Y2 := 1, m_Layer := 1,
    m_Rotation := CRectangle.DEFAULT_ROTATION }

/-- The element `e` that `CRectangle::writeToXML` builds and appends to `root`. -/
def CRectangle.xmlElement (c : NumberText) (r : CRectangle) (host : QDomDocument)
    (defaults : Bool) : QDomElement :=
  let e := host.createElement "rectangle"
  let e := e.setAttribute "x1" (c.argDouble r.m_X1)
  let e := e.setAttribute "y1" (c.argDouble r.m_Y1)
  let e := e.setAttribute "x2" (c.argDouble r.m_X2)
  let e := e.setAttribute "y2" (c.argDouble r.m_Y2)
  let e := e.setAttribute "layer" (c.argInt r.m_Layer)
  let e :=
    if defaults || CRectangle.DEFAULT_ROTATION != r.m_Rotation then
      e.setAttribute "rot" (encodeTransformation c r.m_Rotation false false)
    else e
  e

/-- The method `CRectangle::writeToXML(host, root, defaults)`. -/
def CRectangle.writeToXML (c : NumberText) (r : CRectangle) (host : QDomDocument)
    (root : QDomElement) (defaults : Bool) : Bool × QDomElement :=
  if !host.isNull && !root.isNull then
    (true, root.appendChild (r.xmlElement c host defaults))
  else (false, root)

/-- The fields of `CFrame`. -/
structure CFrame where
  m_X1 : ℚ
  m_Y1 : ℚ
  m_X2 : ℚ
  m_Y2 : ℚ
  m_Columns : Int
  m_Rows : Int
  m_Layer : Int
  m_BorderLeft : Bool
  m_BorderTop : Bool
  m_BorderRight : Bool
  m_BorderBottom : Bool
  deriving DecidableEq

/-- The state `CFrame::clear()` leaves. -/
def CFrame.clear : CFrame :=
  { m_X1 := 0, m_Y1 := 0, m_X2 := 1, m_Y2 := 1, m_Columns := 8, m_Rows := 5, m_Layer := 1,
    m_BorderLeft := true, m_BorderTop := true, m_BorderRight := true,
    m_BorderBottom := true }

/-- The element `e` that `CFrame::writeToXML` builds and appends to `root`. -/
def CFrame.xmlElement (c : NumberText) (f : CFrame) (host : QDomDocument) (defaults : Bool) :
    QDomElement :=
  let e := host.createElement "frame"
  let e := e.setAttribute "x1" (c.argDouble f.m_X1)
  let e := e.setAttribute "y1" (c.argDouble f.m_Y1)
  let e := e.setAttribute "x2" (c.argDouble f.m_X2)
  let e := e.setAttribute "y2" (c.argDouble f.m_Y2)
  let e := e.setAttribute "columns" (c.argInt f.m_Columns)
  let e := e.setAttribute "rows" (c.argInt f.m_Rows)
  let e := e.setAttribute "layer" (c.argInt f.m_Layer)
  let e :=
    if defaults || !f.m_BorderLeft then
      e.setAttribute "border-left" (CEntity.toString f.m_BorderLeft)
    else e
  let e :=
    if defaults || !f.m_BorderTop then
      e.setAttribute "border-top" (CEntity.toString f.m_BorderTop)
    else e
  let e :=
    if defaults || !f.m_BorderRight then
      e.setAttribute "border-right" (CEntity.toString f.m_BorderRight)
    else e
  let e :=
    if defaults || !f.m_BorderBottom then
      e.setAttribute "border-bottom" (CEntity.toString f.m_BorderBottom)
    else e
  e

/-- The method `CFrame::writeToXML(host, root, defaults)`. -/
def CFrame.writeToXML (c : NumberText) (f : CFrame) (host : QDomDocument)
    (root : QDomElement) (defaults : Bool) : Bool × QDomElement :=
  if !host.isNull && !root.isNull then
    (true, root.appendChild (f.xmlElement c host defaults))
  else (false, root)

/-- The fields of `CHole`. -/
structure CHole where
  m_X : ℚ
  m_Y : ℚ
  m_Drill : ℚ
  deriving DecidableEq

/-- The state `CHole::clear()` leaves. -/
def CHole.clear : CHole := { m_X := 0, m_Y := 0, m_Drill := mkRat 1 10 }

/-- The element `e` that `CHole::writeToXML` builds and appends to `root`. -/
def CHole.xmlElement (c : NumberText) (h : CHole) (host : QDomDocument) : QDomElement :=
  let e := host.createElement "hole"
  let e := e.setAttribute "x" (c.argDouble h.m_X)
  let e := e.setAttribute "y" (c.argDouble h.m_Y)
  let e := e.setAttribute "drill" (c.argDouble h.m_Drill)
  e

/-- The method `CHole::writeToXML(host, root, defaults)`. -/
def CHole.writeToXML (c : NumberText) (h : CHole) (host : QDomDocument)
    (root : QDomElement) (_defaults : Bool) : Bool × QDomElement :=
  if !host.isNull && !root.isNull then (true, root.appendChild (h.xmlElement c host))
  else (false, root)

/-- The fields of `CSMD`. -/
structure CSMD where
  m_Name : String
  m_X : ℚ
  m_Y : ℚ
  m_DX : ℚ
  m_DY : ℚ
  m_Layer : Int
  m_Roundness : Int
  m_Rotation : ℚ
  m_Stop : Bool
  m_Thermals : Bool
  m_Cream : Bool
  deriving DecidableEq

/-- The constant `CSMD::DEFAULT_ROUNDNESS`. -/
def CSMD.DEFAULT_ROUNDNESS : Int := 0
/-- The constant `CSMD::DEFAULT_ROTATION`. -/
def CSMD.DEFAULT_ROTATION : ℚ := 0

/-- The state `CSMD::clear()` leaves. -/
def CSMD.clear : CSMD :=
  { m_Name := "P$1", m_X := 0, m_Y := 0, m_DX := mkRat 1 10, m_DY := mkRat 1 10,
    m_Layer := 1, m_Roundness := CSMD.DEFAULT_ROUNDNESS,
    m_Rotation := CSMD.DEFAULT_ROTATION, m_Stop := true, m_Thermals := true,
    m_Cream := false }

/-- The element `e` that `CSMD::writeToXML` builds and appends to `root`. -/
def CSMD.xmlElement (c : NumberText) (s : CSMD) (host : QDomDocument) (defaults : Bool) :
    QDomElement :=
  let e := host.createElement "smd"
  let e := e.setAttribute "name" s.m_Name
  let e := e.setAttribute "x" (c.argDouble s.m_X)
  let e := e.setAttribute "y" (c.argDouble s.m_Y)
  let e := e.setAttribute "dx" (c.argDouble s.m_DX)
  let e := e.setAttribute "dy" (c.argDouble s.m_DY)
  let e := e.setAttribute "layer" (c.argInt s.m_Layer)
  let e :=
    if defaults || CSMD.DEFAULT_ROUNDNESS != s.m_Roundness then
      e.setAttribute "roundness" (c.argInt s.m_Roundness)
    else e
  let e :=
    if defaults || CSMD.DEFAULT_ROTATION != s.m_Rotation then
      e.setAttribute "rot" (encodeTransformation c s.m_Rotation false false)
    else e
  let e :=
    if defaults || !s.m_Stop then e.setAttribute "stop" (CEntity.toString s.m_Stop) else e
  let e :=
    if defaults || !s.m_Thermals then
      e.setAttribute "thermals" (CEntity.toString s.m_Thermals)
    else e
  let e :=
    if defaults || s.m_Cream then e.setAttribute "cream" (CEntity.toString s.m_Cream) else e
  e

/-- The method `CSMD::writeToXML(host, root, defaults)`. -/
def CSMD.writeToXML (c : NumberText) (s : CSMD) (host : QDomDocument)
    (root : QDomElement) (defaults : Bool) : Bool × QDomElement :=
  if !host.isNull && !root.isNull then
    (true, root.appendChild (s.xmlElement c host defaults))
  else (false, root)

/-! ## Package -/

/-- The fields of `CPackage`; each list of owned objects is a list of values, in list
order. -/
structure CPackage where
  m_Description : CDescription
  m_Polygons : List CPolygon
  m_Wires : List CWire
  m_Texts : List CText
  m_Dimensions : List CDimension
  m_Circles : List CCircle
  m_Rectangles : List CRectangle
  m_Frames : List CFrame
  m_Holes : List CHole
  m_Pads : List CPad
  m_SMDs : List CSMD
  m_Name : String
  deriving DecidableEq

/-- The element `e` that `CPackage::writeToXML` builds and appends to `root`. -/
def CPackage.xmlElement (c : NumberText) (p : CPackage) (host : QDomDocument)
    (defaults : Bool) : QDomElement :=
  let e := host.createElement "package"
  let e := e.setAttribute "name" p.m_Name
  let e := (p.m_Description.writeToXML host e defaults).2
  let e := p.m_Polygons.foldl (fun e x => (x.writeToXML c host e defaults).2) e
  let e := p.m_Wires.foldl (fun e x => (x.writeToXML c host e defaults).2) e
  let e := p.m_Texts.foldl (fun e x => (x.writeToXML c host e defaults).2) e
  let e := p.m_Dimensions.foldl (fun e x => (x.writeToXML c host e defaults).2) e
  let e := p.m_Circles.foldl (fun e x => (x.writeToXML c host e defaults).2) e
  let e := p.m_Rectangles.foldl (fun e x => (x.writeToXML c host e defaults).2) e
  let e := p.m_Frames.foldl (fun e x => (x.writeToXML c host e defaults).2) e
  let e := p.m_Holes.foldl (fun e x => (x.writeToXML c host e defaults).2) e
  let e := p.m_Pads.foldl (fun e x => (x.writeToXML c host e defaults).2) e
  let e := p.m_SMDs.foldl (fun e x => (x.writeToXML c host e defaults).2) e
  e

/-- The method `CPackage::writeToXML(host, root, defaults)`. -/
def CPackage.writeToXML (c : NumberText) (p : CPackage) (host : QDomDocument)
    (root : QDomElement) (defaults : Bool) : Bool × QDomElement :=
  if !host.isNull && !root.isNull then
    (true, root.appendChild (p.xmlElement c host defaults))
  else (false, root)

/-! ## Loops over child elements -/

/-- The element handles named `tagName` in a list of siblings, in document order, each
with the siblings that follow it. -/
def siblingElements (tagName : String) : List DomTree → List QDomNode
  | [] => []
  | DomTree.element n a cs :: rest =>
    if n = tagName then
      QDomNode.ref (DomTree.element n a cs) rest :: siblingElements tagName rest
    else siblingElements tagName rest
  | DomTree.text _ :: rest => siblingElements tagName rest

/-- The handles that the loop `while (!c.isNull()) { ...; c = c.nextSiblingElement(tagName); }`
visits, in the order of the visits, when it starts at `c`. -/
def whileElements (tagName : String) : QDomNode → List QDomNode
  | QDomNode.null => []
  | QDomNode.ref t following => QDomNode.ref t following :: siblingElements tagName following

/-- The elements named `tagName` in a list of nodes, in document order. -/
def elementsNamed (tagName : String) : List DomTree → List DomTree
  | [] => []
  | DomTree.element n a cs :: rest =>
    if n = tagName then DomTree.element n a cs :: elementsNamed tagName rest
    else elementsNamed tagName rest
  | DomTree.text _ :: rest => elementsNamed tagName rest

/-! ## Readers of the drawing primitives -/

/-- The method `CHole::readFromXML(root)`. -/
def CHole.readFromXML (nt : NumberText) (root : QDomElement) (x : CHole) : Bool × CHole :=
  let e := if root.nodeName != "hole" then root.nextSiblingElement "hole" else root
  if !e.isNull then
    let x := { x with m_X := readDouble nt e "x" x.m_X }
    let x := { x with m_Y := readDouble nt e "y" x.m_Y }
    let x := { x with m_Drill := readDouble nt e "drill" x.m_Drill }
    (true, x)
  else (false, x)

/-- The scan of `QString::replace(before, after)` over the characters still to be read;
`skip` counts the characters of a replaced occurrence that are still to be passed over. -/
def QString.replaceAux (before after : List Char) : List Char → Nat → List Char
  | [], _ => []
  | _ :: rest, skip + 1 => QString.replaceAux before after rest skip
  | c :: rest, 0 =>
    if before.isPrefixOf (c :: rest) then
      after ++ QString.replaceAux before after rest (before.length - 1)
    else c :: QString.replaceAux before after rest 0

/-- The call `s.replace(before, after)` for a non-empty `before`: every occurrence, found
from left to right without overlap, is replaced. -/
def QString.replace (s before after : String) : String :=
  ⟨QString.replaceAux before.data after.data s.data 0⟩

/-- The function `unescapeXml(str)`. -/
def unescapeXml (str : String) : String :=
  let xml := str
  let xml := QString.replace xml "&quot;" "\""
  let xml := QString.replace xml "&apos;" "'"
  let xml := QString.replace xml "&gt;" ">"
  let xml := QString.replace xml "&lt;" "<"
  let xml := QString.replace xml "&amp;" "&"
  xml

/-- The loop `n = e.firstChild(); while (!n.isNull()) { if (n.isText()) { ... break; }
n = n.nextSibling(); }`: the value of the first text node among the children, if any. -/
def firstText : List DomTree → Option String
  | [] => none
  | DomTree.text d :: _ => some d
  | DomTree.element _ _ _ :: rest => firstText rest

/-- The method `CDescription::readFromXML(root)`. -/
def CDescription.readFromXML (root : QDomElement) (x : CDescription) : Bool × CDescription :=
  let e := if root.nodeName != "description" then root.nextSiblingElement "description" else root
  if !e.isNull then
    let x := { x with m_Language := readString e "language" x.m_Language }
    let x :=
      match firstText e.childNodes with
      | some nodeValue => { x with m_Description := unescapeXml nodeValue }
      | none => x
    (true, x)
  else (false, x)

/-- The method `CVertex::readFromXML(root)`. -/
def CVertex.readFromXML (nt : NumberText) (root : QDomElement) (x : CVertex) : Bool × CVertex :=
  let e := if root.nodeName != "vertex" then root.nextSiblingElement "vertex" else root
  if !e.isNull then
    let x := { x with m_X := readDouble nt e "x" x.m_X }
    let x := { x with m_Y := readDouble nt e "y" x.m_Y }
    let x := { x with m_Curve := readDouble nt e "curve" x.m_Curve }
    (true, x)
  else (false, x)

/-- The method `CPolygon::readFromXML(root)`. -/
def CPolygon.readFromXML (nt : NumberText) (root : QDomElement) (x : CPolygon) : Bool × CPolygon :=
  let e := if root.nodeName != "polygon" then root.nextSiblingElement "polygon" else root
  if !e.isNull then
    let c := e.firstChildElement "vertex"
    let x := { x with m_Vertices := x.m_Vertices ++
      (whileElements "vertex" c).map (fun c => (CVertex.readFromXML nt c CVertex.clear).2) }
    let x := { x with m_Width := readDouble nt e "width" x.m_Width }
    let x := { x with m_Layer := readInt nt e "layer" x.m_Layer }
    let x := { x with m_Spacing := readDouble nt e "spacing" x.m_Spacing }
    let s := e.attribute "pour"
    let x := { x with m_Pour :=
      if !QString.isEmpty s then
        if s = "solid" then CPolygon.Pour.ppSolid
        else if s = "hatch" then CPolygon.Pour.ppHatch
        else if s = "cutout" then CPolygon.Pour.ppCutout
        else x.m_Pour
      else x.m_Pour }
    let x := { x with m_Isolate := readDouble nt e "isolate" x.m_Isolate }
    let x := { x with m_Orphans := readBool e "orphans" x.m_Orphans }
    let x := { x with m_Thermals := readBool e "thermals" x.m_Thermals }
    let x := { x with m_Rank := readInt nt e "rank" x.m_Rank }
    (true, x)
  else (false, x)

/-- The method `CCircle::readFromXML(root)`. -/
def CCircle.readFromXML (nt : NumberText) (root : QDomElement) (x : CCircle) : Bool × CCircle :=
  let e := if root.nodeName != "circle" then root.nextSiblingElement "circle" else root
  if !e.isNull then
    let x := { x with m_X := readDouble nt e "x" x.m_X }
    let x := { x with m_Y := readDouble nt e "y" x.m_Y }
    let x := { x with m_Radius := readDouble nt e "radius" x.m_Radius }
    let x := { x with m_Width := readDouble nt e "width" x.m_Width }
    let x := { x with m_Layer := readInt nt e "layer" x.m_Layer }
    (true, x)
  else (false, x)

/-- The method `CRectangle::readFromXML(root)`. -/
def CRectangle.readFromXML (nt : NumberText) (root : QDomElement) (x : CRectangle) :
    Bool × CRectangle :=
  let e := if root.nodeName != "rectangle" then root.nextSiblingElement "rectangle" else root
  if !e.isNull then
    let x := { x with m_X1 := readDouble nt e "x1" x.m_X1 }
    let x := { x with m_Y1 := readDouble nt e "y1" x.m_Y1 }
    let x := { x with m_X2 := readDouble nt e "x2" x.m_X2 }
    let x := { x with m_Y2 := readDouble nt e "y2" x.m_Y2 }
    let x := { x with m_Layer := readInt nt e "layer" x.m_Layer }
    let s := e.attribute "rot"
    let x := { x with m_Rotation :=
      if !QString.isEmpty s then (decodeTransformation nt s x.m_Rotation false false).rotation
      else x.m_Rotation }
    (true, x)
  else (false, x)

/-- The method `CFrame::readFromXML(root)`. -/
def CFrame.readFromXML (nt : NumberText) (root : QDomElement) (x : CFrame) : Bool × CFrame :=
  let e := if root.nodeName != "frame" then root.nextSiblingElement "frame" else root
  if !e.isNull then
    let x := { x with m_X1 := readDouble nt e "x1" x.m_X1 }
    let x := { x with m_Y1 := readDouble nt e "y1" x.m_Y1 }
    let x := { x with m_X2 := readDouble nt e "x2" x.m_X2 }
    let x := { x with m_Y2 := readDouble nt e "y2" x.m_Y2 }
    let x := { x with m_Columns := readInt nt e "columns" x.m_Columns }
    let x := { x with m_Rows := readInt nt e "rows" x.m_Rows }
    let x := { x with m_Layer := readInt nt e "layer" x.m_Layer }
    let x := { x with m_BorderLeft := readBool e "border-left" x.m_BorderLeft }
    let x := { x with m_BorderTop := readBool e "border-top" x.m_BorderTop }
    let x := { x with m_BorderRight := readBool e "border-right" x.m_BorderRight }
    let x := { x with m_BorderBottom := readBool e "border-bottom" x.m_BorderBottom }
    (true, x)
  else (false, x)

/-- The method `CSMD::readFromXML(root)`. -/
def CSMD.readFromXML (nt : NumberText) (root : QDomElement) (x : CSMD) : Bool × CSMD :=
  let e := if root.nodeName != "smd" then root.nextSiblingElement "smd" else root
  if !e.isNull then
    let x := { x with m_Name := readString e "name" x.m_Name }
    let x := { x with m_X := readDouble nt e "x" x.m_X }
    let x := { x with m_Y := readDouble nt e "y" x.m_Y }
    let x := { x with m_DX := readDouble nt e "dx" x.m_DX }
    let x := { x with m_DY := readDouble nt e "dy" x.m_DY }
    let x := { x with m_Layer := readInt nt e "layer" x.m_Layer }
    let x := { x with m_Roundness := readInt nt e "roundness" x.m_Roundness }
    let s := e.attribute "rot"
    let x := { x with m_Rotation :=
      if !QString.isEmpty s then (decodeTransformation nt s x.m_Rotation false false).rotation
      else x.m_Rotation }
    let x := { x with m_Stop := readBool e "stop" x.m_Stop }
    let x := { x with m_Thermals := readBool e "thermals" x.m_Thermals }
    let x := { x with m_Cream := readBool e "cream" x.m_Cream }
    (true, x)
  else (false, x)

/-- The state `CPackage::clear()` leaves. -/
def CPackage.clear : CPackage :=
  { m_Description := CDescription.clear, m_Polygons := [], m_Wires := [], m_Texts := [],
    m_Dimensions := [], m_Circles := [], m_Rectangles := [], m_Frames := [], m_Holes := [],
    m_Pads := [], m_SMDs := [], m_Name := "" }

/-- The method `CPackage::readFromXML(root)`. -/
def CPackage.readFromXML (nt : NumberText) (root : QDomElement) (x : CPackage) : Bool × CPackage :=
  let e := if root.nodeName != "package" then root.nextSiblingElement "package" else root
  if !e.isNull then
    let c := e.firstChildElement "description"
    let x := { x with m_Description :=
      if !c.isNull then (x.m_Description.readFromXML c).2 else x.m_Description }
    let c := e.firstChildElement "polygon"
    let x := { x with m_Polygons := x.m_Polygons ++
      (whileElements "polygon" c).map (fun c => (CPolygon.readFromXML nt c CPolygon.clear).2) }
    let c := e.firstChildElement "wire"
    let x := { x with m_Wires := x.m_Wires ++
      (whileElements "wire" c).map (fun c => (CWire.readFromXML nt c CWire.clear).2) }
    let c := e.firstChildElement "text"
    let x := { x with m_Texts := x.m_Texts ++
      (whileElements "text" c).map (fun c => (CText.readFromXML nt c CText.clear).2) }
    let c := e.firstChildElement "dimension"
    let x := { x with m_Dimensions := x.m_Dimensions ++
      (whileElements "dimension" c).map (fun c => (CDimension.readFromXML nt c CDimension.clear).2) }
    let c := e.firstChildElement "circle"
    let x := { x with m_Circles := x.m_Circles ++
      (whileElements "circle" c).map (fun c => (CCircle.readFromXML nt c CCircle.clear).2) }
    let c := e.firstChildElement "rectangle"
    let x := { x with m_Rectangles := x.m_Rectangles ++
      (whileElements "rectangle" c).map (fun c => (CRectangle.readFromXML nt c CRectangle.clear).2) }
    let c := e.firstChildElement "frame"
    let x := { x with m_Frames := x.m_Frames ++
      (whileElements "frame" c).map (fun c => (CFrame.readFromXML nt c CFrame.clear).2) }
    let c := e.firstChildElement "hole"
    let x := { x with m_Holes := x.m_Holes ++
      (whileElements "hole" c).map (fun c => (CHole.readFromXML nt c CHole.clear).2) }
    let c := e.firstChildElement "pad"
    let x := { x with m_Pads := x.m_Pads ++
      (whileElements "pad" c).map (fun c => (CPad.readFromXML nt c CPad.clear).2) }
    let c := e.firstChildElement "smd"
    let x := { x with m_SMDs := x.m_SMDs ++
      (whileElements "smd" c).map (fun c => (CSMD.readFromXML nt c CSMD.clear).2) }
    let x := { x with m_Name := readString e "name" x.m_Name }
    (true, x)
  else (true, x)

/-! ## Connect -/

/-- The enumeration `CConnect::Route`. -/
inductive CConnect.Route where
  | crAll | crAny
  deriving DecidableEq, Repr

/-- The fields of `CConnect`. -/
@[ext] structure CConnect where
  m_Gate : String
  m_Pin : String
  m_Pad : String
  m_Route : CConnect.Route
  deriving DecidableEq

/-- The constant `CConnect::DEFAULT_ROUTE`. -/
def CConnect.DEFAULT_ROUTE : CConnect.Route := CConnect.Route.crAll

/-- The function `CConnect::toString(CConnect::Route)`. -/
def CConnect.Route.toString : CConnect.Route → String
  | crAll => "all"
  | crAny => "any"

/-- The state `CConnect::clear()` leaves. -/
def CConnect.clear : CConnect :=
  { m_Gate := "", m_Pin := "", m_Pad := "", m_Route := CConnect.DEFAULT_ROUTE }

/-- The method `CConnect::readFromXML(root)`. -/
def CConnect.readFromXML (root : QDomElement) (x : CConnect) : Bool × CConnect :=
  let e := if root.nodeName != "connect" then root.nextSiblingElement "connect" else root
  if !e.isNull then
    let x := { x with m_Gate := readString e "gate" x.m_Gate }
    let x := { x with m_Pin := readString e "pin" x.m_Pin }
    let x := { x with m_Pad := readString e "pad" x.m_Pad }
    let s := e.attribute "route"
    let x := { x with m_Route :=
      if !QString.isEmpty s then
        if s = "all" then CConnect.Route.crAll
        else if s = "any" then CConnect.Route.crAny
        else x.m_Route
      else x.m_Route }
    (true, x)
  else (false, x)

/-- The element `e` that `CConnect::writeToXML` builds and appends to `root`. -/
def CConnect.xmlElement (x : CConnect) (host : QDomDocument) (defaults : Bool) : QDomElement :=
  let e := host.createElement "connect"
  let e := e.setAttribute "gate" x.m_Gate
  let e := e.setAttribute "pin" x.m_Pin
  let e := e.setAttribute "pad" x.m_Pad
  let e :=
    if defaults || CConnect.DEFAULT_ROUTE != x.m_Route then
      e.setAttribute "route" x.m_Route.toString
    else e
  e

/-- The method `CConnect::writeToXML(host, root, defaults)`. -/
def CConnect.writeToXML (x : CConnect) (host : QDomDocument)
    (root : QDomElement) (defaults : Bool) : Bool × QDomElement :=
  if !host.isNull && !root.isNull then
    (true, root.appendChild (x.xmlElement host defaults))
  else (false, root)


/-! ## ContactRef -/

/-- The fields of `CContactRef`. -/
@[ext] structure CContactRef where
  m_Element : String
  m_Pad : String
  m_Route : CConnect.Route
  m_RouteTag : String
  deriving DecidableEq

/-- The constant `CContactRef::DEFAULT_ROUTE`. -/
def CContactRef.DEFAULT_ROUTE : CConnect.Route := CConnect.Route.crAll

/-- The state `CContactRef::clear()` leaves. -/
def CContactRef.clear : CContactRef :=
  { m_Element := "", m_Pad := "", m_Route := CConnect.Route.crAll, m_RouteTag := "" }

/-- The method `CContactRef::readFromXML(root)`. -/
def CContactRef.readFromXML (root : QDomElement) (x : CContactRef) : Bool × CContactRef :=
  let e := if root.nodeName != "contactref" then root.nextSiblingElement "contactref" else root
  if !e.isNull then
    let x := { x with m_Element := readString e "element" x.m_Element }
    let x := { x with m_Pad := readString e "pad" x.m_Pad }
    let s := e.attribute "route"
    let x := { x with m_Route :=
      if !QString.isEmpty s then
        if s = "all" then CConnect.Route.crAll
        else if s = "any" then CConnect.Route.crAny
        else x.m_Route
      else x.m_Route }
    let x := { x with m_RouteTag := readString e "routetag" x.m_RouteTag }
    (true, x)
  else (false, x)

/-- The element `e` that `CContactRef::writeToXML` builds and appends to `root`. -/
def CContactRef.xmlElement (x : CContactRef) (host : QDomDocument)
    (defaults : Bool) : QDomElement :=
  let e := host.createElement "contactref"
  let e := e.setAttribute "element" x.m_Element
  let e := e.setAttribute "pad" x.m_Pad
  let e :=
    if defaults || CContactRef.DEFAULT_ROUTE != x.m_Route then
      e.setAttribute "route" x.m_Route.toString
    else e
  let e :=
    if defaults || !QString.isEmpty x.m_RouteTag then
      e.setAttribute "routetag" x.m_RouteTag
    else e
  e

/-- The method `CContactRef::writeToXML(host, root, defaults)`. -/
def CContactRef.writeToXML (x : CContactRef) (host : QDomDocument)
    (root : QDomElement) (defaults : Bool) : Bool × QDomElement :=
  if !host.isNull && !root.isNull then
    (true, root.appendChild (x.xmlElement host defaults))
  else (false, root)


/-! ## Signal -/

/-- The fields of `CSignal`; each list of owned objects is a list of values, in list order. -/
@[ext] structure CSignal where
  m_ContactRefs : List CContactRef
  m_Polygons : List CPolygon
  m_Wires : List CWire
  m_Vias : List CVia
  m_Name : String
  m_Class : Int
  m_AirWiresHidden : Bool
  deriving DecidableEq

/-- The constant `CSignal::DEFAULT_CLASS`. -/
def CSignal.DEFAULT_CLASS : Int := 0

/-- The state `CSignal::clear()` leaves. -/
def CSignal.clear : CSignal :=
  { m_ContactRefs := [], m_Polygons := [], m_Wires := [], m_Vias := [], m_Name := "",
    m_Class := 0, m_AirWiresHidden := false }

/-- The method `CSignal::readFromXML(root)`. -/
def CSignal.readFromXML (nt : NumberText) (root : QDomElement) (x : CSignal) : Bool × CSignal :=
  let e := if root.nodeName != "signal" then root.nextSiblingElement "signal" else root
  if !e.isNull then
    let c := e.firstChildElement "contactref"
    let x := { x with m_ContactRefs := x.m_ContactRefs ++
      (whileElements "contactref" c).map (fun c => (CContactRef.readFromXML c CContactRef.clear).2) }
    let c := e.firstChildElement "polygon"
    let x := { x with m_Polygons := x.m_Polygons ++
      (whileElements "polygon" c).map (fun c => (CPolygon.readFromXML nt c CPolygon.clear).2) }
    let c := e.firstChildElement "wire"
    let x := { x with m_Wires := x.m_Wires ++
      (whileElements "wire" c).map (fun c => (CWire.readFromXML nt c CWire.clear).2) }
    let c := e.firstChildElement "via"
    let x := { x with m_Vias := x.m_Vias ++
      (whileElements "via" c).map (fun c => (CVia.readFromXML nt c CVia.clear).2) }
    let x := { x with m_Name := readString e "name" x.m_Name }
    let x := { x with m_Class := readInt nt e "class" x.m_Class }
    let x := { x with m_AirWiresHidden := readBool e "airwireshidden" x.m_AirWiresHidden }
    (true, x)
  else (false, x)

/-- The element `e` that `CSignal::writeToXML` builds and appends to `root`. -/
def CSignal.xmlElement (nt : NumberText) (x : CSignal) (host : QDomDocument)
    (defaults : Bool) : QDomElement :=
  let e := host.createElement "signal"
  let e := e.setAttribute "name" x.m_Name
  let e :=
    if defaults || CSignal.DEFAULT_CLASS != x.m_Class then
      e.setAttribute "class" (nt.argInt x.m_Class)
    else e
  let e :=
    if defaults || x.m_AirWiresHidden then
      e.setAttribute "airwireshidden" (CEntity.toString x.m_AirWiresHidden)
    else e
  let e := x.m_ContactRefs.foldl (fun e y => (y.writeToXML host e defaults).2) e
  let e := x.m_Polygons.foldl (fun e y => (y.writeToXML nt host e defaults).2) e
  let e := x.m_Wires.foldl (fun e y => (y.writeToXML nt host e defaults).2) e
  let e := x.m_Vias.foldl (fun e y => (y.writeToXML nt host e defaults).2) e
  e

/-- The method `CSignal::writeToXML(host, root, defaults)`. -/
def CSignal.writeToXML (nt : NumberText) (x : CSignal) (host : QDomDocument)
    (root : QDomElement) (defaults : Bool) : Bool × QDomElement :=
  if !host.isNull && !root.isNull then
    (true, root.appendChild (x.xmlElement nt host defaults))
  else (false, root)


/-! ## Plain -/

/-- The fields of `CPlain`; each list of owned objects is a list of values, in list order. -/
@[ext] structure CPlain where
  m_Polygons : List CPolygon
  m_Wires : List CWire
  m_Texts : List CText
  m_Circles : List CCircle
  m_Rectangles : List CRectangle
  m_Frames : List CFrame
  m_Holes : List CHole
  m_Dimensions : List CDimension
  deriving DecidableEq

/-- The state `CPlain::clear()` leaves. -/
def CPlain.clear : CPlain :=
  { m_Polygons := [], m_Wires := [], m_Texts := [], m_Circles := [], m_Rectangles := [],
    m_Frames := [], m_Holes := [], m_Dimensions := [] }

/-- The method `CPlain::readFromXML(root)`. -/
def CPlain.readFromXML (nt : NumberText) (root : QDomElement) (x : CPlain) : Bool × CPlain :=
  let e := if root.nodeName != "plain" then root.nextSiblingElement "plain" else root
  if !e.isNull then
    let c := e.firstChildElement "polygon"
    let x := { x with m_Polygons := x.m_Polygons ++
      (whileElements "polygon" c).map (fun c => (CPolygon.readFromXML nt c CPolygon.clear).2) }
    let c := e.firstChildElement "wire"
    let x := { x with m_Wires := x.m_Wires ++
      (whileElements "wire" c).map (fun c => (CWire.readFromXML nt c CWire.clear).2) }
    let c := e.firstChildElement "text"
    let x := { x with m_Texts := x.m_Texts ++
      (whileElements "text" c).map (fun c => (CText.readFromXML nt c CText.clear).2) }
    let c := e.firstChildElement "dimension"
    let x := { x with m_Dimensions := x.m_Dimensions ++
      (whileElements "dimension" c).map (fun c => (CDimension.readFromXML nt c CDimension.clear).2) }
    let c := e.firstChildElement "circle"
    let x := { x with m_Circles := x.m_Circles ++
      (whileElements "circle" c).map (fun c => (CCircle.readFromXML nt c CCircle.clear).2) }
    let c := e.firstChildElement "rectangle"
    let x := { x with m_Rectangles := x.m_Rectangles ++
      (whileElements "rectangle" c).map (fun c => (CRectangle.readFromXML nt c CRectangle.clear).2) }
    let c := e.firstChildElement "frame"
    let x := { x with m_Frames := x.m_Frames ++
      (whileElements "frame" c).map (fun c => (CFrame.readFromXML nt c CFrame.clear).2) }
    let c := e.firstChildElement "hole"
    let x := { x with m_Holes := x.m_Holes ++
      (whileElements "hole" c).map (fun c => (CHole.readFromXML nt c CHole.clear).2) }
    let c := e.firstChildElement "dimension"
    let x := { x with m_Dimensions := x.m_Dimensions ++
      (whileElements "dimension" c).map (fun c => (CDimension.readFromXML nt c CDimension.clear).2) }
    (true, x)
  else (true, x)

/-- The element `e` that `CPlain::writeToXML` builds and appends to `root`. -/
def CPlain.xmlElement (nt : NumberText) (x : CPlain) (host : QDomDocument)
    (defaults : Bool) : QDomElement :=
  let e := host.createElement "plain"
  let e := x.m_Polygons.foldl (fun e y => (y.writeToXML nt host e defaults).2) e
  let e := x.m_Wires.foldl (fun e y => (y.writeToXML nt host e defaults).2) e
  let e := x.m_Texts.foldl (fun e y => (y.writeToXML nt host e defaults).2) e
  let e := x.m_Dimensions.foldl (fun e y => (y.writeToXML nt host e defaults).2) e
  let e := x.m_Circles.foldl (fun e y => (y.writeToXML nt host e defaults).2) e
  let e := x.m_Rectangles.foldl (fun e y => (y.writeToXML nt host e defaults).2) e
  let e := x.m_Frames.foldl (fun e y => (y.writeToXML nt host e defaults).2) e
  let e := x.m_Holes.foldl (fun e y => (y.writeToXML nt host e defaults).2) e
  let e := x.m_Dimensions.foldl (fun e y => (y.writeToXML nt host e defaults).2) e
  e

/-- The method `CPlain::writeToXML(host, root, defaults)`. -/
def CPlain.writeToXML (nt : NumberText) (x : CPlain) (host : QDomDocument)
    (root : QDomElement) (defaults : Bool) : Bool × QDomElement :=
  if !host.isNull && !root.isNull then
    (true, root.appendChild (x.xmlElement nt host defaults))
  else (false, root)

/-- A Signal with every field away from its default: one contact reference, one polygon
of two vertices, one wire that carries an extent, and one via. -/
def exampleSignal : CSignal :=
  { m_ContactRefs :=
      [{ m_Element := "R1", m_Pad := "1", m_Route := CConnect.Route.crAny,
         m_RouteTag := "t" }],
    m_Polygons :=
      [{ m_Vertices := [{ m_X := 1, m_Y := 2, m_Curve := 90 }, { m_X := 3, m_Y := 4, m_Curve := 0 }],
         m_Width := mkRat 1 2, m_Layer := 16, m_Spacing := mkRat 3 2,
         m_Pour := CPolygon.Pour.ppHatch, m_Isolate := mkRat 1 4, m_Orphans := true,
         m_Thermals := false, m_Rank := 2 }],
    m_Wires := [{ CWire.clear with m_Extent := "1-16" }],
    m_Vias :=
      [{ m_X := mkRat 3 2, m_Y := 2, m_Extent := "1-16", m_Drill := mkRat 3 10,
         m_Diameter := mkRat 3 5, m_Shape := CVia.Shape.vsOctagon, m_AlwaysStop := true }],
    m_Name := "GND", m_Class := 1, m_AirWiresHidden := true }

/-! ## The document model -/

/-- The macro `EAGLE_DTD_VERSION`, 6.4. -/
def EAGLE_DTD_VERSION : ℚ := mkRat 32 5

/-- The call `e.attribute(name, defValue)`: `defValue` when `e` has no attribute `name`. -/
def QDomNode.attributeOr : QDomNode → String → String → String
  | QDomNode.ref (DomTree.element _ a _) _, name, defValue =>
    if (a.map Prod.fst).contains name then getAttr name a else defValue
  | _, _, defValue => defValue

/-! ## Settings -/

/-- The enumeration `CSettings::VerticalText`. -/
inductive CSettings.VerticalText where
  | vtUp | vtDown
  deriving DecidableEq, Repr

/-- The fields of `CSettings`. -/
@[ext] structure CSettings where
  m_AlwaysVectorFont : Bool
  m_VerticalText : CSettings.VerticalText
  deriving DecidableEq

/-- The function `CSettings::toString(CSettings::VerticalText)`. -/
def CSettings.VerticalText.toString : CSettings.VerticalText → String
  | vtUp => "up"
  | vtDown => "down"

/-- The state `CSettings::clear()` leaves. -/
def CSettings.clear : CSettings :=
  { m_AlwaysVectorFont := false, m_VerticalText := CSettings.VerticalText.vtUp }

/-- The body of the loop of `CSettings::readFromXML` on one `setting` element `e`; `r` is
the object together with the local `result`. -/
def CSettings.readSetting (r : CSettings × Nat) (e : QDomElement) : CSettings × Nat :=
  let s := e.attribute "alwaysvectorfont"
  let r :=
    if !QString.isEmpty s then
      let r := if s = "yes" then ({ r.1 with m_AlwaysVectorFont := true }, r.2 ||| 0x1) else r
      let r := if s = "no" then ({ r.1 with m_AlwaysVectorFont := false }, r.2 ||| 0x1) else r
      r
    else r
  let s := e.attribute "verticaltext"
  let r :=
    if !QString.isEmpty s then
      let r :=
        if s = "up" then ({ r.1 with m_VerticalText := CSettings.VerticalText.vtUp }, r.2 ||| 0x2)
        else r
      let r :=
        if s = "down" then
          ({ r.1 with m_VerticalText := CSettings.VerticalText.vtDown }, r.2 ||| 0x2)
        else r
      r
    else r
  r

/-- The method `CSettings::readFromXML(root)`: the loop runs over the `setting` children
of `root`, and the return value is `result == 0x3`. -/
def CSettings.readFromXML (root : QDomElement) (x : CSettings) : Bool × CSettings :=
  let result : Nat := 0
  let e := root.firstChildElement "setting"
  let r := (whileElements "setting" e).foldl CSettings.readSetting (x, result)
  (r.2 == 0x3, r.1)

/-- The element `e` that `CSettings::writeToXML` builds and appends to `root`. -/
def CSettings.xmlElement (x : CSettings) (host : QDomDocument) (defaults : Bool) :
    QDomElement :=
  let e := host.createElement "settings"
  let c := host.createElement "setting"
  let c := c.setAttribute "alwaysvectorfont" (CEntity.toString x.m_AlwaysVectorFont)
  let e := e.appendChild c
  let e :=
    if defaults || CSettings.VerticalText.vtUp != x.m_VerticalText then
      let c := host.createElement "setting"
      let c := c.setAttribute "verticaltext" x.m_VerticalText.toString
      e.appendChild c
    else e
  e

/-- The method `CSettings::writeToXML(host, root, defaults)`. -/
def CSettings.writeToXML (x : CSettings) (host : QDomDocument)
    (root : QDomElement) (defaults : Bool) : Bool × QDomElement :=
  if !host.isNull && !root.isNull then
    (true, root.appendChild (x.xmlElement host defaults))
  else (false, root)

/-! ## Grid -/

/-- The enumeration `CGrid::Style`. -/
inductive CGrid.Style where
  | gsLines | gsDots
  deriving DecidableEq, Repr

/-- The fields of `CGrid`. -/
@[ext] structure CGrid where
  m_Distance : ℚ
  m_UnitDist : CGrid.Unit
  m_Unit : CGrid.Unit
  m_Style : CGrid.Style
  m_Multiple : Int
  m_Display : Bool
  m_AltDistance : ℚ
  m_AltUnitDist : CGrid.Unit
  m_AltUnit : CGrid.Unit
  deriving DecidableEq

/-- The function `CGrid::toString(CGrid::Style)`. -/
def CGrid.Style.toString : CGrid.Style → String
  | gsLines => "lines"
  | gsDots => "dots"

/-- The state `CGrid::clear()` leaves. -/
def CGrid.clear : CGrid :=
  { m_Distance := mkRat 1 10, m_UnitDist := CGrid.Unit.guInch, m_Unit := CGrid.Unit.guInch,
    m_Style := CGrid.Style.gsLines, m_Multiple := 1, m_Display := false, m_AltDistance := 1,
    m_AltUnitDist := CGrid.Unit.guInch, m_AltUnit := CGrid.Unit.guInch }

/-- The method `CGrid::readFromXML(root)`; `r` is the object together with the local
`result`, and the return value is `result == 0x1ff`. -/
def CGrid.readFromXML (nt : NumberText) (root : QDomElement) (x : CGrid) : Bool × CGrid :=
  let r : CGrid × Nat := (x, 0)
  let e := if root.nodeName != "grid" then root.nextSiblingElement "grid" else root
  let r :=
    if !e.isNull then
      let s := e.attribute "distance"
      let r :=
        if !QString.isEmpty s then
          match nt.toDouble s with
          | some value => ({ r.1 with m_Distance := value }, r.2 ||| 0x01)
          | none => r
        else r
      let s := e.attribute "unitdist"
      let r :=
        if !QString.isEmpty s then
          match CGrid.stringToUnit s with
          | some value => ({ r.1 with m_UnitDist := value }, r.2 ||| 0x02)
          | none => r
        else r
      let s := e.attribute "unit"
      let r :=
        if !QString.isEmpty s then
          match CGrid.stringToUnit s with
          | some value => ({ r.1 with m_Unit := value }, r.2 ||| 0x04)
          | none => r
        else r
      let s := e.attribute "style"
      let r :=
        if !QString.isEmpty s then
          if s = "lines" then ({ r.1 with m_Style := CGrid.Style.gsLines }, r.2 ||| 0x08)
          else if s = "dots" then ({ r.1 with m_Style := CGrid.Style.gsDots }, r.2 ||| 0x08)
          else r
        else r
      let s := e.attribute "multiple"
      let r :=
        if !QString.isEmpty s then
          match nt.toInt s with
          | some value => ({ r.1 with m_Multiple := value }, r.2 ||| 0x10)
          | none => r
        else r
      let s := e.attribute "display"
      let r :=
        if !QString.isEmpty s then
          if s = "yes" then ({ r.1 with m_Display := true }, r.2 ||| 0x20)
          else if s = "no" then ({ r.1 with m_Display := false }, r.2 ||| 0x20)
          else r
        else r
      let s := e.attribute "altdistance"
      let r :=
        if !QString.isEmpty s then
          match nt.toDouble s with
          | some value => ({ r.1 with m_AltDistance := value }, r.2 ||| 0x40)
          | none => r
        else r
      let s := e.attribute "altunitdist"
      let r :=
        if !QString.isEmpty s then
          match CGrid.stringToUnit s with
          | some value => ({ r.1 with m_AltUnitDist := value }, r.2 ||| 0x80)
          | none => r
        else r
      let s := e.attribute "altunit"
      let r :=
        if !QString.isEmpty s then
          match CGrid.stringToUnit s with
          | some value => ({ r.1 with m_AltUnit := value }, r.2 ||| 0x100)
          | none => r
        else r
      r
    else r
  (r.2 == 0x1ff, r.1)

/-- The element `e` that `CGrid::writeToXML` builds and appends to `root`. -/
def CGrid.xmlElement (nt : NumberText) (x : CGrid) (host : QDomDocument)
    (defaults : Bool) : QDomElement :=
  let e := host.createElement "grid"
  let e := e.setAttribute "distance" (nt.argDouble x.m_Distance)
  let e := e.setAttribute "unitdist" x.m_UnitDist.toString
  let e := e.setAttribute "unit" x.m_Unit.toString
  let e :=
    if defaults || CGrid.Style.gsLines != x.m_Style then
      e.setAttribute "style" x.m_Style.toString
    else e
  let e :=
    if defaults || (1 : Int) != x.m_Multiple then
      e.setAttribute "multiple" (nt.argInt x.m_Multiple)
    else e
  let e :=
    if defaults || false != x.m_Display then
      e.setAttribute "display" (CEntity.toString x.m_Display)
    else e
  let e := e.setAttribute "altdistance" (nt.argDouble x.m_AltDistance)
  let e := e.setAttribute "altunitdist" x.m_AltUnitDist.toString
  let e := e.setAttribute "altunit" x.m_AltUnit.toString
  e

/-- The method `CGrid::writeToXML(host, root, defaults)`. -/
def CGrid.writeToXML (nt : NumberText) (x : CGrid) (host : QDomDocument)
    (root : QDomElement) (defaults : Bool) : Bool × QDomElement :=
  if !host.isNull && !root.isNull then
    (true, root.appendChild (x.xmlElement nt host defaults))
  else (false, root)

/-! ## Layer -/

/-- The fields of `CLayer`. -/
@[ext] structure CLayer where
  m_Layer : Int
  m_Name : String
  m_Color : Int
  m_Fill : Int
  m_Visible : Bool
  m_Active : Bool
  deriving DecidableEq

/-- The state `CLayer::clear()` leaves. -/
def CLayer.clear : CLayer :=
  { m_Layer := 0, m_Name := "", m_Color := 0, m_Fill := 0, m_Visible := true,
    m_Active := true }

/-- The method `CLayer::readFromXML(root)`; `r` is the object together with the local
`result`, and the return value is `result == 0x3f`. -/
def CLayer.readFromXML (nt : NumberText) (root : QDomElement) (x : CLayer) : Bool × CLayer :=
  let r : CLayer × Nat := (x, 0)
  let e := if root.nodeName != "layer" then root.nextSiblingElement "layer" else root
  let r :=
    if !e.isNull then
      let s := e.attribute "number"
      let r :=
        if !QString.isEmpty s then
          match nt.toInt s with
          | some value => ({ r.1 with m_Layer := value }, r.2 ||| 0x01)
          | none => r
        else r
      let s := e.attribute "name"
      let r := if !QString.isEmpty s then ({ r.1 with m_Name := s }, r.2 ||| 0x02) else r
      let s := e.attribute "color"
      let r :=
        if !QString.isEmpty s then
          match nt.toInt s with
          | some value => ({ r.1 with m_Color := value }, r.2 ||| 0x04)
          | none => r
        else r
      let s := e.attribute "fill"
      let r :=
        if !QString.isEmpty s then
          match nt.toInt s with
          | some value => ({ r.1 with m_Fill := value }, r.2 ||| 0x08)
          | none => r
        else r
      let s := e.attribute "visible"
      let r :=
        if !QString.isEmpty s then
          if s = "yes" then ({ r.1 with m_Visible := true }, r.2 ||| 0x10)
          else if s = "no" then ({ r.1 with m_Visible := false }, r.2 ||| 0x10)
          else r
        else r
      let s := e.attribute "active"
      let r :=
        if !QString.isEmpty s then
          if s = "yes" then ({ r.1 with m_Active := true }, r.2 ||| 0x20)
          else if s = "no" then ({ r.1 with m_Active := false }, r.2 ||| 0x20)
          else r
        else r
      r
    else r
  (r.2 == 0x3f, r.1)

/-- The element `e` that `CLayer::writeToXML` builds and appends to `root`. -/
def CLayer.xmlElement (nt : NumberText) (x : CLayer) (host : QDomDocument)
    (defaults : Bool) : QDomElement :=
  let e := host.createElement "layer"
  let e := e.setAttribute "number" (nt.argInt x.m_Layer)
  let e := e.setAttribute "name" x.m_Name
  let e := e.setAttribute "color" (nt.argInt x.m_Color)
  let e := e.setAttribute "fill" (nt.argInt x.m_Fill)
  let e :=
    if defaults || !x.m_Visible then
      e.setAttribute "visible" (CEntity.toString x.m_Visible)
    else e
  let e :=
    if defaults || !x.m_Active then e.setAttribute "active" (CEntity.toString x.m_Active) else e
  e

/-- The method `CLayer::writeToXML(host, root, defaults)`. -/
def CLayer.writeToXML (nt : NumberText) (x : CLayer) (host : QDomDocument)
    (root : QDomElement) (defaults : Bool) : Bool × QDomElement :=
  if !host.isNull && !root.isNull then
    (true, root.appendChild (x.xmlElement nt host defaults))
  else (false, root)

/-! ## Clearance -/

/-- The fields of `CClearance`. -/
@[ext] structure CClearance where
  m_Class : Int
  m_Value : ℚ
  deriving DecidableEq

/-- The state `CClearance::clear()` leaves. -/
def CClearance.clear : CClearance :=
  { m_Class := 0, m_Value := 0 }

/-- The method `CClearance::readFromXML(root)`. -/
def CClearance.readFromXML (nt : NumberText) (root : QDomElement) (x : CClearance) :
    Bool × CClearance :=
  let e := if root.nodeName != "clearance" then root.nextSiblingElement "clearance" else root
  if !e.isNull then
    let x := { x with m_Class := readInt nt e "class" x.m_Class }
    let x := { x with m_Value := readDouble nt e "value" x.m_Value }
    (true, x)
  else (false, x)

/-- The element `e` that `CClearance::writeToXML` builds and appends to `root`. -/
def CClearance.xmlElement (nt : NumberText) (x : CClearance) (host : QDomDocument)
    (defaults : Bool) : QDomElement :=
  let e := host.createElement "clearance"
  let e := e.setAttribute "class" (nt.argInt x.m_Class)
  let e :=
    if defaults || (0 : ℚ) != x.m_Value then
      e.setAttribute "value" (nt.argDouble x.m_Value)
    else e
  e

/-- The method `CClearance::writeToXML(host, root, defaults)`. -/
def CClearance.writeToXML (nt : NumberText) (x : CClearance) (host : QDomDocument)
    (root : QDomElement) (defaults : Bool) : Bool × QDomElement :=
  if !host.isNull && !root.isNull then
    (true, root.appendChild (x.xmlElement nt host defaults))
  else (false, root)

/-! ## Param -/

/-- The fields of `CParam`. -/
@[ext] structure CParam where
  m_Name : String
  m_Value : String
  deriving DecidableEq

/-- The state `CParam::clear()` leaves. -/
def CParam.clear : CParam :=
  { m_Name := "", m_Value := "" }

/-- The method `CParam::readFromXML(root)`. -/
def CParam.readFromXML (root : QDomElement) (x : CParam) : Bool × CParam :=
  let e := if root.nodeName != "param" then root.nextSiblingElement "param" else root
  if !e.isNull then
    let x := { x with m_Name := readString e "name" x.m_Name }
    let x := { x with m_Value := readString e "value" x.m_Value }
    (true, x)
  else (false, x)

/-- The element `e` that `CParam::writeToXML` builds and appends to `root`. -/
def CParam.xmlElement (x : CParam) (host : QDomDocument) : QDomElement :=
  let e := host.createElement "param"
  let e := e.setAttribute "name" x.m_Name
  let e := e.setAttribute "value" x.m_Value
  e

/-- The method `CParam::writeToXML(host, root, defaults)`. -/
def CParam.writeToXML (x : CParam) (host : QDomDocument)
    (root : QDomElement) (_defaults : Bool) : Bool × QDomElement :=
  if !host.isNull && !root.isNull then
    (true, root.appendChild (x.xmlElement host))
  else (false, root)

/-! ## Approved -/

/-- The fields of `CApproved`. -/
@[ext] structure CApproved where
  m_Hash : String
  deriving DecidableEq

/-- The state `CApproved::clear()` leaves. -/
def CApproved.clear : CApproved :=
  { m_Hash := "" }

/-- The method `CApproved::readFromXML(root)`. -/
def CApproved.readFromXML (root : QDomElement) (x : CApproved) : Bool × CApproved :=
  let e := if root.nodeName != "approved" then root.nextSiblingElement "approved" else root
  if !e.isNull then
    let x := { x with m_Hash := readString e "hash" x.m_Hash }
    (true, x)
  else (false, x)

/-- The element `e` that `CApproved::writeToXML` builds and appends to `root`. -/
def CApproved.xmlElement (x : CApproved) (host : QDomDocument) : QDomElement :=
  let e := host.createElement "approved"
  let e := e.setAttribute "hash" x.m_Hash
  e

/-- The method `CApproved::writeToXML(host, root, defaults)`. -/
def CApproved.writeToXML (x : CApproved) (host : QDomDocument)
    (root : QDomElement) (_defaults : Bool) : Bool × QDomElement :=
  if !host.isNull && !root.isNull then
    (true, root.appendChild (x.xmlElement host))
  else (false, root)

/-! ## Pass -/

/-- The fields of `CPass`; each list of owned objects is a list of values, in list order. -/
@[ext] structure CPass where
  m_Params : List CParam
  m_Name : String
  m_Refer : String
  m_Active : Bool
  deriving DecidableEq

/-- The state `CPass::clear()` leaves. -/
def CPass.clear : CPass :=
  { m_Params := [], m_Name := "", m_Refer := "", m_Active := true }

/-- The method `CPass::readFromXML(root)`. -/
def CPass.readFromXML (root : QDomElement) (x : CPass) : Bool × CPass :=
  let e := if root.nodeName != "pass" then root.nextSiblingElement "pass" else root
  if !e.isNull then
    let c := e.firstChildElement "param"
    let x := { x with m_Params := x.m_Params ++
      (whileElements "param" c).map (fun c => (CParam.readFromXML c CParam.clear).2) }
    let x := { x with m_Name := readString e "name" x.m_Name }
    let x := { x with m_Refer := readString e "refer" x.m_Refer }
    let x := { x with m_Active := readBool e "active" x.m_Active }
    (true, x)
  else (false, x)

/-- The element `e` that `CPass::writeToXML` builds and appends to `root`. -/
def CPass.xmlElement (x : CPass) (host : QDomDocument) (defaults : Bool) : QDomElement :=
  let e := host.createElement "pass"
  let e := x.m_Params.foldl (fun e y => (y.writeToXML host e defaults).2) e
  let e := e.setAttribute "name" x.m_Name
  let e := e.setAttribute "refer" x.m_Refer
  let e :=
    if defaults || !x.m_Active then e.setAttribute "active" (CEntity.toString x.m_Active) else e
  e

/-- The method `CPass::writeToXML(host, root, defaults)`. -/
def CPass.writeToXML (x : CPass) (host : QDomDocument)
    (root : QDomElement) (defaults : Bool) : Bool × QDomElement :=
  if !host.isNull && !root.isNull then
    (true, root.appendChild (x.xmlElement host defaults))
  else (false, root)

/-! ## Class -/

/-- The fields of `CClass`; each list of owned objects is a list of values, in list order. -/
@[ext] structure CClass where
  m_Clearances : List CClearance
  m_Number : Int
  m_Name : String
  m_Width : ℚ
  m_Drill : ℚ
  deriving DecidableEq

/-- The state `CClass::clear()` leaves. -/
def CClass.clear : CClass :=
  { m_Clearances := [], m_Number := 0, m_Name := "", m_Width := 0, m_Drill := 0 }

/-- The method `CClass::readFromXML(root)`. -/
def CClass.readFromXML (nt : NumberText) (root : QDomElement) (x : CClass) : Bool × CClass :=
  let e := if root.nodeName != "class" then root.nextSiblingElement "class" else root
  if !e.isNull then
    let c := e.firstChildElement "clearance"
    let x := { x with m_Clearances := x.m_Clearances ++
      (whileElements "clearance" c).map (fun c => (CClearance.readFromXML nt c CClearance.clear).2) }
    let x := { x with m_Number := readInt nt e "number" x.m_Number }
    let x := { x with m_Name := readString e "name" x.m_Name }
    let x := { x with m_Width := readDouble nt e "width" x.m_Width }
    let x := { x with m_Drill := readDouble nt e "drill" x.m_Drill }
    (true, x)
  else (false, x)

/-- The element `e` that `CClass::writeToXML` builds and appends to `root`.
The source calls `root.appendChild(e)` before the last loop; `e` is a handle to the appended
node, so what the loop writes into `e` lands in that node. -/
def CClass.xmlElement (nt : NumberText) (x : CClass) (host : QDomDocument)
    (defaults : Bool) : QDomElement :=
  let e := host.createElement "class"
  let e := e.setAttribute "number" (nt.argInt x.m_Number)
  let e := e.setAttribute "name" x.m_Name
  let e :=
    if defaults || (0 : ℚ) != x.m_Width then
      e.setAttribute "width" (nt.argDouble x.m_Width)
    else e
  let e :=
    if defaults || (0 : ℚ) != x.m_Drill then
      e.setAttribute "drill" (nt.argDouble x.m_Drill)
    else e
  let e := x.m_Clearances.foldl (fun e y => (y.writeToXML nt host e defaults).2) e
  e

/-- The method `CClass::writeToXML(host, root, defaults)`. -/
def CClass.writeToXML (nt : NumberText) (x : CClass) (host : QDomDocument)
    (root : QDomElement) (defaults : Bool) : Bool × QDomElement :=
  if !host.isNull && !root.isNull then
    (true, root.appendChild (x.xmlElement nt host defaults))
  else (false, root)

/-! ## DesignRule -/

/-- The fields of `CDesignRule`; each list of owned objects is a list of values, in list order. -/
@[ext] structure CDesignRule where
  m_Descriptions : List CDescription
  m_Params : List CParam
  m_Name : String
  deriving DecidableEq

/-- The state `CDesignRule::clear()` leaves. -/
def CDesignRule.clear : CDesignRule :=
  { m_Descriptions := [], m_Params := [], m_Name := "" }

/-- The method `CDesignRule::readFromXML(root)`. -/
def CDesignRule.readFromXML (root : QDomElement) (x : CDesignRule) : Bool × CDesignRule :=
  let e := if root.nodeName != "designrules" then root.nextSiblingElement "designrules" else root
  if !e.isNull then
    let c := e.firstChildElement "description"
    let x := { x with m_Descriptions := x.m_Descriptions ++
      (whileElements "description" c).map (fun c => (CDescription.readFromXML c CDescription.clear).2) }
    let c := e.firstChildElement "param"
    let x := { x with m_Params := x.m_Params ++
      (whileElements "param" c).map (fun c => (CParam.readFromXML c CParam.clear).2) }
    let x := { x with m_Name := readString e "name" x.m_Name }
    (true, x)
  else (false, x)

/-- The method `CDesignRule::writeToXML(host, root, defaults)`: it creates no element of
its own, but sets the `name` attribute on `root` and writes the descriptions and the
parameters into `root`. -/
def CDesignRule.writeToXML (x : CDesignRule) (host : QDomDocument)
    (root : QDomElement) (defaults : Bool) : Bool × QDomElement :=
  if !host.isNull && !root.isNull then
    let root := root.setAttribute "name" x.m_Name
    let root := x.m_Descriptions.foldl (fun root y => (y.writeToXML host root defaults).2) root
    let root := x.m_Params.foldl (fun root y => (y.writeToXML host root defaults).2) root
    (true, root)
  else (false, root)

/-! ## VariantDef -/

/-- The fields of `CVariantDef`. -/
@[ext] structure CVariantDef where
  m_Name : String
  m_Current : Bool
  deriving DecidableEq

/-- The state `CVariantDef::clear()` leaves. -/
def CVariantDef.clear : CVariantDef :=
  { m_Name := "", m_Current := false }

/-- The method `CVariantDef::readFromXML(root)`. -/
def CVariantDef.readFromXML (root : QDomElement) (x : CVariantDef) : Bool × CVariantDef :=
  let e := if root.nodeName != "designrule" then root.nextSiblingElement "designrule" else root
  if !e.isNull then
    let x := { x with m_Name := readString e "name" x.m_Name }
    let x := { x with m_Current := readBool e "current" x.m_Current }
    (true, x)
  else (false, x)

/-- The element `e` that `CVariantDef::writeToXML` builds and appends to `root`. -/
def CVariantDef.xmlElement (x : CVariantDef) (host : QDomDocument)
    (defaults : Bool) : QDomElement :=
  let e := host.createElement "variantdef"
  let e := e.setAttribute "name" x.m_Name
  let e :=
    if defaults || x.m_Current then e.setAttribute "current" (CEntity.toString x.m_Current) else e
  e

/-- The method `CVariantDef::writeToXML(host, root, defaults)`. -/
def CVariantDef.writeToXML (x : CVariantDef) (host : QDomDocument)
    (root : QDomElement) (defaults : Bool) : Bool × QDomElement :=
  if !host.isNull && !root.isNull then
    (true, root.appendChild (x.xmlElement host defaults))
  else (false, root)

/-! ## Variant -/

/-- The fields of `CVariant`. -/
@[ext] structure CVariant where
  m_Name : String
  m_Populate : Bool
  m_Value : String
  m_Technology : String
  deriving DecidableEq

/-- The state `CVariant::clear()` leaves. -/
def CVariant.clear : CVariant :=
  { m_Name := "", m_Populate := true, m_Value := "", m_Technology := "" }

/-- The method `CVariant::readFromXML(root)`. -/
def CVariant.readFromXML (root : QDomElement) (x : CVariant) : Bool × CVariant :=
  let e := if root.nodeName != "variant" then root.nextSiblingElement "variant" else root
  if !e.isNull then
    let x := { x with m_Name := readString e "name" x.m_Name }
    let x := { x with m_Populate := readBool e "populate" x.m_Populate }
    let x := { x with m_Value := readString e "value" x.m_Value }
    let x := { x with m_Technology := readString e "technology" x.m_Technology }
    (true, x)
  else (false, x)

/-- The element `e` that `CVariant::writeToXML` builds and appends to `root`. -/
def CVariant.xmlElement (x : CVariant) (host : QDomDocument) (defaults : Bool) : QDomElement :=
  let e := host.createElement "variant"
  let e := e.setAttribute "name" x.m_Name
  let e :=
    if defaults || !x.m_Populate then
      e.setAttribute "populate" (CEntity.toString x.m_Populate)
    else e
  let e := e.setAttribute "value" x.m_Value
  let e := e.setAttribute "technology" x.m_Technology
  e

/-- The method `CVariant::writeToXML(host, root, defaults)`. -/
def CVariant.writeToXML (x : CVariant) (host : QDomDocument)
    (root : QDomElement) (defaults : Bool) : Bool × QDomElement :=
  if !host.isNull && !root.isNull then
    (true, root.appendChild (x.xmlElement host defaults))
  else (false, root)

/-! ## Gate -/

/-- The enumeration `CGate::AddLevel`. -/
inductive CGate.AddLevel where
  | alMust | alCan | alNext | alRequest | alAlways
  deriving DecidableEq, Repr

/-- The fields of `CGate`. -/
@[ext] structure CGate where
  m_Name : String
  m_Symbol : String
  m_X : ℚ
  m_Y : ℚ
  m_AddLevel : CGate.AddLevel
  m_SwapLevel : Int
  deriving DecidableEq

/-- The function `CGate::toString(CGate::AddLevel)`. -/
def CGate.AddLevel.toString : CGate.AddLevel → String
  | alMust => "must"
  | alCan => "can"
  | alNext => "next"
  | alRequest => "request"
  | alAlways => "always"

/-- The state `CGate::clear()` leaves. -/
def CGate.clear : CGate :=
  { m_Name := "", m_Symbol := "", m_X := 0, m_Y := 0, m_AddLevel := CGate.AddLevel.alNext,
    m_SwapLevel := 0 }

/-- The method `CGate::readFromXML(root)`. -/
def CGate.readFromXML (nt : NumberText) (root : QDomElement) (x : CGate) : Bool × CGate :=
  let e := if root.nodeName != "gate" then root.nextSiblingElement "gate" else root
  if !e.isNull then
    let x := { x with m_Name := readString e "name" x.m_Name }
    let x := { x with m_Symbol := readString e "symbol" x.m_Symbol }
    let x := { x with m_X := readDouble nt e "x" x.m_X }
    let x := { x with m_Y := readDouble nt e "y" x.m_Y }
    let s := e.attribute "addlevel"
    let x := { x with m_AddLevel :=
      if !QString.isEmpty s then
        if s = "must" then CGate.AddLevel.alMust
        else if s = "can" then CGate.AddLevel.alCan
        else if s = "next" then CGate.AddLevel.alNext
        else if s = "request" then CGate.AddLevel.alRequest
        else if s = "always" then CGate.AddLevel.alAlways
        else x.m_AddLevel
      else x.m_AddLevel }
    let x := { x with m_SwapLevel := readInt nt e "swaplevel" x.m_SwapLevel }
    (true, x)
  else (false, x)

/-- The element `e` that `CGate::writeToXML` builds and appends to `root`. -/
def CGate.xmlElement (nt : NumberText) (x : CGate) (host : QDomDocument)
    (defaults : Bool) : QDomElement :=
  let e := host.createElement "gate"
  let e := e.setAttribute "name" x.m_Name
  let e := e.setAttribute "symbol" x.m_Symbol
  let e := e.setAttribute "x" (nt.argDouble x.m_X)
  let e := e.setAttribute "y" (nt.argDouble x.m_Y)
  let e :=
    if defaults || CGate.AddLevel.alNext != x.m_AddLevel then
      e.setAttribute "addlevel" x.m_AddLevel.toString
    else e
  let e :=
    if defaults || (0 : Int) != x.m_SwapLevel then
      e.setAttribute "swaplevel" (nt.argInt x.m_SwapLevel)
    else e
  e

/-- The method `CGate::writeToXML(host, root, defaults)`. -/
def CGate.writeToXML (nt : NumberText) (x : CGate) (host : QDomDocument)
    (root : QDomElement) (defaults : Bool) : Bool × QDomElement :=
  if !host.isNull && !root.isNull then
    (true, root.appendChild (x.xmlElement nt host defaults))
  else (false, root)

/-! ## Pin -/

/-- The enumeration `CPin::Visible`. -/
inductive CPin.Visible where
  | pvOff | pvPad | pvPin | pvBoth
  deriving DecidableEq, Repr

/-- The enumeration `CPin::Length`. -/
inductive CPin.Length where
  | plPoint | plShort | plMiddle | plLong
  deriving DecidableEq, Repr

/-- The enumeration `CPin::Direction`. -/
inductive CPin.Direction where
  | pdNC | pdIN | pdOUT | pdIO | pdOC | pdPWR | pdPAS | pdHIZ | pdSUP
  deriving DecidableEq, Repr

/-- The enumeration `CPin::Function`. -/
inductive CPin.Function where
  | pfNone | pfDot | pfClk | pfDotClk
  deriving DecidableEq, Repr

/-- The fields of `CPin`. -/
@[ext] structure CPin where
  m_Name : String
  m_X : ℚ
  m_Y : ℚ
  m_Visible : CPin.Visible
  m_Length : CPin.Length
  m_Direction : CPin.Direction
  m_Function : CPin.Function
  m_SwapLevel : Int
  m_Rotation : ℚ
  deriving DecidableEq

/-- The constant `CPin::DEFAULT_VISIBLE`. -/
def CPin.DEFAULT_VISIBLE : CPin.Visible := CPin.Visible.pvBoth
/-- The constant `CPin::DEFAULT_LENGTH`. -/
def CPin.DEFAULT_LENGTH : CPin.Length := CPin.Length.plLong
/-- The constant `CPin::DEFAULT_DIRECTION`. -/
def CPin.DEFAULT_DIRECTION : CPin.Direction := CPin.Direction.pdIO
/-- The constant `CPin::DEFAULT_FUNCTION`. -/
def CPin.DEFAULT_FUNCTION : CPin.Function := CPin.Function.pfNone
/-- The constant `CPin::DEFAULT_SWAPLEVEL`. -/
def CPin.DEFAULT_SWAPLEVEL : Int := 0
/-- The constant `CPin::DEFAULT_ROTATION`. -/
def CPin.DEFAULT_ROTATION : ℚ := 0

/-- The function `CPin::toString(CPin::Visible)`. -/
def CPin.Visible.toString : CPin.Visible → String
  | pvOff => "off"
  | pvPad => "pad"
  | pvPin => "pin"
  | pvBoth => "both"

/-- The function `CPin::toString(CPin::Length)`. -/
def CPin.Length.toString : CPin.Length → String
  | plPoint => "point"
  | plShort => "short"
  | plMiddle => "middle"
  | plLong => "long"

/-- The function `CPin::toString(CPin::Direction)`. -/
def CPin.Direction.toString : CPin.Direction → String
  | pdNC => "nc"
  | pdIN => "in"
  | pdOUT => "out"
  | pdIO => "io"
  | pdOC => "oc"
  | pdPWR => "pwr"
  | pdPAS => "pas"
  | pdHIZ => "hiz"
  | pdSUP => "sup"

/-- The function `CPin::toString(CPin::Function)`. -/
def CPin.Function.toString : CPin.Function → String
  | pfNone => "none"
  | pfDot => "dot"
  | pfClk => "clk"
  | pfDotClk => "dotclk"

/-- The state `CPin::clear()` leaves. -/
def CPin.clear : CPin :=
  { m_Name := "", m_X := 0, m_Y := 0, m_Visible := CPin.DEFAULT_VISIBLE,
    m_Length := CPin.DEFAULT_LENGTH, m_Direction := CPin.DEFAULT_DIRECTION,
    m_Function := CPin.DEFAULT_FUNCTION, m_SwapLevel := CPin.DEFAULT_SWAPLEVEL,
    m_Rotation := CPin.DEFAULT_ROTATION }

/-- The method `CPin::readFromXML(root)`. -/
def CPin.readFromXML (nt : NumberText) (root : QDomElement) (x : CPin) : Bool × CPin :=
  let e := if root.nodeName != "pin" then root.nextSiblingElement "pin" else root
  if !e.isNull then
    let x := { x with m_Name := readString e "name" x.m_Name }
    let x := { x with m_X := readDouble nt e "x" x.m_X }
    let x := { x with m_Y := readDouble nt e "y" x.m_Y }
    let s := e.attribute "visible"
    let x := { x with m_Visible :=
      if !QString.isEmpty s then
        if s = "off" then CPin.Visible.pvOff
        else if s = "pad" then CPin.Visible.pvPad
        else if s = "pin" then CPin.Visible.pvPin
        else if s = "both" then CPin.Visible.pvBoth
        else x.m_Visible
      else x.m_Visible }
    let s := e.attribute "length"
    let x := { x with m_Length :=
      if !QString.isEmpty s then
        if s = "point" then CPin.Length.plPoint
        else if s = "short" then CPin.Length.plShort
        else if s = "middle" then CPin.Length.plMiddle
        else if s = "long" then CPin.Length.plLong
        else x.m_Length
      else x.m_Length }
    let s := e.attribute "direction"
    let x := { x with m_Direction :=
      if !QString.isEmpty s then
        if s = "nc" then CPin.Direction.pdNC
        else if s = "in" then CPin.Direction.pdIN
        else if s = "out" then CPin.Direction.pdOUT
        else if s = "io" then CPin.Direction.pdIO
        else if s = "oc" then CPin.Direction.pdOC
        else if s = "pwr" then CPin.Direction.pdPWR
        else if s = "pas" then CPin.Direction.pdPAS
        else if s = "hiz" then CPin.Direction.pdHIZ
        else if s = "sup" then CPin.Direction.pdSUP
        else x.m_Direction
      else x.m_Direction }
    let s := e.attribute "function"
    let x := { x with m_Function :=
      if !QString.isEmpty s then
        if s = "none" then CPin.Function.pfNone
        else if s = "dot" then CPin.Function.pfDot
        else if s = "clk" then CPin.Function.pfClk
        else if s = "dotclk" then CPin.Function.pfDotClk
        else x.m_Function
      else x.m_Function }
    let x := { x with m_SwapLevel := readInt nt e "swaplevel" x.m_SwapLevel }
    let s := e.attribute "rot"
    let x := { x with m_Rotation :=
      if !QString.isEmpty s then (decodeTransformation nt s x.m_Rotation false false).rotation
      else x.m_Rotation }
    (true, x)
  else (false, x)

/-- The element `e` that `CPin::writeToXML` builds and appends to `root`. -/
def CPin.xmlElement (nt : NumberText) (x : CPin) (host : QDomDocument)
    (defaults : Bool) : QDomElement :=
  let e := host.createElement "pin"
  let e := e.setAttribute "name" x.m_Name
  let e := e.setAttribute "x" (nt.argDouble x.m_X)
  let e := e.setAttribute "y" (nt.argDouble x.m_Y)
  let e :=
    if defaults || CPin.DEFAULT_VISIBLE != x.m_Visible then
      e.setAttribute "visible" x.m_Visible.toString
    else e
  let e :=
    if defaults || CPin.DEFAULT_LENGTH != x.m_Length then
      e.setAttribute "length" x.m_Length.toString
    else e
  let e :=
    if defaults || CPin.DEFAULT_DIRECTION != x.m_Direction then
      e.setAttribute "direction" x.m_Direction.toString
    else e
  let e :=
    if defaults || CPin.DEFAULT_FUNCTION != x.m_Function then
      e.setAttribute "function" x.m_Function.toString
    else e
  let e :=
    if defaults || CPin.DEFAULT_SWAPLEVEL != x.m_SwapLevel then
      e.setAttribute "swaplevel" (nt.argInt x.m_SwapLevel)
    else e
  let e :=
    if defaults || CPin.DEFAULT_ROTATION != x.m_Rotation then
      e.setAttribute "rot" (encodeTransformation nt x.m_Rotation false false)
    else e
  e

/-- The method `CPin::writeToXML(host, root, defaults)`. -/
def CPin.writeToXML (nt : NumberText) (x : CPin) (host : QDomDocument)
    (root : QDomElement) (defaults : Bool) : Bool × QDomElement :=
  if !host.isNull && !root.isNull then
    (true, root.appendChild (x.xmlElement nt host defaults))
  else (false, root)

/-! ## Label -/

/-- The fields of `CLabel`. -/
@[ext] structure CLabel where
  m_X : ℚ
  m_Y : ℚ
  m_Size : ℚ
  m_Layer : Int
  m_Font : CText.Font
  m_Ratio : Int
  m_Rotation : ℚ
  m_Reflection : Bool
  m_XRef : Bool
  deriving DecidableEq

/-- The constant `CLabel::DEFAULT_FONT`. -/
def CLabel.DEFAULT_FONT : CText.Font := CText.Font.tfProportional
/-- The constant `CLabel::DEFAULT_RATIO`. -/
def CLabel.DEFAULT_RATIO : Int := 8
/-- The constant `CLabel::DEFAULT_ROTATION`. -/
def CLabel.DEFAULT_ROTATION : ℚ := 0

/-- The state `CLabel::clear()` leaves. -/
def CLabel.clear : CLabel :=
  { m_X := 0, m_Y := 0, m_Size := mkRat 1 10, m_Layer := 1, m_Font := CLabel.DEFAULT_FONT,
    m_Ratio := CLabel.DEFAULT_RATIO, m_Rotation := CLabel.DEFAULT_ROTATION,
    m_Reflection := false, m_XRef := false }

/-- The method `CLabel::readFromXML(root)`. -/
def CLabel.readFromXML (nt : NumberText) (root : QDomElement) (x : CLabel) : Bool × CLabel :=
  let e := if root.nodeName != "label" then root.nextSiblingElement "label" else root
  if !e.isNull then
    let x := { x with m_X := readDouble nt e "x" x.m_X }
    let x := { x with m_Y := readDouble nt e "y" x.m_Y }
    let x := { x with m_Size := readDouble nt e "size" x.m_Size }
    let x := { x with m_Layer := readInt nt e "layer" x.m_Layer }
    let s := e.attribute "font"
    let x := { x with m_Font :=
      if !QString.isEmpty s then
        if s = "vector" then CText.Font.tfVector
        else if s = "proportional" then CText.Font.tfProportional
        else if s = "fixed" then CText.Font.tfFixed
        else x.m_Font
      else x.m_Font }
    let x := { x with m_Ratio := readInt nt e "ratio" x.m_Ratio }
    let s := e.attribute "rot"
    let r := decodeTransformation nt s x.m_Rotation x.m_Reflection false
    let x := { x with
      m_Rotation := if !QString.isEmpty s then r.rotation else x.m_Rotation
      m_Reflection := if !QString.isEmpty s then r.reflection else x.m_Reflection }
    let x := { x with m_XRef := readBool e "xref" x.m_XRef }
    (true, x)
  else (false, x)

/-- The element `e` that `CLabel::writeToXML` builds and appends to `root`.
The call `toString(m_Ratio)` has an `int` argument and only `CEntity::toString(const bool)` in
scope, so the argument is converted to `bool`. -/
def CLabel.xmlElement (nt : NumberText) (x : CLabel) (host : QDomDocument)
    (defaults : Bool) : QDomElement :=
  let e := host.createElement "label"
  let e := e.setAttribute "x" (nt.argDouble x.m_X)
  let e := e.setAttribute "y" (nt.argDouble x.m_Y)
  let e := e.setAttribute "size" (nt.argDouble x.m_Size)
  let e := e.setAttribute "layer" (nt.argInt x.m_Layer)
  let e :=
    if defaults || CLabel.DEFAULT_FONT != x.m_Font then
      e.setAttribute "font" x.m_Font.toString
    else e
  let e :=
    if defaults || CLabel.DEFAULT_RATIO != x.m_Ratio then
      e.setAttribute "ratio" (CEntity.toString (x.m_Ratio != 0))
    else e
  let e :=
    if defaults || CLabel.DEFAULT_ROTATION != x.m_Rotation || x.m_Reflection then
      e.setAttribute "rot" (encodeTransformation nt x.m_Rotation x.m_Reflection false)
    else e
  let e :=
    if defaults || x.m_XRef then e.setAttribute "xref" (CEntity.toString x.m_XRef) else e
  e

/-- The method `CLabel::writeToXML(host, root, defaults)`. -/
def CLabel.writeToXML (nt : NumberText) (x : CLabel) (host : QDomDocument)
    (root : QDomElement) (defaults : Bool) : Bool × QDomElement :=
  if !host.isNull && !root.isNull then
    (true, root.appendChild (x.xmlElement nt host defaults))
  else (false, root)

/-! ## Junction -/

/-- The fields of `CJunction`. -/
@[ext] structure CJunction where
  m_X : ℚ
  m_Y : ℚ
  deriving DecidableEq

/-- The state `CJunction::clear()` leaves. -/
def CJunction.clear : CJunction :=
  { m_X := 0, m_Y := 0 }

/-- The method `CJunction::readFromXML(root)`. -/
def CJunction.readFromXML (nt : NumberText) (root : QDomElement) (x : CJunction) :
    Bool × CJunction :=
  let e := if root.nodeName != "junction" then root.nextSiblingElement "junction" else root
  if !e.isNull then
    let x := { x with m_X := readDouble nt e "x" x.m_X }
    let x := { x with m_Y := readDouble nt e "y" x.m_Y }
    (true, x)
  else (false, x)

/-- The element `e` that `CJunction::writeToXML` builds and appends to `root`. -/
def CJunction.xmlElement (nt : NumberText) (x : CJunction) (host : QDomDocument) : QDomElement :=
  let e := host.createElement "junction"
  let e := e.setAttribute "x" (nt.argDouble x.m_X)
  let e := e.setAttribute "y" (nt.argDouble x.m_Y)
  e

/-- The method `CJunction::writeToXML(host, root, defaults)`. -/
def CJunction.writeToXML (nt : NumberText) (x : CJunction) (host : QDomDocument)
    (root : QDomElement) (_defaults : Bool) : Bool × QDomElement :=
  if !host.isNull && !root.isNull then
    (true, root.appendChild (x.xmlElement nt host))
  else (false, root)

/-! ## Attribute -/

/-- The enumeration `CAttribute::Display`. -/
inductive CAttribute.Display where
  | adOff | adValue | adName | adBoth
  deriving DecidableEq, Repr

/-- The fields of `CAttribute`; the member `m_Align`, which no code of the library touches, is
left out. -/
@[ext] structure CAttribute where
  m_Name : String
  m_Value : String
  m_X : ℚ
  m_Y : ℚ
  m_Size : ℚ
  m_Layer : Int
  m_Font : CText.Font
  m_Ratio : Int
  m_Rotation : ℚ
  m_Reflection : Bool
  m_Display : CAttribute.Display
  m_Constant : Bool
  deriving DecidableEq

/-- The constant `CAttribute::DEFAULT_ROTATION`. -/
def CAttribute.DEFAULT_ROTATION : ℚ := 0
/-- The constant `CAttribute::DEFAULT_DISPLAY`. -/
def CAttribute.DEFAULT_DISPLAY : CAttribute.Display := CAttribute.Display.adValue

/-- The function `CAttribute::toString(CAttribute::Display)`. -/
def CAttribute.Display.toString : CAttribute.Display → String
  | adOff => "off"
  | adValue => "value"
  | adName => "name"
  | adBoth => "both"

/-- The state `CAttribute::clear()` leaves. -/
def CAttribute.clear : CAttribute :=
  { m_Name := "", m_Value := "", m_X := 0, m_Y := 0, m_Size := mkRat 1 10, m_Layer := 1,
    m_Font := CText.Font.tfProportional, m_Ratio := 8,
    m_Rotation := CAttribute.DEFAULT_ROTATION, m_Reflection := false,
    m_Display := CAttribute.DEFAULT_DISPLAY, m_Constant := false }

/-- The method `CAttribute::readFromXML(root)`. -/
def CAttribute.readFromXML (nt : NumberText) (root : QDomElement) (x : CAttribute) :
    Bool × CAttribute :=
  let e := if root.nodeName != "attribute" then root.nextSiblingElement "attribute" else root
  if !e.isNull then
    let x := { x with m_Name := readString e "name" x.m_Name }
    let x := { x with m_Value := readString e "value" x.m_Value }
    let x := { x with m_X := readDouble nt e "x" x.m_X }
    let x := { x with m_Y := readDouble nt e "y" x.m_Y }
    let x := { x with m_Size := readDouble nt e "size" x.m_Size }
    let x := { x with m_Layer := readInt nt e "layer" x.m_Layer }
    let s := e.attribute "font"
    let x := { x with m_Font :=
      if !QString.isEmpty s then
        if s = "vector" then CText.Font.tfVector
        else if s = "proportional" then CText.Font.tfProportional
        else if s = "fixed" then CText.Font.tfFixed
        else x.m_Font
      else x.m_Font }
    let x := { x with m_Ratio := readInt nt e "ratio" x.m_Ratio }
    let s := e.attribute "rot"
    let r := decodeTransformation nt s x.m_Rotation x.m_Reflection false
    let x := { x with
      m_Rotation := if !QString.isEmpty s then r.rotation else x.m_Rotation
      m_Reflection := if !QString.isEmpty s then r.reflection else x.m_Reflection }
    let s := e.attribute "display"
    let x := { x with m_Display :=
      if !QString.isEmpty s then
        if s = "off" then CAttribute.Display.adOff
        else if s = "value" then CAttribute.Display.adValue
        else if s = "name" then CAttribute.Display.adName
        else if s = "both" then CAttribute.Display.adBoth
        else x.m_Display
      else x.m_Display }
    let x := { x with m_Constant := readBool e "constant" x.m_Constant }
    (true, x)
  else (false, x)

/-- The element `e` that `CAttribute::writeToXML` builds and appends to `root`. -/
def CAttribute.xmlElement (nt : NumberText) (x : CAttribute) (host : QDomDocument)
    (defaults : Bool) : QDomElement :=
  let e := host.createElement "attribute"
  let e := e.setAttribute "name" x.m_Name
  let e :=
    if defaults || !QString.isEmpty x.m_Value then e.setAttribute "value" x.m_Value else e
  let e := e.setAttribute "x" (nt.argDouble x.m_X)
  let e := e.setAttribute "y" (nt.argDouble x.m_Y)
  let e := e.setAttribute "size" (nt.argDouble x.m_Size)
  let e := e.setAttribute "layer" (nt.argInt x.m_Layer)
  let e :=
    if defaults || CText.DEFAULT_FONT != x.m_Font then
      e.setAttribute "font" x.m_Font.toString
    else e
  let e :=
    if defaults || CText.DEFAULT_RATIO != x.m_Ratio then
      e.setAttribute "ratio" (nt.argInt x.m_Ratio)
    else e
  let e :=
    if defaults || CAttribute.DEFAULT_ROTATION != x.m_Rotation || x.m_Reflection then
      e.setAttribute "rot" (encodeTransformation nt x.m_Rotation x.m_Reflection false)
    else e
  let e :=
    if defaults || CAttribute.DEFAULT_DISPLAY != x.m_Display then
      e.setAttribute "display" x.m_Display.toString
    else e
  let e :=
    if defaults || x.m_Constant then
      e.setAttribute "constant" (CEntity.toString x.m_Constant)
    else e
  e

/-- The method `CAttribute::writeToXML(host, root, defaults)`. -/
def CAttribute.writeToXML (nt : NumberText) (x : CAttribute) (host : QDomDocument)
    (root : QDomElement) (defaults : Bool) : Bool × QDomElement :=
  if !host.isNull && !root.isNull then
    (true, root.appendChild (x.xmlElement nt host defaults))
  else (false, root)

/-! ## PinRef -/

/-- The fields of `CPinRef`. -/
@[ext] structure CPinRef where
  m_Part : String
  m_Gate : String
  m_Pin : String
  deriving DecidableEq

/-- The state `CPinRef::clear()` leaves. -/
def CPinRef.clear : CPinRef :=
  { m_Part := "", m_Gate := "", m_Pin := "" }

/-- The method `CPinRef::readFromXML(root)`. -/
def CPinRef.readFromXML (root : QDomElement) (x : CPinRef) : Bool × CPinRef :=
  let e := if root.nodeName != "pinref" then root.nextSiblingElement "pinref" else root
  if !e.isNull then
    let x := { x with m_Part := readString e "part" x.m_Part }
    let x := { x with m_Gate := readString e "gate" x.m_Gate }
    let x := { x with m_Pin := readString e "pin" x.m_Pin }
    (true, x)
  else (false, x)

/-- The element `e` that `CPinRef::writeToXML` builds and appends to `root`. -/
def CPinRef.xmlElement (x : CPinRef) (host : QDomDocument) : QDomElement :=
  let e := host.createElement "pinref"
  let e := e.setAttribute "part" x.m_Part
  let e := e.setAttribute "gate" x.m_Gate
  let e := e.setAttribute "pin" x.m_Pin
  e

/-- The method `CPinRef::writeToXML(host, root, defaults)`. -/
def CPinRef.writeToXML (x : CPinRef) (host : QDomDocument)
    (root : QDomElement) (_defaults : Bool) : Bool × QDomElement :=
  if !host.isNull && !root.isNull then
    (true, root.appendChild (x.xmlElement host))
  else (false, root)

/-! ## Technology -/

/-- The fields of `CTechnology`; each list of owned objects is a list of values, in list order. -/
@[ext] structure CTechnology where
  m_Attributes : List CAttribute
  m_Name : String
  deriving DecidableEq

/-- The state `CTechnology::clear()` leaves. -/
def CTechnology.clear : CTechnology :=
  { m_Attributes := [], m_Name := "" }

/-- The method `CTechnology::readFromXML(root)`. -/
def CTechnology.readFromXML (nt : NumberText) (root : QDomElement) (x : CTechnology) :
    Bool × CTechnology :=
  let e := if root.nodeName != "technology" then root.nextSiblingElement "technology" else root
  if !e.isNull then
    let c := e.firstChildElement "attributes"
    let x := { x with m_Attributes :=
      if !c.isNull then
        x.m_Attributes ++
          (whileElements "attribute" (c.firstChildElement "attribute")).map (fun cc =>
            (CAttribute.readFromXML nt cc CAttribute.clear).2)
      else x.m_Attributes }
    let x := { x with m_Name := readString e "name" x.m_Name }
    (true, x)
  else (false, x)

/-- The element `e` that `CTechnology::writeToXML` builds and appends to `root`. -/
def CTechnology.xmlElement (nt : NumberText) (x : CTechnology) (host : QDomDocument)
    (defaults : Bool) : QDomElement :=
  let e := host.createElement "technology"
  let e := e.setAttribute "name" x.m_Name
  let e := x.m_Attributes.foldl (fun e y => (y.writeToXML nt host e defaults).2) e
  e

/-- The method `CTechnology::writeToXML(host, root, defaults)`. -/
def CTechnology.writeToXML (nt : NumberText) (x : CTechnology) (host : QDomDocument)
    (root : QDomElement) (defaults : Bool) : Bool × QDomElement :=
  if !host.isNull && !root.isNull then
    (true, root.appendChild (x.xmlElement nt host defaults))
  else (false, root)

/-! ## Instance -/

/-- The fields of `CInstance`; each list of owned objects is a list of values, in list order. -/
@[ext] structure CInstance where
  m_Attributes : List CAttribute
  m_Part : String
  m_Gate : String
  m_X : ℚ
  m_Y : ℚ
  m_Smashed : Bool
  m_Rotation : ℚ
  m_Reflection : Bool
  m_Spin : Bool
  deriving DecidableEq

/-- The constant `CInstance::DEFAULT_ROTATION`. -/
def CInstance.DEFAULT_ROTATION : ℚ := 0

/-- The state `CInstance::clear()` leaves. -/
def CInstance.clear : CInstance :=
  { m_Attributes := [], m_Part := "", m_Gate := "", m_X := 0, m_Y := 0, m_Smashed := false,
    m_Rotation := 0, m_Reflection := false, m_Spin := false }

/-- The method `CInstance::readFromXML(root)`. -/
def CInstance.readFromXML (nt : NumberText) (root : QDomElement) (x : CInstance) :
    Bool × CInstance :=
  let e := if root.nodeName != "instance" then root.nextSiblingElement "instance" else root
  if !e.isNull then
    let c := e.firstChildElement "attribute"
    let x := { x with m_Attributes := x.m_Attributes ++
      (whileElements "attribute" c).map (fun c => (CAttribute.readFromXML nt c CAttribute.clear).2) }
    let x := { x with m_Part := readString e "part" x.m_Part }
    let x := { x with m_Gate := readString e "gate" x.m_Gate }
    let x := { x with m_X := readDouble nt e "x" x.m_X }
    let x := { x with m_Y := readDouble nt e "y" x.m_Y }
    let x := { x with m_Smashed := readBool e "smashed" x.m_Smashed }
    let s := e.attribute "rot"
    let r := decodeTransformation nt s x.m_Rotation x.m_Reflection x.m_Spin
    let x := { x with
      m_Rotation := if !QString.isEmpty s then r.rotation else x.m_Rotation
      m_Reflection := if !QString.isEmpty s then r.reflection else x.m_Reflection
      m_Spin := if !QString.isEmpty s then r.spin else x.m_Spin }
    (true, x)
  else (false, x)

/-- The element `e` that `CInstance::writeToXML` builds and appends to `root`. -/
def CInstance.xmlElement (nt : NumberText) (x : CInstance) (host : QDomDocument)
    (defaults : Bool) : QDomElement :=
  let e := host.createElement "instance"
  let e := e.setAttribute "part" x.m_Part
  let e := e.setAttribute "gate" x.m_Gate
  let e := e.setAttribute "x" (nt.argDouble x.m_X)
  let e := e.setAttribute "y" (nt.argDouble x.m_Y)
  let e :=
    if defaults || x.m_Smashed then e.setAttribute "smashed" (CEntity.toString x.m_Smashed) else e
  let e :=
    if defaults || CAttribute.DEFAULT_ROTATION != x.m_Rotation || x.m_Reflection || x.m_Spin then
      e.setAttribute "rot" (encodeTransformation nt x.m_Rotation x.m_Reflection x.m_Spin)
    else e
  let e := x.m_Attributes.foldl (fun e y => (y.writeToXML nt host e defaults).2) e
  e

/-- The method `CInstance::writeToXML(host, root, defaults)`. -/
def CInstance.writeToXML (nt : NumberText) (x : CInstance) (host : QDomDocument)
    (root : QDomElement) (defaults : Bool) : Bool × QDomElement :=
  if !host.isNull && !root.isNull then
    (true, root.appendChild (x.xmlElement nt host defaults))
  else (false, root)

/-! ## Part -/

/-- The fields of `CPart`; each list of owned objects is a list of values, in list order. -/
@[ext] structure CPart where
  m_Attributes : List CAttribute
  m_Variants : List CVariant
  m_Name : String
  m_Library : String
  m_DeviceSet : String
  m_Device : String
  m_Technology : String
  m_Value : String
  deriving DecidableEq

/-- The state `CPart::clear()` leaves. -/
def CPart.clear : CPart :=
  { m_Attributes := [], m_Variants := [], m_Name := "", m_Library := "", m_DeviceSet := "",
    m_Device := "", m_Technology := "", m_Value := "" }

/-- The method `CPart::readFromXML(root)`. -/
def CPart.readFromXML (nt : NumberText) (root : QDomElement) (x : CPart) : Bool × CPart :=
  let e := if root.nodeName != "part" then root.nextSiblingElement "part" else root
  if !e.isNull then
    let c := e.firstChildElement "attibute"
    let x := { x with m_Attributes := x.m_Attributes ++
      (whileElements "attribute" c).map (fun c => (CAttribute.readFromXML nt c CAttribute.clear).2) }
    let c := e.firstChildElement "variant"
    let x := { x with m_Variants := x.m_Variants ++
      (whileElements "variant" c).map (fun c => (CVariant.readFromXML c CVariant.clear).2) }
    let x := { x with m_Name := readString e "name" x.m_Name }
    let x := { x with m_Library := readString e "library" x.m_Library }
    let x := { x with m_DeviceSet := readString e "deviceset" x.m_DeviceSet }
    let x := { x with m_Device := readString e "device" x.m_Device }
    let x := { x with m_Technology := readString e "technology" x.m_Technology }
    let x := { x with m_Value := readString e "value" x.m_Value }
    (true, x)
  else (false, x)

/-- The element `e` that `CPart::writeToXML` builds and appends to `root`. -/
def CPart.xmlElement (nt : NumberText) (x : CPart) (host : QDomDocument)
    (defaults : Bool) : QDomElement :=
  let e := host.createElement "part"
  let e := e.setAttribute "name" x.m_Name
  let e := e.setAttribute "library" x.m_Library
  let e := e.setAttribute "deviceset" x.m_DeviceSet
  let e := e.setAttribute "device" x.m_Device
  let e :=
    if defaults || !QString.isEmpty x.m_Technology then
      e.setAttribute "technology" x.m_Technology
    else e
  let e :=
    if defaults || !QString.isEmpty x.m_Value then e.setAttribute "value" x.m_Value else e
  let e := x.m_Attributes.foldl (fun e y => (y.writeToXML nt host e defaults).2) e
  let e := x.m_Variants.foldl (fun e y => (y.writeToXML host e defaults).2) e
  e

/-- The method `CPart::writeToXML(host, root, defaults)`. -/
def CPart.writeToXML (nt : NumberText) (x : CPart) (host : QDomDocument)
    (root : QDomElement) (defaults : Bool) : Bool × QDomElement :=
  if !host.isNull && !root.isNull then
    (true, root.appendChild (x.xmlElement nt host defaults))
  else (false, root)

/-! ## Element -/

/-- The fields of `CElement`; each list of owned objects is a list of values, in list order. -/
@[ext] structure CElement where
  m_Attributes : List CAttribute
  m_Variants : List CVariant
  m_Name : String
  m_Library : String
  m_Package : String
  m_Value : String
  m_X : ℚ
  m_Y : ℚ
  m_Locked : Bool
  m_Smashed : Bool
  m_Rotation : ℚ
  m_Reflection : Bool
  deriving DecidableEq

/-- The constant `CElement::DEFAULT_ROTATION`. -/
def CElement.DEFAULT_ROTATION : ℚ := 0

/-- The state `CElement::clear()` leaves. -/
def CElement.clear : CElement :=
  { m_Attributes := [], m_Variants := [], m_Name := "", m_Library := "", m_Package := "",
    m_Value := "", m_X := 0, m_Y := 0, m_Locked := false, m_Smashed := false,
    m_Rotation := 0, m_Reflection := false }

/-- The method `CElement::readFromXML(root)`. -/
def CElement.readFromXML (nt : NumberText) (root : QDomElement) (x : CElement) : Bool × CElement :=
  let e := if root.nodeName != "element" then root.nextSiblingElement "element" else root
  if !e.isNull then
    let c := e.firstChildElement "attribute"
    let x := { x with m_Attributes := x.m_Attributes ++
      (whileElements "attribute" c).map (fun c => (CAttribute.readFromXML nt c CAttribute.clear).2) }
    let c := e.firstChildElement "variant"
    let x := { x with m_Variants := x.m_Variants ++
      (whileElements "variant" c).map (fun c => (CVariant.readFromXML c CVariant.clear).2) }
    let x := { x with m_Name := readString e "name" x.m_Name }
    let x := { x with m_Library := readString e "library" x.m_Library }
    let x := { x with m_Package := readString e "package" x.m_Package }
    let x := { x with m_Value := readString e "value" x.m_Value }
    let x := { x with m_X := readDouble nt e "x" x.m_X }
    let x := { x with m_Y := readDouble nt e "y" x.m_Y }
    let x := { x with m_Locked := readBool e "locked" x.m_Locked }
    let x := { x with m_Smashed := readBool e "smashed" x.m_Smashed }
    let s := e.attribute "rot"
    let r := decodeTransformation nt s x.m_Rotation x.m_Reflection false
    let x := { x with
      m_Rotation := if !QString.isEmpty s then r.rotation else x.m_Rotation
      m_Reflection := if !QString.isEmpty s then r.reflection else x.m_Reflection }
    (true, x)
  else (false, x)

/-- The element `e` that `CElement::writeToXML` builds and appends to `root`. -/
def CElement.xmlElement (nt : NumberText) (x : CElement) (host : QDomDocument)
    (defaults : Bool) : QDomElement :=
  let e := host.createElement "element"
  let e := e.setAttribute "name" x.m_Name
  let e := e.setAttribute "library" x.m_Library
  let e := e.setAttribute "package" x.m_Package
  let e := e.setAttribute "value" x.m_Value
  let e := e.setAttribute "x" (nt.argDouble x.m_X)
  let e := e.setAttribute "y" (nt.argDouble x.m_Y)
  let e :=
    if defaults || x.m_Locked then e.setAttribute "locked" (CEntity.toString x.m_Locked) else e
  let e :=
    if defaults || x.m_Smashed then e.setAttribute "smashed" (CEntity.toString x.m_Smashed) else e
  let e :=
    if defaults || CElement.DEFAULT_ROTATION != x.m_Rotation || x.m_Reflection then
      e.setAttribute "rot" (encodeTransformation nt x.m_Rotation x.m_Reflection false)
    else e
  let e := x.m_Attributes.foldl (fun e y => (y.writeToXML nt host e defaults).2) e
  let e := x.m_Variants.foldl (fun e y => (y.writeToXML host e defaults).2) e
  e

/-- The method `CElement::writeToXML(host, root, defaults)`. -/
def CElement.writeToXML (nt : NumberText) (x : CElement) (host : QDomDocument)
    (root : QDomElement) (defaults : Bool) : Bool × QDomElement :=
  if !host.isNull && !root.isNull then
    (true, root.appendChild (x.xmlElement nt host defaults))
  else (false, root)

/-! ## Segment -/

/-- The fields of `CSegment`; each list of owned objects is a list of values, in list order. -/
@[ext] structure CSegment where
  m_PinRefs : List CPinRef
  m_Wires : List CWire
  m_Junctions : List CJunction
  m_Labels : List CLabel
  deriving DecidableEq

/-- The state `CSegment::clear()` leaves. -/
def CSegment.clear : CSegment :=
  { m_PinRefs := [], m_Wires := [], m_Junctions := [], m_Labels := [] }

/-- The method `CSegment::readFromXML(root)`. -/
def CSegment.readFromXML (nt : NumberText) (root : QDomElement) (x : CSegment) : Bool × CSegment :=
  let e := if root.nodeName != "segment" then root.nextSiblingElement "segment" else root
  if !e.isNull then
    let c := e.firstChildElement "pinref"
    let x := { x with m_PinRefs := x.m_PinRefs ++
      (whileElements "pinref" c).map (fun c => (CPinRef.readFromXML c CPinRef.clear).2) }
    let c := e.firstChildElement "wire"
    let x := { x with m_Wires := x.m_Wires ++
      (whileElements "wire" c).map (fun c => (CWire.readFromXML nt c CWire.clear).2) }
    let c := e.firstChildElement "junction"
    let x := { x with m_Junctions := x.m_Junctions ++
      (whileElements "junction" c).map (fun c => (CJunction.readFromXML nt c CJunction.clear).2) }
    let c := e.firstChildElement "label"
    let x := { x with m_Labels := x.m_Labels ++
      (whileElements "label" c).map (fun c => (CLabel.readFromXML nt c CLabel.clear).2) }
    (true, x)
  else (false, x)

/-- The element `e` that `CSegment::writeToXML` builds and appends to `root`. -/
def CSegment.xmlElement (nt : NumberText) (x : CSegment) (host : QDomDocument)
    (defaults : Bool) : QDomElement :=
  let e := host.createElement "segment"
  let e := x.m_PinRefs.foldl (fun e y => (y.writeToXML host e defaults).2) e
  let e := x.m_Wires.foldl (fun e y => (y.writeToXML nt host e defaults).2) e
  let e := x.m_Junctions.foldl (fun e y => (y.writeToXML nt host e defaults).2) e
  let e := x.m_Labels.foldl (fun e y => (y.writeToXML nt host e defaults).2) e
  e

/-- The method `CSegment::writeToXML(host, root, defaults)`. -/
def CSegment.writeToXML (nt : NumberText) (x : CSegment) (host : QDomDocument)
    (root : QDomElement) (defaults : Bool) : Bool × QDomElement :=
  if !host.isNull && !root.isNull then
    (true, root.appendChild (x.xmlElement nt host defaults))
  else (false, root)

/-! ## Net -/

/-- The fields of `CNet`; each list of owned objects is a list of values, in list order. -/
@[ext] structure CNet where
  m_Segments : List CSegment
  m_Name : String
  m_Class : Int
  deriving DecidableEq

/-- The constant `CNet::DEFAULT_CLASS`. -/
def CNet.DEFAULT_CLASS : Int := 0

/-- The state `CNet::clear()` leaves. -/
def CNet.clear : CNet :=
  { m_Segments := [], m_Name := "", m_Class := 0 }

/-- The method `CNet::readFromXML(root)`. -/
def CNet.readFromXML (nt : NumberText) (root : QDomElement) (x : CNet) : Bool × CNet :=
  let e := if root.nodeName != "net" then root.nextSiblingElement "net" else root
  if !e.isNull then
    let c := e.firstChildElement "segment"
    let x := { x with m_Segments := x.m_Segments ++
      (whileElements "segment" c).map (fun c => (CSegment.readFromXML nt c CSegment.clear).2) }
    let x := { x with m_Name := readString e "name" x.m_Name }
    let x := { x with m_Class := readInt nt e "class" x.m_Class }
    (true, x)
  else (false, x)

/-- The element `e` that `CNet::writeToXML` builds and appends to `root`. -/
def CNet.xmlElement (nt : NumberText) (x : CNet) (host : QDomDocument)
    (defaults : Bool) : QDomElement :=
  let e := host.createElement "net"
  let e := e.setAttribute "name" x.m_Name
  let e :=
    if defaults || CNet.DEFAULT_CLASS != x.m_Class then
      e.setAttribute "class" (nt.argInt x.m_Class)
    else e
  let e := x.m_Segments.foldl (fun e y => (y.writeToXML nt host e defaults).2) e
  e

/-- The method `CNet::writeToXML(host, root, defaults)`. -/
def CNet.writeToXML (nt : NumberText) (x : CNet) (host : QDomDocument)
    (root : QDomElement) (defaults : Bool) : Bool × QDomElement :=
  if !host.isNull && !root.isNull then
    (true, root.appendChild (x.xmlElement nt host defaults))
  else (false, root)

/-! ## Bus -/

/-- The fields of `CBus`; each list of owned objects is a list of values, in list order. -/
@[ext] structure CBus where
  m_Segments : List CSegment
  m_Name : String
  deriving DecidableEq

/-- The state `CBus::clear()` leaves. -/
def CBus.clear : CBus :=
  { m_Segments := [], m_Name := "" }

/-- The method `CBus::readFromXML(root)`. -/
def CBus.readFromXML (nt : NumberText) (root : QDomElement) (x : CBus) : Bool × CBus :=
  let e := if root.nodeName != "bus" then root.nextSiblingElement "bus" else root
  if !e.isNull then
    let c := e.firstChildElement "segment"
    let x := { x with m_Segments := x.m_Segments ++
      (whileElements "segment" c).map (fun c => (CSegment.readFromXML nt c CSegment.clear).2) }
    let x := { x with m_Name := readString e "name" x.m_Name }
    (true, x)
  else (false, x)

/-- The element `e` that `CBus::writeToXML` builds and appends to `root`. -/
def CBus.xmlElement (nt : NumberText) (x : CBus) (host : QDomDocument)
    (defaults : Bool) : QDomElement :=
  let e := host.createElement "bus"
  let e := e.setAttribute "name" x.m_Name
  let e := x.m_Segments.foldl (fun e y => (y.writeToXML nt host e defaults).2) e
  e

/-- The method `CBus::writeToXML(host, root, defaults)`. -/
def CBus.writeToXML (nt : NumberText) (x : CBus) (host : QDomDocument)
    (root : QDomElement) (defaults : Bool) : Bool × QDomElement :=
  if !host.isNull && !root.isNull then
    (true, root.appendChild (x.xmlElement nt host defaults))
  else (false, root)

/-! ## Device -/

/-- The fields of `CDevice`; each list of owned objects is a list of values, in list order. -/
@[ext] structure CDevice where
  m_Connects : List CConnect
  m_Technologies : List CTechnology
  m_Name : String
  m_Package : String
  deriving DecidableEq

/-- The state `CDevice::clear()` leaves. -/
def CDevice.clear : CDevice :=
  { m_Connects := [], m_Technologies := [], m_Name := "", m_Package := "" }

/-- The method `CDevice::readFromXML(root)`. -/
def CDevice.readFromXML (nt : NumberText) (root : QDomElement) (x : CDevice) : Bool × CDevice :=
  let e := if root.nodeName != "device" then root.nextSiblingElement "device" else root
  if !e.isNull then
    let c := e.firstChildElement "connects"
    let x := { x with m_Connects :=
      if !c.isNull then
        x.m_Connects ++
          (whileElements "connect" (c.firstChildElement "connect")).map (fun cc =>
            (CConnect.readFromXML cc CConnect.clear).2)
      else x.m_Connects }
    let c := e.firstChildElement "technologies"
    let x := { x with m_Technologies :=
      if !c.isNull then
        x.m_Technologies ++
          (whileElements "technology" (c.firstChildElement "technology")).map (fun cc =>
            (CTechnology.readFromXML nt cc CTechnology.clear).2)
      else x.m_Technologies }
    let x := { x with m_Name := readString e "name" x.m_Name }
    let x := { x with m_Package := readString e "package" x.m_Package }
    (true, x)
  else (false, x)

/-- The element `e` that `CDevice::writeToXML` builds and appends to `root`. -/
def CDevice.xmlElement (nt : NumberText) (x : CDevice) (host : QDomDocument)
    (defaults : Bool) : QDomElement :=
  let e := host.createElement "device"
  let e := e.setAttribute "name" x.m_Name
  let e :=
    if defaults || !QString.isEmpty x.m_Package then e.setAttribute "package" x.m_Package else e
  let c := host.createElement "connects"
  let c := x.m_Connects.foldl (fun c y => (y.writeToXML host c defaults).2) c
  let e := e.appendChild c
  let c := host.createElement "technologies"
  let c := x.m_Technologies.foldl (fun c y => (y.writeToXML nt host c defaults).2) c
  let e := e.appendChild c
  e

/-- The method `CDevice::writeToXML(host, root, defaults)`. -/
def CDevice.writeToXML (nt : NumberText) (x : CDevice) (host : QDomDocument)
    (root : QDomElement) (defaults : Bool) : Bool × QDomElement :=
  if !host.isNull && !root.isNull then
    (true, root.appendChild (x.xmlElement nt host defaults))
  else (false, root)

/-! ## DeviceSet -/

/-- The fields of `CDeviceSet`; each list of owned objects is a list of values, in list order. -/
@[ext] structure CDeviceSet where
  m_Description : CDescription
  m_Gates : List CGate
  m_Devices : List CDevice
  m_Name : String
  m_Prefix : String
  m_UserValue : Bool
  deriving DecidableEq

/-- The state `CDeviceSet::clear()` leaves. -/
def CDeviceSet.clear : CDeviceSet :=
  { m_Description := CDescription.clear, m_Gates := [], m_Devices := [], m_Name := "",
    m_Prefix := "", m_UserValue := false }

/-- The method `CDeviceSet::readFromXML(root)`. -/
def CDeviceSet.readFromXML (nt : NumberText) (root : QDomElement) (x : CDeviceSet) :
    Bool × CDeviceSet :=
  let e := if root.nodeName != "deviceset" then root.nextSiblingElement "deviceset" else root
  if !e.isNull then
    let c := e.firstChildElement "description"
    let x := { x with m_Description :=
      if !c.isNull then (x.m_Description.readFromXML c).2 else x.m_Description }
    let c := e.firstChildElement "gates"
    let x := { x with m_Gates :=
      if !c.isNull then
        x.m_Gates ++
          (whileElements "gate" (c.firstChildElement "gate")).map (fun cc =>
            (CGate.readFromXML nt cc CGate.clear).2)
      else x.m_Gates }
    let c := e.firstChildElement "devices"
    let x := { x with m_Devices :=
      if !c.isNull then
        x.m_Devices ++
          (whileElements "device" (c.firstChildElement "device")).map (fun cc =>
            (CDevice.readFromXML nt cc CDevice.clear).2)
      else x.m_Devices }
    let x := { x with m_Name := readString e "name" x.m_Name }
    let x := { x with m_Prefix := readString e "prefix" x.m_Prefix }
    let x := { x with m_UserValue := readBool e "uservalue" x.m_UserValue }
    (true, x)
  else (true, x)

/-- The element `e` that `CDeviceSet::writeToXML` builds and appends to `root`. -/
def CDeviceSet.xmlElement (nt : NumberText) (x : CDeviceSet) (host : QDomDocument)
    (defaults : Bool) : QDomElement :=
  let e := host.createElement "deviceset"
  let e := e.setAttribute "name" x.m_Name
  let e :=
    if defaults || !QString.isEmpty x.m_Prefix then e.setAttribute "prefix" x.m_Prefix else e
  let e :=
    if defaults || x.m_UserValue then
      e.setAttribute "uservalue" (CEntity.toString x.m_UserValue)
    else e
  let e := (x.m_Description.writeToXML host e defaults).2
  let c := host.createElement "gates"
  let c := x.m_Gates.foldl (fun c y => (y.writeToXML nt host c defaults).2) c
  let e := e.appendChild c
  let c := host.createElement "devices"
  let c := x.m_Devices.foldl (fun c y => (y.writeToXML nt host c defaults).2) c
  let e := e.appendChild c
  e

/-- The method `CDeviceSet::writeToXML(host, root, defaults)`. -/
def CDeviceSet.writeToXML (nt : NumberText) (x : CDeviceSet) (host : QDomDocument)
    (root : QDomElement) (defaults : Bool) : Bool × QDomElement :=
  if !host.isNull && !root.isNull then
    (true, root.appendChild (x.xmlElement nt host defaults))
  else (false, root)

/-! ## Symbol -/

/-- The fields of `CSymbol`; each list of owned objects is a list of values, in list order. -/
@[ext] structure CSymbol where
  m_Description : CDescription
  m_Polygons : List CPolygon
  m_Wires : List CWire
  m_Texts : List CText
  m_Dimensions : List CDimension
  m_Pins : List CPin
  m_Circles : List CCircle
  m_Rectangles : List CRectangle
  m_Frames : List CFrame
  m_Name : String
  deriving DecidableEq

/-- The state `CSymbol::clear()` leaves. -/
def CSymbol.clear : CSymbol :=
  { m_Description := CDescription.clear, m_Polygons := [], m_Wires := [], m_Texts := [],
    m_Dimensions := [], m_Pins := [], m_Circles := [], m_Rectangles := [], m_Frames := [],
    m_Name := "" }

/-- The method `CSymbol::readFromXML(root)`. -/
def CSymbol.readFromXML (nt : NumberText) (root : QDomElement) (x : CSymbol) : Bool × CSymbol :=
  let e := if root.nodeName != "symbol" then root.nextSiblingElement "symbol" else root
  if !e.isNull then
    let c := e.firstChildElement "description"
    let x := { x with m_Description :=
      if !c.isNull then (x.m_Description.readFromXML c).2 else x.m_Description }
    let c := e.firstChildElement "polygon"
    let x := { x with m_Polygons := x.m_Polygons ++
      (whileElements "polygon" c).map (fun c => (CPolygon.readFromXML nt c CPolygon.clear).2) }
    let c := e.firstChildElement "wire"
    let x := { x with m_Wires := x.m_Wires ++
      (whileElements "wire" c).map (fun c => (CWire.readFromXML nt c CWire.clear).2) }
    let c := e.firstChildElement "text"
    let x := { x with m_Texts := x.m_Texts ++
      (whileElements "text" c).map (fun c => (CText.readFromXML nt c CText.clear).2) }
    let c := e.firstChildElement "dimension"
    let x := { x with m_Dimensions := x.m_Dimensions ++
      (whileElements "dimension" c).map (fun c => (CDimension.readFromXML nt c CDimension.clear).2) }
    let c := e.firstChildElement "pin"
    let x := { x with m_Pins := x.m_Pins ++
      (whileElements "pin" c).map (fun c => (CPin.readFromXML nt c CPin.clear).2) }
    let c := e.firstChildElement "circle"
    let x := { x with m_Circles := x.m_Circles ++
      (whileElements "circle" c).map (fun c => (CCircle.readFromXML nt c CCircle.clear).2) }
    let c := e.firstChildElement "rectangle"
    let x := { x with m_Rectangles := x.m_Rectangles ++
      (whileElements "rectangle" c).map (fun c => (CRectangle.readFromXML nt c CRectangle.clear).2) }
    let c := e.firstChildElement "frame"
    let x := { x with m_Frames := x.m_Frames ++
      (whileElements "frame" c).map (fun c => (CFrame.readFromXML nt c CFrame.clear).2) }
    let x := { x with m_Name := readString e "name" x.m_Name }
    (true, x)
  else (true, x)

/-- The element `e` that `CSymbol::writeToXML` builds and appends to `root`. -/
def CSymbol.xmlElement (nt : NumberText) (x : CSymbol) (host : QDomDocument)
    (defaults : Bool) : QDomElement :=
  let e := host.createElement "symbol"
  let e := e.setAttribute "name" x.m_Name
  let e := (x.m_Description.writeToXML host e defaults).2
  let e := x.m_Polygons.foldl (fun e y => (y.writeToXML nt host e defaults).2) e
  let e := x.m_Wires.foldl (fun e y => (y.writeToXML nt host e defaults).2) e
  let e := x.m_Texts.foldl (fun e y => (y.writeToXML nt host e defaults).2) e
  let e := x.m_Dimensions.foldl (fun e y => (y.writeToXML nt host e defaults).2) e
  let e := x.m_Pins.foldl (fun e y => (y.writeToXML nt host e defaults).2) e
  let e := x.m_Circles.foldl (fun e y => (y.writeToXML nt host e defaults).2) e
  let e := x.m_Rectangles.foldl (fun e y => (y.writeToXML nt host e defaults).2) e
  let e := x.m_Frames.foldl (fun e y => (y.writeToXML nt host e defaults).2) e
  e

/-- The method `CSymbol::writeToXML(host, root, defaults)`. -/
def CSymbol.writeToXML (nt : NumberText) (x : CSymbol) (host : QDomDocument)
    (root : QDomElement) (defaults : Bool) : Bool × QDomElement :=
  if !host.isNull && !root.isNull then
    (true, root.appendChild (x.xmlElement nt host defaults))
  else (false, root)

/-! ## Sheet -/

/-- The fields of `CSheet`; each list of owned objects is a list of values, in list order. -/
@[ext] structure CSheet where
  m_Description : CDescription
  m_Plain : CPlain
  m_Instances : List CInstance
  m_Busses : List CBus
  m_Nets : List CNet
  deriving DecidableEq

/-- The state `CSheet::clear()` leaves. -/
def CSheet.clear : CSheet :=
  { m_Description := CDescription.clear, m_Plain := CPlain.clear, m_Instances := [],
    m_Busses := [], m_Nets := [] }

/-- The method `CSheet::readFromXML(root)`. -/
def CSheet.readFromXML (nt : NumberText) (root : QDomElement) (x : CSheet) : Bool × CSheet :=
  let e := if root.nodeName != "sheet" then root.nextSiblingElement "sheet" else root
  if !e.isNull then
    let c := e.firstChildElement "description"
    let x := { x with m_Description :=
      if !c.isNull then (x.m_Description.readFromXML c).2 else x.m_Description }
    let c := e.firstChildElement "plain"
    let x := { x with m_Plain :=
      if !c.isNull then (x.m_Plain.readFromXML nt c).2 else x.m_Plain }
    let c := e.firstChildElement "instances"
    let x := { x with m_Instances :=
      if !c.isNull then
        x.m_Instances ++
          (whileElements "instance" (c.firstChildElement "instance")).map (fun cc =>
            (CInstance.readFromXML nt cc CInstance.clear).2)
      else x.m_Instances }
    let c := e.firstChildElement "busses"
    let x := { x with m_Busses :=
      if !c.isNull then
        x.m_Busses ++
          (whileElements "bus" (c.firstChildElement "bus")).map (fun cc =>
            (CBus.readFromXML nt cc CBus.clear).2)
      else x.m_Busses }
    let c := e.firstChildElement "nets"
    let x := { x with m_Nets :=
      if !c.isNull then
        x.m_Nets ++
          (whileElements "net" (c.firstChildElement "net")).map (fun cc =>
            (CNet.readFromXML nt cc CNet.clear).2)
      else x.m_Nets }
    (true, x)
  else (true, x)

/-- The element `e` that `CSheet::writeToXML` builds and appends to `root`. -/
def CSheet.xmlElement (nt : NumberText) (x : CSheet) (host : QDomDocument)
    (defaults : Bool) : QDomElement :=
  let e := host.createElement "sheet"
  let e := (x.m_Description.writeToXML host e defaults).2
  let e := (x.m_Plain.writeToXML nt host e defaults).2
  let c := host.createElement "instances"
  let c := x.m_Instances.foldl (fun c y => (y.writeToXML nt host c defaults).2) c
  let e := e.appendChild c
  let c := host.createElement "busses"
  let c := x.m_Busses.foldl (fun c y => (y.writeToXML nt host c defaults).2) c
  let e := e.appendChild c
  let c := host.createElement "nets"
  let c := x.m_Nets.foldl (fun c y => (y.writeToXML nt host c defaults).2) c
  let e := e.appendChild c
  e

/-- The method `CSheet::writeToXML(host, root, defaults)`. -/
def CSheet.writeToXML (nt : NumberText) (x : CSheet) (host : QDomDocument)
    (root : QDomElement) (defaults : Bool) : Bool × QDomElement :=
  if !host.isNull && !root.isNull then
    (true, root.appendChild (x.xmlElement nt host defaults))
  else (false, root)

/-! ## Library -/

/-- The fields of `CLibrary`; each list of owned objects is a list of values, in list order. -/
@[ext] structure CLibrary where
  m_Description : CDescription
  m_Packages : List CPackage
  m_Symbols : List CSymbol
  m_DeviceSets : List CDeviceSet
  m_Name : String
  deriving DecidableEq

/-- The state `CLibrary::clear()` leaves. -/
def CLibrary.clear : CLibrary :=
  { m_Description := CDescription.clear, m_Packages := [], m_Symbols := [],
    m_DeviceSets := [], m_Name := "" }

/-- The method `CLibrary::readFromXML(root)`. The local `result` starts as `false`, becomes
`true` when the element is found, and is and-ed with the return value of every package,
symbol and device set read (`rs` holds the return values and objects of one loop); the
return value of the description read is not used. -/
def CLibrary.readFromXML (nt : NumberText) (root : QDomElement) (x : CLibrary) :
    Bool × CLibrary :=
  let result := false
  let e := if root.nodeName != "library" then root.nextSiblingElement "library" else root
  if !e.isNull then
    let result := true
    let c := e.firstChildElement "description"
    let x := { x with m_Description :=
      if !c.isNull then (x.m_Description.readFromXML c).2 else x.m_Description }
    let c := e.firstChildElement "packages"
    let rs :=
      if !c.isNull then
        (whileElements "package" (c.firstChildElement "package")).map
          (fun cc => CPackage.readFromXML nt cc CPackage.clear)
      else []
    let x := { x with m_Packages := x.m_Packages ++ rs.map Prod.snd }
    let result := result && rs.all Prod.fst
    let c := e.firstChildElement "symbols"
    let rs :=
      if !c.isNull then
        (whileElements "symbol" (c.firstChildElement "symbol")).map
          (fun cc => CSymbol.readFromXML nt cc CSymbol.clear)
      else []
    let x := { x with m_Symbols := x.m_Symbols ++ rs.map Prod.snd }
    let result := result && rs.all Prod.fst
    let c := e.firstChildElement "devicesets"
    let rs :=
      if !c.isNull then
        (whileElements "deviceset" (c.firstChildElement "deviceset")).map
          (fun cc => CDeviceSet.readFromXML nt cc CDeviceSet.clear)
      else []
    let x := { x with m_DeviceSets := x.m_DeviceSets ++ rs.map Prod.snd }
    let result := result && rs.all Prod.fst
    let x := { x with m_Name := readString e "name" x.m_Name }
    (result, x)
  else (result, x)

/-- The element `e` that `CLibrary::writeToXML` builds and appends to `root`. -/
def CLibrary.xmlElement (nt : NumberText) (x : CLibrary) (host : QDomDocument)
    (defaults : Bool) : QDomElement :=
  let e := host.createElement "library"
  let e := e.setAttribute "name" x.m_Name
  let e := (x.m_Description.writeToXML host e defaults).2
  let c := host.createElement "packages"
  let c := x.m_Packages.foldl (fun c y => (y.writeToXML nt host c defaults).2) c
  let e := e.appendChild c
  let c := host.createElement "symbols"
  let c := x.m_Symbols.foldl (fun c y => (y.writeToXML nt host c defaults).2) c
  let e := e.appendChild c
  let c := host.createElement "devicesets"
  let c := x.m_DeviceSets.foldl (fun c y => (y.writeToXML nt host c defaults).2) c
  let e := e.appendChild c
  e

/-- The method `CLibrary::writeToXML(host, root, defaults)`. -/
def CLibrary.writeToXML (nt : NumberText) (x : CLibrary) (host : QDomDocument)
    (root : QDomElement) (defaults : Bool) : Bool × QDomElement :=
  if !host.isNull && !root.isNull then
    (true, root.appendChild (x.xmlElement nt host defaults))
  else (false, root)

/-! ## Board -/

/-- The fields of `CBoard`; each list of owned objects is a list of values, in list order. -/
@[ext] structure CBoard where
  m_Description : CDescription
  m_Plain : CPlain
  m_Libraries : List CLibrary
  m_Attributes : List CAttribute
  m_VariantDefs : List CVariantDef
  m_Classes : List CClass
  m_DesignRules : CDesignRule
  m_Passes : List CPass
  m_Elements : List CElement
  m_Signals : List CSignal
  m_Errors : List CApproved
  deriving DecidableEq

/-- The state `CBoard::clear()` leaves. -/
def CBoard.clear : CBoard :=
  { m_Description := CDescription.clear, m_Plain := CPlain.clear, m_Libraries := [],
    m_Attributes := [], m_VariantDefs := [], m_Classes := [],
    m_DesignRules := CDesignRule.clear, m_Passes := [], m_Elements := [], m_Signals := [],
    m_Errors := [] }

/-- The method `CBoard::readFromXML(root)`. -/
def CBoard.readFromXML (nt : NumberText) (root : QDomElement) (x : CBoard) : Bool × CBoard :=
  let e := if root.nodeName != "board" then root.nextSiblingElement "board" else root
  if !e.isNull then
    let c := e.firstChildElement "description"
    let x := { x with m_Description :=
      if !c.isNull then (x.m_Description.readFromXML c).2 else x.m_Description }
    let c := e.firstChildElement "plain"
    let x := { x with m_Plain :=
      if !c.isNull then (x.m_Plain.readFromXML nt c).2 else x.m_Plain }
    let c := e.firstChildElement "libraries"
    let x := { x with m_Libraries :=
      if !c.isNull then
        x.m_Libraries ++
          (whileElements "library" (c.firstChildElement "library")).map (fun cc =>
            (CLibrary.readFromXML nt cc CLibrary.clear).2)
      else x.m_Libraries }
    let c := e.firstChildElement "attributes"
    let x := { x with m_Attributes :=
      if !c.isNull then
        x.m_Attributes ++
          (whileElements "attribute" (c.firstChildElement "attribute")).map (fun cc =>
            (CAttribute.readFromXML nt cc CAttribute.clear).2)
      else x.m_Attributes }
    let c := e.firstChildElement "variantdefs"
    let x := { x with m_VariantDefs :=
      if !c.isNull then
        x.m_VariantDefs ++
          (whileElements "variantdef" (c.firstChildElement "variantdef")).map (fun cc =>
            (CVariantDef.readFromXML cc CVariantDef.clear).2)
      else x.m_VariantDefs }
    let c := e.firstChildElement "classes"
    let x := { x with m_Classes :=
      if !c.isNull then
        x.m_Classes ++
          (whileElements "class" (c.firstChildElement "class")).map (fun cc =>
            (CClass.readFromXML nt cc CClass.clear).2)
      else x.m_Classes }
    let c := e.firstChildElement "designrules"
    let x := { x with m_DesignRules :=
      if !c.isNull then (x.m_DesignRules.readFromXML c).2 else x.m_DesignRules }
    let c := e.firstChildElement "autorouter"
    let x := { x with m_Passes :=
      if !c.isNull then
        x.m_Passes ++
          (whileElements "pass" (c.firstChildElement "pass")).map (fun cc =>
            (CPass.readFromXML cc CPass.clear).2)
      else x.m_Passes }
    let c := e.firstChildElement "elements"
    let x := { x with m_Elements :=
      if !c.isNull then
        x.m_Elements ++
          (whileElements "element" (c.firstChildElement "element")).map (fun cc =>
            (CElement.readFromXML nt cc CElement.clear).2)
      else x.m_Elements }
    let c := e.firstChildElement "signals"
    let x := { x with m_Signals :=
      if !c.isNull then
        x.m_Signals ++
          (whileElements "signal" (c.firstChildElement "signal")).map (fun cc =>
            (CSignal.readFromXML nt cc CSignal.clear).2)
      else x.m_Signals }
    let c := e.firstChildElement "errors"
    let x := { x with m_Errors :=
      if !c.isNull then
        x.m_Errors ++
          (whileElements "approved" (c.firstChildElement "approved")).map (fun cc =>
            (CApproved.readFromXML cc CApproved.clear).2)
      else x.m_Errors }
    (true, x)
  else (true, x)

/-- The element `e` that `CBoard::writeToXML` builds and appends to `root`. -/
def CBoard.xmlElement (nt : NumberText) (x : CBoard) (host : QDomDocument)
    (defaults : Bool) : QDomElement :=
  let e := host.createElement "board"
  let e := (x.m_Description.writeToXML host e defaults).2
  let e := (x.m_Plain.writeToXML nt host e defaults).2
  let c := host.createElement "libraries"
  let c := x.m_Libraries.foldl (fun c y => (y.writeToXML nt host c defaults).2) c
  let e := e.appendChild c
  let c := host.createElement "attributes"
  let c := x.m_Attributes.foldl (fun c y => (y.writeToXML nt host c defaults).2) c
  let e := e.appendChild c
  let c := host.createElement "variantdefs"
  let c := x.m_VariantDefs.foldl (fun c y => (y.writeToXML host c defaults).2) c
  let e := e.appendChild c
  let c := host.createElement "classes"
  let c := x.m_Classes.foldl (fun c y => (y.writeToXML nt host c defaults).2) c
  let e := e.appendChild c
  let c := host.createElement "designrules"
  let c := (x.m_DesignRules.writeToXML host c defaults).2
  let e := e.appendChild c
  let c := host.createElement "autorouter"
  let c := x.m_Passes.foldl (fun c y => (y.writeToXML host c defaults).2) c
  let e := e.appendChild c
  let c := host.createElement "elements"
  let c := x.m_Elements.foldl (fun c y => (y.writeToXML nt host c defaults).2) c
  let e := e.appendChild c
  let c := host.createElement "signals"
  let c := x.m_Signals.foldl (fun c y => (y.writeToXML nt host c defaults).2) c
  let e := e.appendChild c
  let c := host.createElement "errors"
  let c := x.m_Errors.foldl (fun c y => (y.writeToXML host c defaults).2) c
  let e := e.appendChild c
  e

/-- The method `CBoard::writeToXML(host, root, defaults)`. -/
def CBoard.writeToXML (nt : NumberText) (x : CBoard) (host : QDomDocument)
    (root : QDomElement) (defaults : Bool) : Bool × QDomElement :=
  if !host.isNull && !root.isNull then
    (true, root.appendChild (x.xmlElement nt host defaults))
  else (false, root)

/-! ## Schematic -/

/-- The fields of `CSchematic`; each list of owned objects is a list of values, in list order. -/
@[ext] structure CSchematic where
  m_Description : CDescription
  m_Libraries : List CLibrary
  m_Attributes : List CAttribute
  m_VariantDefs : List CVariantDef
  m_Classes : List CClass
  m_Parts : List CPart
  m_Sheets : List CSheet
  m_Errors : List CApproved
  m_XRefLabel : String
  m_XRefPart : String
  deriving DecidableEq

/-- The state `CSchematic::clear()` leaves. -/
def CSchematic.clear : CSchematic :=
  { m_Description := CDescription.clear, m_Libraries := [], m_Attributes := [],
    m_VariantDefs := [], m_Classes := [], m_Parts := [], m_Sheets := [], m_Errors := [],
    m_XRefLabel := "", m_XRefPart := "" }

/-- The method `CSchematic::readFromXML(root)`.
The attribute `xreflabel` is read from `c`, the handle of the last child looked up, not from `e`.
The attribute `xrefpart` is read from `c`, the handle of the last child looked up, not from `e`. -/
def CSchematic.readFromXML (nt : NumberText) (root : QDomElement) (x : CSchematic) :
    Bool × CSchematic :=
  let e := if root.nodeName != "schematic" then root.nextSiblingElement "schematic" else root
  if !e.isNull then
    let c := e.firstChildElement "description"
    let x := { x with m_Description :=
      if !c.isNull then (x.m_Description.readFromXML c).2 else x.m_Description }
    let c := e.firstChildElement "libraries"
    let x := { x with m_Libraries :=
      if !c.isNull then
        x.m_Libraries ++
          (whileElements "library" (c.firstChildElement "library")).map (fun cc =>
            (CLibrary.readFromXML nt cc CLibrary.clear).2)
      else x.m_Libraries }
    let c := e.firstChildElement "attributes"
    let x := { x with m_Attributes :=
      if !c.isNull then
        x.m_Attributes ++
          (whileElements "attribute" (c.firstChildElement "attribute")).map (fun cc =>
            (CAttribute.readFromXML nt cc CAttribute.clear).2)
      else x.m_Attributes }
    let c := e.firstChildElement "variantdefs"
    let x := { x with m_VariantDefs :=
      if !c.isNull then
        x.m_VariantDefs ++
          (whileElements "variantdef" (c.firstChildElement "variantdef")).map (fun cc =>
            (CVariantDef.readFromXML cc CVariantDef.clear).2)
      else x.m_VariantDefs }
    let c := e.firstChildElement "classes"
    let x := { x with m_Classes :=
      if !c.isNull then
        x.m_Classes ++
          (whileElements "class" (c.firstChildElement "class")).map (fun cc =>
            (CClass.readFromXML nt cc CClass.clear).2)
      else x.m_Classes }
    let c := e.firstChildElement "parts"
    let x := { x with m_Parts :=
      if !c.isNull then
        x.m_Parts ++
          (whileElements "part" (c.firstChildElement "part")).map (fun cc =>
            (CPart.readFromXML nt cc CPart.clear).2)
      else x.m_Parts }
    let c := e.firstChildElement "sheets"
    let x := { x with m_Sheets :=
      if !c.isNull then
        x.m_Sheets ++
          (whileElements "sheet" (c.firstChildElement "sheet")).map (fun cc =>
            (CSheet.readFromXML nt cc CSheet.clear).2)
      else x.m_Sheets }
    let c := e.firstChildElement "errors"
    let x := { x with m_Errors :=
      if !c.isNull then
        x.m_Errors ++
          (whileElements "approved" (c.firstChildElement "approved")).map (fun cc =>
            (CApproved.readFromXML cc CApproved.clear).2)
      else x.m_Errors }
    let x := { x with m_XRefLabel := readString c "xreflabel" x.m_XRefLabel }
    let x := { x with m_XRefPart := readString c "xrefpart" x.m_XRefPart }
    (true, x)
  else (true, x)

/-- The element `e` that `CSchematic::writeToXML` builds and appends to `root`. -/
def CSchematic.xmlElement (nt : NumberText) (x : CSchematic) (host : QDomDocument)
    (defaults : Bool) : QDomElement :=
  let e := host.createElement "schematic"
  let e := e.setAttribute "xreflabel" x.m_XRefLabel
  let e := e.setAttribute "xrefpart" x.m_XRefPart
  let e := (x.m_Description.writeToXML host e defaults).2
  let c := host.createElement "libraries"
  let c := x.m_Libraries.foldl (fun c y => (y.writeToXML nt host c defaults).2) c
  let e := e.appendChild c
  let c := host.createElement "attributes"
  let c := x.m_Attributes.foldl (fun c y => (y.writeToXML nt host c defaults).2) c
  let e := e.appendChild c
  let c := host.createElement "variantdefs"
  let c := x.m_VariantDefs.foldl (fun c y => (y.writeToXML host c defaults).2) c
  let e := e.appendChild c
  let c := host.createElement "classes"
  let c := x.m_Classes.foldl (fun c y => (y.writeToXML nt host c defaults).2) c
  let e := e.appendChild c
  let c := host.createElement "parts"
  let c := x.m_Parts.foldl (fun c y => (y.writeToXML nt host c defaults).2) c
  let e := e.appendChild c
  let c := host.createElement "sheets"
  let c := x.m_Sheets.foldl (fun c y => (y.writeToXML nt host c defaults).2) c
  let e := e.appendChild c
  let c := host.createElement "errors"
  let c := x.m_Errors.foldl (fun c y => (y.writeToXML host c defaults).2) c
  let e := e.appendChild c
  e

/-- The method `CSchematic::writeToXML(host, root, defaults)`. -/
def CSchematic.writeToXML (nt : NumberText) (x : CSchematic) (host : QDomDocument)
    (root : QDomElement) (defaults : Bool) : Bool × QDomElement :=
  if !host.isNull && !root.isNull then
    (true, root.appendChild (x.xmlElement nt host defaults))
  else (false, root)

/-! ## Drawing -/

/-- The enumeration `CDrawing::Mode`. -/
inductive CDrawing.Mode where
  | dmLibrary | dmSchematic | dmBoard | dmMixed
  deriving DecidableEq, Repr

/-- The fields of `CDrawing`; each list of owned objects is a list of values, in list order. -/
@[ext] structure CDrawing where
  m_Settings : CSettings
  m_Grid : CGrid
  m_Layers : List CLayer
  m_Library : CLibrary
  m_Schematic : CSchematic
  m_Board : CBoard
  m_Mode : CDrawing.Mode
  deriving DecidableEq

/-- The state `CDrawing::clear()` leaves. -/
def CDrawing.clear : CDrawing :=
  { m_Settings := CSettings.clear, m_Grid := CGrid.clear, m_Layers := [],
    m_Library := CLibrary.clear, m_Schematic := CSchematic.clear, m_Board := CBoard.clear,
    m_Mode := CDrawing.Mode.dmMixed }

/-- The method `CDrawing::readFromXML(root)`. The local `result` starts as `true` and is
and-ed with the return value of every read (`rs` holds the return values and objects of
the layer loop); the mode is set from the three flags only when the `drawing` element
was found. -/
def CDrawing.readFromXML (nt : NumberText) (root : QDomElement) (x : CDrawing) :
    Bool × CDrawing :=
  let result := true
  let e := if root.nodeName != "drawing" then root.nextSiblingElement "drawing" else root
  if !e.isNull then
    let c := e.firstChildElement "settings"
    let r := if !c.isNull then x.m_Settings.readFromXML c else (true, x.m_Settings)
    let x := { x with m_Settings := r.2 }
    let result := result && r.1
    let c := e.firstChildElement "grid"
    let r := if !c.isNull then x.m_Grid.readFromXML nt c else (true, x.m_Grid)
    let x := { x with m_Grid := r.2 }
    let result := result && r.1
    let c := e.firstChildElement "layers"
    let rs :=
      if !c.isNull then
        (whileElements "layer" (c.firstChildElement "layer")).map
          (fun cc => CLayer.readFromXML nt cc CLayer.clear)
      else []
    let x := { x with m_Layers := x.m_Layers ++ rs.map Prod.snd }
    let result := result && rs.all Prod.fst
    let c := e.firstChildElement "library"
    let r := if !c.isNull then x.m_Library.readFromXML nt c else (true, x.m_Library)
    let x := { x with m_Library := r.2 }
    let result := result && r.1
    let is_library := !c.isNull
    let c := e.firstChildElement "schematic"
    let r := if !c.isNull then x.m_Schematic.readFromXML nt c else (true, x.m_Schematic)
    let x := { x with m_Schematic := r.2 }
    let result := result && r.1
    let is_schematic := !c.isNull
    let c := e.firstChildElement "board"
    let r := if !c.isNull then x.m_Board.readFromXML nt c else (true, x.m_Board)
    let x := { x with m_Board := r.2 }
    let result := result && r.1
    let is_board := !c.isNull
    let x := { x with m_Mode :=
      if is_library && !is_schematic && !is_board then CDrawing.Mode.dmLibrary
      else if !is_library && is_schematic && !is_board then CDrawing.Mode.dmSchematic
      else if !is_library && !is_schematic && is_board then CDrawing.Mode.dmBoard
      else CDrawing.Mode.dmMixed }
    (result, x)
  else (result, x)

/-- The element `e` that `CDrawing::writeToXML` builds and appends to `root`. -/
def CDrawing.xmlElement (nt : NumberText) (x : CDrawing) (host : QDomDocument)
    (defaults : Bool) : QDomElement :=
  let e := host.createElement "drawing"
  let e := (x.m_Settings.writeToXML host e defaults).2
  let e := (x.m_Grid.writeToXML nt host e defaults).2
  let c := host.createElement "layers"
  let c := x.m_Layers.foldl (fun c y => (y.writeToXML nt host c defaults).2) c
  let e := e.appendChild c
  let e :=
    if CDrawing.Mode.dmLibrary == x.m_Mode || CDrawing.Mode.dmMixed == x.m_Mode then
      (x.m_Library.writeToXML nt host e defaults).2
    else e
  let e :=
    if CDrawing.Mode.dmSchematic == x.m_Mode || CDrawing.Mode.dmMixed == x.m_Mode then
      (x.m_Schematic.writeToXML nt host e defaults).2
    else e
  let e :=
    if CDrawing.Mode.dmBoard == x.m_Mode || CDrawing.Mode.dmMixed == x.m_Mode then
      (x.m_Board.writeToXML nt host e defaults).2
    else e
  e

/-- The method `CDrawing::writeToXML(host, root, defaults)`. -/
def CDrawing.writeToXML (nt : NumberText) (x : CDrawing) (host : QDomDocument)
    (root : QDomElement) (defaults : Bool) : Bool × QDomElement :=
  if !host.isNull && !root.isNull then
    (true, root.appendChild (x.xmlElement nt host defaults))
  else (false, root)

/-! ## Note -/

/-- The enumeration `CNote::Severity`. -/
inductive CNote.Severity where
  | nsInfo | nsWarning | nsError
  deriving DecidableEq, Repr

/-- The fields of `CNote`. -/
@[ext] structure CNote where
  m_Note : String
  m_Version : ℚ
  m_Severity : CNote.Severity
  deriving DecidableEq

/-- The function `CNote::toString(CNote::Severity)`. -/
def CNote.Severity.toString : CNote.Severity → String
  | nsInfo => "info"
  | nsWarning => "warning"
  | nsError => "error"

/-- The state `CNote::clear()` leaves. -/
def CNote.clear : CNote :=
  { m_Note := "", m_Version := EAGLE_DTD_VERSION, m_Severity := CNote.Severity.nsInfo }

/-- The method `CNote::readFromXML(root)`: the note is the value of the first text node
among the children, taken as it is. -/
def CNote.readFromXML (nt : NumberText) (root : QDomElement) (x : CNote) : Bool × CNote :=
  let e := if root.nodeName != "note" then root.nextSiblingElement "note" else root
  if !e.isNull then
    let x :=
      match firstText e.childNodes with
      | some nodeValue => { x with m_Note := nodeValue }
      | none => x
    let x := { x with m_Version := readDouble nt e "version" x.m_Version }
    let s := e.attribute "severity"
    let x := { x with m_Severity :=
      if !QString.isEmpty s then
        if s = "info" then CNote.Severity.nsInfo
        else if s = "warning" then CNote.Severity.nsWarning
        else if s = "error" then CNote.Severity.nsError
        else x.m_Severity
      else x.m_Severity }
    (true, x)
  else (false, x)

/-- The element `e` that `CNote::writeToXML` builds and appends to `root`. -/
def CNote.xmlElement (nt : NumberText) (x : CNote) (host : QDomDocument) : QDomElement :=
  let e := host.createElement "note"
  let e := e.setAttribute "version" (nt.argDouble x.m_Version)
  let e := e.setAttribute "severity" x.m_Severity.toString
  let n := host.createTextNode x.m_Note
  let e := e.appendChild n
  e

/-- The method `CNote::writeToXML(host, root, defaults)`. -/
def CNote.writeToXML (nt : NumberText) (x : CNote) (host : QDomDocument)
    (root : QDomElement) (_defaults : Bool) : Bool × QDomElement :=
  if !host.isNull && !root.isNull then
    (true, root.appendChild (x.xmlElement nt host))
  else (false, root)

/-! ## Compatibility -/

/-- The fields of `CCompatibility`; each list of owned objects is a list of values, in list
order. -/
@[ext] structure CCompatibility where
  m_Notes : List CNote
  deriving DecidableEq

/-- The state `CCompatibility::clear()` leaves. -/
def CCompatibility.clear : CCompatibility :=
  { m_Notes := [] }

/-- The method `CCompatibility::readFromXML(root)`. -/
def CCompatibility.readFromXML (nt : NumberText) (root : QDomElement) (x : CCompatibility) :
    Bool × CCompatibility :=
  let e := if root.nodeName != "compatibility" then root.nextSiblingElement "compatibility" else root
  if !e.isNull then
    let c := e.firstChildElement "note"
    let x := { x with m_Notes := x.m_Notes ++
      (whileElements "note" c).map (fun c => (CNote.readFromXML nt c CNote.clear).2) }
    (true, x)
  else (false, x)

/-- The element `e` that `CCompatibility::writeToXML` builds when there are notes. -/
def CCompatibility.xmlElement (nt : NumberText) (x : CCompatibility) (host : QDomDocument)
    (defaults : Bool) : QDomElement :=
  let e := host.createElement "compatibility"
  let e := x.m_Notes.foldl (fun e y => (y.writeToXML nt host e defaults).2) e
  e

/-- The method `CCompatibility::writeToXML(host, root, defaults)`: nothing is appended
when the list of notes is empty. -/
def CCompatibility.writeToXML (nt : NumberText) (x : CCompatibility) (host : QDomDocument)
    (root : QDomElement) (defaults : Bool) : Bool × QDomElement :=
  if !host.isNull && !root.isNull then
    if x.m_Notes.length > 0 then (true, root.appendChild (x.xmlElement nt host defaults))
    else (true, root)
  else (false, root)

/-! ## EagleDocument -/

/-- The fields of `CEagleDocument`. -/
@[ext] structure CEagleDocument where
  m_PreNotes : CCompatibility
  m_Drawing : CDrawing
  m_PostNotes : CCompatibility
  m_Version : ℚ
  m_VerifyDocType : Bool
  m_Indentation : Int
  m_WriteDefaults : Bool
  m_ValidDocType : Bool
  m_ValidXMLdata : Bool
  deriving DecidableEq

/-- The state `CEagleDocument::clear()` leaves; the members `m_ValidDocType` and
`m_ValidXMLdata` are not assigned and keep the value they had. -/
def CEagleDocument.clear (x : CEagleDocument) : CEagleDocument :=
  { x with
    m_PreNotes := CCompatibility.clear, m_Drawing := CDrawing.clear,
    m_PostNotes := CCompatibility.clear, m_Version := EAGLE_DTD_VERSION,
    m_VerifyDocType := true, m_Indentation := 0, m_WriteDefaults := true }

/-- The method `CEagleDocument::readFromXML(root)`. The `do ... while` loop visits `root`
and then the later siblings named `eagle`, and stops at the first visited node whose name
is `eagle` (a null `root` is visited too, and its name is empty). There the version
becomes `version_string.toDouble()`, which is 0 when the text is not a number, and the
return value is that of the drawing read when there is a `drawing` child. -/
def CEagleDocument.readFromXML (nt : NumberText) (root : QDomElement) (x : CEagleDocument) :
    Bool × CEagleDocument :=
  let result := false
  match (whileElements "eagle" root).find? (fun e => e.nodeName == "eagle") with
  | some e =>
    let version_string := e.attributeOr "version" (nt.argDouble x.m_Version)
    let x := { x with m_Version := (nt.toDouble version_string).getD 0 }
    let e := e.firstChildElement "drawing"
    if !e.isNull then
      let r := x.m_Drawing.readFromXML nt e
      (r.1, { x with m_Drawing := r.2 })
    else (result, x)
  | none => (result, x)

/-- The method `CEagleDocument::writeToXML(host, root, defaults)`. There is no guard and
`root` is not used: the `eagle` element `e` is appended to the document `host`, and the
second component here is that element after the three writes into it. -/
def CEagleDocument.writeToXML (nt : NumberText) (x : CEagleDocument) (host : QDomDocument)
    (_root : QDomElement) (defaults : Bool) : Bool × QDomElement :=
  let e := host.createElement "eagle"
  let e := e.setAttribute "version" (nt.argDouble x.m_Version)
  let e := (x.m_PreNotes.writeToXML nt host e defaults).2
  let e := (x.m_Drawing.writeToXML nt host e defaults).2
  let e := (x.m_PostNotes.writeToXML nt host e defaults).2
  (true, e)

/-- Whether a node is an element named `tagName`. -/
def DomTree.isElementNamed (tagName : String) : DomTree → Bool
  | DomTree.element n _ _ => n == tagName
  | DomTree.text _ => false

/-- A cleared Board that holds exactly one Element, cleared but for the four strings. -/
def boardWithElement (name library package value : String) : CBoard :=
  { CBoard.clear with
    m_Elements :=
      [{ CElement.clear with
         m_Name := name, m_Library := library, m_Package := package, m_Value := value }] }

/-! ## Copying

The `assign` methods and the copy constructors. An object is a value here, so a copy of a
list of owned objects is the list of the copies. -/

/-- The method `CSettings::assign(settings)`. -/
def CSettings.assign (x : CSettings) (settings : CSettings) : CSettings :=
  let x := { x with m_AlwaysVectorFont := settings.m_AlwaysVectorFont }
  let x := { x with m_VerticalText := settings.m_VerticalText }
  x

/-- The copy constructor `CSettings(const CSettings&)`: `assign` on the new object, whose
lists and strings are empty and whose other members `assign` sets. -/
def CSettings.copy (settings : CSettings) : CSettings :=
  CSettings.assign CSettings.clear settings

/-- The method `CGrid::assign(grid)`. -/
def CGrid.assign (x : CGrid) (grid : CGrid) : CGrid :=
  let x := { x with m_Distance := grid.m_Distance }
  let x := { x with m_UnitDist := grid.m_UnitDist }
  let x := { x with m_Unit := grid.m_Unit }
  let x := { x with m_Style := grid.m_Style }
  let x := { x with m_Multiple := grid.m_Multiple }
  let x := { x with m_Display := grid.m_Display }
  let x := { x with m_AltDistance := grid.m_AltDistance }
  let x := { x with m_AltUnitDist := grid.m_AltUnitDist }
  let x := { x with m_AltUnit := grid.m_AltUnit }
  x

/-- The method `CLayer::assign(layer)`. -/
def CLayer.assign (x : CLayer) (layer : CLayer) : CLayer :=
  let x := { x with m_Layer := layer.m_Layer }
  let x := { x with m_Name := layer.m_Name }
  let x := { x with m_Color := layer.m_Color }
  let x := { x with m_Fill := layer.m_Fill }
  let x := { x with m_Visible := layer.m_Visible }
  let x := { x with m_Active := layer.m_Active }
  x

/-- The copy constructor `CLayer(const CLayer&)`: `assign` on the new object, whose lists
and strings are empty and whose other members `assign` sets. -/
def CLayer.copy (layer : CLayer) : CLayer :=
  CLayer.assign CLayer.clear layer

/-- The method `CClearance::assign(clearance)`. -/
def CClearance.assign (x : CClearance) (clearance : CClearance) : CClearance :=
  let x := { x with m_Class := clearance.m_Class }
  let x := { x with m_Value := clearance.m_Value }
  x

/-- The copy constructor `CClearance(const CClearance&)`: `assign` on the new object, whose
lists and strings are empty and whose other members `assign` sets. -/
def CClearance.copy (clearance : CClearance) : CClearance :=
  CClearance.assign CClearance.clear clearance

/-- The method `CDescription::assign(description)`. -/
def CDescription.assign (x : CDescription) (description : CDescription) : CDescription :=
  let x := { x with m_Description := description.m_Description }
  let x := { x with m_Language := description.m_Language }
  x

/-- The copy constructor `CDescription(const CDescription&)`: `assign` on the new object,
whose lists and strings are empty and whose other members `assign` sets. -/
def CDescription.copy (description : CDescription) : CDescription :=
  CDescription.assign CDescription.clear description

/-- The method `CParam::assign(param)`. -/
def CParam.assign (x : CParam) (param : CParam) : CParam :=
  let x := { x with m_Name := param.m_Name }
  let x := { x with m_Value := param.m_Value }
  x

/-- The copy constructor `CParam(const CParam&)`: `assign` on the new object, whose lists
and strings are empty and whose other members `assign` sets. -/
def CParam.copy (param : CParam) : CParam :=
  CParam.assign CParam.clear param

/-- The method `CApproved::assign(error)`. -/
def CApproved.assign (x : CApproved) (error : CApproved) : CApproved :=
  let x := { x with m_Hash := error.m_Hash }
  x

/-- The copy constructor `CApproved(const CApproved&)`: `assign` on the new object, whose
lists and strings are empty and whose other members `assign` sets. -/
def CApproved.copy (error : CApproved) : CApproved :=
  CApproved.assign CApproved.clear error

/-- The method `CPass::assign(pass)`. The leading `clear()` discards the prior state `_x`.
-/
def CPass.assign (_x : CPass) (pass : CPass) : CPass :=
  let x := CPass.clear
  let x := { x with m_Params := x.m_Params ++ pass.m_Params.map CParam.copy }
  let x := { x with m_Name := pass.m_Name }
  let x := { x with m_Refer := pass.m_Refer }
  let x := { x with m_Active := pass.m_Active }
  x

/-- The copy constructor `CPass(const CPass&)`: `assign` on the new object, whose lists and
strings are empty and whose other members `assign` resets with `clear()`. -/
def CPass.copy (pass : CPass) : CPass :=
  CPass.assign CPass.clear pass

/-- The method `CClass::assign(value)`. The leading `clear()` discards the prior state `_x`.
-/
def CClass.assign (_x : CClass) (value : CClass) : CClass :=
  let x := CClass.clear
  let x := { x with m_Clearances := x.m_Clearances ++ value.m_Clearances.map CClearance.copy }
  let x := { x with m_Number := value.m_Number }
  let x := { x with m_Name := value.m_Name }
  let x := { x with m_Width := value.m_Width }
  let x := { x with m_Drill := value.m_Drill }
  x

/-- The copy constructor `CClass(const CClass&)`: `assign` on the new object, whose lists
and strings are empty and whose other members `assign` resets with `clear()`. -/
def CClass.copy (value : CClass) : CClass :=
  CClass.assign CClass.clear value

/-- The method `CDesignRule::assign(designRule)`. The leading `clear()` discards the prior
state `_x`. -/
def CDesignRule.assign (_x : CDesignRule) (designRule : CDesignRule) : CDesignRule :=
  let x := CDesignRule.clear
  let x := { x with m_Descriptions :=
    x.m_Descriptions ++ designRule.m_Descriptions.map CDescription.copy }
  let x := { x with m_Params := x.m_Params ++ designRule.m_Params.map CParam.copy }
  let x := { x with m_Name := designRule.m_Name }
  x

/-- The copy constructor `CDesignRule(const CDesignRule&)`: `assign` on the new object,
whose lists and strings are empty and whose other members `assign` resets with `clear()`. -/
def CDesignRule.copy (designRule : CDesignRule) : CDesignRule :=
  CDesignRule.assign CDesignRule.clear designRule

/-- The method `CVariantDef::assign(variantDef)`. -/
def CVariantDef.assign (x : CVariantDef) (variantDef : CVariantDef) : CVariantDef :=
  let x := { x with m_Name := variantDef.m_Name }
  let x := { x with m_Current := variantDef.m_Current }
  x

/-- The copy constructor `CVariantDef(const CVariantDef&)`: `assign` on the new object,
whose lists and strings are empty and whose other members `assign` sets. -/
def CVariantDef.copy (variantDef : CVariantDef) : CVariantDef :=
  CVariantDef.assign CVariantDef.clear variantDef

/-- The method `CVariant::assign(variant)`. -/
def CVariant.assign (x : CVariant) (variant : CVariant) : CVariant :=
  let x := { x with m_Name := variant.m_Name }
  let x := { x with m_Populate := variant.m_Populate }
  let x := { x with m_Value := variant.m_Value }
  let x := { x with m_Technology := variant.m_Technology }
  x

/-- The copy constructor `CVariant(const CVariant&)`: `assign` on the new object, whose
lists and strings are empty and whose other members `assign` sets. -/
def CVariant.copy (variant : CVariant) : CVariant :=
  CVariant.assign CVariant.clear variant

/-- The method `CGate::assign(gate)`. -/
def CGate.assign (x : CGate) (gate : CGate) : CGate :=
  let x := { x with m_Name := gate.m_Name }
  let x := { x with m_Symbol := gate.m_Symbol }
  let x := { x with m_X := gate.m_X }
  let x := { x with m_Y := gate.m_Y }
  let x := { x with m_AddLevel := gate.m_AddLevel }
  let x := { x with m_SwapLevel := gate.m_SwapLevel }
  x

/-- The copy constructor `CGate(const CGate&)`: `assign` on the new object, whose lists and
strings are empty and whose other members `assign` sets. -/
def CGate.copy (gate : CGate) : CGate :=
  CGate.assign CGate.clear gate

/-- The method `CWire::assign(wire)`. -/
def CWire.assign (x : CWire) (wire : CWire) : CWire :=
  let x := { x with m_X1 := wire.m_X1 }
  let x := { x with m_Y1 := wire.m_Y1 }
  let x := { x with m_X2 := wire.m_X2 }
  let x := { x with m_Y2 := wire.m_Y2 }
  let x := { x with m_Width := wire.m_Width }
  let x := { x with m_Layer := wire.m_Layer }
  let x := { x with m_Extent := wire.m_Extent }
  let x := { x with m_Style := wire.m_Style }
  let x := { x with m_Curve := wire.m_Curve }
  let x := { x with m_Cap := wire.m_Cap }
  x

/-- The copy constructor `CWire(const CWire&)`: `assign` on the new object, whose lists and
strings are empty and whose other members `assign` sets. -/
def CWire.copy (wire : CWire) : CWire :=
  CWire.assign CWire.clear wire

/-- The method `CDimension::assign(dimension)`. -/
def CDimension.assign (x : CDimension) (dimension : CDimension) : CDimension :=
  let x := { x with m_X1 := dimension.m_X1 }
  let x := { x with m_Y1 := dimension.m_Y1 }
  let x := { x with m_X2 := dimension.m_X2 }
  let x := { x with m_Y2 := dimension.m_Y2 }
  let x := { x with m_X3 := dimension.m_X3 }
  let x := { x with m_Y3 := dimension.m_Y3 }
  let x := { x with m_Layer := dimension.m_Layer }
  let x := { x with m_DType := dimension.m_DType }
  let x := { x with m_Width := dimension.m_Width }
  let x := { x with m_ExtWidth := dimension.m_ExtWidth }
  let x := { x with m_ExtLength := dimension.m_ExtLength }
  let x := { x with m_ExtOffset := dimension.m_ExtOffset }
  let x := { x with m_TextSize := dimension.m_TextSize }
  let x := { x with m_TextRatio := dimension.m_TextRatio }
  let x := { x with m_GridUnit := dimension.m_GridUnit }
  let x := { x with m_Precision := dimension.m_Precision }
  let x := { x with m_Visible := dimension.m_Visible }
  x

/-- The copy constructor `CDimension(const CDimension&)`: `assign` on the new object, whose
lists and strings are empty and whose other members `assign` sets. -/
def CDimension.copy (dimension : CDimension) : CDimension :=
  CDimension.assign CDimension.clear dimension

/-- The method `CText::assign(text)`. -/
def CText.assign (x : CText) (text : CText) : CText :=
  let x := { x with m_Text := text.m_Text }
  let x := { x with m_X := text.m_X }
  let x := { x with m_Y := text.m_Y }
  let x := { x with m_Size := text.m_Size }
  let x := { x with m_Layer := text.m_Layer }
  let x := { x with m_Font := text.m_Font }
  let x := { x with m_Ratio := text.m_Ratio }
  let x := { x with m_Rotation := text.m_Rotation }
  let x := { x with m_Reflection := text.m_Reflection }
  let x := { x with m_Spin := text.m_Spin }
  let x := { x with m_Align := text.m_Align }
  let x := { x with m_Distance := text.m_Distance }
  x

/-- The copy constructor `CText(const CText&)`: `assign` on the new object, whose lists and
strings are empty and whose other members `assign` sets. -/
def CText.copy (text : CText) : CText :=
  CText.assign CText.clear text

/-- The method `CCircle::assign(circle)`. -/
def CCircle.assign (x : CCircle) (circle : CCircle) : CCircle :=
  let x := { x with m_X := circle.m_X }
  let x := { x with m_Y := circle.m_Y }
  let x := { x with m_Radius := circle.m_Radius }
  let x := { x with m_Width := circle.m_Width }
  let x := { x with m_Layer := circle.m_Layer }
  x

/-- The copy constructor `CCircle(const CCircle&)`: `assign` on the new object, whose lists
and strings are empty and whose other members `assign` sets. -/
def CCircle.copy (circle : CCircle) : CCircle :=
  CCircle.assign CCircle.clear circle

/-- The method `CRectangle::assign(rectangle)`. -/
def CRectangle.assign (x : CRectangle) (rectangle : CRectangle) : CRectangle :=
  let x := { x with m_X1 := rectangle.m_X1 }
  let x := { x with m_Y1 := rectangle.m_Y1 }
  let x := { x with m_X2 := rectangle.m_X2 }
  let x := { x with m_Y2 := rectangle.m_Y2 }
  let x := { x with m_Layer := rectangle.m_Layer }
  let x := { x with m_Rotation := rectangle.m_Rotation }
  x

/-- The copy constructor `CRectangle(const CRectangle&)`. Its body is empty and every
member is a number, so the new object holds what its storage held before: `storage`. -/
def CRectangle.copy (storage : CRectangle) (_rectangle : CRectangle) : CRectangle := storage

/-- The method `CFrame::assign(frame)`. -/
def CFrame.assign (x : CFrame) (frame : CFrame) : CFrame :=
  let x := { x with m_X1 := frame.m_X1 }
  let x := { x with m_Y1 := frame.m_Y1 }
  let x := { x with m_X2 := frame.m_X2 }
  let x := { x with m_Y2 := frame.m_Y2 }
  let x := { x with m_Columns := frame.m_Columns }
  let x := { x with m_Rows := frame.m_Rows }
  let x := { x with m_Layer := frame.m_Layer }
  let x := { x with m_BorderLeft := frame.m_BorderLeft }
  let x := { x with m_BorderTop := frame.m_BorderTop }
  let x := { x with m_BorderRight := frame.m_BorderRight }
  let x := { x with m_BorderBottom := frame.m_BorderBottom }
  x

/-- The copy constructor `CFrame(const CFrame&)`: `assign` on the new object, whose lists
and strings are empty and whose other members `assign` sets. -/
def CFrame.copy (frame : CFrame) : CFrame :=
  CFrame.assign CFrame.clear frame

/-- The method `CHole::assign(hole)`. -/
def CHole.assign (x : CHole) (hole : CHole) : CHole :=
  let x := { x with m_X := hole.m_X }
  let x := { x with m_Y := hole.m_Y }
  let x := { x with m_Drill := hole.m_Drill }
  x

/-- The copy constructor `CHole(const CHole&)`: `assign` on the new object, whose lists and
strings are empty and whose other members `assign` sets. -/
def CHole.copy (hole : CHole) : CHole :=
  CHole.assign CHole.clear hole

/-- The method `CPad::assign(pad)`. -/
def CPad.assign (x : CPad) (pad : CPad) : CPad :=
  let x := { x with m_Name := pad.m_Name }
  let x := { x with m_X := pad.m_X }
  let x := { x with m_Y := pad.m_Y }
  let x := { x with m_Drill := pad.m_Drill }
  let x := { x with m_Diameter := pad.m_Diameter }
  let x := { x with m_Shape := pad.m_Shape }
  let x := { x with m_Rotation := pad.m_Rotation }
  let x := { x with m_Stop := pad.m_Stop }
  let x := { x with m_Thermals := pad.m_Thermals }
  let x := { x with m_First := pad.m_First }
  x

/-- The copy constructor `CPad(const CPad&)`: `assign` on the new object, whose lists and
strings are empty and whose other members `assign` sets. -/
def CPad.copy (pad : CPad) : CPad :=
  CPad.assign CPad.clear pad

/-- The method `CSMD::assign(smd)`. -/
def CSMD.assign (x : CSMD) (smd : CSMD) : CSMD :=
  let x := { x with m_Name := smd.m_Name }
  let x := { x with m_X := smd.m_X }
  let x := { x with m_Y := smd.m_Y }
  let x := { x with m_DX := smd.m_DX }
  let x := { x with m_DY := smd.m_DY }
  let x := { x with m_Layer := smd.m_Layer }
  let x := { x with m_Roundness := smd.m_Roundness }
  let x := { x with m_Rotation := smd.m_Rotation }
  let x := { x with m_Stop := smd.m_Stop }
  let x := { x with m_Thermals := smd.m_Thermals }
  let x := { x with m_Cream := smd.m_Cream }
  x

/-- The copy constructor `CSMD(const CSMD&)`: `assign` on the new object, whose lists and
strings are empty and whose other members `assign` sets. -/
def CSMD.copy (smd : CSMD) : CSMD :=
  CSMD.assign CSMD.clear smd

/-- The method `CVia::assign(via)`. -/
def CVia.assign (x : CVia) (via : CVia) : CVia :=
  let x := { x with m_X := via.m_X }
  let x := { x with m_Y := via.m_Y }
  let x := { x with m_Extent := via.m_Extent }
  let x := { x with m_Drill := via.m_Drill }
  let x := { x with m_Diameter := via.m_Diameter }
  let x := { x with m_Shape := via.m_Shape }
  let x := { x with m_AlwaysStop := via.m_AlwaysStop }
  x

/-- The copy constructor `CVia(const CVia&)`: `assign` on the new object, whose lists and
strings are empty and whose other members `assign` sets. -/
def CVia.copy (via : CVia) : CVia :=
  CVia.assign CVia.clear via

/-- The method `CVertex::assign(vertex)`. -/
def CVertex.assign (x : CVertex) (vertex : CVertex) : CVertex :=
  let x := { x with m_X := vertex.m_X }
  let x := { x with m_Y := vertex.m_Y }
  let x := { x with m_Curve := vertex.m_Curve }
  x

/-- The copy constructor `CVertex(const CVertex&)`: `assign` on the new object, whose lists
and strings are empty and whose other members `assign` sets. -/
def CVertex.copy (vertex : CVertex) : CVertex :=
  CVertex.assign CVertex.clear vertex

/-- The method `CPin::assign(pin)`. -/
def CPin.assign (x : CPin) (pin : CPin) : CPin :=
  let x := { x with m_Name := pin.m_Name }
  let x := { x with m_X := pin.m_X }
  let x := { x with m_Y := pin.m_Y }
  let x := { x with m_Visible := pin.m_Visible }
  let x := { x with m_Length := pin.m_Length }
  let x := { x with m_Direction := pin.m_Direction }
  let x := { x with m_Function := pin.m_Function }
  let x := { x with m_SwapLevel := pin.m_SwapLevel }
  let x := { x with m_Rotation := pin.m_Rotation }
  x

/-- The copy constructor `CPin(const CPin&)`: `assign` on the new object, whose lists and
strings are empty and whose other members `assign` sets. -/
def CPin.copy (pin : CPin) : CPin :=
  CPin.assign CPin.clear pin

/-- The method `CLabel::assign(label)`. -/
def CLabel.assign (x : CLabel) (label : CLabel) : CLabel :=
  let x := { x with m_X := label.m_X }
  let x := { x with m_Y := label.m_Y }
  let x := { x with m_Size := label.m_Size }
  let x := { x with m_Layer := label.m_Layer }
  let x := { x with m_Font := label.m_Font }
  let x := { x with m_Ratio := label.m_Ratio }
  let x := { x with m_Rotation := label.m_Rotation }
  let x := { x with m_Reflection := label.m_Reflection }
  let x := { x with m_XRef := label.m_XRef }
  x

/-- The copy constructor `CLabel(const CLabel&)`: `assign` on the new object, whose lists
and strings are empty and whose other members `assign` sets. -/
def CLabel.copy (label : CLabel) : CLabel :=
  CLabel.assign CLabel.clear label

/-- The method `CJunction::assign(junction)`. -/
def CJunction.assign (x : CJunction) (junction : CJunction) : CJunction :=
  let x := { x with m_X := junction.m_X }
  let x := { x with m_Y := junction.m_Y }
  x

/-- The copy constructor `CJunction(const CJunction&)`: `assign` on the new object, whose
lists and strings are empty and whose other members `assign` sets. -/
def CJunction.copy (junction : CJunction) : CJunction :=
  CJunction.assign CJunction.clear junction

/-- The method `CConnect::assign(connect)`. -/
def CConnect.assign (x : CConnect) (connect : CConnect) : CConnect :=
  let x := { x with m_Gate := connect.m_Gate }
  let x := { x with m_Pin := connect.m_Pin }
  let x := { x with m_Pad := connect.m_Pad }
  let x := { x with m_Route := connect.m_Route }
  x

/-- The copy constructor `CConnect(const CConnect&)`: `assign` on the new object, whose
lists and strings are empty and whose other members `assign` sets. -/
def CConnect.copy (connect : CConnect) : CConnect :=
  CConnect.assign CConnect.clear connect

/-- The method `CAttribute::assign(attribute)`, the argument named `other` here. -/
def CAttribute.assign (x : CAttribute) (other : CAttribute) : CAttribute :=
  let x := { x with m_Name := other.m_Name }
  let x := { x with m_Value := other.m_Value }
  let x := { x with m_X := other.m_X }
  let x := { x with m_Y := other.m_Y }
  let x := { x with m_Size := other.m_Size }
  let x := { x with m_Layer := other.m_Layer }
  let x := { x with m_Font := other.m_Font }
  let x := { x with m_Ratio := other.m_Ratio }
  let x := { x with m_Rotation := other.m_Rotation }
  let x := { x with m_Reflection := other.m_Reflection }
  let x := { x with m_Display := other.m_Display }
  let x := { x with m_Constant := other.m_Constant }
  x

/-- The copy constructor `CAttribute(const CAttribute&)`: `assign` on the new object, whose
lists and strings are empty and whose other members `assign` sets. -/
def CAttribute.copy (other : CAttribute) : CAttribute :=
  CAttribute.assign CAttribute.clear other

/-- The method `CPinRef::assign(pinRef)`. -/
def CPinRef.assign (x : CPinRef) (pinRef : CPinRef) : CPinRef :=
  let x := { x with m_Part := pinRef.m_Part }
  let x := { x with m_Gate := pinRef.m_Gate }
  let x := { x with m_Pin := pinRef.m_Pin }
  x

/-- The copy constructor `CPinRef(const CPinRef&)`: `assign` on the new object, whose lists
and strings are empty and whose other members `assign` sets. -/
def CPinRef.copy (pinRef : CPinRef) : CPinRef :=
  CPinRef.assign CPinRef.clear pinRef

/-- The method `CContactRef::assign(contactRef)`. -/
def CContactRef.assign (x : CContactRef) (contactRef : CContactRef) : CContactRef :=
  let x := { x with m_Element := contactRef.m_Element }
  let x := { x with m_Pad := contactRef.m_Pad }
  let x := { x with m_Route := contactRef.m_Route }
  let x := { x with m_RouteTag := contactRef.m_RouteTag }
  x

/-- The copy constructor `CContactRef(const CContactRef&)`: `assign` on the new object,
whose lists and strings are empty and whose other members `assign` sets. -/
def CContactRef.copy (contactRef : CContactRef) : CContactRef :=
  CContactRef.assign CContactRef.clear contactRef

/-- The method `CTechnology::assign(technology)`. The leading `clear()` discards the prior
state `_x`. -/
def CTechnology.assign (_x : CTechnology) (technology : CTechnology) : CTechnology :=
  let x := CTechnology.clear
  let x := { x with m_Attributes :=
    x.m_Attributes ++ technology.m_Attributes.map CAttribute.copy }
  let x := { x with m_Name := technology.m_Name }
  x

/-- The copy constructor `CTechnology(const CTechnology&)`: `assign` on the new object,
whose lists and strings are empty and whose other members `assign` resets with `clear()`. -/
def CTechnology.copy (technology : CTechnology) : CTechnology :=
  CTechnology.assign CTechnology.clear technology

/-- The method `CInstance::assign(instance)`, the argument named `other` here. The leading
`clear()` discards the prior state `_x`. -/
def CInstance.assign (_x : CInstance) (other : CInstance) : CInstance :=
  let x := CInstance.clear
  let x := { x with m_Attributes := x.m_Attributes ++ other.m_Attributes.map CAttribute.copy }
  let x := { x with m_Part := other.m_Part }
  let x := { x with m_Gate := other.m_Gate }
  let x := { x with m_X := other.m_X }
  let x := { x with m_Y := other.m_Y }
  let x := { x with m_Smashed := other.m_Smashed }
  let x := { x with m_Rotation := other.m_Rotation }
  let x := { x with m_Spin := other.m_Spin }
  x

/-- The copy constructor `CInstance(const CInstance&)`: `assign` on the new object, whose
lists and strings are empty and whose other members `assign` resets with `clear()`. -/
def CInstance.copy (other : CInstance) : CInstance :=
  CInstance.assign CInstance.clear other

/-- The method `CPart::assign(part)`. The leading `clear()` discards the prior state `_x`.
-/
def CPart.assign (_x : CPart) (part : CPart) : CPart :=
  let x := CPart.clear
  let x := { x with m_Attributes := x.m_Attributes ++ part.m_Attributes.map CAttribute.copy }
  let x := { x with m_Variants := x.m_Variants ++ part.m_Variants.map CVariant.copy }
  let x := { x with m_Name := part.m_Name }
  let x := { x with m_Library := part.m_Library }
  let x := { x with m_DeviceSet := part.m_DeviceSet }
  let x := { x with m_Device := part.m_Device }
  let x := { x with m_Technology := part.m_Technology }
  let x := { x with m_Value := part.m_Value }
  x

/-- The copy constructor `CPart(const CPart&)`: `assign` on the new object, whose lists and
strings are empty and whose other members `assign` resets with `clear()`. -/
def CPart.copy (part : CPart) : CPart :=
  CPart.assign CPart.clear part

/-- The method `CPolygon::assign(polygon)`. The leading `clear()` discards the prior state
`_x`. -/
def CPolygon.assign (_x : CPolygon) (polygon : CPolygon) : CPolygon :=
  let x := CPolygon.clear
  let x := { x with m_Vertices := x.m_Vertices ++ polygon.m_Vertices.map CVertex.copy }
  let x := { x with m_Width := polygon.m_Width }
  let x := { x with m_Layer := polygon.m_Layer }
  let x := { x with m_Spacing := polygon.m_Spacing }
  let x := { x with m_Pour := polygon.m_Pour }
  let x := { x with m_Isolate := polygon.m_Isolate }
  let x := { x with m_Orphans := polygon.m_Orphans }
  let x := { x with m_Thermals := polygon.m_Thermals }
  let x := { x with m_Rank := polygon.m_Rank }
  x

/-- The copy constructor `CPolygon(const CPolygon&)`: `assign` on the new object, whose
lists and strings are empty and whose other members `assign` resets with `clear()`. -/
def CPolygon.copy (polygon : CPolygon) : CPolygon :=
  CPolygon.assign CPolygon.clear polygon

/-- The method `CElement::assign(element)`. The leading `clear()` discards the prior state
`_x`. -/
def CElement.assign (_x : CElement) (element : CElement) : CElement :=
  let x := CElement.clear
  let x := { x with m_Attributes := x.m_Attributes ++ element.m_Attributes.map CAttribute.copy }
  let x := { x with m_Variants := x.m_Variants ++ element.m_Variants.map CVariant.copy }
  let x := { x with m_Name := element.m_Name }
  let x := { x with m_Library := element.m_Library }
  let x := { x with m_Package := element.m_Package }
  let x := { x with m_Value := element.m_Value }
  let x := { x with m_X := element.m_X }
  let x := { x with m_Y := element.m_Y }
  let x := { x with m_Locked := element.m_Locked }
  let x := { x with m_Smashed := element.m_Smashed }
  let x := { x with m_Rotation := element.m_Rotation }
  let x := { x with m_Reflection := element.m_Reflection }
  x

/-- The copy constructor `CElement(const CElement&)`: `assign` on the new object, whose
lists and strings are empty and whose other members `assign` resets with `clear()`. -/
def CElement.copy (element : CElement) : CElement :=
  CElement.assign CElement.clear element

/-- The method `CSignal::assign(signal)`. The leading `clear()` discards the prior state
`_x`. -/
def CSignal.assign (_x : CSignal) (signal : CSignal) : CSignal :=
  let x := CSignal.clear
  let x := { x with m_ContactRefs :=
    x.m_ContactRefs ++ signal.m_ContactRefs.map CContactRef.copy }
  let x := { x with m_Polygons := x.m_Polygons ++ signal.m_Polygons.map CPolygon.copy }
  let x := { x with m_Wires := x.m_Wires ++ signal.m_Wires.map CWire.copy }
  let x := { x with m_Vias := x.m_Vias ++ signal.m_Vias.map CVia.copy }
  let x := { x with m_Name := "" }
  let x := { x with m_Class := 0 }
  let x := { x with m_AirWiresHidden := false }
  x

/-- The copy constructor `CSignal(const CSignal&)`: `assign` on the new object, whose lists
and strings are empty and whose other members `assign` resets with `clear()`. -/
def CSignal.copy (signal : CSignal) : CSignal :=
  CSignal.assign CSignal.clear signal

/-- The method `CSegment::assign(segment)`. The leading `clear()` discards the prior state
`_x`. -/
def CSegment.assign (_x : CSegment) (segment : CSegment) : CSegment :=
  let x := CSegment.clear
  let x := { x with m_PinRefs := x.m_PinRefs ++ segment.m_PinRefs.map CPinRef.copy }
  let x := { x with m_Wires := x.m_Wires ++ segment.m_Wires.map CWire.copy }
  let x := { x with m_Junctions := x.m_Junctions ++ segment.m_Junctions.map CJunction.copy }
  let x := { x with m_Labels := x.m_Labels ++ segment.m_Labels.map CLabel.copy }
  x

/-- The copy constructor `CSegment(const CSegment&)`: `assign` on the new object, whose
lists and strings are empty and whose other members `assign` resets with `clear()`. -/
def CSegment.copy (segment : CSegment) : CSegment :=
  CSegment.assign CSegment.clear segment

/-- The method `CNet::assign(net)`. The leading `clear()` discards the prior state `_x`. -/
def CNet.assign (_x : CNet) (net : CNet) : CNet :=
  let x := CNet.clear
  let x := { x with m_Segments := x.m_Segments ++ net.m_Segments.map CSegment.copy }
  let x := { x with m_Name := net.m_Name }
  let x := { x with m_Class := net.m_Class }
  x

/-- The copy constructor `CNet(const CNet&)`: `assign` on the new object, whose lists and
strings are empty and whose other members `assign` resets with `clear()`. -/
def CNet.copy (net : CNet) : CNet :=
  CNet.assign CNet.clear net

/-- The method `CBus::assign(bus)`. The leading `clear()` discards the prior state `_x`. -/
def CBus.assign (_x : CBus) (bus : CBus) : CBus :=
  let x := CBus.clear
  let x := { x with m_Segments := x.m_Segments ++ bus.m_Segments.map CSegment.copy }
  let x := { x with m_Name := bus.m_Name }
  x

/-- The copy constructor `CBus(const CBus&)`: `assign` on the new object, whose lists and
strings are empty and whose other members `assign` resets with `clear()`. -/
def CBus.copy (bus : CBus) : CBus :=
  CBus.assign CBus.clear bus

/-- The method `CDevice::assign(device)`. The leading `clear()` discards the prior state
`_x`. -/
def CDevice.assign (_x : CDevice) (device : CDevice) : CDevice :=
  let x := CDevice.clear
  let x := { x with m_Connects := x.m_Connects ++ device.m_Connects.map CConnect.copy }
  let x := { x with m_Technologies :=
    x.m_Technologies ++ device.m_Technologies.map CTechnology.copy }
  let x := { x with m_Name := device.m_Name }
  let x := { x with m_Package := device.m_Package }
  x

/-- The copy constructor `CDevice(const CDevice&)`: `assign` on the new object, whose lists
and strings are empty and whose other members `assign` resets with `clear()`. -/
def CDevice.copy (device : CDevice) : CDevice :=
  CDevice.assign CDevice.clear device

/-- The method `CDeviceSet::assign(deviceSet)`. -/
def CDeviceSet.assign (x : CDeviceSet) (deviceSet : CDeviceSet) : CDeviceSet :=
  let x := { x with m_Description := x.m_Description.assign deviceSet.m_Description }
  let x := { x with m_Gates := x.m_Gates ++ deviceSet.m_Gates.map CGate.copy }
  let x := { x with m_Devices := x.m_Devices ++ deviceSet.m_Devices.map CDevice.copy }
  let x := { x with m_Name := deviceSet.m_Name }
  let x := { x with m_Prefix := deviceSet.m_Prefix }
  let x := { x with m_UserValue := deviceSet.m_UserValue }
  x

/-- The copy constructor `CDeviceSet(const CDeviceSet&)`: `assign` on the new object, whose
lists and strings are empty and whose other members `assign` sets. -/
def CDeviceSet.copy (deviceSet : CDeviceSet) : CDeviceSet :=
  CDeviceSet.assign CDeviceSet.clear deviceSet

/-- The method `CSymbol::assign(symbol)`. The leading `clear()` discards the prior state
`_x`. -/
def CSymbol.assign (storage : CRectangle) (_x : CSymbol) (symbol : CSymbol) : CSymbol :=
  let x := CSymbol.clear
  let x := { x with m_Description := x.m_Description.assign symbol.m_Description }
  let x := { x with m_Polygons := x.m_Polygons ++ symbol.m_Polygons.map CPolygon.copy }
  let x := { x with m_Wires := x.m_Wires ++ symbol.m_Wires.map CWire.copy }
  let x := { x with m_Texts := x.m_Texts ++ symbol.m_Texts.map CText.copy }
  let x := { x with m_Dimensions := x.m_Dimensions ++ symbol.m_Dimensions.map CDimension.copy }
  let x := { x with m_Pins := x.m_Pins ++ symbol.m_Pins.map CPin.copy }
  let x := { x with m_Circles := x.m_Circles ++ symbol.m_Circles.map CCircle.copy }
  let x := { x with m_Rectangles :=
    x.m_Rectangles ++ symbol.m_Rectangles.map (CRectangle.copy storage) }
  let x := { x with m_Frames := x.m_Frames ++ symbol.m_Frames.map CFrame.copy }
  let x := { x with m_Name := symbol.m_Name }
  x

/-- The copy constructor `CSymbol(const CSymbol&)`: `assign` on the new object, whose lists
and strings are empty and whose other members `assign` resets with `clear()`. -/
def CSymbol.copy (storage : CRectangle) (symbol : CSymbol) : CSymbol :=
  CSymbol.assign storage CSymbol.clear symbol

/-- The method `CPackage::assign(package)`. The leading `clear()` discards the prior state
`_x`. -/
def CPackage.assign (storage : CRectangle) (_x : CPackage) (package : CPackage) : CPackage :=
  let x := CPackage.clear
  let x := { x with m_Description := CDescription.clear }
  let x := { x with m_Polygons := x.m_Polygons ++ package.m_Polygons.map CPolygon.copy }
  let x := { x with m_Wires := x.m_Wires ++ package.m_Wires.map CWire.copy }
  let x := { x with m_Texts := x.m_Texts ++ package.m_Texts.map CText.copy }
  let x := { x with m_Dimensions := x.m_Dimensions ++ package.m_Dimensions.map CDimension.copy }
  let x := { x with m_Circles := x.m_Circles ++ package.m_Circles.map CCircle.copy }
  let x := { x with m_Rectangles :=
    x.m_Rectangles ++ package.m_Rectangles.map (CRectangle.copy storage) }
  let x := { x with m_Frames := x.m_Frames ++ package.m_Frames.map CFrame.copy }
  let x := { x with m_Holes := x.m_Holes ++ package.m_Holes.map CHole.copy }
  let x := { x with m_Pads := x.m_Pads ++ package.m_Pads.map CPad.copy }
  let x := { x with m_SMDs := x.m_SMDs ++ package.m_SMDs.map CSMD.copy }
  let x := { x with m_Name := package.m_Name }
  x

/-- The copy constructor `CPackage(const CPackage&)`: `assign` on the new object, whose
lists and strings are empty and whose other members `assign` resets with `clear()`. -/
def CPackage.copy (storage : CRectangle) (package : CPackage) : CPackage :=
  CPackage.assign storage CPackage.clear package

/-- The method `CPlain::assign(plain)`. The leading `clear()` discards the prior state `_x`.
-/
def CPlain.assign (storage : CRectangle) (_x : CPlain) (plain : CPlain) : CPlain :=
  let x := CPlain.clear
  let x := { x with m_Polygons := x.m_Polygons ++ plain.m_Polygons.map CPolygon.copy }
  let x := { x with m_Wires := x.m_Wires ++ plain.m_Wires.map CWire.copy }
  let x := { x with m_Texts := x.m_Texts ++ plain.m_Texts.map CText.copy }
  let x := { x with m_Dimensions := x.m_Dimensions ++ plain.m_Dimensions.map CDimension.copy }
  let x := { x with m_Circles := x.m_Circles ++ plain.m_Circles.map CCircle.copy }
  let x := { x with m_Rectangles :=
    x.m_Rectangles ++ plain.m_Rectangles.map (CRectangle.copy storage) }
  let x := { x with m_Frames := x.m_Frames ++ plain.m_Frames.map CFrame.copy }
  let x := { x with m_Holes := x.m_Holes ++ plain.m_Holes.map CHole.copy }
  x

/-- The copy constructor `CPlain(const CPlain&)`: `assign` on the new object, whose lists
and strings are empty and whose other members `assign` resets with `clear()`. -/
def CPlain.copy (storage : CRectangle) (plain : CPlain) : CPlain :=
  CPlain.assign storage CPlain.clear plain

/-- The method `CSheet::assign(sheet)`. The leading `clear()` discards the prior state `_x`.
-/
def CSheet.assign (storage : CRectangle) (_x : CSheet) (sheet : CSheet) : CSheet :=
  let x := CSheet.clear
  let x := { x with m_Description := x.m_Description.assign sheet.m_Description }
  let x := { x with m_Plain := x.m_Plain.assign storage sheet.m_Plain }
  let x := { x with m_Instances := x.m_Instances ++ sheet.m_Instances.map CInstance.copy }
  let x := { x with m_Busses := x.m_Busses ++ sheet.m_Busses.map CBus.copy }
  let x := { x with m_Nets := x.m_Nets ++ sheet.m_Nets.map CNet.copy }
  x

/-- The copy constructor `CSheet(const CSheet&)`: `assign` on the new object, whose lists
and strings are empty and whose other members `assign` resets with `clear()`. -/
def CSheet.copy (storage : CRectangle) (sheet : CSheet) : CSheet :=
  CSheet.assign storage CSheet.clear sheet

/-- The method `CLibrary::assign(library)`. The leading `clear()` discards the prior state
`_x`. -/
def CLibrary.assign (storage : CRectangle) (_x : CLibrary) (library : CLibrary) : CLibrary :=
  let x := CLibrary.clear
  let x := { x with m_Description := x.m_Description.assign library.m_Description }
  let x := { x with m_Packages := x.m_Packages ++ library.m_Packages.map (CPackage.copy storage) }
  let x := { x with m_Symbols := x.m_Symbols ++ library.m_Symbols.map (CSymbol.copy storage) }
  let x := { x with m_DeviceSets := x.m_DeviceSets ++ library.m_DeviceSets.map CDeviceSet.copy }
  let x := { x with m_Name := library.m_Name }
  x

/-- The copy constructor `CLibrary(const CLibrary&)`. Its body is empty, so the new object holds
its default-constructed members: empty lists and strings, and members in the state their
own default constructors leave. -/
def CLibrary.copy (_library : CLibrary) : CLibrary := CLibrary.clear

/-- The method `CBoard::assign(board)`. The leading `clear()` discards the prior state `_x`.
-/
def CBoard.assign (storage : CRectangle) (_x : CBoard) (board : CBoard) : CBoard :=
  let x := CBoard.clear
  let x := { x with m_Description := x.m_Description.assign board.m_Description }
  let x := { x with m_Plain := x.m_Plain.assign storage board.m_Plain }
  let x := { x with m_Libraries := x.m_Libraries ++ board.m_Libraries.map CLibrary.copy }
  let x := { x with m_Attributes := x.m_Attributes ++ board.m_Attributes.map CAttribute.copy }
  let x := { x with m_VariantDefs := x.m_VariantDefs ++ board.m_VariantDefs.map CVariantDef.copy }
  let x := { x with m_Classes := x.m_Classes ++ board.m_Classes.map CClass.copy }
  let x := { x with m_Passes := x.m_Passes ++ board.m_Passes.map CPass.copy }
  let x := { x with m_Elements := x.m_Elements ++ board.m_Elements.map CElement.copy }
  let x := { x with m_Signals := x.m_Signals ++ board.m_Signals.map CSignal.copy }
  let x := { x with m_Errors := x.m_Errors ++ board.m_Errors.map CApproved.copy }
  x

/-- The copy constructor `CBoard(const CBoard&)`: `assign` on the new object, whose lists
and strings are empty and whose other members `assign` resets with `clear()`. -/
def CBoard.copy (storage : CRectangle) (board : CBoard) : CBoard :=
  CBoard.assign storage CBoard.clear board

/-- The method `CSchematic::assign(schematic)`. The leading `clear()` discards the prior
state `_x`. -/
def CSchematic.assign (storage : CRectangle) (_x : CSchematic) (schematic : CSchematic) :
    CSchematic :=
  let x := CSchematic.clear
  let x := { x with m_Description := x.m_Description.assign schematic.m_Description }
  let x := { x with m_Libraries := x.m_Libraries ++ schematic.m_Libraries.map CLibrary.copy }
  let x := { x with m_Attributes := x.m_Attributes ++ schematic.m_Attributes.map CAttribute.copy }
  let x := { x with m_VariantDefs :=
    x.m_VariantDefs ++ schematic.m_VariantDefs.map CVariantDef.copy }
  let x := { x with m_Classes := x.m_Classes ++ schematic.m_Classes.map CClass.copy }
  let x := { x with m_Parts := x.m_Parts ++ schematic.m_Parts.map CPart.copy }
  let x := { x with m_Sheets := x.m_Sheets ++ schematic.m_Sheets.map (CSheet.copy storage) }
  let x := { x with m_Errors := x.m_Errors ++ schematic.m_Errors.map CApproved.copy }
  let x := { x with m_XRefLabel := schematic.m_XRefLabel }
  let x := { x with m_XRefPart := schematic.m_XRefPart }
  x

/-- The copy constructor `CSchematic(const CSchematic&)`: `assign` on the new object, whose
lists and strings are empty and whose other members `assign` resets with `clear()`. -/
def CSchematic.copy (storage : CRectangle) (schematic : CSchematic) : CSchematic :=
  CSchematic.assign storage CSchematic.clear schematic

/-- The method `CDrawing::assign(drawing)`. The leading `clear()` discards the prior state
`_x`. -/
def CDrawing.assign (storage : CRectangle) (_x : CDrawing) (drawing : CDrawing) : CDrawing :=
  let x := CDrawing.clear
  let x := { x with m_Grid := x.m_Grid.assign drawing.m_Grid }
  let x := { x with m_Library := x.m_Library.assign storage drawing.m_Library }
  let x := { x with m_Schematic := x.m_Schematic.assign storage drawing.m_Schematic }
  let x := { x with m_Board := x.m_Board.assign storage drawing.m_Board }
  let x := { x with m_Layers := x.m_Layers ++ drawing.m_Layers.map CLayer.copy }
  let x := { x with m_Settings := x.m_Settings.assign drawing.m_Settings }
  let x := { x with m_Layers := drawing.m_Layers }
  let x := { x with m_Mode := drawing.m_Mode }
  x

/-- The copy constructor `CDrawing(const CDrawing&)`: `assign` on the new object, whose
lists and strings are empty and whose other members `assign` resets with `clear()`. -/
def CDrawing.copy (storage : CRectangle) (drawing : CDrawing) : CDrawing :=
  CDrawing.assign storage CDrawing.clear drawing

/-- The method `CNote::assign(note)`. -/
def CNote.assign (x : CNote) (note : CNote) : CNote :=
  let x := { x with m_Note := note.m_Note }
  let x := { x with m_Version := note.m_Version }
  let x := { x with m_Severity := note.m_Severity }
  x

/-- The copy constructor `CNote(const CNote&)`: `assign` on the new object, whose lists and
strings are empty and whose other members `assign` sets. -/
def CNote.copy (note : CNote) : CNote :=
  CNote.assign CNote.clear note

/-- The method `CCompatibility::assign(compatibility)`. The leading `clear()` discards the
prior state `_x`. -/
def CCompatibility.assign (_x : CCompatibility) (compatibility : CCompatibility) : CCompatibility :=
  let x := CCompatibility.clear
  let x := { x with m_Notes := x.m_Notes ++ compatibility.m_Notes.map CNote.copy }
  let x := { x with m_Notes := compatibility.m_Notes }
  x

/-- The copy constructor `CCompatibility(const CCompatibility&)`: `assign` on the new
object, whose lists and strings are empty and whose other members `assign` resets with
`clear()`. -/
def CCompatibility.copy (compatibility : CCompatibility) : CCompatibility :=
  CCompatibility.assign CCompatibility.clear compatibility

/-- The method `CEagleDocument::assign(document)`. -/
def CEagleDocument.assign (storage : CRectangle) (x : CEagleDocument) (document : CEagleDocument) :
    CEagleDocument :=
  let x := { x with m_PreNotes := x.m_PreNotes.assign document.m_PreNotes }
  let x := { x with m_Drawing := x.m_Drawing.assign storage document.m_Drawing }
  let x := { x with m_PostNotes := x.m_PostNotes.assign document.m_PostNotes }
  let x := { x with m_Version := document.m_Version }
  let x := { x with m_VerifyDocType := document.m_VerifyDocType }
  let x := { x with m_Indentation := document.m_Indentation }
  let x := { x with m_WriteDefaults := document.m_WriteDefaults }
  x

/-- A document with one note before the drawing and none after it, and a cleared
Drawing. -/
def exampleDocument : CEagleDocument :=
  { m_PreNotes :=
      { m_Notes :=
          [{ m_Note := "made with a newer version", m_Version := EAGLE_DTD_VERSION,
             m_Severity := CNote.Severity.nsWarning }] },
    m_Drawing := CDrawing.clear, m_PostNotes := CCompatibility.clear,
    m_Version := EAGLE_DTD_VERSION, m_VerifyDocType := true, m_Indentation := 0,
    m_WriteDefaults := true, m_ValidDocType := false, m_ValidXMLdata := false }

/-- What the specification says `CDeviceSet::assign` does: `clear()` followed by an
element-wise copy of the other DeviceSet's fields and children. -/
def CDeviceSet.clearThenCopy (_a b : CDeviceSet) : CDeviceSet :=
  let a := CDeviceSet.clear
  { a with
    m_Description := CDescription.copy b.m_Description,
    m_Gates := b.m_Gates.map CGate.copy,
    m_Devices := b.m_Devices.map CDevice.copy,
    m_Name := b.m_Name,
    m_Prefix := b.m_Prefix,
    m_UserValue := b.m_UserValue }

/-! ## Escaping, rotation setters and scaling -/

/-- The function `escapeXml(str)`. -/
def escapeXml (str : String) : String :=
  let xml := str
  let xml := QString.replace xml "&" "&amp;"
  let xml := QString.replace xml "<" "&lt;"
  let xml := QString.replace xml ">" "&gt;"
  let xml := QString.replace xml "'" "&apos;"
  let xml := QString.replace xml "\"" "&quot;"
  xml

/-- The method `CLabel::scale(factor)`. -/
def CLabel.scale (x : CLabel) (factor : ℚ) : CLabel :=
  let x := { x with m_X := x.m_X * factor }
  let x := { x with m_Y := x.m_Y * factor }
  let x := { x with m_Size := x.m_Size * factor }
  x

/-- The method `CLabel::setRotation(value)`. When no branch of the chain is taken the
rotation keeps its value. -/
def CLabel.setRotation (x : CLabel) (value : ℚ) : CLabel :=
  if value < 45 ∨ value ≥ 315 then { x with m_Rotation := 0 }
  else if value < 135 then { x with m_Rotation := 90 }
  else if value < 225 then { x with m_Rotation := 180 }
  else if value < 315 then { x with m_Rotation := 270 }
  else x

/-- The method `CInstance::setRotation(value)`. When no branch of the chain is taken the
rotation keeps its value. -/
def CInstance.setRotation (x : CInstance) (value : ℚ) : CInstance :=
  if value < 45 ∨ value ≥ 315 then { x with m_Rotation := 0 }
  else if value < 135 then { x with m_Rotation := 90 }
  else if value < 225 then { x with m_Rotation := 180 }
  else if value < 315 then { x with m_Rotation := 270 }
  else x

/-! ## Default layers -/

/-- The constant `CLayer::LAYER_TOP`. -/
def CLayer.LAYER_TOP : Int := 1

/-- The constant `CLayer::LAYER_LAYER2`. -/
def CLayer.LAYER_LAYER2 : Int := 2

/-- The constant `CLayer::LAYER_LAYER3`. -/
def CLayer.LAYER_LAYER3 : Int := 3

/-- The constant `CLayer::LAYER_LAYER4`. -/
def CLayer.LAYER_LAYER4 : Int := 4

/-- The constant `CLayer::LAYER_LAYER5`. -/
def CLayer.LAYER_LAYER5 : Int := 5

/-- The constant `CLayer::LAYER_LAYER6`. -/
def CLayer.LAYER_LAYER6 : Int := 6

/-- The constant `CLayer::LAYER_LAYER7`. -/
def CLayer.LAYER_LAYER7 : Int := 7

/-- The constant `CLayer::LAYER_LAYER8`. -/
def CLayer.LAYER_LAYER8 : Int := 8

/-- The constant `CLayer::LAYER_LAYER9`. -/
def CLayer.LAYER_LAYER9 : Int := 9

/-- The constant `CLayer::LAYER_LAYER10`. -/
def CLayer.LAYER_LAYER10 : Int := 10

/-- The constant `CLayer::LAYER_LAYER11`. -/
def CLayer.LAYER_LAYER11 : Int := 11

/-- The constant `CLayer::LAYER_LAYER12`. -/
def CLayer.LAYER_LAYER12 : Int := 12

/-- The constant `CLayer::LAYER_LAYER13`. -/
def CLayer.LAYER_LAYER13 : Int := 13

/-- The constant `CLayer::LAYER_LAYER14`. -/
def CLayer.LAYER_LAYER14 : Int := 14

/-- The constant `CLayer::LAYER_LAYER15`. -/
def CLayer.LAYER_LAYER15 : Int := 15

/-- The constant `CLayer::LAYER_BOTTOM`. -/
def CLayer.LAYER_BOTTOM : Int := 16

/-- The constant `CLayer::LAYER_PADS`. -/
def CLayer.LAYER_PADS : Int := 17

/-- The constant `CLayer::LAYER_VIAS`. -/
def CLayer.LAYER_VIAS : Int := 18

/-- The constant `CLayer::LAYER_UNROUTED`. -/
def CLayer.LAYER_UNROUTED : Int := 19

/-- The constant `CLayer::LAYER_DIMENSION`. -/
def CLayer.LAYER_DIMENSION : Int := 20

/-- The constant `CLayer::LAYER_TPLACE`. -/
def CLayer.LAYER_TPLACE : Int := 21

/-- The constant `CLayer::LAYER_BPLACE`. -/
def CLayer.LAYER_BPLACE : Int := 22

/-- The constant `CLayer::LAYER_TORIGINS`. -/
def CLayer.LAYER_TORIGINS : Int := 23

/-- The constant `CLayer::LAYER_BORIGINS`. -/
def CLayer.LAYER_BORIGINS : Int := 24

/-- The constant `CLayer::LAYER_TNAMES`. -/
def CLayer.LAYER_TNAMES : Int := 25

/-- The constant `CLayer::LAYER_BNAMES`. -/
def CLayer.LAYER_BNAMES : Int := 26

/-- The constant `CLayer::LAYER_TVALUES`. -/
def CLayer.LAYER_TVALUES : Int := 27

/-- The constant `CLayer::LAYER_BVALUES`. -/
def CLayer.LAYER_BVALUES : Int := 28

/-- The constant `CLayer::LAYER_TSTOP`. -/
def CLayer.LAYER_TSTOP : Int := 29

/-- The constant `CLayer::LAYER_BSTOP`. -/
def CLayer.LAYER_BSTOP : Int := 30

/-- The constant `CLayer::LAYER_TCREAM`. -/
def CLayer.LAYER_TCREAM : Int := 31

/-- The constant `CLayer::LAYER_BCREAM`. -/
def CLayer.LAYER_BCREAM : Int := 32

/-- The constant `CLayer::LAYER_TFINISH`. -/
def CLayer.LAYER_TFINISH : Int := 33

/-- The constant `CLayer::LAYER_BFINISH`. -/
def CLayer.LAYER_BFINISH : Int := 34

/-- The constant `CLayer::LAYER_TGLUE`. -/
def CLayer.LAYER_TGLUE : Int := 35

/-- The constant `CLayer::LAYER_BGLUE`. -/
def CLayer.LAYER_BGLUE : Int := 36

/-- The constant `CLayer::LAYER_TTEST`. -/
def CLayer.LAYER_TTEST : Int := 37

/-- The constant `CLayer::LAYER_BTEST`. -/
def CLayer.LAYER_BTEST : Int := 38

/-- The constant `CLayer::LAYER_TKEEPOUT`. -/
def CLayer.LAYER_TKEEPOUT : Int := 39

/-- The constant `CLayer::LAYER_BKEEPOUT`. -/
def CLayer.LAYER_BKEEPOUT : Int := 40

/-- The constant `CLayer::LAYER_TRESTRICT`. -/
def CLayer.LAYER_TRESTRICT : Int := 41

/-- The constant `CLayer::LAYER_BRESTRICT`. -/
def CLayer.LAYER_BRESTRICT : Int := 42

/-- The constant `CLayer::LAYER_VRESTRICT`. -/
def CLayer.LAYER_VRESTRICT : Int := 43

/-- The constant `CLayer::LAYER_DRILLS`. -/
def CLayer.LAYER_DRILLS : Int := 44

/-- The constant `CLayer::LAYER_HOLES`. -/
def CLayer.LAYER_HOLES : Int := 45

/-- The constant `CLayer::LAYER_MILLING`. -/
def CLayer.LAYER_MILLING : Int := 46

/-- The constant `CLayer::LAYER_MEASURES`. -/
def CLayer.LAYER_MEASURES : Int := 47

/-- The constant `CLayer::LAYER_DOCUMENT`. -/
def CLayer.LAYER_DOCUMENT : Int := 48

/-- The constant `CLayer::LAYER_REFERENCE`. -/
def CLayer.LAYER_REFERENCE : Int := 49

/-- The constant `CLayer::LAYER_TDOCU`. -/
def CLayer.LAYER_TDOCU : Int := 50

/-- The constant `CLayer::LAYER_BDOCU`. -/
def CLayer.LAYER_BDOCU : Int := 51

/-- The constant `CLayer::LAYER_NETS`. -/
def CLayer.LAYER_NETS : Int := 91

/-- The constant `CLayer::LAYER_BUSSES`. -/
def CLayer.LAYER_BUSSES : Int := 92

/-- The constant `CLayer::LAYER_PINS`. -/
def CLayer.LAYER_PINS : Int := 93

/-- The constant `CLayer::LAYER_SYMBOLS`. -/
def CLayer.LAYER_SYMBOLS : Int := 94

/-- The constant `CLayer::LAYER_NAMES`. -/
def CLayer.LAYER_NAMES : Int := 95

/-- The constant `CLayer::LAYER_VALUES`. -/
def CLayer.LAYER_VALUES : Int := 96

/-- The constant `CLayer::LAYER_INFO`. -/
def CLayer.LAYER_INFO : Int := 97

/-- The constant `CLayer::LAYER_GUIDE`. -/
def CLayer.LAYER_GUIDE : Int := 98

/-- The constructor `CLayer(layer, name, color, fill, visible, active)`. -/
def CLayer.new (layer : Int) (name : String) (color fill : Int) (visible active : Bool) :
    CLayer :=
  { m_Layer := layer, m_Name := name, m_Color := color, m_Fill := fill, m_Visible := visible,
    m_Active := active }

/-- The function `CLayer::layerName(layer)`: the `switch` over the layer constants, whose
values are pairwise distinct, read as a chain of comparisons; `default` returns the empty
string. -/
def CLayer.layerName (layer : Int) : String :=
  if layer = CLayer.LAYER_TOP then "Top"
  else if layer = CLayer.LAYER_LAYER2 then "Layer2"
  else if layer = CLayer.LAYER_LAYER3 then "Layer3"
  else if layer = CLayer.LAYER_LAYER4 then "Layer4"
  else if layer = CLayer.LAYER_LAYER5 then "Layer5"
  else if layer = CLayer.LAYER_LAYER6 then "Layer6"
  else if layer = CLayer.LAYER_LAYER7 then "Layer7"
  else if layer = CLayer.LAYER_LAYER8 then "Layer8"
  else if layer = CLayer.LAYER_LAYER9 then "Layer9"
  else if layer = CLayer.LAYER_LAYER10 then "Layer10"
  else if layer = CLayer.LAYER_LAYER11 then "Layer11"
  else if layer = CLayer.LAYER_LAYER12 then "Layer12"
  else if layer = CLayer.LAYER_LAYER13 then "Layer13"
  else if layer = CLayer.LAYER_LAYER14 then "Layer14"
  else if layer = CLayer.LAYER_LAYER15 then "Layer15"
  else if layer = CLayer.LAYER_BOTTOM then "Bottom"
  else if layer = CLayer.LAYER_PADS then "Pads"
  else if layer = CLayer.LAYER_VIAS then "Vias"
  else if layer = CLayer.LAYER_UNROUTED then "unrouted"
  else if layer = CLayer.LAYER_DIMENSION then "Dimension"
  else if layer = CLayer.LAYER_TPLACE then "tPlace"
  else if layer = CLayer.LAYER_BPLACE then "bPlace"
  else if layer = CLayer.LAYER_TORIGINS then "tOrigins"
  else if layer = CLayer.LAYER_BORIGINS then "bOrigins"
  else if layer = CLayer.LAYER_TNAMES then "tNames"
  else if layer = CLayer.LAYER_BNAMES then "bNames"
  else if layer = CLayer.LAYER_TVALUES then "tValues"
  else if layer = CLayer.LAYER_BVALUES then "bValues"
  else if layer = CLayer.LAYER_TSTOP then "tStop"
  else if layer = CLayer.LAYER_BSTOP then "bStop"
  else if layer = CLayer.LAYER_TCREAM then "tCream"
  else if layer = CLayer.LAYER_BCREAM then "bCream"
  else if layer = CLayer.LAYER_TFINISH then "tFinish"
  else if layer = CLayer.LAYER_BFINISH then "bFinish"
  else if layer = CLayer.LAYER_TGLUE then "tGlue"
  else if layer = CLayer.LAYER_BGLUE then "bGlue"
  else if layer = CLayer.LAYER_TTEST then "tTest"
  else if layer = CLayer.LAYER_BTEST then "bTest"
  else if layer = CLayer.LAYER_TKEEPOUT then "tKeepout"
  else if layer = CLayer.LAYER_BKEEPOUT then "bKeepout"
  else if layer = CLayer.LAYER_TRESTRICT then "tRestrict"
  else if layer = CLayer.LAYER_BRESTRICT then "bRestrict"
  else if layer = CLayer.LAYER_VRESTRICT then "vRestrict"
  else if layer = CLayer.LAYER_DRILLS then "Drills"
  else if layer = CLayer.LAYER_HOLES then "Holes"
  else if layer = CLayer.LAYER_MILLING then "Milling"
  else if layer = CLayer.LAYER_MEASURES then "Measures"
  else if layer = CLayer.LAYER_DOCUMENT then "Document"
  else if layer = CLayer.LAYER_REFERENCE then "Reference"
  else if layer = CLayer.LAYER_TDOCU then "tDocu"
  else if layer = CLayer.LAYER_BDOCU then "bDocu"
  else if layer = CLayer.LAYER_NETS then "Nets"
  else if layer = CLayer.LAYER_BUSSES then "Busses"
  else if layer = CLayer.LAYER_PINS then "Pins"
  else if layer = CLayer.LAYER_SYMBOLS then "Symbols"
  else if layer = CLayer.LAYER_NAMES then "Names"
  else if layer = CLayer.LAYER_VALUES then "Values"
  else if layer = CLayer.LAYER_INFO then "Info"
  else if layer = CLayer.LAYER_GUIDE then "Guide"
  else ""

/-- The method `CDrawing::initDefaultLayers()`: the list is emptied and the default layers
are appended one by one, which leaves the list of them in the order of the calls. -/
def CDrawing.initDefaultLayers (x : CDrawing) : CDrawing :=
  { x with m_Layers := [
    CLayer.new CLayer.LAYER_TOP (CLayer.layerName CLayer.LAYER_TOP) 4 1 true true,
    CLayer.new CLayer.LAYER_LAYER2 (CLayer.layerName CLayer.LAYER_LAYER2) 1 1 true true,
    CLayer.new CLayer.LAYER_LAYER3 (CLayer.layerName CLayer.LAYER_LAYER3) 1 1 true true,
    CLayer.new CLayer.LAYER_LAYER4 (CLayer.layerName CLayer.LAYER_LAYER4) 1 1 true true,
    CLayer.new CLayer.LAYER_LAYER5 (CLayer.layerName CLayer.LAYER_LAYER5) 1 1 true true,
    CLayer.new CLayer.LAYER_LAYER6 (CLayer.layerName CLayer.LAYER_LAYER6) 1 1 true true,
    CLayer.new CLayer.LAYER_LAYER7 (CLayer.layerName CLayer.LAYER_LAYER7) 1 1 true true,
    CLayer.new CLayer.LAYER_LAYER8 (CLayer.layerName CLayer.LAYER_LAYER8) 1 1 true true,
    CLayer.new CLayer.LAYER_LAYER9 (CLayer.layerName CLayer.LAYER_LAYER9) 1 1 true true,
    CLayer.new CLayer.LAYER_LAYER10 (CLayer.layerName CLayer.LAYER_LAYER10) 1 1 true true,
    CLayer.new CLayer.LAYER_LAYER11 (CLayer.layerName CLayer.LAYER_LAYER11) 1 1 true true,
    CLayer.new CLayer.LAYER_LAYER12 (CLayer.layerName CLayer.LAYER_LAYER12) 1 1 true true,
    CLayer.new CLayer.LAYER_LAYER13 (CLayer.layerName CLayer.LAYER_LAYER13) 1 1 true true,
    CLayer.new CLayer.LAYER_LAYER14 (CLayer.layerName CLayer.LAYER_LAYER14) 1 1 true true,
    CLayer.new CLayer.LAYER_LAYER15 (CLayer.layerName CLayer.LAYER_LAYER15) 1 1 true true,
    CLayer.new CLayer.LAYER_BOTTOM (CLayer.layerName CLayer.LAYER_BOTTOM) 1 1 true true,
    CLayer.new CLayer.LAYER_PADS (CLayer.layerName CLayer.LAYER_PADS) 2 1 true true,
    CLayer.new CLayer.LAYER_VIAS (CLayer.layerName CLayer.LAYER_VIAS) 2 1 true true,
    CLayer.new CLayer.LAYER_UNROUTED (CLayer.layerName CLayer.LAYER_UNROUTED) 6 1 true true,
    CLayer.new CLayer.LAYER_DIMENSION (CLayer.layerName CLayer.LAYER_DIMENSION) 15 1 true true,
    CLayer.new CLayer.LAYER_TPLACE (CLayer.layerName CLayer.LAYER_TPLACE) 7 1 true true,
    CLayer.new CLayer.LAYER_BPLACE (CLayer.layerName CLayer.LAYER_BPLACE) 7 1 true true,
    CLayer.new CLayer.LAYER_TORIGINS (CLayer.layerName CLayer.LAYER_TORIGINS) 15 1 true true,
    CLayer.new CLayer.LAYER_BORIGINS (CLayer.layerName CLayer.LAYER_BORIGINS) 15 1 true true,
    CLayer.new CLayer.LAYER_TNAMES (CLayer.layerName CLayer.LAYER_TNAMES) 7 1 true true,
    CLayer.new CLayer.LAYER_BNAMES (CLayer.layerName CLayer.LAYER_BNAMES) 7 1 true true,
    CLayer.new CLayer.LAYER_TVALUES (CLayer.layerName CLayer.LAYER_TVALUES) 7 1 true true,
    CLayer.new CLayer.LAYER_BVALUES (CLayer.layerName CLayer.LAYER_BVALUES) 7 1 true true,
    CLayer.new CLayer.LAYER_TSTOP (CLayer.layerName CLayer.LAYER_TSTOP) 7 3 false true,
    CLayer.new CLayer.LAYER_BSTOP (CLayer.layerName CLayer.LAYER_BSTOP) 7 6 false true,
    CLayer.new CLayer.LAYER_TCREAM (CLayer.layerName CLayer.LAYER_TCREAM) 7 4 false true,
    CLayer.new CLayer.LAYER_BCREAM (CLayer.layerName CLayer.LAYER_BCREAM) 7 5 false true,
    CLayer.new CLayer.LAYER_TFINISH (CLayer.layerName CLayer.LAYER_TFINISH) 6 3 false true,
    CLayer.new CLayer.LAYER_BFINISH (CLayer.layerName CLayer.LAYER_BFINISH) 6 6 false true,
    CLayer.new CLayer.LAYER_TGLUE (CLayer.layerName CLayer.LAYER_TGLUE) 7 4 false true,
    CLayer.new CLayer.LAYER_BGLUE (CLayer.layerName CLayer.LAYER_BGLUE) 7 5 false true,
    CLayer.new CLayer.LAYER_TTEST (CLayer.layerName CLayer.LAYER_TTEST) 7 1 false true,
    CLayer.new CLayer.LAYER_BTEST (CLayer.layerName CLayer.LAYER_BTEST) 7 1 false true,
    CLayer.new CLayer.LAYER_TKEEPOUT (CLayer.layerName CLayer.LAYER_TKEEPOUT) 4 11 true true,
    CLayer.new CLayer.LAYER_BKEEPOUT (CLayer.layerName CLayer.LAYER_BKEEPOUT) 1 11 true true,
    CLayer.new CLayer.LAYER_TRESTRICT (CLayer.layerName CLayer.LAYER_TRESTRICT) 4 10 true true,
    CLayer.new CLayer.LAYER_BRESTRICT (CLayer.layerName CLayer.LAYER_BRESTRICT) 1 10 true true,
    CLayer.new CLayer.LAYER_VRESTRICT (CLayer.layerName CLayer.LAYER_VRESTRICT) 2 10 true true,
    CLayer.new CLayer.LAYER_DRILLS (CLayer.layerName CLayer.LAYER_DRILLS) 7 1 false true,
    CLayer.new CLayer.LAYER_HOLES (CLayer.layerName CLayer.LAYER_HOLES) 7 1 false true,
    CLayer.new CLayer.LAYER_MILLING (CLayer.layerName CLayer.LAYER_MILLING) 3 1 false true,
    CLayer.new CLayer.LAYER_MEASURES (CLayer.layerName CLayer.LAYER_MEASURES) 7 1 false true,
    CLayer.new CLayer.LAYER_DOCUMENT (CLayer.layerName CLayer.LAYER_DOCUMENT) 7 1 true true,
    CLayer.new CLayer.LAYER_REFERENCE (CLayer.layerName CLayer.LAYER_REFERENCE) 7 1 true true,
    CLayer.new CLayer.LAYER_TDOCU (CLayer.layerName CLayer.LAYER_TDOCU) 7 1 true true,
    CLayer.new CLayer.LAYER_BDOCU (CLayer.layerName CLayer.LAYER_BDOCU) 7 1 true true,
    CLayer.new CLayer.LAYER_NETS (CLayer.layerName CLayer.LAYER_NETS) 7 1 true true,
    CLayer.new CLayer.LAYER_BUSSES (CLayer.layerName CLayer.LAYER_BUSSES) 7 1 true true,
    CLayer.new CLayer.LAYER_PINS (CLayer.layerName CLayer.LAYER_PINS) 2 1 false true,
    CLayer.new CLayer.LAYER_SYMBOLS (CLayer.layerName CLayer.LAYER_SYMBOLS) 4 1 true true,
    CLayer.new CLayer.LAYER_NAMES (CLayer.layerName CLayer.LAYER_NAMES) 7 1 true true,
    CLayer.new CLayer.LAYER_VALUES (CLayer.layerName CLayer.LAYER_VALUES) 7 1 true true,
    CLayer.new CLayer.LAYER_INFO (CLayer.layerName CLayer.LAYER_INFO) 7 1 true true,
    CLayer.new CLayer.LAYER_GUIDE (CLayer.layerName CLayer.LAYER_GUIDE) 6 1 true true] }

/-- The method `CDrawing::findLayerByID(layer)`: the first layer of the list whose number is
`layer`, or `none` for the null pointer. -/
def CDrawing.findLayerByID (x : CDrawing) (layer : Int) : Option CLayer :=
  x.m_Layers.find? (fun l => l.m_Layer == layer)

end Eagle

/-! # Theorems -/

namespace Eagle

/-! ## Strings -/

theorem QString.isEmpty_eq_true_iff (s : String) : QString.isEmpty s = true ↔ s = "" := by
  cases s with
  | mk l => cases l <;> simp [QString.isEmpty, String.ext_iff]

theorem QString.isEmpty_eq_false_iff (s : String) : QString.isEmpty s = false ↔ s ≠ "" := by
  cases s with
  | mk l => cases l <;> simp [QString.isEmpty, String.ext_iff]

theorem NumberText.argDouble_ne_empty (c : NumberText) {x : ℚ}
    (h : c.toDouble (c.argDouble x) = some x) : c.argDouble x ≠ "" := by
  intro h0
  rw [h0, c.toDouble_empty] at h
  cases h

theorem NumberText.argInt_ne_empty (c : NumberText) {n : Int}
    (h : c.toInt (c.argInt n) = some n) : c.argInt n ≠ "" := by
  intro h0
  rw [h0, c.toInt_empty] at h
  cases h

theorem String.length_eq_data (s : String) : s.length = s.data.length := rfl


/-! ## Attribute lists -/

@[simp] theorem getAttr_setAttr_same (name value : String) (l : List (String × String)) :
    getAttr name (setAttr name value l) = value := by
  induction l with
  | nil => simp [setAttr, getAttr]
  | cons kv rest ih =>
    obtain ⟨k, v⟩ := kv
    by_cases hk : k = name <;> simp [setAttr, getAttr, hk, ih]

theorem getAttr_setAttr_ne {name other : String} (value : String)
    (l : List (String × String)) (h : other ≠ name) :
    getAttr name (setAttr other value l) = getAttr name l := by
  induction l with
  | nil => simp [setAttr, getAttr, h]
  | cons kv rest ih =>
    obtain ⟨k, v⟩ := kv
    by_cases hk : k = other
    · subst hk; simp [setAttr, getAttr, h]
    · by_cases hn : k = name
      · subst hn; simp [setAttr, getAttr, hk]
      · simp [setAttr, getAttr, hk, hn, ih]

theorem getAttr_ite (p : Prop) [Decidable p] (name : String) (a b : List (String × String)) :
    getAttr name (if p then a else b) = if p then getAttr name a else getAttr name b := by
  split <;> rfl

theorem keys_setAttr (name k v : String) (l : List (String × String)) :
    name ∈ (setAttr k v l).map Prod.fst ↔ name = k ∨ name ∈ l.map Prod.fst := by
  induction l with
  | nil => simp [setAttr]
  | cons kv rest ih =>
    obtain ⟨k', v'⟩ := kv
    by_cases hk : k' = k
    · subst hk; simp [setAttr]
    · simp only [setAttr, hk, if_false, List.map_cons, List.mem_cons, ih]
      tauto

theorem keys_ite_setAttr (p : Prop) [Decidable p] (name k v : String)
    (l : List (String × String)) :
    name ∈ (if p then setAttr k v l else l).map Prod.fst ↔
      (p ∧ name = k) ∨ name ∈ l.map Prod.fst := by
  by_cases hp : p
  · rw [if_pos hp, keys_setAttr]
    simp [hp]
  · rw [if_neg hp]
    simp [hp]


/-! ## DOM handles -/

theorem createElement_eq (host : QDomDocument) (h : host.isNull = false) (tagName : String) :
    host.createElement tagName = QDomNode.ref (DomTree.element tagName [] []) [] := by
  simp [QDomDocument.createElement, h]

theorem createTextNode_eq (host : QDomDocument) (h : host.isNull = false) (value : String) :
    host.createTextNode value = QDomNode.ref (DomTree.text value) [] := by
  simp [QDomDocument.createTextNode, h]

@[simp] theorem setAttribute_element (n : String) (a : List (String × String))
    (cs f : List DomTree) (name value : String) :
    (QDomNode.ref (DomTree.element n a cs) f).setAttribute name value =
      QDomNode.ref (DomTree.element n (setAttr name value a) cs) f := rfl

@[simp] theorem appendChild_element (n : String) (a : List (String × String))
    (cs f : List DomTree) (t : DomTree) (g : List DomTree) :
    (QDomNode.ref (DomTree.element n a cs) f).appendChild (QDomNode.ref t g) =
      QDomNode.ref (DomTree.element n a (cs ++ [t])) f := rfl

@[simp] theorem attribute_element (n : String) (a : List (String × String))
    (cs f : List DomTree) (name : String) :
    (QDomNode.ref (DomTree.element n a cs) f).attribute name = getAttr name a := rfl

theorem hasAttribute_element (n : String) (a : List (String × String))
    (cs f : List DomTree) (name : String) :
    (QDomNode.ref (DomTree.element n a cs) f).hasAttribute name = true ↔
      name ∈ a.map Prod.fst := by
  simp [QDomNode.hasAttribute]

@[simp] theorem nodeName_element (n : String) (a : List (String × String))
    (cs f : List DomTree) :
    (QDomNode.ref (DomTree.element n a cs) f).nodeName = n := rfl

@[simp] theorem isNull_ref (t : DomTree) (f : List DomTree) :
    (QDomNode.ref t f).isNull = false := rfl

@[simp] theorem childNodes_element (n : String) (a : List (String × String))
    (cs f : List DomTree) :
    (QDomNode.ref (DomTree.element n a cs) f).childNodes = cs := rfl

theorem ite_element (p : Prop) [Decidable p] (n : String) (a b : List (String × String))
    (cs f : List DomTree) :
    (if p then QDomNode.ref (DomTree.element n a cs) f
      else QDomNode.ref (DomTree.element n b cs) f) =
      QDomNode.ref (DomTree.element n (if p then a else b) cs) f := by
  split <;> rfl

/-- What `root.appendChild(e)` leaves as the last child of an element `root`. -/
theorem lastChild_appendChild (root : QDomNode) (h : root.isElement = true) (e : QDomNode)
    (he : ∃ t, e = QDomNode.ref t []) : (root.appendChild e).lastChild = e := by
  obtain ⟨t, rfl⟩ := he
  cases root with
  | null => cases h
  | ref node f =>
    cases node with
    | text d => cases h
    | element n a cs => simp [QDomNode.lastChild]

theorem isNull_of_isElement (root : QDomNode) (h : root.isElement = true) :
    root.isNull = false := by
  cases root with
  | null => cases h
  | ref node f => rfl

/-- A loop of `writeToXML` calls on an element appends the written nodes in list order. -/
theorem foldl_write {α : Type} (w : α → QDomElement → Bool × QDomElement)
    (f : α → QDomElement)
    (hw : ∀ x n a cs g, (w x (QDomNode.ref (DomTree.element n a cs) g)).2 =
      (QDomNode.ref (DomTree.element n a cs) g).appendChild (f x))
    (hf : ∀ x, ∃ t, f x = QDomNode.ref t [])
    (xs : List α) (n : String) (a : List (String × String)) (cs g : List DomTree) :
    xs.foldl (fun e x => (w x e).2) (QDomNode.ref (DomTree.element n a cs) g) =
      QDomNode.ref (DomTree.element n a (cs ++ QDomNode.treesOf (xs.map f))) g := by
  induction xs generalizing cs with
  | nil => simp [QDomNode.treesOf]
  | cons x rest ih =>
    obtain ⟨t, ht⟩ := hf x
    simp only [List.foldl_cons, hw, ht, appendChild_element, ih, List.map_cons,
      QDomNode.treesOf, List.append_assoc, List.singleton_append]

theorem nodeName_treesOf {α : Type} (f : α → QDomElement) (tag : String)
    (hf : ∀ x, ∃ a cs, f x = QDomNode.ref (DomTree.element tag a cs) []) (xs : List α) :
    (QDomNode.treesOf (xs.map f)).map DomTree.nodeName = List.replicate xs.length tag := by
  induction xs with
  | nil => rfl
  | cons x rest ih =>
    obtain ⟨a, cs, hx⟩ := hf x
    simp [QDomNode.treesOf, hx, ih, DomTree.nodeName, List.replicate_succ]


/-! ## The transformation codec -/

theorem decode_short (c : NumberText) (s : String) (rotation : ℚ) (reflection spin : Bool)
    (h : s.length < 2) :
    decodeTransformation c s rotation reflection spin =
      ⟨false, rotation, reflection, spin, []⟩ := by
  unfold decodeTransformation
  rw [if_neg (by omega)]

/-- The three exits of `decodeTransformation` once the prefix letters are read. -/
theorem decode_exits (b : Bool) (o : Option ℚ) (rotation : ℚ)
    (m sp : Bool) (rd : List Nat) :
    (if b = true then
        match o with
        | some value => (⟨true, value, m, sp, rd⟩ : Decoded)
        | none => ⟨false, rotation, m, sp, rd⟩
      else ⟨false, rotation, m, sp, rd⟩) =
      ⟨b && o.isSome, if b = true then o.getD rotation else rotation, m, sp, rd⟩ := by
  cases b <;> cases o <;> rfl

theorem decode_long (c : NumberText) (s : String) (rotation : ℚ) (reflection spin : Bool)
    (h : 2 ≤ s.length) :
    decodeTransformation c s rotation reflection spin =
      ⟨'R' == QString.at s
            ((if 'S' == QString.at s 0 then 1 else 0) +
              (if 'M' == QString.at s (if 'S' == QString.at s 0 then 1 else 0) then 1 else 0)) &&
          (c.toDouble (QString.mid s
            ((if 'S' == QString.at s 0 then 1 else 0) +
              (if 'M' == QString.at s (if 'S' == QString.at s 0 then 1 else 0) then 1 else 0)
              + 1))).isSome,
        if 'R' == QString.at s
            ((if 'S' == QString.at s 0 then 1 else 0) +
              (if 'M' == QString.at s (if 'S' == QString.at s 0 then 1 else 0) then 1 else 0))
        then (c.toDouble (QString.mid s
            ((if 'S' == QString.at s 0 then 1 else 0) +
              (if 'M' == QString.at s (if 'S' == QString.at s 0 then 1 else 0) then 1 else 0)
              + 1))).getD rotation
        else rotation,
        'M' == QString.at s (if 'S' == QString.at s 0 then 1 else 0),
        if 'S' == QString.at s 0 then true else spin,
        [0, if 'S' == QString.at s 0 then 1 else 0,
          (if 'S' == QString.at s 0 then 1 else 0) +
            (if 'M' == QString.at s (if 'S' == QString.at s 0 then 1 else 0) then 1 else 0)]⟩ := by
  unfold decodeTransformation
  rw [if_pos h]
  dsimp only
  rw [decode_exits]
  cases hS : ('S' == QString.at s 0) <;> simp only [if_true, if_false, Bool.false_eq_true] <;>
    cases hM : ('M' == QString.at s _) <;> rfl

/-- Decoding what `encodeTransformation` wrote, with the outputs cleared beforehand,
gives the encoded triple back, provided the angle's text parses back to the angle. -/
theorem decode_encode (c : NumberText) (angle : ℚ) (reflection spin : Bool)
    (h : c.toDouble (c.argDouble angle) = some angle) :
    decodeTransformation c (encodeTransformation c angle reflection spin) 0 false false =
      ⟨true, angle, reflection, spin,
        [0, if spin then 1 else 0,
          (if spin then 1 else 0) + (if reflection then 1 else 0)]⟩ := by
  have hne : (c.argDouble angle).data ≠ [] := by
    intro h0
    exact c.argDouble_ne_empty h (String.ext h0)
  obtain ⟨a, rest, hd⟩ := List.exists_cons_of_ne_nil hne
  have hs : c.argDouble angle = String.mk (a :: rest) := String.ext hd
  cases spin <;> cases reflection <;>
    simp [decodeTransformation, encodeTransformation, QString.at, QString.mid,
      String.length, hd, h, ← hs]

theorem encode_not_empty (c : NumberText) (rotation : ℚ) (reflection spin : Bool) :
    (!QString.isEmpty (encodeTransformation c rotation reflection spin)) = true := by
  cases spin <;> cases reflection <;> simp [encodeTransformation, QString.isEmpty]

/-- Claim C1: for every angle (so for each of 0, 90, 180, 270 and 37.5) and every
reflection and spin flag, `decodeTransformation` applied to
`encodeTransformation(angle, reflection, spin)` with the outputs at their cleared values
(rotation 0, reflection false, spin false) returns true and leaves the outputs equal to
`(angle, reflection, spin)`, provided the angle's written text parses back to it. -/
theorem C1_decode_encode_roundtrip (c : NumberText) (angle : ℚ) (reflection spin : Bool)
    (h : c.toDouble (c.argDouble angle) = some angle) :
    (decodeTransformation c (encodeTransformation c angle reflection spin)
        0 false false).result = true ∧
    (decodeTransformation c (encodeTransformation c angle reflection spin)
        0 false false).rotation = angle ∧
    (decodeTransformation c (encodeTransformation c angle reflection spin)
        0 false false).reflection = reflection ∧
    (decodeTransformation c (encodeTransformation c angle reflection spin)
        0 false false).spin = spin := by
  rw [decode_encode c angle reflection spin h]
  exact ⟨rfl, rfl, rfl, rfl⟩

/-- Witness of C1 in plain decimal notation: the angle 37.5, mirrored and spun, is
written `SMR37.5` and read back. -/
theorem C1_decode_encode_roundtrip_witness :
    decimalNumbers.toDouble (decimalNumbers.argDouble (mkRat 75 2)) = some (mkRat 75 2) ∧
    encodeTransformation decimalNumbers (mkRat 75 2) true true = "SMR37.5" ∧
    (decodeTransformation decimalNumbers
        (encodeTransformation decimalNumbers (mkRat 75 2) true true) 0 false false).result
      = true ∧
    (decodeTransformation decimalNumbers
        (encodeTransformation decimalNumbers (mkRat 75 2) true true) 0 false false).rotation
      = mkRat 75 2 :=
  ⟨by decide, by decide,
    (C1_decode_encode_roundtrip decimalNumbers (mkRat 75 2) true true (by decide)).1,
    (C1_decode_encode_roundtrip decimalNumbers (mkRat 75 2) true true (by decide)).2.1⟩

/-- C2 does not hold: when `decodeTransformation` returns false on a string of two or more
characters, only rotation is sure to hold its prior value. Reflection has been assigned
on entry and again on reading `M`, so it is true exactly when an `M` was read after the
optional `S`, whatever it held before; spin has been set on reading `S`, so it is true
when the string starts with `S` and holds its prior value only when it does not. -/
theorem C2_failed_decode_overwrites_flags (c : NumberText) (s : String) (rotation : ℚ)
    (reflection spin : Bool) (hlen : 2 ≤ s.length)
    (h : (decodeTransformation c s rotation reflection spin).result = false) :
    (decodeTransformation c s rotation reflection spin).rotation = rotation ∧
    (decodeTransformation c s rotation reflection spin).reflection =
      ('M' == QString.at s (if 'S' == QString.at s 0 then 1 else 0)) ∧
    (decodeTransformation c s rotation reflection spin).spin =
      (if 'S' == QString.at s 0 then true else spin) := by
  rw [decode_long c s rotation reflection spin hlen] at h ⊢
  refine ⟨?_, rfl, rfl⟩
  dsimp only at h ⊢
  generalize ('R' == QString.at s _) = bR at h ⊢
  generalize c.toDouble _ = o at h ⊢
  cases bR <;> cases o <;> simp_all

/-- Witness of C2: the string `SA` is refused and rotation keeps its prior value 90, but
reflection, true beforehand, is false afterwards, and spin, false beforehand, is true. -/
theorem C2_failed_decode_overwrites_flags_witness :
    (decodeTransformation decimalNumbers "SA" 90 true false).result = false ∧
    (decodeTransformation decimalNumbers "SA" 90 true false).rotation = 90 ∧
    (decodeTransformation decimalNumbers "SA" 90 true false).reflection = false ∧
    (decodeTransformation decimalNumbers "SA" 90 true false).spin = true :=
  ⟨by decide,
    (C2_failed_decode_overwrites_flags decimalNumbers "SA" 90 true false (by decide)
      (by decide)).1,
    (C2_failed_decode_overwrites_flags decimalNumbers "SA" 90 true false (by decide)
      (by decide)).2.1,
    (C2_failed_decode_overwrites_flags decimalNumbers "SA" 90 true false (by decide)
      (by decide)).2.2⟩

/-- The strings of the grammar `S? M? R<text>`. -/
theorem decode_of_form (c : NumberText) (hasS hasM : Bool) (lit : String) (rotation : ℚ)
    (reflection spin : Bool) :
    (decodeTransformation c
        ((if hasS then "S" else "") ++ (if hasM then "M" else "") ++ "R" ++ lit)
        rotation reflection spin).result = (c.toDouble lit).isSome ∧
    ((c.toDouble lit).isSome = true →
      (decodeTransformation c
          ((if hasS then "S" else "") ++ (if hasM then "M" else "") ++ "R" ++ lit)
          rotation reflection spin).rotation = (c.toDouble lit).getD rotation ∧
      (decodeTransformation c
          ((if hasS then "S" else "") ++ (if hasM then "M" else "") ++ "R" ++ lit)
          rotation reflection spin).reflection = hasM) := by
  by_cases hl : lit.data = []
  · have hlit : lit = "" := String.ext hl
    subst hlit
    have e1 : QString.mid "R" 1 = "" := by decide
    have e2 : QString.mid "MR" 2 = "" := by decide
    have e3 : QString.mid "SR" 2 = "" := by decide
    have e4 : QString.mid "SMR" 3 = "" := by decide
    have l1 : ¬ 2 ≤ "R".length := by decide
    have l2 : 2 ≤ "MR".length := by decide
    have l3 : 2 ≤ "SR".length := by decide
    have l4 : 2 ≤ "SMR".length := by decide
    have a1 : QString.at "MR" 0 = 'M' := by decide
    have a2 : QString.at "MR" 1 = 'R' := by decide
    have a3 : QString.at "SR" 0 = 'S' := by decide
    have a4 : QString.at "SR" 1 = 'R' := by decide
    have a5 : QString.at "SMR" 0 = 'S' := by decide
    have a6 : QString.at "SMR" 1 = 'M' := by decide
    have a7 : QString.at "SMR" 2 = 'R' := by decide
    cases hasS <;> cases hasM <;>
      simp [decodeTransformation, c.toDouble_empty, e1, e2, e3, e4, l1, l2, l3, l4,
        a1, a2, a3, a4, a5, a6, a7]
  · rcases lit with ⟨l⟩
    cases l with
    | nil => exact absurd rfl hl
    | cons a rest =>
      cases hasS <;> cases hasM <;> cases ht : c.toDouble { data := a :: rest } <;>
        simp [decodeTransformation, QString.at, QString.mid, String.length_eq_data, ht]

theorem decode_true_form (c : NumberText) (s : String) (rotation : ℚ)
    (reflection spin : Bool)
    (h : (decodeTransformation c s rotation reflection spin).result = true) :
    ∃ (hasS hasM : Bool) (lit : String) (v : ℚ),
      s = (if hasS then "S" else "") ++ (if hasM then "M" else "") ++ "R" ++ lit ∧
      c.toDouble lit = some v := by
  have hlen : 2 ≤ s.length := by
    by_contra hlt
    rw [decode_short c s rotation reflection spin (by omega)] at h
    cases h
  rw [decode_long c s rotation reflection spin hlen] at h
  simp only [Bool.and_eq_true] at h
  obtain ⟨hR, hT⟩ := h
  obtain ⟨v, hv⟩ := Option.isSome_iff_exists.mp hT
  refine ⟨'S' == QString.at s 0,
    'M' == QString.at s (if 'S' == QString.at s 0 then 1 else 0), _, v, ?_, hv⟩
  apply String.ext
  rcases s with ⟨l⟩
  rcases l with _ | ⟨a, _ | ⟨b, rest⟩⟩
  · simp [String.length_eq_data] at hlen
  · simp [String.length_eq_data] at hlen
  · clear hlen hT hv
    by_cases ha : 'S' = a
    · subst ha
      by_cases hb : 'M' = b
      · subst hb
        rcases rest with _ | ⟨d, rest⟩ <;> simp [QString.at, QString.mid] at hR ⊢
        exact hR.symm
      · simp [QString.at, QString.mid, hb] at hR ⊢
        exact hR.symm
    · by_cases hb : 'M' = a
      · subst hb
        simp [QString.at, QString.mid] at hR ⊢
        exact hR.symm
      · simp [QString.at, QString.mid, ha, hb] at hR ⊢
        exact hR.symm

/-- Claim C3: `decodeTransformation` returns true exactly when the string is an
optional `S`, an optional `M`, then `R`, then text that `toDouble` accepts; and for such
a string the rotation is the value of that text and reflection is true exactly when the
`M` is there. -/
theorem C3_decode_accepts_grammar (c : NumberText) (s : String) (rotation : ℚ)
    (reflection spin : Bool) :
    ((decodeTransformation c s rotation reflection spin).result = true ↔
      ∃ (hasS hasM : Bool) (lit : String) (v : ℚ),
        s = (if hasS then "S" else "") ++ (if hasM then "M" else "") ++ "R" ++ lit ∧
        c.toDouble lit = some v) ∧
    (∀ (hasS hasM : Bool) (lit : String) (v : ℚ),
      s = (if hasS then "S" else "") ++ (if hasM then "M" else "") ++ "R" ++ lit →
      c.toDouble lit = some v →
      (decodeTransformation c s rotation reflection spin).result = true ∧
      (decodeTransformation c s rotation reflection spin).rotation = v ∧
      (decodeTransformation c s rotation reflection spin).reflection = hasM) := by
  have key : ∀ (hasS hasM : Bool) (lit : String) (v : ℚ),
      s = (if hasS then "S" else "") ++ (if hasM then "M" else "") ++ "R" ++ lit →
      c.toDouble lit = some v →
      (decodeTransformation c s rotation reflection spin).result = true ∧
      (decodeTransformation c s rotation reflection spin).rotation = v ∧
      (decodeTransformation c s rotation reflection spin).reflection = hasM := by
    intro hasS hasM lit v hs hv
    have h := decode_of_form c hasS hasM lit rotation reflection spin
    rw [← hs, hv] at h
    exact ⟨h.1, (h.2 rfl).1, (h.2 rfl).2⟩
  refine ⟨⟨decode_true_form c s rotation reflection spin, ?_⟩, key⟩
  rintro ⟨hasS, hasM, lit, v, hs, hv⟩
  exact (key hasS hasM lit v hs hv).1


/-! ## The written elements -/

theorem vertex_xmlElement_form (c : NumberText) (host : QDomDocument)
    (hhost : host.isNull = false) (defaults : Bool) (v : CVertex) :
    ∃ a cs, v.xmlElement c host defaults = QDomNode.ref (DomTree.element "vertex" a cs) [] := by
  simp only [CVertex.xmlElement, createElement_eq host hhost, setAttribute_element, ite_element]
  exact ⟨_, _, rfl⟩

theorem vertex_write (c : NumberText) (host : QDomDocument) (hhost : host.isNull = false)
    (defaults : Bool) (v : CVertex) (n : String) (a : List (String × String))
    (cs g : List DomTree) :
    (v.writeToXML c host (QDomNode.ref (DomTree.element n a cs) g) defaults).2 =
      (QDomNode.ref (DomTree.element n a cs) g).appendChild (v.xmlElement c host defaults) := by
  simp [CVertex.writeToXML, hhost]

theorem polygon_xmlElement_form (c : NumberText) (host : QDomDocument)
    (hhost : host.isNull = false) (defaults : Bool) (p : CPolygon) :
    ∃ a cs, p.xmlElement c host defaults = QDomNode.ref (DomTree.element "polygon" a cs) [] := by
  simp only [CPolygon.xmlElement, createElement_eq host hhost, setAttribute_element,
    ite_element]
  rw [foldl_write (fun v e => v.writeToXML c host e defaults)
    (fun v => v.xmlElement c host defaults)
    (fun v n a cs g => vertex_write c host hhost defaults v n a cs g)
    (fun v => by
      obtain ⟨a, cs, h⟩ := vertex_xmlElement_form c host hhost defaults v
      exact ⟨_, h⟩)]
  exact ⟨_, _, rfl⟩

theorem polygon_write (c : NumberText) (host : QDomDocument) (hhost : host.isNull = false)
    (defaults : Bool) (x : CPolygon) (n : String) (a : List (String × String))
    (cs g : List DomTree) :
    (x.writeToXML c host (QDomNode.ref (DomTree.element n a cs) g) defaults).2 =
      (QDomNode.ref (DomTree.element n a cs) g).appendChild (x.xmlElement c host defaults) := by
  simp [CPolygon.writeToXML, hhost]

theorem wire_xmlElement_form (c : NumberText) (host : QDomDocument)
    (hhost : host.isNull = false) (defaults : Bool) (x : CWire) :
    ∃ a cs, x.xmlElement c host defaults = QDomNode.ref (DomTree.element "wire" a cs) [] := by
  simp only [CWire.xmlElement, createElement_eq host hhost, setAttribute_element,
    ite_element]
  exact ⟨_, _, rfl⟩

theorem wire_write (c : NumberText) (host : QDomDocument) (hhost : host.isNull = false)
    (defaults : Bool) (x : CWire) (n : String) (a : List (String × String))
    (cs g : List DomTree) :
    (x.writeToXML c host (QDomNode.ref (DomTree.element n a cs) g) defaults).2 =
      (QDomNode.ref (DomTree.element n a cs) g).appendChild (x.xmlElement c host defaults) := by
  simp [CWire.writeToXML, hhost]

theorem text_xmlElement_form (c : NumberText) (host : QDomDocument)
    (hhost : host.isNull = false) (defaults : Bool) (x : CText) :
    ∃ a cs, x.xmlElement c host defaults = QDomNode.ref (DomTree.element "text" a cs) [] := by
  simp only [CText.xmlElement, createElement_eq host hhost, setAttribute_element,
    ite_element, createTextNode_eq host hhost, appendChild_element]
  exact ⟨_, _, rfl⟩

theorem text_write (c : NumberText) (host : QDomDocument) (hhost : host.isNull = false)
    (defaults : Bool) (x : CText) (n : String) (a : List (String × String))
    (cs g : List DomTree) :
    (x.writeToXML c host (QDomNode.ref (DomTree.element n a cs) g) defaults).2 =
      (QDomNode.ref (DomTree.element n a cs) g).appendChild (x.xmlElement c host defaults) := by
  simp [CText.writeToXML, hhost]

theorem dimension_xmlElement_form (c : NumberText) (host : QDomDocument)
    (hhost : host.isNull = false) (defaults : Bool) (x : CDimension) :
    ∃ a cs, x.xmlElement c host defaults = QDomNode.ref (DomTree.element "dimension" a cs) [] := by
  simp only [CDimension.xmlElement, createElement_eq host hhost, setAttribute_element,
    ite_element]
  exact ⟨_, _, rfl⟩

theorem dimension_write (c : NumberText) (host : QDomDocument) (hhost : host.isNull = false)
    (defaults : Bool) (x : CDimension) (n : String) (a : List (String × String))
    (cs g : List DomTree) :
    (x.writeToXML c host (QDomNode.ref (DomTree.element n a cs) g) defaults).2 =
      (QDomNode.ref (DomTree.element n a cs) g).appendChild (x.xmlElement c host defaults) := by
  simp [CDimension.writeToXML, hhost]

theorem circle_xmlElement_form (c : NumberText) (host : QDomDocument)
    (hhost : host.isNull = false) (_defaults : Bool) (x : CCircle) :
    ∃ a cs, x.xmlElement c host = QDomNode.ref (DomTree.element "circle" a cs) [] := by
  simp only [CCircle.xmlElement, createElement_eq host hhost, setAttribute_element,
    ite_element]
  exact ⟨_, _, rfl⟩

theorem circle_write (c : NumberText) (host : QDomDocument) (hhost : host.isNull = false)
    (defaults : Bool) (x : CCircle) (n : String) (a : List (String × String))
    (cs g : List DomTree) :
    (x.writeToXML c host (QDomNode.ref (DomTree.element n a cs) g) defaults).2 =
      (QDomNode.ref (DomTree.element n a cs) g).appendChild (x.xmlElement c host) := by
  simp [CCircle.writeToXML, hhost]

theorem rectangle_xmlElement_form (c : NumberText) (host : QDomDocument)
    (hhost : host.isNull = false) (defaults : Bool) (x : CRectangle) :
    ∃ a cs, x.xmlElement c host defaults = QDomNode.ref (DomTree.element "rectangle" a cs) [] := by
  simp only [CRectangle.xmlElement, createElement_eq host hhost, setAttribute_element,
    ite_element]
  exact ⟨_, _, rfl⟩

theorem rectangle_write (c : NumberText) (host : QDomDocument) (hhost : host.isNull = false)
    (defaults : Bool) (x : CRectangle) (n : String) (a : List (String × String))
    (cs g : List DomTree) :
    (x.writeToXML c host (QDomNode.ref (DomTree.element n a cs) g) defaults).2 =
      (QDomNode.ref (DomTree.element n a cs) g).appendChild (x.xmlElement c host defaults) := by
  simp [CRectangle.writeToXML, hhost]

theorem frame_xmlElement_form (c : NumberText) (host : QDomDocument)
    (hhost : host.isNull = false) (defaults : Bool) (x : CFrame) :
    ∃ a cs, x.xmlElement c host defaults = QDomNode.ref (DomTree.element "frame" a cs) [] := by
  simp only [CFrame.xmlElement, createElement_eq host hhost, setAttribute_element,
    ite_element]
  exact ⟨_, _, rfl⟩

theorem frame_write (c : NumberText) (host : QDomDocument) (hhost : host.isNull = false)
    (defaults : Bool) (x : CFrame) (n : String) (a : List (String × String))
    (cs g : List DomTree) :
    (x.writeToXML c host (QDomNode.ref (DomTree.element n a cs) g) defaults).2 =
      (QDomNode.ref (DomTree.element n a cs) g).appendChild (x.xmlElement c host defaults) := by
  simp [CFrame.writeToXML, hhost]

theorem hole_xmlElement_form (c : NumberText) (host : QDomDocument)
    (hhost : host.isNull = false) (_defaults : Bool) (x : CHole) :
    ∃ a cs, x.xmlElement c host = QDomNode.ref (DomTree.element "hole" a cs) [] := by
  simp only [CHole.xmlElement, createElement_eq host hhost, setAttribute_element,
    ite_element]
  exact ⟨_, _, rfl⟩

theorem hole_write (c : NumberText) (host : QDomDocument) (hhost : host.isNull = false)
    (defaults : Bool) (x : CHole) (n : String) (a : List (String × String))
    (cs g : List DomTree) :
    (x.writeToXML c host (QDomNode.ref (DomTree.element n a cs) g) defaults).2 =
      (QDomNode.ref (DomTree.element n a cs) g).appendChild (x.xmlElement c host) := by
  simp [CHole.writeToXML, hhost]

theorem pad_xmlElement_form (c : NumberText) (host : QDomDocument)
    (hhost : host.isNull = false) (defaults : Bool) (x : CPad) :
    ∃ a cs, x.xmlElement c host defaults = QDomNode.ref (DomTree.element "pad" a cs) [] := by
  simp only [CPad.xmlElement, createElement_eq host hhost, setAttribute_element,
    ite_element]
  exact ⟨_, _, rfl⟩

theorem pad_write (c : NumberText) (host : QDomDocument) (hhost : host.isNull = false)
    (defaults : Bool) (x : CPad) (n : String) (a : List (String × String))
    (cs g : List DomTree) :
    (x.writeToXML c host (QDomNode.ref (DomTree.element n a cs) g) defaults).2 =
      (QDomNode.ref (DomTree.element n a cs) g).appendChild (x.xmlElement c host defaults) := by
  simp [CPad.writeToXML, hhost]

theorem smd_xmlElement_form (c : NumberText) (host : QDomDocument)
    (hhost : host.isNull = false) (defaults : Bool) (x : CSMD) :
    ∃ a cs, x.xmlElement c host defaults = QDomNode.ref (DomTree.element "smd" a cs) [] := by
  simp only [CSMD.xmlElement, createElement_eq host hhost, setAttribute_element,
    ite_element]
  exact ⟨_, _, rfl⟩

theorem smd_write (c : NumberText) (host : QDomDocument) (hhost : host.isNull = false)
    (defaults : Bool) (x : CSMD) (n : String) (a : List (String × String))
    (cs g : List DomTree) :
    (x.writeToXML c host (QDomNode.ref (DomTree.element n a cs) g) defaults).2 =
      (QDomNode.ref (DomTree.element n a cs) g).appendChild (x.xmlElement c host defaults) := by
  simp [CSMD.writeToXML, hhost]

/-- The children that `CDescription::writeToXML` appends: one `description` element
holding the text, or nothing when the text is empty. -/
theorem description_write (host : QDomDocument) (hhost : host.isNull = false)
    (defaults : Bool) (d : CDescription) (n : String) (a : List (String × String))
    (cs g : List DomTree) :
    (d.writeToXML host (QDomNode.ref (DomTree.element n a cs) g) defaults).2 =
      QDomNode.ref (DomTree.element n a (cs ++
        if QString.isEmpty d.m_Description then []
        else [DomTree.element "description"
          (if defaults || !(d.m_Language == "en") then [("language", d.m_Language)] else [])
          [DomTree.text d.m_Description]])) g := by
  cases hq : QString.isEmpty d.m_Description <;>
    simp [CDescription.writeToXML, hhost, hq, createElement_eq host hhost,
      createTextNode_eq host hhost, ite_element, setAttr]


/-! ## Wire -/

set_option maxRecDepth 100000 in
/-- Claim C4 at a failing input: a freshly cleared wire whose extent is `1-16` is written
with `defaults` set as a `wire` node carrying `extent="1-16"`; parsing that node into a
freshly cleared wire returns true and restores every other field, but the extent comes
back empty. -/
theorem C4_wire_extent_not_read :
    (CWire.writeToXML decimalNumbers { CWire.clear with m_Extent := "1-16" }
        (QDomDocument.mk false) (QDomNode.ref (DomTree.element "signal" [] []) [])
        true).2.lastChild.attribute "extent" = "1-16" ∧
    CWire.readFromXML decimalNumbers
        (CWire.writeToXML decimalNumbers { CWire.clear with m_Extent := "1-16" }
          (QDomDocument.mk false) (QDomNode.ref (DomTree.element "signal" [] []) [])
          true).2.lastChild
        CWire.clear
      = (true, { CWire.clear with m_Extent := "" }) := by
  decide


/-! ## Dimension -/

set_option maxRecDepth 100000 in
/-- Claim C5 at a failing input: a freshly cleared dimension with width 2, text ratio 6
and the visible flag set is written with `defaults` set as a node carrying `width="2"` and
`visible="yes"` and no `textratio`; parsing that node into a freshly cleared dimension
leaves width 0.1, text ratio 8 and visible false. -/
theorem C5_dimension_fields_not_read :
    (CDimension.writeToXML decimalNumbers
        { CDimension.clear with m_Width := 2, m_TextRatio := 6, m_Visible := true }
        (QDomDocument.mk false) (QDomNode.ref (DomTree.element "plain" [] []) [])
        true).2.lastChild.attribute "width" = "2" ∧
    (CDimension.writeToXML decimalNumbers
        { CDimension.clear with m_Width := 2, m_TextRatio := 6, m_Visible := true }
        (QDomDocument.mk false) (QDomNode.ref (DomTree.element "plain" [] []) [])
        true).2.lastChild.attribute "visible" = "yes" ∧
    (CDimension.writeToXML decimalNumbers
        { CDimension.clear with m_Width := 2, m_TextRatio := 6, m_Visible := true }
        (QDomDocument.mk false) (QDomNode.ref (DomTree.element "plain" [] []) [])
        true).2.lastChild.hasAttribute "textratio" = false ∧
    CDimension.readFromXML decimalNumbers
        (CDimension.writeToXML decimalNumbers
          { CDimension.clear with m_Width := 2, m_TextRatio := 6, m_Visible := true }
          (QDomDocument.mk false) (QDomNode.ref (DomTree.element "plain" [] []) [])
          true).2.lastChild
        CDimension.clear
      = (true, CDimension.clear) := by
  decide


/-! ## Text -/

theorem text_xmlElement_attr (c : NumberText) (t : CText) (host : QDomDocument)
    (hhost : host.isNull = false) :
    (t.xmlElement c host false).nodeName = "text" ∧
    (t.xmlElement c host false).isNull = false ∧
    (t.xmlElement c host false).text = t.m_Text ∧
    (t.xmlElement c host false).attribute "x" = c.argDouble t.m_X ∧
    (t.xmlElement c host false).attribute "y" = c.argDouble t.m_Y ∧
    (t.xmlElement c host false).attribute "size" = c.argDouble t.m_Size ∧
    (t.xmlElement c host false).attribute "layer" = c.argInt t.m_Layer ∧
    (t.xmlElement c host false).attribute "font" =
      (if CText.DEFAULT_FONT != t.m_Font then t.m_Font.toString else "") ∧
    (t.xmlElement c host false).attribute "ratio" =
      (if CText.DEFAULT_RATIO != t.m_Ratio then c.argInt t.m_Ratio else "") ∧
    (t.xmlElement c host false).attribute "rot" =
      (if CText.DEFAULT_ROTATION != t.m_Rotation || t.m_Reflection || t.m_Spin then
        encodeTransformation c t.m_Rotation t.m_Reflection t.m_Spin else "") ∧
    (t.xmlElement c host false).attribute "align" =
      (if CText.Align.taBottomLeft != t.m_Align then t.m_Align.toString else "") ∧
    (t.xmlElement c host false).attribute "distance" =
      (if CText.DEFAULT_DISTANCE != t.m_Distance then c.argInt t.m_Distance else "") := by
  simp only [CText.xmlElement, createElement_eq host hhost, createTextNode_eq host hhost,
    setAttribute_element, ite_element, appendChild_element, List.nil_append,
    Bool.false_or, nodeName_element, isNull_ref, attribute_element, QDomNode.text,
    DomTree.innerText, DomTree.textOfList, String.append_empty, true_and]
  simp [getAttr_ite, getAttr_setAttr_ne, getAttr_setAttr_same, getAttr]

/-- Claim C6: a Text written by `CText::writeToXML` with `defaults` clear and parsed
into a freshly cleared Text comes back equal in every field (text, x, y, size, layer,
font, ratio, rotation, reflection, spin, align, distance), provided each number's
written text parses back to the number. -/
theorem C6_text_roundtrip_elided (c : NumberText) (t : CText) (host : QDomDocument)
    (root : QDomElement) (hhost : host.isNull = false) (hroot : root.isElement = true)
    (hx : c.toDouble (c.argDouble t.m_X) = some t.m_X)
    (hy : c.toDouble (c.argDouble t.m_Y) = some t.m_Y)
    (hsize : c.toDouble (c.argDouble t.m_Size) = some t.m_Size)
    (hlayer : c.toInt (c.argInt t.m_Layer) = some t.m_Layer)
    (hratio : c.toInt (c.argInt t.m_Ratio) = some t.m_Ratio)
    (hrot : c.toDouble (c.argDouble t.m_Rotation) = some t.m_Rotation)
    (hdist : c.toInt (c.argInt t.m_Distance) = some t.m_Distance) :
    (t.writeToXML c host root false).1 = true ∧
    CText.readFromXML c (t.writeToXML c host root false).2.lastChild CText.clear =
      (true, t) := by
  obtain ⟨a, cs, htr⟩ := text_xmlElement_form c host hhost false t
  have hw : (t.writeToXML c host root false) = (true, root.appendChild (QDomNode.ref (DomTree.element "text" a cs) [])) := by
    simp [CText.writeToXML, hhost, isNull_of_isElement root hroot, htr]
  rw [hw]
  refine ⟨rfl, ?_⟩
  dsimp only
  rw [lastChild_appendChild root hroot _ ⟨_, rfl⟩, ← htr]
  obtain ⟨h1, h2, h3, h4, h5, h6, h7, h8, h9, h10, h11, h12⟩ :=
    text_xmlElement_attr c t host hhost
  have hsel : (if (t.xmlElement c host false).nodeName != "text" then
        (t.xmlElement c host false).nextSiblingElement "text"
      else t.xmlElement c host false) = t.xmlElement c host false := by
    simp [h1]
  have nx := (QString.isEmpty_eq_false_iff _).mpr (c.argDouble_ne_empty hx)
  have ny := (QString.isEmpty_eq_false_iff _).mpr (c.argDouble_ne_empty hy)
  have nsize := (QString.isEmpty_eq_false_iff _).mpr (c.argDouble_ne_empty hsize)
  have nlayer := (QString.isEmpty_eq_false_iff _).mpr (c.argInt_ne_empty hlayer)
  have nratio := (QString.isEmpty_eq_false_iff _).mpr (c.argInt_ne_empty hratio)
  have ndist := (QString.isEmpty_eq_false_iff _).mpr (c.argInt_ne_empty hdist)
  unfold CText.readFromXML
  simp only [hsel, h2, Bool.not_false, if_true, readDouble, readInt, h3, h4, h5, h6, h7, h8,
    h9, h10, h11, h12]
  refine Prod.ext rfl (CText.ext ?_ ?_ ?_ ?_ ?_ ?_ ?_ ?_ ?_ ?_ ?_ ?_)
  all_goals dsimp only
  · cases hq : QString.isEmpty t.m_Text with
    | false => rfl
    | true => exact ((QString.isEmpty_eq_true_iff _).mp hq).symm
  · simp [nx, hx]
  · simp [ny, hy]
  · simp [nsize, hsize]
  · simp [nlayer, hlayer]
  · generalize t.m_Font = f
    cases f <;> decide
  · by_cases hr : CText.DEFAULT_RATIO = t.m_Ratio
    · simp [hr, QString.isEmpty, CText.clear]
    · simp [hr, nratio, hratio]
  · by_cases hc : (CText.DEFAULT_ROTATION != t.m_Rotation || t.m_Reflection || t.m_Spin) = true
    · have hd := decode_encode c t.m_Rotation t.m_Reflection t.m_Spin hrot
      rw [if_pos hc, encode_not_empty, if_pos rfl]
      change (decodeTransformation c _ 0 false false).rotation = _
      rw [hd]
    · simp only [Bool.or_eq_true, bne_iff_ne, not_or, Bool.not_eq_true, not_not] at hc
      simp [hc, QString.isEmpty, CText.clear]
  · by_cases hc : (CText.DEFAULT_ROTATION != t.m_Rotation || t.m_Reflection || t.m_Spin) = true
    · have hd := decode_encode c t.m_Rotation t.m_Reflection t.m_Spin hrot
      rw [if_pos hc, encode_not_empty, if_pos rfl]
      change (decodeTransformation c _ 0 false false).reflection = _
      rw [hd]
    · simp only [Bool.or_eq_true, bne_iff_ne, not_or, Bool.not_eq_true, not_not] at hc
      simp [hc, QString.isEmpty, CText.clear]
  · by_cases hc : (CText.DEFAULT_ROTATION != t.m_Rotation || t.m_Reflection || t.m_Spin) = true
    · have hd := decode_encode c t.m_Rotation t.m_Reflection t.m_Spin hrot
      rw [if_pos hc, encode_not_empty, if_pos rfl]
      change (decodeTransformation c _ 0 false false).spin = _
      rw [hd]
    · simp only [Bool.or_eq_true, bne_iff_ne, not_or, Bool.not_eq_true, not_not] at hc
      simp [hc, QString.isEmpty, CText.clear]
  · generalize t.m_Align = f
    cases f <;> decide
  · by_cases hr : CText.DEFAULT_DISTANCE = t.m_Distance
    · simp [hr, QString.isEmpty, CText.clear]
    · simp [hr, ndist, hdist]

set_option maxRecDepth 100000 in
/-- Witness of C6 in plain decimal notation: a mirrored vector-font text `R1` at (1, 2.5),
turned by 90 degrees and centred, is written with `defaults` clear and read back
unchanged. -/
theorem C6_text_roundtrip_elided_witness :
    CText.readFromXML decimalNumbers
        (CText.writeToXML decimalNumbers
          { m_Text := "R1", m_X := 1, m_Y := mkRat 5 2, m_Size := 1, m_Layer := 25,
            m_Font := CText.Font.tfVector, m_Ratio := 8, m_Rotation := 90,
            m_Reflection := true, m_Spin := false, m_Align := CText.Align.taCenter,
            m_Distance := 50 }
          (QDomDocument.mk false) (QDomNode.ref (DomTree.element "package" [] []) [])
          false).2.lastChild
        CText.clear
      = (true,
          { m_Text := "R1", m_X := 1, m_Y := mkRat 5 2, m_Size := 1, m_Layer := 25,
            m_Font := CText.Font.tfVector, m_Ratio := 8, m_Rotation := 90,
            m_Reflection := true, m_Spin := false, m_Align := CText.Align.taCenter,
            m_Distance := 50 }) :=
  (C6_text_roundtrip_elided decimalNumbers
    { m_Text := "R1", m_X := 1, m_Y := mkRat 5 2, m_Size := 1, m_Layer := 25,
      m_Font := CText.Font.tfVector, m_Ratio := 8, m_Rotation := 90,
      m_Reflection := true, m_Spin := false, m_Align := CText.Align.taCenter,
      m_Distance := 50 }
    (QDomDocument.mk false) (QDomNode.ref (DomTree.element "package" [] []) [])
    rfl rfl (by decide) (by decide) (by decide) (by decide) (by decide) (by decide)
    (by decide)).2


/-! ## Via -/

set_option maxRecDepth 100000 in
/-- Claim C7 at a failing input: a freshly cleared via with the always-stop flag set is
written with `defaults` clear as a node without an `alwaysstop` attribute; parsing that
node into a freshly cleared via leaves the flag false. -/
theorem C7_via_alwaysstop_lost :
    (CVia.writeToXML decimalNumbers { CVia.clear with m_AlwaysStop := true }
        (QDomDocument.mk false) (QDomNode.ref (DomTree.element "signal" [] []) [])
        false).2.lastChild.hasAttribute "alwaysstop" = false ∧
    CVia.readFromXML decimalNumbers
        (CVia.writeToXML decimalNumbers { CVia.clear with m_AlwaysStop := true }
          (QDomDocument.mk false) (QDomNode.ref (DomTree.element "signal" [] []) [])
          false).2.lastChild
        CVia.clear
      = (true, { CVia.clear with m_AlwaysStop := false }) := by
  decide

set_option maxRecDepth 100000 in
/-- Claim C9 at its input: a freshly cleared via written with `defaults` clear carries
`x`, `y`, `extent`, `drill`, no `diameter` and no `shape`, but it does carry
`alwaysstop="no"`; parsing the node into a fresh via gives a freshly cleared via. -/
theorem C9_cleared_via_writes_alwaysstop :
    (CVia.xmlElement decimalNumbers CVia.clear (QDomDocument.mk false) false) =
      QDomNode.ref (DomTree.element "via"
        [("x", "0"), ("y", "0"), ("extent", ""), ("drill", "0.01"), ("alwaysstop", "no")]
        []) [] ∧
    (CVia.writeToXML decimalNumbers CVia.clear
        (QDomDocument.mk false) (QDomNode.ref (DomTree.element "signal" [] []) [])
        false).2.lastChild.hasAttribute "alwaysstop" = true ∧
    CVia.readFromXML decimalNumbers
        (CVia.writeToXML decimalNumbers CVia.clear
          (QDomDocument.mk false) (QDomNode.ref (DomTree.element "signal" [] []) [])
          false).2.lastChild
        CVia.clear
      = (true, CVia.clear) := by
  refine ⟨by rfl, by decide, by decide⟩


/-! ## Pad -/

/-- The node `CPad::writeToXML` appends to an element `root` is the element it built. -/
theorem pad_written (c : NumberText) (p : CPad) (host : QDomDocument)
    (root : QDomElement) (defaults : Bool) (hhost : host.isNull = false)
    (hroot : root.isElement = true) :
    (p.writeToXML c host root defaults).2.lastChild = p.xmlElement c host defaults := by
  simp only [CPad.writeToXML, hhost, isNull_of_isElement root hroot, Bool.not_false,
    Bool.and_self, if_true]
  obtain ⟨a, cs, h⟩ := pad_xmlElement_form c host hhost defaults p
  exact lastChild_appendChild root hroot _ ⟨_, h⟩

theorem pad_hasAttribute (c : NumberText) (p : CPad) (host : QDomDocument)
    (defaults : Bool) (hhost : host.isNull = false) :
    (p.xmlElement c host defaults).hasAttribute "name" = true ∧
    (p.xmlElement c host defaults).hasAttribute "x" = true ∧
    (p.xmlElement c host defaults).hasAttribute "y" = true ∧
    (p.xmlElement c host defaults).hasAttribute "drill" = true ∧
    ((p.xmlElement c host defaults).hasAttribute "diameter" = true ↔
      defaults = true ∨ p.m_Diameter ≠ 0) ∧
    ((p.xmlElement c host defaults).hasAttribute "shape" = true ↔
      defaults = true ∨ p.m_Shape ≠ CPad.Shape.psRound) ∧
    ((p.xmlElement c host defaults).hasAttribute "rot" = true ↔
      defaults = true ∨ p.m_Rotation ≠ 0) ∧
    ((p.xmlElement c host defaults).hasAttribute "stop" = true ↔
      defaults = true ∨ p.m_Stop ≠ true) ∧
    ((p.xmlElement c host defaults).hasAttribute "thermals" = true ↔
      defaults = true ∨ p.m_Thermals ≠ true) ∧
    ((p.xmlElement c host defaults).hasAttribute "first" = true ↔
      defaults = true ∨ p.m_First ≠ false) := by
  simp only [CPad.xmlElement, createElement_eq host hhost, setAttribute_element,
    ite_element, hasAttribute_element, keys_ite_setAttr, keys_setAttr]
  simp [CPad.DEFAULT_DIAMETER, CPad.DEFAULT_SHAPE, CPad.DEFAULT_ROTATION]
  exact ⟨or_congr Iff.rfl (not_congr eq_comm), or_congr Iff.rfl (not_congr eq_comm),
    or_congr Iff.rfl (not_congr eq_comm)⟩

/-- Claim C8: the `pad` node `CPad::writeToXML` writes always carries `name`, `x`, `y`
and `drill`; with `defaults` set it carries all of `diameter`, `shape`, `rot`, `stop`,
`thermals` and `first`; with `defaults` clear each of these six is present exactly when
its own field differs from its default (diameter 0, shape round, rotation 0, stop true,
thermals true, first false). -/
theorem C8_pad_default_elision (c : NumberText) (p : CPad) (host : QDomDocument)
    (root : QDomElement) (hhost : host.isNull = false) (hroot : root.isElement = true) :
    (∀ defaults : Bool,
      (p.writeToXML c host root defaults).2.lastChild.hasAttribute "name" = true ∧
      (p.writeToXML c host root defaults).2.lastChild.hasAttribute "x" = true ∧
      (p.writeToXML c host root defaults).2.lastChild.hasAttribute "y" = true ∧
      (p.writeToXML c host root defaults).2.lastChild.hasAttribute "drill" = true) ∧
    ((p.writeToXML c host root true).2.lastChild.hasAttribute "diameter" = true ∧
      (p.writeToXML c host root true).2.lastChild.hasAttribute "shape" = true ∧
      (p.writeToXML c host root true).2.lastChild.hasAttribute "rot" = true ∧
      (p.writeToXML c host root true).2.lastChild.hasAttribute "stop" = true ∧
      (p.writeToXML c host root true).2.lastChild.hasAttribute "thermals" = true ∧
      (p.writeToXML c host root true).2.lastChild.hasAttribute "first" = true) ∧
    (((p.writeToXML c host root false).2.lastChild.hasAttribute "diameter" = true ↔
        p.m_Diameter ≠ 0) ∧
      ((p.writeToXML c host root false).2.lastChild.hasAttribute "shape" = true ↔
        p.m_Shape ≠ CPad.Shape.psRound) ∧
      ((p.writeToXML c host root false).2.lastChild.hasAttribute "rot" = true ↔
        p.m_Rotation ≠ 0) ∧
      ((p.writeToXML c host root false).2.lastChild.hasAttribute "stop" = true ↔
        p.m_Stop ≠ true) ∧
      ((p.writeToXML c host root false).2.lastChild.hasAttribute "thermals" = true ↔
        p.m_Thermals ≠ true) ∧
      ((p.writeToXML c host root false).2.lastChild.hasAttribute "first" = true ↔
        p.m_First ≠ false)) := by
  refine ⟨fun defaults => ?_, ?_, ?_⟩
  · rw [pad_written c p host root defaults hhost hroot]
    obtain ⟨h1, h2, h3, h4, _⟩ := pad_hasAttribute c p host defaults hhost
    exact ⟨h1, h2, h3, h4⟩
  · rw [pad_written c p host root true hhost hroot]
    obtain ⟨_, _, _, _, h5, h6, h7, h8, h9, h10⟩ := pad_hasAttribute c p host true hhost
    exact ⟨h5.mpr (Or.inl rfl), h6.mpr (Or.inl rfl), h7.mpr (Or.inl rfl),
      h8.mpr (Or.inl rfl), h9.mpr (Or.inl rfl), h10.mpr (Or.inl rfl)⟩
  · rw [pad_written c p host root false hhost hroot]
    obtain ⟨_, _, _, _, h5, h6, h7, h8, h9, h10⟩ := pad_hasAttribute c p host false hhost
    simp only [Bool.false_eq_true, false_or] at h5 h6 h7 h8 h9 h10
    exact ⟨h5, h6, h7, h8, h9, h10⟩

set_option maxRecDepth 100000 in
/-- Witness of C8: a freshly cleared pad with a 1.5 diameter and no thermals, written
with `defaults` clear, carries `diameter` and `thermals` and none of `shape`, `rot`,
`stop`, `first`. -/
theorem C8_pad_default_elision_witness :
    ((CPad.writeToXML decimalNumbers
        { CPad.clear with m_Diameter := mkRat 3 2, m_Thermals := false }
        (QDomDocument.mk false) (QDomNode.ref (DomTree.element "package" [] []) [])
        false).2.lastChild.hasAttribute "diameter" = true ↔
      ({ CPad.clear with m_Diameter := mkRat 3 2, m_Thermals := false } : CPad).m_Diameter
        ≠ 0) ∧
    (CPad.writeToXML decimalNumbers
        { CPad.clear with m_Diameter := mkRat 3 2, m_Thermals := false }
        (QDomDocument.mk false) (QDomNode.ref (DomTree.element "package" [] []) [])
        false).2.lastChild.attribute "diameter" = "1.5" ∧
    (CPad.writeToXML decimalNumbers
        { CPad.clear with m_Diameter := mkRat 3 2, m_Thermals := false }
        (QDomDocument.mk false) (QDomNode.ref (DomTree.element "package" [] []) [])
        false).2.lastChild.hasAttribute "shape" = false :=
  ⟨(C8_pad_default_elision decimalNumbers
      { CPad.clear with m_Diameter := mkRat 3 2, m_Thermals := false }
      (QDomDocument.mk false) (QDomNode.ref (DomTree.element "package" [] []) [])
      rfl rfl).2.2.1,
    by decide, by decide⟩


/-! ## Package -/

/-- The children of the element `CPackage::writeToXML` builds. -/
theorem package_childNodes (c : NumberText) (p : CPackage) (host : QDomDocument)
    (defaults : Bool) (hhost : host.isNull = false) :
    (p.xmlElement c host defaults).childNodes =
      (if QString.isEmpty p.m_Description.m_Description then []
        else [DomTree.element "description"
          (if defaults || !(p.m_Description.m_Language == "en") then
            [("language", p.m_Description.m_Language)] else [])
          [DomTree.text p.m_Description.m_Description]]) ++
        QDomNode.treesOf (p.m_Polygons.map (fun x => x.xmlElement c host defaults)) ++
        QDomNode.treesOf (p.m_Wires.map (fun x => x.xmlElement c host defaults)) ++
        QDomNode.treesOf (p.m_Texts.map (fun x => x.xmlElement c host defaults)) ++
        QDomNode.treesOf (p.m_Dimensions.map (fun x => x.xmlElement c host defaults)) ++
        QDomNode.treesOf (p.m_Circles.map (fun x => x.xmlElement c host)) ++
        QDomNode.treesOf (p.m_Rectangles.map (fun x => x.xmlElement c host defaults)) ++
        QDomNode.treesOf (p.m_Frames.map (fun x => x.xmlElement c host defaults)) ++
        QDomNode.treesOf (p.m_Holes.map (fun x => x.xmlElement c host)) ++
        QDomNode.treesOf (p.m_Pads.map (fun x => x.xmlElement c host defaults)) ++
        QDomNode.treesOf (p.m_SMDs.map (fun x => x.xmlElement c host defaults)) := by
  unfold CPackage.xmlElement
  simp only [createElement_eq host hhost, setAttribute_element,
    description_write host hhost]
  rw [foldl_write (fun (x : CPolygon) e => x.writeToXML c host e defaults)
    (fun x => x.xmlElement c host defaults)
    (fun x n a cs g => polygon_write c host hhost defaults x n a cs g)
    (fun x => by
      obtain ⟨a, cs, h⟩ := polygon_xmlElement_form c host hhost defaults x
      exact ⟨_, h⟩)]
  rw [foldl_write (fun (x : CWire) e => x.writeToXML c host e defaults)
    (fun x => x.xmlElement c host defaults)
    (fun x n a cs g => wire_write c host hhost defaults x n a cs g)
    (fun x => by
      obtain ⟨a, cs, h⟩ := wire_xmlElement_form c host hhost defaults x
      exact ⟨_, h⟩)]
  rw [foldl_write (fun (x : CText) e => x.writeToXML c host e defaults)
    (fun x => x.xmlElement c host defaults)
    (fun x n a cs g => text_write c host hhost defaults x n a cs g)
    (fun x => by
      obtain ⟨a, cs, h⟩ := text_xmlElement_form c host hhost defaults x
      exact ⟨_, h⟩)]
  rw [foldl_write (fun (x : CDimension) e => x.writeToXML c host e defaults)
    (fun x => x.xmlElement c host defaults)
    (fun x n a cs g => dimension_write c host hhost defaults x n a cs g)
    (fun x => by
      obtain ⟨a, cs, h⟩ := dimension_xmlElement_form c host hhost defaults x
      exact ⟨_, h⟩)]
  rw [foldl_write (fun (x : CCircle) e => x.writeToXML c host e defaults)
    (fun x => x.xmlElement c host)
    (fun x n a cs g => circle_write c host hhost defaults x n a cs g)
    (fun x => by
      obtain ⟨a, cs, h⟩ := circle_xmlElement_form c host hhost defaults x
      exact ⟨_, h⟩)]
  rw [foldl_write (fun (x : CRectangle) e => x.writeToXML c host e defaults)
    (fun x => x.xmlElement c host defaults)
    (fun x n a cs g => rectangle_write c host hhost defaults x n a cs g)
    (fun x => by
      obtain ⟨a, cs, h⟩ := rectangle_xmlElement_form c host hhost defaults x
      exact ⟨_, h⟩)]
  rw [foldl_write (fun (x : CFrame) e => x.writeToXML c host e defaults)
    (fun x => x.xmlElement c host defaults)
    (fun x n a cs g => frame_write c host hhost defaults x n a cs g)
    (fun x => by
      obtain ⟨a, cs, h⟩ := frame_xmlElement_form c host hhost defaults x
      exact ⟨_, h⟩)]
  rw [foldl_write (fun (x : CHole) e => x.writeToXML c host e defaults)
    (fun x => x.xmlElement c host)
    (fun x n a cs g => hole_write c host hhost defaults x n a cs g)
    (fun x => by
      obtain ⟨a, cs, h⟩ := hole_xmlElement_form c host hhost defaults x
      exact ⟨_, h⟩)]
  rw [foldl_write (fun (x : CPad) e => x.writeToXML c host e defaults)
    (fun x => x.xmlElement c host defaults)
    (fun x n a cs g => pad_write c host hhost defaults x n a cs g)
    (fun x => by
      obtain ⟨a, cs, h⟩ := pad_xmlElement_form c host hhost defaults x
      exact ⟨_, h⟩)]
  rw [foldl_write (fun (x : CSMD) e => x.writeToXML c host e defaults)
    (fun x => x.xmlElement c host defaults)
    (fun x n a cs g => smd_write c host hhost defaults x n a cs g)
    (fun x => by
      obtain ⟨a, cs, h⟩ := smd_xmlElement_form c host hhost defaults x
      exact ⟨_, h⟩)]
  simp only [childNodes_element, List.nil_append, List.append_assoc]

theorem package_xmlElement_form (c : NumberText) (p : CPackage) (host : QDomDocument)
    (defaults : Bool) (hhost : host.isNull = false) :
    ∃ t, p.xmlElement c host defaults = QDomNode.ref t [] := by
  unfold CPackage.xmlElement
  simp only [createElement_eq host hhost, setAttribute_element,
    description_write host hhost]
  rw [foldl_write (fun (x : CPolygon) e => x.writeToXML c host e defaults)
    (fun x => x.xmlElement c host defaults)
    (fun x n a cs g => polygon_write c host hhost defaults x n a cs g)
    (fun x => by
      obtain ⟨a, cs, h⟩ := polygon_xmlElement_form c host hhost defaults x
      exact ⟨_, h⟩)]
  rw [foldl_write (fun (x : CWire) e => x.writeToXML c host e defaults)
    (fun x => x.xmlElement c host defaults)
    (fun x n a cs g => wire_write c host hhost defaults x n a cs g)
    (fun x => by
      obtain ⟨a, cs, h⟩ := wire_xmlElement_form c host hhost defaults x
      exact ⟨_, h⟩)]
  rw [foldl_write (fun (x : CText) e => x.writeToXML c host e defaults)
    (fun x => x.xmlElement c host defaults)
    (fun x n a cs g => text_write c host hhost defaults x n a cs g)
    (fun x => by
      obtain ⟨a, cs, h⟩ := text_xmlElement_form c host hhost defaults x
      exact ⟨_, h⟩)]
  rw [foldl_write (fun (x : CDimension) e => x.writeToXML c host e defaults)
    (fun x => x.xmlElement c host defaults)
    (fun x n a cs g => dimension_write c host hhost defaults x n a cs g)
    (fun x => by
      obtain ⟨a, cs, h⟩ := dimension_xmlElement_form c host hhost defaults x
      exact ⟨_, h⟩)]
  rw [foldl_write (fun (x : CCircle) e => x.writeToXML c host e defaults)
    (fun x => x.xmlElement c host)
    (fun x n a cs g => circle_write c host hhost defaults x n a cs g)
    (fun x => by
      obtain ⟨a, cs, h⟩ := circle_xmlElement_form c host hhost defaults x
      exact ⟨_, h⟩)]
  rw [foldl_write (fun (x : CRectangle) e => x.writeToXML c host e defaults)
    (fun x => x.xmlElement c host defaults)
    (fun x n a cs g => rectangle_write c host hhost defaults x n a cs g)
    (fun x => by
      obtain ⟨a, cs, h⟩ := rectangle_xmlElement_form c host hhost defaults x
      exact ⟨_, h⟩)]
  rw [foldl_write (fun (x : CFrame) e => x.writeToXML c host e defaults)
    (fun x => x.xmlElement c host defaults)
    (fun x n a cs g => frame_write c host hhost defaults x n a cs g)
    (fun x => by
      obtain ⟨a, cs, h⟩ := frame_xmlElement_form c host hhost defaults x
      exact ⟨_, h⟩)]
  rw [foldl_write (fun (x : CHole) e => x.writeToXML c host e defaults)
    (fun x => x.xmlElement c host)
    (fun x n a cs g => hole_write c host hhost defaults x n a cs g)
    (fun x => by
      obtain ⟨a, cs, h⟩ := hole_xmlElement_form c host hhost defaults x
      exact ⟨_, h⟩)]
  rw [foldl_write (fun (x : CPad) e => x.writeToXML c host e defaults)
    (fun x => x.xmlElement c host defaults)
    (fun x n a cs g => pad_write c host hhost defaults x n a cs g)
    (fun x => by
      obtain ⟨a, cs, h⟩ := pad_xmlElement_form c host hhost defaults x
      exact ⟨_, h⟩)]
  rw [foldl_write (fun (x : CSMD) e => x.writeToXML c host e defaults)
    (fun x => x.xmlElement c host defaults)
    (fun x n a cs g => smd_write c host hhost defaults x n a cs g)
    (fun x => by
      obtain ⟨a, cs, h⟩ := smd_xmlElement_form c host hhost defaults x
      exact ⟨_, h⟩)]
  exact ⟨_, rfl⟩

/-- The node `CPackage::writeToXML` appends to an element `root` is the element it built. -/
theorem package_written (c : NumberText) (p : CPackage) (host : QDomDocument)
    (root : QDomElement) (defaults : Bool) (hhost : host.isNull = false)
    (hroot : root.isElement = true) :
    (p.writeToXML c host root defaults).2.lastChild = p.xmlElement c host defaults := by
  simp only [CPackage.writeToXML, hhost, isNull_of_isElement root hroot, Bool.not_false,
    Bool.and_self, if_true]
  exact lastChild_appendChild root hroot _ (package_xmlElement_form c p host defaults hhost)

/-- Claim C10: the `package` element that `CPackage::writeToXML` builds holds its child
nodes grouped by type in the order description, polygons, wires, texts, dimensions,
circles, rectangles, frames, holes, pads, smds, and within each type in list order; a
package holding one wire and one circle (and nothing else) emits `wire` then `circle`. -/
theorem C10_package_child_order (c : NumberText) (p : CPackage) (host : QDomDocument)
    (root : QDomElement) (defaults : Bool) (hhost : host.isNull = false)
    (hroot : root.isElement = true) :
    (p.writeToXML c host root defaults).2.lastChild.childNodes =
      (if QString.isEmpty p.m_Description.m_Description then []
        else [DomTree.element "description"
          (if defaults || !(p.m_Description.m_Language == "en") then
            [("language", p.m_Description.m_Language)] else [])
          [DomTree.text p.m_Description.m_Description]]) ++
        QDomNode.treesOf (p.m_Polygons.map (fun x => x.xmlElement c host defaults)) ++
        QDomNode.treesOf (p.m_Wires.map (fun x => x.xmlElement c host defaults)) ++
        QDomNode.treesOf (p.m_Texts.map (fun x => x.xmlElement c host defaults)) ++
        QDomNode.treesOf (p.m_Dimensions.map (fun x => x.xmlElement c host defaults)) ++
        QDomNode.treesOf (p.m_Circles.map (fun x => x.xmlElement c host)) ++
        QDomNode.treesOf (p.m_Rectangles.map (fun x => x.xmlElement c host defaults)) ++
        QDomNode.treesOf (p.m_Frames.map (fun x => x.xmlElement c host defaults)) ++
        QDomNode.treesOf (p.m_Holes.map (fun x => x.xmlElement c host)) ++
        QDomNode.treesOf (p.m_Pads.map (fun x => x.xmlElement c host defaults)) ++
        QDomNode.treesOf (p.m_SMDs.map (fun x => x.xmlElement c host defaults)) ∧
    (p.writeToXML c host root defaults).2.lastChild.childNodes.map DomTree.nodeName =
      (if QString.isEmpty p.m_Description.m_Description then [] else ["description"]) ++
        List.replicate p.m_Polygons.length "polygon" ++
        List.replicate p.m_Wires.length "wire" ++
        List.replicate p.m_Texts.length "text" ++
        List.replicate p.m_Dimensions.length "dimension" ++
        List.replicate p.m_Circles.length "circle" ++
        List.replicate p.m_Rectangles.length "rectangle" ++
        List.replicate p.m_Frames.length "frame" ++
        List.replicate p.m_Holes.length "hole" ++
        List.replicate p.m_Pads.length "pad" ++
        List.replicate p.m_SMDs.length "smd" ∧
    (∀ (w : CWire) (l : CCircle),
      p.m_Description.m_Description = "" → p.m_Polygons = [] → p.m_Wires = [w] →
      p.m_Texts = [] → p.m_Dimensions = [] → p.m_Circles = [l] → p.m_Rectangles = [] →
      p.m_Frames = [] → p.m_Holes = [] → p.m_Pads = [] → p.m_SMDs = [] →
      (p.writeToXML c host root defaults).2.lastChild.childNodes.map DomTree.nodeName = ["wire", "circle"]) := by
  rw [package_written c p host root defaults hhost hroot]
  have hchildren := package_childNodes c p host defaults hhost
  have htags : (p.xmlElement c host defaults).childNodes.map DomTree.nodeName =
      (if QString.isEmpty p.m_Description.m_Description then [] else ["description"]) ++
        List.replicate p.m_Polygons.length "polygon" ++
        List.replicate p.m_Wires.length "wire" ++
        List.replicate p.m_Texts.length "text" ++
        List.replicate p.m_Dimensions.length "dimension" ++
        List.replicate p.m_Circles.length "circle" ++
        List.replicate p.m_Rectangles.length "rectangle" ++
        List.replicate p.m_Frames.length "frame" ++
        List.replicate p.m_Holes.length "hole" ++
        List.replicate p.m_Pads.length "pad" ++
        List.replicate p.m_SMDs.length "smd" := by
    rw [hchildren]
    simp only [List.map_append, nodeName_treesOf _ "polygon" (polygon_xmlElement_form c host hhost defaults), nodeName_treesOf _ "wire" (wire_xmlElement_form c host hhost defaults), nodeName_treesOf _ "text" (text_xmlElement_form c host hhost defaults), nodeName_treesOf _ "dimension" (dimension_xmlElement_form c host hhost defaults), nodeName_treesOf _ "circle" (circle_xmlElement_form c host hhost defaults), nodeName_treesOf _ "rectangle" (rectangle_xmlElement_form c host hhost defaults), nodeName_treesOf _ "frame" (frame_xmlElement_form c host hhost defaults), nodeName_treesOf _ "hole" (hole_xmlElement_form c host hhost defaults), nodeName_treesOf _ "pad" (pad_xmlElement_form c host hhost defaults), nodeName_treesOf _ "smd" (smd_xmlElement_form c host hhost defaults)]
    cases QString.isEmpty p.m_Description.m_Description <;> simp [DomTree.nodeName]
  refine ⟨hchildren, htags, ?_⟩
  intro w l h0 h1 h2 h3 h4 h5 h6 h7 h8 h9 h10
  rw [htags, h0, h1, h2, h3, h4, h5, h6, h7, h8, h9, h10]
  rfl

set_option maxRecDepth 100000 in
/-- Witness of C10: a package named `0805` holding one freshly cleared wire and one
freshly cleared circle is written as a `package` node whose children are `wire` then
`circle`. -/
theorem C10_package_child_order_witness :
    (CPackage.writeToXML decimalNumbers
        { m_Description := CDescription.clear, m_Polygons := [], m_Wires := [CWire.clear],
          m_Texts := [], m_Dimensions := [], m_Circles := [CCircle.clear],
          m_Rectangles := [], m_Frames := [], m_Holes := [], m_Pads := [], m_SMDs := [],
          m_Name := "0805" }
        (QDomDocument.mk false) (QDomNode.ref (DomTree.element "packages" [] []) [])
        false).2.lastChild.childNodes.map DomTree.nodeName = ["wire", "circle"] :=
  (C10_package_child_order decimalNumbers
    { m_Description := CDescription.clear, m_Polygons := [], m_Wires := [CWire.clear],
      m_Texts := [], m_Dimensions := [], m_Circles := [CCircle.clear],
      m_Rectangles := [], m_Frames := [], m_Holes := [], m_Pads := [], m_SMDs := [],
      m_Name := "0805" }
    (QDomDocument.mk false) (QDomNode.ref (DomTree.element "packages" [] []) [])
    false rfl rfl).2.2 CWire.clear CCircle.clear rfl rfl rfl rfl rfl rfl rfl rfl rfl rfl rfl

/-! ## Loops over child elements -/

/-- The loop equation: `whileElements` is the list of handles the source's `while` loop
visits. -/
theorem whileElements_loop (tagName : String) (c : QDomNode) :
    whileElements tagName c =
      if c.isNull then [] else c :: whileElements tagName (c.nextSiblingElement tagName) := by
  have key : ∀ l : List DomTree,
      siblingElements tagName l = whileElements tagName (findElement tagName l) := by
    intro l
    induction l with
    | nil => rfl
    | cons t rest ih =>
      cases t with
      | text d => simpa [siblingElements, findElement] using ih
      | element n a cs =>
        by_cases h : n = tagName
        · simp [siblingElements, findElement, h, whileElements]
        · simpa [siblingElements, findElement, h] using ih
  cases c with
  | null => rfl
  | ref t f =>
    show QDomNode.ref t f :: siblingElements tagName f =
      QDomNode.ref t f :: whileElements tagName (findElement tagName f)
    rw [key]

/-- A reader handed an element of its own tag reads that element, not a sibling. -/
theorem select_element (tag : String) (a : List (String × String)) (cs f : List DomTree) :
    (if (QDomNode.ref (DomTree.element tag a cs) f).nodeName != tag then
        (QDomNode.ref (DomTree.element tag a cs) f).nextSiblingElement tag
      else QDomNode.ref (DomTree.element tag a cs) f) =
      QDomNode.ref (DomTree.element tag a cs) f := by
  simp

/-! ## Error handling of the readers -/

/-- C15: on every `hole` node `CHole::readFromXML` returns true, and each of x, y and
drill separately becomes the number its attribute's text denotes when that text is a
valid number and keeps its value otherwise; the node with x="abc", y="1.0", drill="0.5"
read into a cleared Hole gives x = 0, y = 1, drill = 0.5. -/
theorem C15_hole_read_per_attribute (nt : NumberText) (a : List (String × String))
    (cs f : List DomTree) (h : CHole) :
    (CHole.readFromXML nt (QDomNode.ref (DomTree.element "hole" a cs) f) h).1 = true ∧
    (CHole.readFromXML nt (QDomNode.ref (DomTree.element "hole" a cs) f) h).2.m_X =
      (match nt.toDouble (getAttr "x" a) with
        | some value => value
        | none => h.m_X) ∧
    (CHole.readFromXML nt (QDomNode.ref (DomTree.element "hole" a cs) f) h).2.m_Y =
      (match nt.toDouble (getAttr "y" a) with
        | some value => value
        | none => h.m_Y) ∧
    (CHole.readFromXML nt (QDomNode.ref (DomTree.element "hole" a cs) f) h).2.m_Drill =
      (match nt.toDouble (getAttr "drill" a) with
        | some value => value
        | none => h.m_Drill) ∧
    CHole.readFromXML decimalNumbers
        (QDomNode.ref (DomTree.element "hole" [("x", "abc"), ("y", "1.0"), ("drill", "0.5")]
          []) [])
        CHole.clear =
      (true, { m_X := 0, m_Y := 1, m_Drill := mkRat 1 2 }) := by
  have key : ∀ (name : String) (v : ℚ),
      readDouble nt (QDomNode.ref (DomTree.element "hole" a cs) f) name v =
        (match nt.toDouble (getAttr name a) with
          | some value => value
          | none => v) := by
    intro name v
    unfold readDouble
    simp only [attribute_element]
    by_cases he : QString.isEmpty (getAttr name a) = true
    · have h2 : getAttr name a = "" := (QString.isEmpty_eq_true_iff _).1 he
      rw [h2, nt.toDouble_empty]
      rfl
    · simp [he]
  refine ⟨rfl, ?_, ?_, ?_, by decide⟩
  · exact key "x" h.m_X
  · exact key "y" h.m_Y
  · exact key "drill" h.m_Drill

/-- C18: `CPad::toString` sends the five pad shapes to the five distinct tokens square,
round, octagon, long and offset, and reading a `pad` node whose shape attribute is
`toString(v)` sets the shape to `v`, whatever it was before. -/
theorem C18_pad_shape_table :
    [CPad.Shape.psSquare, CPad.Shape.psRound, CPad.Shape.psOctagon, CPad.Shape.psLong,
      CPad.Shape.psOffset].map CPad.Shape.toString =
      ["square", "round", "octagon", "long", "offset"] ∧
    (∀ v : CPad.Shape, v ∈ [CPad.Shape.psSquare, CPad.Shape.psRound, CPad.Shape.psOctagon,
      CPad.Shape.psLong, CPad.Shape.psOffset]) ∧
    (∀ v w : CPad.Shape, v.toString = w.toString → v = w) ∧
    (∀ s : String, s ∈ ["square", "round", "octagon", "long", "offset"] →
      ∃ v : CPad.Shape, v.toString = s) ∧
    (∀ (nt : NumberText) (v : CPad.Shape) (a : List (String × String))
      (cs f : List DomTree) (p : CPad), getAttr "shape" a = v.toString →
      (CPad.readFromXML nt (QDomNode.ref (DomTree.element "pad" a cs) f) p).1 = true ∧
      (CPad.readFromXML nt (QDomNode.ref (DomTree.element "pad" a cs) f) p).2.m_Shape = v) := by
  refine ⟨by decide, ?_, ?_, ?_, ?_⟩
  · intro v
    cases v <;> decide
  · intro v w
    cases v <;> cases w <;> decide
  · intro s hs
    simp only [List.mem_cons, List.mem_singleton, List.not_mem_nil, or_false] at hs
    rcases hs with h | h | h | h | h
    · exact ⟨CPad.Shape.psSquare, h.symm⟩
    · exact ⟨CPad.Shape.psRound, h.symm⟩
    · exact ⟨CPad.Shape.psOctagon, h.symm⟩
    · exact ⟨CPad.Shape.psLong, h.symm⟩
    · exact ⟨CPad.Shape.psOffset, h.symm⟩
  · intro nt v a cs f p h
    refine ⟨rfl, ?_⟩
    simp only [CPad.readFromXML, select_element, isNull_ref, Bool.not_false, if_true,
      attribute_element, h]
    cases v <;> rfl

/-- C18 at a concrete node: the token long read into a cleared Pad. -/
theorem C18_pad_shape_table_witness :
    getAttr "shape" [("shape", "long")] = CPad.Shape.psLong.toString ∧
    (CPad.readFromXML decimalNumbers
      (QDomNode.ref (DomTree.element "pad" [("shape", "long")] []) [])
      CPad.clear).2.m_Shape = CPad.Shape.psLong :=
  ⟨by decide,
    (C18_pad_shape_table.2.2.2.2 decimalNumbers CPad.Shape.psLong [("shape", "long")] [] []
      CPad.clear (by decide)).2⟩

/-! ## Readers and the order of children -/

theorem whileElements_findElement (tagName : String) (l : List DomTree) :
    whileElements tagName (findElement tagName l) = siblingElements tagName l := by
  induction l with
  | nil => rfl
  | cons t rest ih =>
    cases t with
    | text d => simpa [siblingElements, findElement] using ih
    | element n a cs =>
      by_cases h : n = tagName
      · simp [siblingElements, findElement, h, whileElements]
      · simpa [siblingElements, findElement, h] using ih

/-- A loop over the children named `tag`, whose body looks only at the node it is handed,
maps the body over those children in document order. -/
theorem map_whileElements {β : Type} (tag : String) (g : QDomNode → β)
    (hg : ∀ a cs f, g (QDomNode.ref (DomTree.element tag a cs) f) =
      g (QDomNode.ref (DomTree.element tag a cs) []))
    (e : QDomNode) :
    (whileElements tag (e.firstChildElement tag)).map g =
      (elementsNamed tag e.childNodes).map (fun t => g (QDomNode.ref t [])) := by
  unfold QDomNode.firstChildElement
  rw [whileElements_findElement]
  generalize e.childNodes = l
  induction l with
  | nil => rfl
  | cons t rest ih =>
    cases t with
    | text d => simpa [siblingElements, elementsNamed] using ih
    | element n a cs =>
      by_cases h : n = tag
      · subst h
        simp [siblingElements, elementsNamed, ih, hg a cs rest]
      · simpa [siblingElements, elementsNamed, h] using ih

/-- A read of the first child named `tag`, when the reader looks only at the node it is
handed, is a read of the first element of that name. -/
theorem first_child_read {β : Type} (tag : String) (g : QDomNode → β) (d : β)
    (hg : ∀ a cs f, g (QDomNode.ref (DomTree.element tag a cs) f) =
      g (QDomNode.ref (DomTree.element tag a cs) []))
    (e : QDomNode) :
    (if !(e.firstChildElement tag).isNull then g (e.firstChildElement tag) else d) =
      (match elementsNamed tag e.childNodes with
        | [] => d
        | t :: _ => g (QDomNode.ref t [])) := by
  unfold QDomNode.firstChildElement
  generalize e.childNodes = l
  induction l with
  | nil => rfl
  | cons t rest ih =>
    cases t with
    | text d => simpa [findElement, elementsNamed] using ih
    | element n a cs =>
      by_cases h : n = tag
      · subst h
        simp [findElement, elementsNamed, hg a cs rest]
      · simpa [findElement, elementsNamed, h] using ih

theorem vertex_read_following (nt : NumberText) (a : List (String × String))
    (cs f : List DomTree) (x : CVertex) :
    CVertex.readFromXML nt (QDomNode.ref (DomTree.element "vertex" a cs) f) x =
      CVertex.readFromXML nt (QDomNode.ref (DomTree.element "vertex" a cs) []) x := rfl

theorem polygon_read_following (nt : NumberText) (a : List (String × String))
    (cs f : List DomTree) (x : CPolygon) :
    CPolygon.readFromXML nt (QDomNode.ref (DomTree.element "polygon" a cs) f) x =
      CPolygon.readFromXML nt (QDomNode.ref (DomTree.element "polygon" a cs) []) x := rfl

theorem wire_read_following (nt : NumberText) (a : List (String × String))
    (cs f : List DomTree) (x : CWire) :
    CWire.readFromXML nt (QDomNode.ref (DomTree.element "wire" a cs) f) x =
      CWire.readFromXML nt (QDomNode.ref (DomTree.element "wire" a cs) []) x := rfl

theorem text_read_following (nt : NumberText) (a : List (String × String))
    (cs f : List DomTree) (x : CText) :
    CText.readFromXML nt (QDomNode.ref (DomTree.element "text" a cs) f) x =
      CText.readFromXML nt (QDomNode.ref (DomTree.element "text" a cs) []) x := rfl

theorem dimension_read_following (nt : NumberText) (a : List (String × String))
    (cs f : List DomTree) (x : CDimension) :
    CDimension.readFromXML nt (QDomNode.ref (DomTree.element "dimension" a cs) f) x =
      CDimension.readFromXML nt (QDomNode.ref (DomTree.element "dimension" a cs) []) x := rfl

theorem circle_read_following (nt : NumberText) (a : List (String × String))
    (cs f : List DomTree) (x : CCircle) :
    CCircle.readFromXML nt (QDomNode.ref (DomTree.element "circle" a cs) f) x =
      CCircle.readFromXML nt (QDomNode.ref (DomTree.element "circle" a cs) []) x := rfl

theorem rectangle_read_following (nt : NumberText) (a : List (String × String))
    (cs f : List DomTree) (x : CRectangle) :
    CRectangle.readFromXML nt (QDomNode.ref (DomTree.element "rectangle" a cs) f) x =
      CRectangle.readFromXML nt (QDomNode.ref (DomTree.element "rectangle" a cs) []) x := rfl

theorem frame_read_following (nt : NumberText) (a : List (String × String))
    (cs f : List DomTree) (x : CFrame) :
    CFrame.readFromXML nt (QDomNode.ref (DomTree.element "frame" a cs) f) x =
      CFrame.readFromXML nt (QDomNode.ref (DomTree.element "frame" a cs) []) x := rfl

theorem hole_read_following (nt : NumberText) (a : List (String × String))
    (cs f : List DomTree) (x : CHole) :
    CHole.readFromXML nt (QDomNode.ref (DomTree.element "hole" a cs) f) x =
      CHole.readFromXML nt (QDomNode.ref (DomTree.element "hole" a cs) []) x := rfl

theorem pad_read_following (nt : NumberText) (a : List (String × String))
    (cs f : List DomTree) (x : CPad) :
    CPad.readFromXML nt (QDomNode.ref (DomTree.element "pad" a cs) f) x =
      CPad.readFromXML nt (QDomNode.ref (DomTree.element "pad" a cs) []) x := rfl

theorem smd_read_following (nt : NumberText) (a : List (String × String))
    (cs f : List DomTree) (x : CSMD) :
    CSMD.readFromXML nt (QDomNode.ref (DomTree.element "smd" a cs) f) x =
      CSMD.readFromXML nt (QDomNode.ref (DomTree.element "smd" a cs) []) x := rfl

theorem via_read_following (nt : NumberText) (a : List (String × String))
    (cs f : List DomTree) (x : CVia) :
    CVia.readFromXML nt (QDomNode.ref (DomTree.element "via" a cs) f) x =
      CVia.readFromXML nt (QDomNode.ref (DomTree.element "via" a cs) []) x := rfl

theorem description_read_following (a : List (String × String))
    (cs f : List DomTree) (x : CDescription) :
    CDescription.readFromXML (QDomNode.ref (DomTree.element "description" a cs) f) x =
      CDescription.readFromXML (QDomNode.ref (DomTree.element "description" a cs) []) x := rfl

/-- What `CPackage::readFromXML` makes of a `package` element: the name from the
attribute, the description from the first `description` child, and to each list the
reads of the children of its tag, in document order. The children of other tags, and
the position of a child among children of other tags, play no part. -/
theorem package_read_form (nt : NumberText) (a : List (String × String))
    (cs f : List DomTree) (x : CPackage) :
    CPackage.readFromXML nt (QDomNode.ref (DomTree.element "package" a cs) f) x =
      (true,
        { m_Description :=
            (match elementsNamed "description" cs with
              | [] => x.m_Description
              | t :: _ => (x.m_Description.readFromXML (QDomNode.ref t [])).2),
          m_Polygons := x.m_Polygons ++ (elementsNamed "polygon" cs).map
            (fun t => (CPolygon.readFromXML nt (QDomNode.ref t []) CPolygon.clear).2),
          m_Wires := x.m_Wires ++ (elementsNamed "wire" cs).map
            (fun t => (CWire.readFromXML nt (QDomNode.ref t []) CWire.clear).2),
          m_Texts := x.m_Texts ++ (elementsNamed "text" cs).map
            (fun t => (CText.readFromXML nt (QDomNode.ref t []) CText.clear).2),
          m_Dimensions := x.m_Dimensions ++ (elementsNamed "dimension" cs).map
            (fun t => (CDimension.readFromXML nt (QDomNode.ref t []) CDimension.clear).2),
          m_Circles := x.m_Circles ++ (elementsNamed "circle" cs).map
            (fun t => (CCircle.readFromXML nt (QDomNode.ref t []) CCircle.clear).2),
          m_Rectangles := x.m_Rectangles ++ (elementsNamed "rectangle" cs).map
            (fun t => (CRectangle.readFromXML nt (QDomNode.ref t []) CRectangle.clear).2),
          m_Frames := x.m_Frames ++ (elementsNamed "frame" cs).map
            (fun t => (CFrame.readFromXML nt (QDomNode.ref t []) CFrame.clear).2),
          m_Holes := x.m_Holes ++ (elementsNamed "hole" cs).map
            (fun t => (CHole.readFromXML nt (QDomNode.ref t []) CHole.clear).2),
          m_Pads := x.m_Pads ++ (elementsNamed "pad" cs).map
            (fun t => (CPad.readFromXML nt (QDomNode.ref t []) CPad.clear).2),
          m_SMDs := x.m_SMDs ++ (elementsNamed "smd" cs).map
            (fun t => (CSMD.readFromXML nt (QDomNode.ref t []) CSMD.clear).2),
          m_Name := readString (QDomNode.ref (DomTree.element "package" a cs) f) "name"
            x.m_Name }) := by
  have hd := first_child_read "description"
    (fun c => (x.m_Description.readFromXML c).2) x.m_Description
    (fun a cs f => congrArg Prod.snd (description_read_following a cs f _))
    (QDomNode.ref (DomTree.element "package" a cs) f)
  have h1 := map_whileElements "polygon"
    (fun c => (CPolygon.readFromXML nt c CPolygon.clear).2)
    (fun a cs f => congrArg Prod.snd (polygon_read_following nt a cs f _))
    (QDomNode.ref (DomTree.element "package" a cs) f)
  have h2 := map_whileElements "wire"
    (fun c => (CWire.readFromXML nt c CWire.clear).2)
    (fun a cs f => congrArg Prod.snd (wire_read_following nt a cs f _))
    (QDomNode.ref (DomTree.element "package" a cs) f)
  have h3 := map_whileElements "text"
    (fun c => (CText.readFromXML nt c CText.clear).2)
    (fun a cs f => congrArg Prod.snd (text_read_following nt a cs f _))
    (QDomNode.ref (DomTree.element "package" a cs) f)
  have h4 := map_whileElements "dimension"
    (fun c => (CDimension.readFromXML nt c CDimension.clear).2)
    (fun a cs f => congrArg Prod.snd (dimension_read_following nt a cs f _))
    (QDomNode.ref (DomTree.element "package" a cs) f)
  have h5 := map_whileElements "circle"
    (fun c => (CCircle.readFromXML nt c CCircle.clear).2)
    (fun a cs f => congrArg Prod.snd (circle_read_following nt a cs f _))
    (QDomNode.ref (DomTree.element "package" a cs) f)
  have h6 := map_whileElements "rectangle"
    (fun c => (CRectangle.readFromXML nt c CRectangle.clear).2)
    (fun a cs f => congrArg Prod.snd (rectangle_read_following nt a cs f _))
    (QDomNode.ref (DomTree.element "package" a cs) f)
  have h7 := map_whileElements "frame"
    (fun c => (CFrame.readFromXML nt c CFrame.clear).2)
    (fun a cs f => congrArg Prod.snd (frame_read_following nt a cs f _))
    (QDomNode.ref (DomTree.element "package" a cs) f)
  have h8 := map_whileElements "hole"
    (fun c => (CHole.readFromXML nt c CHole.clear).2)
    (fun a cs f => congrArg Prod.snd (hole_read_following nt a cs f _))
    (QDomNode.ref (DomTree.element "package" a cs) f)
  have h9 := map_whileElements "pad"
    (fun c => (CPad.readFromXML nt c CPad.clear).2)
    (fun a cs f => congrArg Prod.snd (pad_read_following nt a cs f _))
    (QDomNode.ref (DomTree.element "package" a cs) f)
  have h10 := map_whileElements "smd"
    (fun c => (CSMD.readFromXML nt c CSMD.clear).2)
    (fun a cs f => congrArg Prod.snd (smd_read_following nt a cs f _))
    (QDomNode.ref (DomTree.element "package" a cs) f)
  simp only [childNodes_element] at hd h1 h2 h3 h4 h5 h6 h7 h8 h9 h10
  simp only [CPackage.readFromXML, select_element, isNull_ref, Bool.not_false, if_true,
    hd, h1, h2, h3, h4, h5, h6, h7, h8, h9, h10]

/-- C11: two `package` nodes with the same attributes, whose children of each tag are the
same in the same order (as when one child list is a permutation of the other that keeps
the relative order of the children sharing a tag), are read into equal Packages by
`CPackage::readFromXML`, from a cleared Package as from any other. -/
theorem C11_package_read_order_insensitive (nt : NumberText) (a : List (String × String))
    (cs1 cs2 f1 f2 : List DomTree) (x : CPackage)
    (h : ∀ tag : String, elementsNamed tag cs1 = elementsNamed tag cs2) :
    CPackage.readFromXML nt (QDomNode.ref (DomTree.element "package" a cs1) f1) x =
      CPackage.readFromXML nt (QDomNode.ref (DomTree.element "package" a cs2) f2) x := by
  rw [package_read_form, package_read_form]
  simp only [h, readString, attribute_element]

/-- C11 at two concrete nodes: a wire, a hole and a second wire, and the same children
with the hole moved to the front. -/
theorem C11_package_read_order_insensitive_witness :
    List.Perm
      [DomTree.element "wire" [("x1", "2")] [], DomTree.element "hole" [("x", "3")] [],
        DomTree.element "wire" [("x1", "5")] []]
      [DomTree.element "hole" [("x", "3")] [], DomTree.element "wire" [("x1", "2")] [],
        DomTree.element "wire" [("x1", "5")] []] ∧
    CPackage.readFromXML decimalNumbers
      (QDomNode.ref (DomTree.element "package" [("name", "0805")]
        [DomTree.element "wire" [("x1", "2")] [], DomTree.element "hole" [("x", "3")] [],
          DomTree.element "wire" [("x1", "5")] []]) []) CPackage.clear =
    CPackage.readFromXML decimalNumbers
      (QDomNode.ref (DomTree.element "package" [("name", "0805")]
        [DomTree.element "hole" [("x", "3")] [], DomTree.element "wire" [("x1", "2")] [],
          DomTree.element "wire" [("x1", "5")] []]) []) CPackage.clear :=
  ⟨List.Perm.swap _ _ _,
    C11_package_read_order_insensitive decimalNumbers [("name", "0805")] _ _ [] []
      CPackage.clear (fun tag => by
        by_cases h1 : "wire" = tag
        · subst h1
          rfl
        · by_cases h2 : "hole" = tag
          · subst h2
            rfl
          · simp [elementsNamed, h1, h2])⟩

/-! ## Written children, read back -/

theorem elementsNamed_append (tag : String) (l1 l2 : List DomTree) :
    elementsNamed tag (l1 ++ l2) = elementsNamed tag l1 ++ elementsNamed tag l2 := by
  induction l1 with
  | nil => rfl
  | cons t rest ih =>
    cases t with
    | text d => simpa [elementsNamed] using ih
    | element n a cs =>
      by_cases h : n = tag
      · simp [elementsNamed, h, ih]
      · simpa [elementsNamed, h] using ih

/-- Among the nodes a loop of writers of tag `tag2` appended, the elements named `tag` are
all of them when `tag2 = tag` and none otherwise. -/
theorem elementsNamed_treesOf {α : Type} (tag tag2 : String) (f : α → QDomElement)
    (hf : ∀ x, ∃ a cs, f x = QDomNode.ref (DomTree.element tag2 a cs) []) (xs : List α) :
    elementsNamed tag (QDomNode.treesOf (xs.map f)) =
      if tag2 = tag then QDomNode.treesOf (xs.map f) else [] := by
  induction xs with
  | nil => simp [QDomNode.treesOf, elementsNamed]
  | cons x rest ih =>
    obtain ⟨a, cs, hx⟩ := hf x
    by_cases h : tag2 = tag
    · simp only [h, if_true] at ih ⊢
      simp [QDomNode.treesOf, hx, elementsNamed, h, ih]
    · simp only [h, if_false] at ih ⊢
      simp [QDomNode.treesOf, hx, elementsNamed, h, ih]

theorem length_treesOf {α : Type} (f : α → QDomElement)
    (hf : ∀ x, ∃ t, f x = QDomNode.ref t []) (xs : List α) :
    (QDomNode.treesOf (xs.map f)).length = xs.length := by
  induction xs with
  | nil => rfl
  | cons x rest ih =>
    obtain ⟨t, hx⟩ := hf x
    simp [QDomNode.treesOf, hx, ih]

/-- The nodes a loop of writers appended, read back one by one. -/
theorem map_treesOf {α β : Type} (f : α → QDomElement) (g : QDomNode → β)
    (hf : ∀ x, ∃ t, f x = QDomNode.ref t []) (xs : List α) :
    (QDomNode.treesOf (xs.map f)).map (fun t => g (QDomNode.ref t [])) =
      xs.map (fun x => g (f x)) := by
  induction xs with
  | nil => rfl
  | cons x rest ih =>
    obtain ⟨t, hx⟩ := hf x
    simp [QDomNode.treesOf, hx, ih]

/-! ## Plain -/

/-- The children of the element `CPlain::writeToXML` builds: the dimensions are written
by two loops, after the texts and again after the holes. -/
theorem plain_childNodes (nt : NumberText) (p : CPlain) (host : QDomDocument)
    (defaults : Bool) (hhost : host.isNull = false) :
    (p.xmlElement nt host defaults).childNodes =
      QDomNode.treesOf (p.m_Polygons.map (fun x => x.xmlElement nt host defaults)) ++
        QDomNode.treesOf (p.m_Wires.map (fun x => x.xmlElement nt host defaults)) ++
        QDomNode.treesOf (p.m_Texts.map (fun x => x.xmlElement nt host defaults)) ++
        QDomNode.treesOf (p.m_Dimensions.map (fun x => x.xmlElement nt host defaults)) ++
        QDomNode.treesOf (p.m_Circles.map (fun x => x.xmlElement nt host)) ++
        QDomNode.treesOf (p.m_Rectangles.map (fun x => x.xmlElement nt host defaults)) ++
        QDomNode.treesOf (p.m_Frames.map (fun x => x.xmlElement nt host defaults)) ++
        QDomNode.treesOf (p.m_Holes.map (fun x => x.xmlElement nt host)) ++
        QDomNode.treesOf (p.m_Dimensions.map (fun x => x.xmlElement nt host defaults)) := by
  unfold CPlain.xmlElement
  simp only [createElement_eq host hhost]
  rw [foldl_write (fun (x : CPolygon) e => x.writeToXML nt host e defaults)
    (fun x => x.xmlElement nt host defaults)
    (fun x n a cs g => polygon_write nt host hhost defaults x n a cs g)
    (fun x => by
      obtain ⟨a, cs, h⟩ := polygon_xmlElement_form nt host hhost defaults x
      exact ⟨_, h⟩)]
  rw [foldl_write (fun (x : CWire) e => x.writeToXML nt host e defaults)
    (fun x => x.xmlElement nt host defaults)
    (fun x n a cs g => wire_write nt host hhost defaults x n a cs g)
    (fun x => by
      obtain ⟨a, cs, h⟩ := wire_xmlElement_form nt host hhost defaults x
      exact ⟨_, h⟩)]
  rw [foldl_write (fun (x : CText) e => x.writeToXML nt host e defaults)
    (fun x => x.xmlElement nt host defaults)
    (fun x n a cs g => text_write nt host hhost defaults x n a cs g)
    (fun x => by
      obtain ⟨a, cs, h⟩ := text_xmlElement_form nt host hhost defaults x
      exact ⟨_, h⟩)]
  rw [foldl_write (fun (x : CDimension) e => x.writeToXML nt host e defaults)
    (fun x => x.xmlElement nt host defaults)
    (fun x n a cs g => dimension_write nt host hhost defaults x n a cs g)
    (fun x => by
      obtain ⟨a, cs, h⟩ := dimension_xmlElement_form nt host hhost defaults x
      exact ⟨_, h⟩)]
  rw [foldl_write (fun (x : CCircle) e => x.writeToXML nt host e defaults)
    (fun x => x.xmlElement nt host)
    (fun x n a cs g => circle_write nt host hhost defaults x n a cs g)
    (fun x => by
      obtain ⟨a, cs, h⟩ := circle_xmlElement_form nt host hhost defaults x
      exact ⟨_, h⟩)]
  rw [foldl_write (fun (x : CRectangle) e => x.writeToXML nt host e defaults)
    (fun x => x.xmlElement nt host defaults)
    (fun x n a cs g => rectangle_write nt host hhost defaults x n a cs g)
    (fun x => by
      obtain ⟨a, cs, h⟩ := rectangle_xmlElement_form nt host hhost defaults x
      exact ⟨_, h⟩)]
  rw [foldl_write (fun (x : CFrame) e => x.writeToXML nt host e defaults)
    (fun x => x.xmlElement nt host defaults)
    (fun x n a cs g => frame_write nt host hhost defaults x n a cs g)
    (fun x => by
      obtain ⟨a, cs, h⟩ := frame_xmlElement_form nt host hhost defaults x
      exact ⟨_, h⟩)]
  rw [foldl_write (fun (x : CHole) e => x.writeToXML nt host e defaults)
    (fun x => x.xmlElement nt host)
    (fun x n a cs g => hole_write nt host hhost defaults x n a cs g)
    (fun x => by
      obtain ⟨a, cs, h⟩ := hole_xmlElement_form nt host hhost defaults x
      exact ⟨_, h⟩)]
  rw [foldl_write (fun (x : CDimension) e => x.writeToXML nt host e defaults)
    (fun x => x.xmlElement nt host defaults)
    (fun x n a cs g => dimension_write nt host hhost defaults x n a cs g)
    (fun x => by
      obtain ⟨a, cs, h⟩ := dimension_xmlElement_form nt host hhost defaults x
      exact ⟨_, h⟩)]
  simp only [childNodes_element, List.nil_append, List.append_assoc]

theorem plain_xmlElement_form (nt : NumberText) (p : CPlain) (host : QDomDocument)
    (defaults : Bool) (hhost : host.isNull = false) :
    ∃ cs, p.xmlElement nt host defaults = QDomNode.ref (DomTree.element "plain" [] cs) [] := by
  unfold CPlain.xmlElement
  simp only [createElement_eq host hhost]
  rw [foldl_write (fun (x : CPolygon) e => x.writeToXML nt host e defaults)
    (fun x => x.xmlElement nt host defaults)
    (fun x n a cs g => polygon_write nt host hhost defaults x n a cs g)
    (fun x => by
      obtain ⟨a, cs, h⟩ := polygon_xmlElement_form nt host hhost defaults x
      exact ⟨_, h⟩)]
  rw [foldl_write (fun (x : CWire) e => x.writeToXML nt host e defaults)
    (fun x => x.xmlElement nt host defaults)
    (fun x n a cs g => wire_write nt host hhost defaults x n a cs g)
    (fun x => by
      obtain ⟨a, cs, h⟩ := wire_xmlElement_form nt host hhost defaults x
      exact ⟨_, h⟩)]
  rw [foldl_write (fun (x : CText) e => x.writeToXML nt host e defaults)
    (fun x => x.xmlElement nt host defaults)
    (fun x n a cs g => text_write nt host hhost defaults x n a cs g)
    (fun x => by
      obtain ⟨a, cs, h⟩ := text_xmlElement_form nt host hhost defaults x
      exact ⟨_, h⟩)]
  rw [foldl_write (fun (x : CDimension) e => x.writeToXML nt host e defaults)
    (fun x => x.xmlElement nt host defaults)
    (fun x n a cs g => dimension_write nt host hhost defaults x n a cs g)
    (fun x => by
      obtain ⟨a, cs, h⟩ := dimension_xmlElement_form nt host hhost defaults x
      exact ⟨_, h⟩)]
  rw [foldl_write (fun (x : CCircle) e => x.writeToXML nt host e defaults)
    (fun x => x.xmlElement nt host)
    (fun x n a cs g => circle_write nt host hhost defaults x n a cs g)
    (fun x => by
      obtain ⟨a, cs, h⟩ := circle_xmlElement_form nt host hhost defaults x
      exact ⟨_, h⟩)]
  rw [foldl_write (fun (x : CRectangle) e => x.writeToXML nt host e defaults)
    (fun x => x.xmlElement nt host defaults)
    (fun x n a cs g => rectangle_write nt host hhost defaults x n a cs g)
    (fun x => by
      obtain ⟨a, cs, h⟩ := rectangle_xmlElement_form nt host hhost defaults x
      exact ⟨_, h⟩)]
  rw [foldl_write (fun (x : CFrame) e => x.writeToXML nt host e defaults)
    (fun x => x.xmlElement nt host defaults)
    (fun x n a cs g => frame_write nt host hhost defaults x n a cs g)
    (fun x => by
      obtain ⟨a, cs, h⟩ := frame_xmlElement_form nt host hhost defaults x
      exact ⟨_, h⟩)]
  rw [foldl_write (fun (x : CHole) e => x.writeToXML nt host e defaults)
    (fun x => x.xmlElement nt host)
    (fun x n a cs g => hole_write nt host hhost defaults x n a cs g)
    (fun x => by
      obtain ⟨a, cs, h⟩ := hole_xmlElement_form nt host hhost defaults x
      exact ⟨_, h⟩)]
  rw [foldl_write (fun (x : CDimension) e => x.writeToXML nt host e defaults)
    (fun x => x.xmlElement nt host defaults)
    (fun x n a cs g => dimension_write nt host hhost defaults x n a cs g)
    (fun x => by
      obtain ⟨a, cs, h⟩ := dimension_xmlElement_form nt host hhost defaults x
      exact ⟨_, h⟩)]
  exact ⟨_, rfl⟩

/-- The node `CPlain::writeToXML` appends to an element `root` is the element it built. -/
theorem plain_written (nt : NumberText) (p : CPlain) (host : QDomDocument)
    (root : QDomElement) (defaults : Bool) (hhost : host.isNull = false)
    (hroot : root.isElement = true) :
    (p.writeToXML nt host root defaults).2.lastChild = p.xmlElement nt host defaults := by
  simp only [CPlain.writeToXML, hhost, isNull_of_isElement root hroot, Bool.not_false,
    Bool.and_self, if_true]
  obtain ⟨cs, h⟩ := plain_xmlElement_form nt p host defaults hhost
  exact lastChild_appendChild root hroot _ ⟨_, h⟩

/-- What `CPlain::readFromXML` makes of a `plain` element: the `dimension` children are
read by two loops, so each of them is appended twice. -/
theorem plain_read_form (nt : NumberText) (a : List (String × String))
    (cs f : List DomTree) (x : CPlain) :
    CPlain.readFromXML nt (QDomNode.ref (DomTree.element "plain" a cs) f) x =
      (true,
        { m_Polygons := x.m_Polygons ++ (elementsNamed "polygon" cs).map
            (fun t => (CPolygon.readFromXML nt (QDomNode.ref t []) CPolygon.clear).2),
          m_Wires := x.m_Wires ++ (elementsNamed "wire" cs).map
            (fun t => (CWire.readFromXML nt (QDomNode.ref t []) CWire.clear).2),
          m_Texts := x.m_Texts ++ (elementsNamed "text" cs).map
            (fun t => (CText.readFromXML nt (QDomNode.ref t []) CText.clear).2),
          m_Circles := x.m_Circles ++ (elementsNamed "circle" cs).map
            (fun t => (CCircle.readFromXML nt (QDomNode.ref t []) CCircle.clear).2),
          m_Rectangles := x.m_Rectangles ++ (elementsNamed "rectangle" cs).map
            (fun t => (CRectangle.readFromXML nt (QDomNode.ref t []) CRectangle.clear).2),
          m_Frames := x.m_Frames ++ (elementsNamed "frame" cs).map
            (fun t => (CFrame.readFromXML nt (QDomNode.ref t []) CFrame.clear).2),
          m_Holes := x.m_Holes ++ (elementsNamed "hole" cs).map
            (fun t => (CHole.readFromXML nt (QDomNode.ref t []) CHole.clear).2),
          m_Dimensions := (x.m_Dimensions ++ (elementsNamed "dimension" cs).map
            (fun t => (CDimension.readFromXML nt (QDomNode.ref t []) CDimension.clear).2)) ++
            (elementsNamed "dimension" cs).map
            (fun t => (CDimension.readFromXML nt (QDomNode.ref t []) CDimension.clear).2) }) := by
  have h1 := map_whileElements "polygon"
    (fun c => (CPolygon.readFromXML nt c CPolygon.clear).2)
    (fun a cs f => congrArg Prod.snd (polygon_read_following nt a cs f _))
    (QDomNode.ref (DomTree.element "plain" a cs) f)
  have h2 := map_whileElements "wire"
    (fun c => (CWire.readFromXML nt c CWire.clear).2)
    (fun a cs f => congrArg Prod.snd (wire_read_following nt a cs f _))
    (QDomNode.ref (DomTree.element "plain" a cs) f)
  have h3 := map_whileElements "text"
    (fun c => (CText.readFromXML nt c CText.clear).2)
    (fun a cs f => congrArg Prod.snd (text_read_following nt a cs f _))
    (QDomNode.ref (DomTree.element "plain" a cs) f)
  have h4 := map_whileElements "dimension"
    (fun c => (CDimension.readFromXML nt c CDimension.clear).2)
    (fun a cs f => congrArg Prod.snd (dimension_read_following nt a cs f _))
    (QDomNode.ref (DomTree.element "plain" a cs) f)
  have h5 := map_whileElements "circle"
    (fun c => (CCircle.readFromXML nt c CCircle.clear).2)
    (fun a cs f => congrArg Prod.snd (circle_read_following nt a cs f _))
    (QDomNode.ref (DomTree.element "plain" a cs) f)
  have h6 := map_whileElements "rectangle"
    (fun c => (CRectangle.readFromXML nt c CRectangle.clear).2)
    (fun a cs f => congrArg Prod.snd (rectangle_read_following nt a cs f _))
    (QDomNode.ref (DomTree.element "plain" a cs) f)
  have h7 := map_whileElements "frame"
    (fun c => (CFrame.readFromXML nt c CFrame.clear).2)
    (fun a cs f => congrArg Prod.snd (frame_read_following nt a cs f _))
    (QDomNode.ref (DomTree.element "plain" a cs) f)
  have h8 := map_whileElements "hole"
    (fun c => (CHole.readFromXML nt c CHole.clear).2)
    (fun a cs f => congrArg Prod.snd (hole_read_following nt a cs f _))
    (QDomNode.ref (DomTree.element "plain" a cs) f)
  simp only [childNodes_element] at h1 h2 h3 h4 h5 h6 h7 h8
  simp only [CPlain.readFromXML, select_element, isNull_ref, Bool.not_false, if_true,
    h1, h2, h3, h4, h5, h6, h7, h8]

/-- C12: writing a Plain with defaults=true and reading the written node into a cleared
Plain returns true and gives polygon, wire, text, circle, rectangle, frame and hole lists
that are the reads of the written nodes in list order, hence of the same lengths; the
dimension list is not: `CPlain::writeToXML` runs its dimension loop twice and so does
`CPlain::readFromXML`, and the parsed list holds every dimension four times. -/
theorem C12_plain_dimensions_fourfold (nt : NumberText) (p : CPlain) (host : QDomDocument)
    (root : QDomElement) (hhost : host.isNull = false) (hroot : root.isElement = true) :
    (CPlain.readFromXML nt (p.writeToXML nt host root true).2.lastChild CPlain.clear).1 =
      true ∧
    (CPlain.readFromXML nt (p.writeToXML nt host root true).2.lastChild CPlain.clear).2.m_Polygons =
      p.m_Polygons.map (fun x => (CPolygon.readFromXML nt (x.xmlElement nt host true) CPolygon.clear).2) ∧
    (CPlain.readFromXML nt (p.writeToXML nt host root true).2.lastChild CPlain.clear).2.m_Wires =
      p.m_Wires.map (fun x => (CWire.readFromXML nt (x.xmlElement nt host true) CWire.clear).2) ∧
    (CPlain.readFromXML nt (p.writeToXML nt host root true).2.lastChild CPlain.clear).2.m_Texts =
      p.m_Texts.map (fun x => (CText.readFromXML nt (x.xmlElement nt host true) CText.clear).2) ∧
    (CPlain.readFromXML nt (p.writeToXML nt host root true).2.lastChild CPlain.clear).2.m_Circles =
      p.m_Circles.map (fun x => (CCircle.readFromXML nt (x.xmlElement nt host) CCircle.clear).2) ∧
    (CPlain.readFromXML nt (p.writeToXML nt host root true).2.lastChild CPlain.clear).2.m_Rectangles =
      p.m_Rectangles.map (fun x => (CRectangle.readFromXML nt (x.xmlElement nt host true) CRectangle.clear).2) ∧
    (CPlain.readFromXML nt (p.writeToXML nt host root true).2.lastChild CPlain.clear).2.m_Frames =
      p.m_Frames.map (fun x => (CFrame.readFromXML nt (x.xmlElement nt host true) CFrame.clear).2) ∧
    (CPlain.readFromXML nt (p.writeToXML nt host root true).2.lastChild CPlain.clear).2.m_Holes =
      p.m_Holes.map (fun x => (CHole.readFromXML nt (x.xmlElement nt host) CHole.clear).2) ∧
    (CPlain.readFromXML nt (p.writeToXML nt host root true).2.lastChild
        CPlain.clear).2.m_Dimensions =
      p.m_Dimensions.map (fun x => (CDimension.readFromXML nt (x.xmlElement nt host true) CDimension.clear).2) ++
      p.m_Dimensions.map (fun x => (CDimension.readFromXML nt (x.xmlElement nt host true) CDimension.clear).2) ++
      p.m_Dimensions.map (fun x => (CDimension.readFromXML nt (x.xmlElement nt host true) CDimension.clear).2) ++
      p.m_Dimensions.map (fun x => (CDimension.readFromXML nt (x.xmlElement nt host true) CDimension.clear).2) ∧
    (CPlain.readFromXML nt (p.writeToXML nt host root true).2.lastChild
        CPlain.clear).2.m_Dimensions.length = 4 * p.m_Dimensions.length := by
  obtain ⟨cs, hform⟩ := plain_xmlElement_form nt p host true hhost
  have hcs := plain_childNodes nt p host true hhost
  rw [hform, childNodes_element] at hcs
  rw [plain_written nt p host root true hhost hroot, hform, plain_read_form, hcs]
  have e0 := fun tag => elementsNamed_treesOf tag "polygon" (fun x : CPolygon => x.xmlElement nt host true)
    (polygon_xmlElement_form nt host hhost true) p.m_Polygons
  have m0 := map_treesOf (fun x : CPolygon => x.xmlElement nt host true)
    (fun c => (CPolygon.readFromXML nt c CPolygon.clear).2)
    (fun x => by
      obtain ⟨a, cs, h⟩ := polygon_xmlElement_form nt host hhost true x
      exact ⟨_, h⟩) p.m_Polygons
  have e1 := fun tag => elementsNamed_treesOf tag "wire" (fun x : CWire => x.xmlElement nt host true)
    (wire_xmlElement_form nt host hhost true) p.m_Wires
  have m1 := map_treesOf (fun x : CWire => x.xmlElement nt host true)
    (fun c => (CWire.readFromXML nt c CWire.clear).2)
    (fun x => by
      obtain ⟨a, cs, h⟩ := wire_xmlElement_form nt host hhost true x
      exact ⟨_, h⟩) p.m_Wires
  have e2 := fun tag => elementsNamed_treesOf tag "text" (fun x : CText => x.xmlElement nt host true)
    (text_xmlElement_form nt host hhost true) p.m_Texts
  have m2 := map_treesOf (fun x : CText => x.xmlElement nt host true)
    (fun c => (CText.readFromXML nt c CText.clear).2)
    (fun x => by
      obtain ⟨a, cs, h⟩ := text_xmlElement_form nt host hhost true x
      exact ⟨_, h⟩) p.m_Texts
  have e3 := fun tag => elementsNamed_treesOf tag "dimension" (fun x : CDimension => x.xmlElement nt host true)
    (dimension_xmlElement_form nt host hhost true) p.m_Dimensions
  have m3 := map_treesOf (fun x : CDimension => x.xmlElement nt host true)
    (fun c => (CDimension.readFromXML nt c CDimension.clear).2)
    (fun x => by
      obtain ⟨a, cs, h⟩ := dimension_xmlElement_form nt host hhost true x
      exact ⟨_, h⟩) p.m_Dimensions
  have e4 := fun tag => elementsNamed_treesOf tag "circle" (fun x : CCircle => x.xmlElement nt host)
    (circle_xmlElement_form nt host hhost true) p.m_Circles
  have m4 := map_treesOf (fun x : CCircle => x.xmlElement nt host)
    (fun c => (CCircle.readFromXML nt c CCircle.clear).2)
    (fun x => by
      obtain ⟨a, cs, h⟩ := circle_xmlElement_form nt host hhost true x
      exact ⟨_, h⟩) p.m_Circles
  have e5 := fun tag => elementsNamed_treesOf tag "rectangle" (fun x : CRectangle => x.xmlElement nt host true)
    (rectangle_xmlElement_form nt host hhost true) p.m_Rectangles
  have m5 := map_treesOf (fun x : CRectangle => x.xmlElement nt host true)
    (fun c => (CRectangle.readFromXML nt c CRectangle.clear).2)
    (fun x => by
      obtain ⟨a, cs, h⟩ := rectangle_xmlElement_form nt host hhost true x
      exact ⟨_, h⟩) p.m_Rectangles
  have e6 := fun tag => elementsNamed_treesOf tag "frame" (fun x : CFrame => x.xmlElement nt host true)
    (frame_xmlElement_form nt host hhost true) p.m_Frames
  have m6 := map_treesOf (fun x : CFrame => x.xmlElement nt host true)
    (fun c => (CFrame.readFromXML nt c CFrame.clear).2)
    (fun x => by
      obtain ⟨a, cs, h⟩ := frame_xmlElement_form nt host hhost true x
      exact ⟨_, h⟩) p.m_Frames
  have e7 := fun tag => elementsNamed_treesOf tag "hole" (fun x : CHole => x.xmlElement nt host)
    (hole_xmlElement_form nt host hhost true) p.m_Holes
  have m7 := map_treesOf (fun x : CHole => x.xmlElement nt host)
    (fun c => (CHole.readFromXML nt c CHole.clear).2)
    (fun x => by
      obtain ⟨a, cs, h⟩ := hole_xmlElement_form nt host hhost true x
      exact ⟨_, h⟩) p.m_Holes
  simp only [elementsNamed_append, e0, e1, e2, e3, e4, e5, e6, e7]
  simp [CPlain.clear, m0, m1, m2, m3, m4, m5, m6, m7]
  omega

/-- C12 at a Plain that holds one cleared Dimension and nothing else: the Plain read back
holds four dimensions. -/
theorem C12_plain_dimensions_fourfold_witness :
    (CPlain.readFromXML decimalNumbers
      (CPlain.writeToXML decimalNumbers { CPlain.clear with m_Dimensions := [CDimension.clear] }
        (QDomDocument.mk false) (QDomNode.ref (DomTree.element "board" [] []) [])
        true).2.lastChild CPlain.clear).2.m_Dimensions.length = 4 :=
  (C12_plain_dimensions_fourfold decimalNumbers
    { CPlain.clear with m_Dimensions := [CDimension.clear] }
    (QDomDocument.mk false) (QDomNode.ref (DomTree.element "board" [] []) [])
    rfl rfl).2.2.2.2.2.2.2.2.2.trans rfl

/-! ## Signal -/

set_option maxRecDepth 1000000 in
/-- C13 at a failing input: a Signal whose one wire carries the extent `1-16` is written
with defaults=true and read into a cleared Signal; the name, class, airwireshidden flag,
contact references, polygons (with their vertices) and vias come back equal, but the wire
comes back with an empty extent, because `CWire::readFromXML` never reads `extent`. -/
theorem C13_signal_wire_extent_lost :
    CSignal.readFromXML decimalNumbers
        (exampleSignal.writeToXML decimalNumbers (QDomDocument.mk false)
          (QDomNode.ref (DomTree.element "signals" [] []) []) true).2.lastChild
        CSignal.clear =
      (true, { exampleSignal with m_Wires := [{ CWire.clear with m_Extent := "" }] }) ∧
    (CSignal.readFromXML decimalNumbers
        (exampleSignal.writeToXML decimalNumbers (QDomDocument.mk false)
          (QDomNode.ref (DomTree.element "signals" [] []) []) true).2.lastChild
        CSignal.clear).2.m_Wires ≠ exampleSignal.m_Wires := by
  decide

/-! ## The shape of written elements -/

theorem keeps_setAttribute {tag : String} {e : QDomNode}
    (h : ∃ a cs, e = QDomNode.ref (DomTree.element tag a cs) []) (name value : String) :
    ∃ a cs, e.setAttribute name value = QDomNode.ref (DomTree.element tag a cs) [] := by
  obtain ⟨a, cs, rfl⟩ := h
  exact ⟨_, _, rfl⟩

theorem keeps_appendChild {tag : String} {e : QDomNode}
    (h : ∃ a cs, e = QDomNode.ref (DomTree.element tag a cs) []) (c : QDomNode) :
    ∃ a cs, e.appendChild c = QDomNode.ref (DomTree.element tag a cs) [] := by
  obtain ⟨a, cs, rfl⟩ := h
  cases c with
  | null => exact ⟨_, _, rfl⟩
  | ref t g => exact ⟨_, _, rfl⟩

theorem keeps_ite {tag : String} {e1 e2 : QDomNode} (p : Prop) [Decidable p]
    (h1 : ∃ a cs, e1 = QDomNode.ref (DomTree.element tag a cs) [])
    (h2 : ∃ a cs, e2 = QDomNode.ref (DomTree.element tag a cs) []) :
    ∃ a cs, (if p then e1 else e2) = QDomNode.ref (DomTree.element tag a cs) [] := by
  split
  · exact h1
  · exact h2

theorem keeps_foldl {α : Type} {tag : String} (w : QDomNode → α → QDomNode)
    (hw : ∀ e y, (∃ a cs, e = QDomNode.ref (DomTree.element tag a cs) []) →
      ∃ a cs, w e y = QDomNode.ref (DomTree.element tag a cs) [])
    (xs : List α) (e : QDomNode)
    (h : ∃ a cs, e = QDomNode.ref (DomTree.element tag a cs) []) :
    ∃ a cs, xs.foldl w e = QDomNode.ref (DomTree.element tag a cs) [] := by
  induction xs generalizing e with
  | nil => exact h
  | cons y rest ih => exact ih _ (hw e y h)

/-- A guarded `root.appendChild(e)` leaves `root` an element of the same tag. -/
theorem keeps_write {tag : String} (b : Bool) (root c : QDomNode)
    (h : ∃ a cs, root = QDomNode.ref (DomTree.element tag a cs) []) :
    ∃ a cs, (if b then (true, root.appendChild c) else (false, root)).2 =
      QDomNode.ref (DomTree.element tag a cs) [] := by
  cases b
  · exact h
  · exact keeps_appendChild h c

theorem description_write_keeps {tag : String} (x : CDescription) (host : QDomDocument)
    (defaults : Bool) (root : QDomNode)
    (h : ∃ a cs, root = QDomNode.ref (DomTree.element tag a cs) []) :
    ∃ a cs, (x.writeToXML host root defaults).2 =
      QDomNode.ref (DomTree.element tag a cs) [] := by
  unfold CDescription.writeToXML
  split
  · split
    · exact keeps_appendChild h _
    · exact h
  · exact h

theorem designrule_write_keeps {tag : String} (x : CDesignRule) (host : QDomDocument)
    (defaults : Bool) (root : QDomNode)
    (h : ∃ a cs, root = QDomNode.ref (DomTree.element tag a cs) []) :
    ∃ a cs, (x.writeToXML host root defaults).2 =
      QDomNode.ref (DomTree.element tag a cs) [] := by
  unfold CDesignRule.writeToXML
  split
  · apply keeps_foldl
    · intro e y h
      exact keeps_write _ _ _ h
    · apply keeps_foldl
      · intro e y h
        exact description_write_keeps _ _ _ _ h
      · exact keeps_setAttribute h _ _
  · exact h

theorem compatibility_write_keeps {tag : String} (nt : NumberText) (x : CCompatibility)
    (host : QDomDocument) (defaults : Bool) (root : QDomNode)
    (h : ∃ a cs, root = QDomNode.ref (DomTree.element tag a cs) []) :
    ∃ a cs, (x.writeToXML nt host root defaults).2 =
      QDomNode.ref (DomTree.element tag a cs) [] := by
  unfold CCompatibility.writeToXML
  split
  · split
    · exact keeps_appendChild h _
    · exact h
  · exact h

/-! ## The shape of the written containers -/

set_option linter.unusedTactic false in
set_option linter.unreachableTactic false in
theorem settings_xmlElement_form (x : CSettings) (host : QDomDocument)
    (hhost : host.isNull = false) (defaults : Bool) :
    ∃ a cs, x.xmlElement host defaults = QDomNode.ref (DomTree.element "settings" a cs) [] := by
  simp only [CSettings.xmlElement]
  repeat' first
    | exact ⟨_, _, createElement_eq host hhost _⟩
    | apply keeps_setAttribute
    | apply keeps_appendChild
    | apply keeps_ite
    | apply keeps_foldl
    | (intro e y h; first | exact keeps_write _ _ _ h | exact description_write_keeps _ _ _ _ h)
    | apply description_write_keeps
    | apply designrule_write_keeps
    | apply keeps_write

theorem settings_write (x : CSettings) (host : QDomDocument) (hhost : host.isNull = false)
    (defaults : Bool) (n : String) (a : List (String × String)) (cs g : List DomTree) :
    (x.writeToXML host (QDomNode.ref (DomTree.element n a cs) g) defaults).2 =
      (QDomNode.ref (DomTree.element n a cs) g).appendChild (x.xmlElement host defaults) := by
  simp [CSettings.writeToXML, hhost]

set_option linter.unusedTactic false in
set_option linter.unreachableTactic false in
theorem grid_xmlElement_form (nt : NumberText) (x : CGrid) (host : QDomDocument)
    (hhost : host.isNull = false) (defaults : Bool) :
    ∃ a cs, x.xmlElement nt host defaults = QDomNode.ref (DomTree.element "grid" a cs) [] := by
  simp only [CGrid.xmlElement]
  repeat' first
    | exact ⟨_, _, createElement_eq host hhost _⟩
    | apply keeps_setAttribute
    | apply keeps_appendChild
    | apply keeps_ite
    | apply keeps_foldl
    | (intro e y h; first | exact keeps_write _ _ _ h | exact description_write_keeps _ _ _ _ h)
    | apply description_write_keeps
    | apply designrule_write_keeps
    | apply keeps_write

theorem grid_write (nt : NumberText) (x : CGrid) (host : QDomDocument) (hhost : host.isNull = false)
    (defaults : Bool) (n : String) (a : List (String × String)) (cs g : List DomTree) :
    (x.writeToXML nt host (QDomNode.ref (DomTree.element n a cs) g) defaults).2 =
      (QDomNode.ref (DomTree.element n a cs) g).appendChild (x.xmlElement nt host defaults) := by
  simp [CGrid.writeToXML, hhost]

set_option linter.unusedTactic false in
set_option linter.unreachableTactic false in
theorem library_xmlElement_form (nt : NumberText) (x : CLibrary) (host : QDomDocument)
    (hhost : host.isNull = false) (defaults : Bool) :
    ∃ a cs, x.xmlElement nt host defaults = QDomNode.ref (DomTree.element "library" a cs) [] := by
  simp only [CLibrary.xmlElement]
  repeat' first
    | exact ⟨_, _, createElement_eq host hhost _⟩
    | apply keeps_setAttribute
    | apply keeps_appendChild
    | apply keeps_ite
    | apply keeps_foldl
    | (intro e y h; first | exact keeps_write _ _ _ h | exact description_write_keeps _ _ _ _ h)
    | apply description_write_keeps
    | apply designrule_write_keeps
    | apply keeps_write

theorem library_write (nt : NumberText) (x : CLibrary) (host : QDomDocument) (hhost : host.isNull = false)
    (defaults : Bool) (n : String) (a : List (String × String)) (cs g : List DomTree) :
    (x.writeToXML nt host (QDomNode.ref (DomTree.element n a cs) g) defaults).2 =
      (QDomNode.ref (DomTree.element n a cs) g).appendChild (x.xmlElement nt host defaults) := by
  simp [CLibrary.writeToXML, hhost]

set_option linter.unusedTactic false in
set_option linter.unreachableTactic false in
theorem schematic_xmlElement_form (nt : NumberText) (x : CSchematic) (host : QDomDocument)
    (hhost : host.isNull = false) (defaults : Bool) :
    ∃ a cs, x.xmlElement nt host defaults = QDomNode.ref (DomTree.element "schematic" a cs) [] := by
  simp only [CSchematic.xmlElement]
  repeat' first
    | exact ⟨_, _, createElement_eq host hhost _⟩
    | apply keeps_setAttribute
    | apply keeps_appendChild
    | apply keeps_ite
    | apply keeps_foldl
    | (intro e y h; first | exact keeps_write _ _ _ h | exact description_write_keeps _ _ _ _ h)
    | apply description_write_keeps
    | apply designrule_write_keeps
    | apply keeps_write

theorem schematic_write (nt : NumberText) (x : CSchematic) (host : QDomDocument) (hhost : host.isNull = false)
    (defaults : Bool) (n : String) (a : List (String × String)) (cs g : List DomTree) :
    (x.writeToXML nt host (QDomNode.ref (DomTree.element n a cs) g) defaults).2 =
      (QDomNode.ref (DomTree.element n a cs) g).appendChild (x.xmlElement nt host defaults) := by
  simp [CSchematic.writeToXML, hhost]

set_option linter.unusedTactic false in
set_option linter.unreachableTactic false in
theorem board_xmlElement_form (nt : NumberText) (x : CBoard) (host : QDomDocument)
    (hhost : host.isNull = false) (defaults : Bool) :
    ∃ a cs, x.xmlElement nt host defaults = QDomNode.ref (DomTree.element "board" a cs) [] := by
  simp only [CBoard.xmlElement]
  repeat' first
    | exact ⟨_, _, createElement_eq host hhost _⟩
    | apply keeps_setAttribute
    | apply keeps_appendChild
    | apply keeps_ite
    | apply keeps_foldl
    | (intro e y h; first | exact keeps_write _ _ _ h | exact description_write_keeps _ _ _ _ h)
    | apply description_write_keeps
    | apply designrule_write_keeps
    | apply keeps_write

theorem board_write (nt : NumberText) (x : CBoard) (host : QDomDocument) (hhost : host.isNull = false)
    (defaults : Bool) (n : String) (a : List (String × String)) (cs g : List DomTree) :
    (x.writeToXML nt host (QDomNode.ref (DomTree.element n a cs) g) defaults).2 =
      (QDomNode.ref (DomTree.element n a cs) g).appendChild (x.xmlElement nt host defaults) := by
  simp [CBoard.writeToXML, hhost]

set_option linter.unusedTactic false in
set_option linter.unreachableTactic false in
theorem drawing_xmlElement_form (nt : NumberText) (x : CDrawing) (host : QDomDocument)
    (hhost : host.isNull = false) (defaults : Bool) :
    ∃ a cs, x.xmlElement nt host defaults = QDomNode.ref (DomTree.element "drawing" a cs) [] := by
  simp only [CDrawing.xmlElement]
  repeat' first
    | exact ⟨_, _, createElement_eq host hhost _⟩
    | apply keeps_setAttribute
    | apply keeps_appendChild
    | apply keeps_ite
    | apply keeps_foldl
    | (intro e y h; first | exact keeps_write _ _ _ h | exact description_write_keeps _ _ _ _ h)
    | apply description_write_keeps
    | apply designrule_write_keeps
    | apply keeps_write

theorem drawing_write (nt : NumberText) (x : CDrawing) (host : QDomDocument) (hhost : host.isNull = false)
    (defaults : Bool) (n : String) (a : List (String × String)) (cs g : List DomTree) :
    (x.writeToXML nt host (QDomNode.ref (DomTree.element n a cs) g) defaults).2 =
      (QDomNode.ref (DomTree.element n a cs) g).appendChild (x.xmlElement nt host defaults) := by
  simp [CDrawing.writeToXML, hhost]

set_option linter.unusedTactic false in
set_option linter.unreachableTactic false in
theorem element_xmlElement_form (nt : NumberText) (x : CElement) (host : QDomDocument)
    (hhost : host.isNull = false) (defaults : Bool) :
    ∃ a cs, x.xmlElement nt host defaults = QDomNode.ref (DomTree.element "element" a cs) [] := by
  simp only [CElement.xmlElement]
  repeat' first
    | exact ⟨_, _, createElement_eq host hhost _⟩
    | apply keeps_setAttribute
    | apply keeps_appendChild
    | apply keeps_ite
    | apply keeps_foldl
    | (intro e y h; first | exact keeps_write _ _ _ h | exact description_write_keeps _ _ _ _ h)
    | apply description_write_keeps
    | apply designrule_write_keeps
    | apply keeps_write

theorem element_write (nt : NumberText) (x : CElement) (host : QDomDocument) (hhost : host.isNull = false)
    (defaults : Bool) (n : String) (a : List (String × String)) (cs g : List DomTree) :
    (x.writeToXML nt host (QDomNode.ref (DomTree.element n a cs) g) defaults).2 =
      (QDomNode.ref (DomTree.element n a cs) g).appendChild (x.xmlElement nt host defaults) := by
  simp [CElement.writeToXML, hhost]

/-! ## Drawing -/

theorem findElement_isNull (tag : String) (cs : List DomTree) :
    (findElement tag cs).isNull = !(cs.any (DomTree.isElementNamed tag)) := by
  induction cs with
  | nil => rfl
  | cons t rest ih =>
    cases t with
    | text d => simpa [findElement, DomTree.isElementNamed] using ih
    | element n a c =>
      by_cases h : n = tag
      · simp [findElement, DomTree.isElementNamed, h]
      · have hb : (n == tag) = false := by simpa using h
        simpa [findElement, DomTree.isElementNamed, h, hb] using ih

/-- The mode `CDrawing::readFromXML` sets on a `drawing` element, from the three lookups
of the `library`, `schematic` and `board` children. -/
theorem drawing_read_mode (nt : NumberText) (a : List (String × String))
    (cs f : List DomTree) (x : CDrawing) :
    (CDrawing.readFromXML nt (QDomNode.ref (DomTree.element "drawing" a cs) f) x).2.m_Mode =
      (if !(findElement "library" cs).isNull && !!(findElement "schematic" cs).isNull &&
          !!(findElement "board" cs).isNull then CDrawing.Mode.dmLibrary
        else if !!(findElement "library" cs).isNull && !(findElement "schematic" cs).isNull &&
          !!(findElement "board" cs).isNull then CDrawing.Mode.dmSchematic
        else if !!(findElement "library" cs).isNull && !!(findElement "schematic" cs).isNull &&
          !(findElement "board" cs).isNull then CDrawing.Mode.dmBoard
        else CDrawing.Mode.dmMixed) := by
  simp only [CDrawing.readFromXML, select_element, isNull_ref, Bool.not_false, if_true,
    QDomNode.firstChildElement, childNodes_element]

/-- C19: after `CDrawing::readFromXML` on a `drawing` node the mode is Library when a
`library` element is the only one of `library`, `schematic`, `board` among the children,
Schematic when only a `schematic` element is, Board when only a `board` element is, and
Mixed in the five other cases (none, two or all three present), whatever the Drawing
held before. -/
theorem C19_drawing_mode_inferred (nt : NumberText) (a : List (String × String))
    (cs f : List DomTree) (x : CDrawing) :
    (CDrawing.readFromXML nt (QDomNode.ref (DomTree.element "drawing" a cs) f) x).2.m_Mode =
      (match cs.any (DomTree.isElementNamed "library"),
          cs.any (DomTree.isElementNamed "schematic"),
          cs.any (DomTree.isElementNamed "board") with
        | true, false, false => CDrawing.Mode.dmLibrary
        | false, true, false => CDrawing.Mode.dmSchematic
        | false, false, true => CDrawing.Mode.dmBoard
        | false, false, false => CDrawing.Mode.dmMixed
        | true, true, false => CDrawing.Mode.dmMixed
        | true, false, true => CDrawing.Mode.dmMixed
        | false, true, true => CDrawing.Mode.dmMixed
        | true, true, true => CDrawing.Mode.dmMixed) := by
  rw [drawing_read_mode]
  simp only [findElement_isNull]
  cases cs.any (DomTree.isElementNamed "library") <;>
    cases cs.any (DomTree.isElementNamed "schematic") <;>
    cases cs.any (DomTree.isElementNamed "board") <;> rfl

/-- The children of the element `CDrawing::writeToXML` builds: `settings`, `grid`,
`layers`, and then a `library`, a `schematic` and a `board` element, each only when the
mode is its own or Mixed. -/
theorem drawing_childNodes (nt : NumberText) (d : CDrawing) (host : QDomDocument)
    (hhost : host.isNull = false) (defaults : Bool) :
    ∃ a1 c1 a2 c2 a3 c3 a4 c4 a5 c5 a6 c6,
      (d.xmlElement nt host defaults).childNodes =
        [DomTree.element "settings" a1 c1, DomTree.element "grid" a2 c2,
          DomTree.element "layers" a3 c3] ++
        (if CDrawing.Mode.dmLibrary == d.m_Mode || CDrawing.Mode.dmMixed == d.m_Mode then
          [DomTree.element "library" a4 c4] else []) ++
        (if CDrawing.Mode.dmSchematic == d.m_Mode || CDrawing.Mode.dmMixed == d.m_Mode then
          [DomTree.element "schematic" a5 c5] else []) ++
        (if CDrawing.Mode.dmBoard == d.m_Mode || CDrawing.Mode.dmMixed == d.m_Mode then
          [DomTree.element "board" a6 c6] else []) := by
  obtain ⟨a1, c1, h1⟩ := settings_xmlElement_form d.m_Settings host hhost defaults
  obtain ⟨a2, c2, h2⟩ := grid_xmlElement_form nt d.m_Grid host hhost defaults
  obtain ⟨a3, c3, h3⟩ : ∃ a cs,
      d.m_Layers.foldl (fun c y => (y.writeToXML nt host c defaults).2)
        (host.createElement "layers") = QDomNode.ref (DomTree.element "layers" a cs) [] := by
    apply keeps_foldl
    · intro e y h
      exact keeps_write _ _ _ h
    · exact ⟨_, _, createElement_eq host hhost _⟩
  obtain ⟨a4, c4, h4⟩ := library_xmlElement_form nt d.m_Library host hhost defaults
  obtain ⟨a5, c5, h5⟩ := schematic_xmlElement_form nt d.m_Schematic host hhost defaults
  obtain ⟨a6, c6, h6⟩ := board_xmlElement_form nt d.m_Board host hhost defaults
  refine ⟨a1, c1, a2, c2, a3, c3, a4, c4, a5, c5, a6, c6, ?_⟩
  simp only [CDrawing.xmlElement, h3]
  simp only [createElement_eq host hhost, settings_write _ host hhost, h1,
    appendChild_element, grid_write nt _ host hhost, h2]
  cases d.m_Mode <;>
    simp [library_write nt _ host hhost, schematic_write nt _ host hhost,
      board_write nt _ host hhost, h4, h5, h6]

/-- The node `CDrawing::writeToXML` appends to an element `root` is the element it built. -/
theorem drawing_written (nt : NumberText) (d : CDrawing) (host : QDomDocument)
    (root : QDomElement) (defaults : Bool) (hhost : host.isNull = false)
    (hroot : root.isElement = true) :
    (d.writeToXML nt host root defaults).2.lastChild = d.xmlElement nt host defaults := by
  simp only [CDrawing.writeToXML, hhost, isNull_of_isElement root hroot, Bool.not_false,
    Bool.and_self, if_true]
  obtain ⟨a, cs, h⟩ := drawing_xmlElement_form nt d host hhost defaults
  exact lastChild_appendChild root hroot _ ⟨_, h⟩

/-- C20: the `drawing` node that `CDrawing::writeToXML` appends has a `library` child
exactly when the mode is Library or Mixed, a `schematic` child exactly when the mode is
Schematic or Mixed, and a `board` child exactly when the mode is Board or Mixed; so a
Drawing read from a `drawing` node that has a `library` child and neither a `schematic`
nor a `board` child is written with a `library` child and without a `schematic` or
`board` child. -/
theorem C20_drawing_writes_by_mode (nt : NumberText) (d : CDrawing) (host : QDomDocument)
    (root : QDomElement) (defaults : Bool) (hhost : host.isNull = false)
    (hroot : root.isElement = true) :
    ((d.writeToXML nt host root defaults).2.lastChild.childNodes.any
        (DomTree.isElementNamed "library") =
      (d.m_Mode == CDrawing.Mode.dmLibrary || d.m_Mode == CDrawing.Mode.dmMixed)) ∧
    ((d.writeToXML nt host root defaults).2.lastChild.childNodes.any
        (DomTree.isElementNamed "schematic") =
      (d.m_Mode == CDrawing.Mode.dmSchematic || d.m_Mode == CDrawing.Mode.dmMixed)) ∧
    ((d.writeToXML nt host root defaults).2.lastChild.childNodes.any
        (DomTree.isElementNamed "board") =
      (d.m_Mode == CDrawing.Mode.dmBoard || d.m_Mode == CDrawing.Mode.dmMixed)) ∧
    (∀ (a : List (String × String)) (cs f : List DomTree),
      cs.any (DomTree.isElementNamed "library") = true →
      cs.any (DomTree.isElementNamed "schematic") = false →
      cs.any (DomTree.isElementNamed "board") = false →
      (((CDrawing.readFromXML nt (QDomNode.ref (DomTree.element "drawing" a cs) f) d).2.writeToXML
          nt host root defaults).2.lastChild.childNodes.any
            (DomTree.isElementNamed "library") = true ∧
        ((CDrawing.readFromXML nt (QDomNode.ref (DomTree.element "drawing" a cs) f) d).2.writeToXML
          nt host root defaults).2.lastChild.childNodes.any
            (DomTree.isElementNamed "schematic") = false ∧
        ((CDrawing.readFromXML nt (QDomNode.ref (DomTree.element "drawing" a cs) f) d).2.writeToXML
          nt host root defaults).2.lastChild.childNodes.any
            (DomTree.isElementNamed "board") = false)) := by
  have key : ∀ x : CDrawing,
      ((x.writeToXML nt host root defaults).2.lastChild.childNodes.any
          (DomTree.isElementNamed "library") =
        (x.m_Mode == CDrawing.Mode.dmLibrary || x.m_Mode == CDrawing.Mode.dmMixed)) ∧
      ((x.writeToXML nt host root defaults).2.lastChild.childNodes.any
          (DomTree.isElementNamed "schematic") =
        (x.m_Mode == CDrawing.Mode.dmSchematic || x.m_Mode == CDrawing.Mode.dmMixed)) ∧
      ((x.writeToXML nt host root defaults).2.lastChild.childNodes.any
          (DomTree.isElementNamed "board") =
        (x.m_Mode == CDrawing.Mode.dmBoard || x.m_Mode == CDrawing.Mode.dmMixed)) := by
    intro x
    obtain ⟨a1, c1, a2, c2, a3, c3, a4, c4, a5, c5, a6, c6, h⟩ :=
      drawing_childNodes nt x host hhost defaults
    rw [drawing_written nt x host root defaults hhost hroot, h]
    cases x.m_Mode <;> exact ⟨rfl, rfl, rfl⟩
  refine ⟨(key d).1, (key d).2.1, (key d).2.2, ?_⟩
  intro a cs f hl hs hb
  have hm : (CDrawing.readFromXML nt (QDomNode.ref (DomTree.element "drawing" a cs) f)
      d).2.m_Mode = CDrawing.Mode.dmLibrary := by
    rw [drawing_read_mode]
    simp [findElement_isNull, hl, hs, hb]
  obtain ⟨k1, k2, k3⟩ :=
    key (CDrawing.readFromXML nt (QDomNode.ref (DomTree.element "drawing" a cs) f) d).2
  rw [hm] at k1 k2 k3
  exact ⟨k1, k2, k3⟩

/-- C20 at a concrete node: a cleared Drawing that has read a `drawing` node whose only
child is an empty `library` element is written with a `library` child and no `schematic`
or `board` child. -/
theorem C20_drawing_writes_by_mode_witness :
    ((CDrawing.readFromXML decimalNumbers
        (QDomNode.ref (DomTree.element "drawing" [] [DomTree.element "library" [] []]) [])
        CDrawing.clear).2.writeToXML decimalNumbers (QDomDocument.mk false)
        (QDomNode.ref (DomTree.element "eagle" [] []) []) false).2.lastChild.childNodes.any
          (DomTree.isElementNamed "library") = true ∧
    ((CDrawing.readFromXML decimalNumbers
        (QDomNode.ref (DomTree.element "drawing" [] [DomTree.element "library" [] []]) [])
        CDrawing.clear).2.writeToXML decimalNumbers (QDomDocument.mk false)
        (QDomNode.ref (DomTree.element "eagle" [] []) []) false).2.lastChild.childNodes.any
          (DomTree.isElementNamed "schematic") = false ∧
    ((CDrawing.readFromXML decimalNumbers
        (QDomNode.ref (DomTree.element "drawing" [] [DomTree.element "library" [] []]) [])
        CDrawing.clear).2.writeToXML decimalNumbers (QDomDocument.mk false)
        (QDomNode.ref (DomTree.element "eagle" [] []) []) false).2.lastChild.childNodes.any
          (DomTree.isElementNamed "board") = false :=
  (C20_drawing_writes_by_mode decimalNumbers CDrawing.clear (QDomDocument.mk false)
    (QDomNode.ref (DomTree.element "eagle" [] []) []) false rfl rfl).2.2.2 []
    [DomTree.element "library" [] []] [] rfl rfl rfl

/-! ## Document -/

/-- C16 does not hold: on an `eagle` node whose version attribute is present but is not a
valid number, `CEagleDocument::readFromXML` assigns `version_string.toDouble()` without
looking at the conversion's success flag, so the version becomes 0 whatever it was
before the call. -/
theorem C16_invalid_version_becomes_zero (nt : NumberText) (a : List (String × String))
    (cs f : List DomTree) (x : CEagleDocument)
    (hp : (a.map Prod.fst).contains "version" = true)
    (hv : nt.toDouble (getAttr "version" a) = none) :
    (CEagleDocument.readFromXML nt (QDomNode.ref (DomTree.element "eagle" a cs) f)
      x).2.m_Version = 0 := by
  have hfind : (whileElements "eagle" (QDomNode.ref (DomTree.element "eagle" a cs) f)).find?
      (fun e => e.nodeName == "eagle") =
      some (QDomNode.ref (DomTree.element "eagle" a cs) f) := by
    simp [whileElements, List.find?]
  simp only [CEagleDocument.readFromXML, hfind, QDomNode.attributeOr, hp, if_true, hv,
    Option.getD_none]
  split <;> rfl

/-- C16 at a failing input: a document whose version is 6.4 reads an `eagle` node with
version="abc" and is left with version 0. -/
theorem C16_invalid_version_becomes_zero_witness :
    (CEagleDocument.readFromXML decimalNumbers
      (QDomNode.ref (DomTree.element "eagle" [("version", "abc")] []) [])
      { m_PreNotes := CCompatibility.clear, m_Drawing := CDrawing.clear,
        m_PostNotes := CCompatibility.clear, m_Version := EAGLE_DTD_VERSION,
        m_VerifyDocType := true, m_Indentation := 0, m_WriteDefaults := true,
        m_ValidDocType := false, m_ValidXMLdata := false }).2.m_Version = 0 ∧
    (0 : ℚ) ≠ EAGLE_DTD_VERSION :=
  ⟨C16_invalid_version_becomes_zero decimalNumbers [("version", "abc")] [] [] _
    (by decide) (by decide), by decide⟩

/-! ## Board -/

theorem readString_written (s : String) : (if !QString.isEmpty s then s else "") = s := by
  by_cases h : QString.isEmpty s = true
  · rw [(QString.isEmpty_eq_true_iff s).1 h]
    rfl
  · simp [h]

/-- The node `CBoard::writeToXML` appends to an element `root` is the element it built. -/
theorem board_written (nt : NumberText) (b : CBoard) (host : QDomDocument)
    (root : QDomElement) (defaults : Bool) (hhost : host.isNull = false)
    (hroot : root.isElement = true) :
    (b.writeToXML nt host root defaults).2.lastChild = b.xmlElement nt host defaults := by
  simp only [CBoard.writeToXML, hhost, isNull_of_isElement root hroot, Bool.not_false,
    Bool.and_self, if_true]
  obtain ⟨a, cs, h⟩ := board_xmlElement_form nt b host hhost defaults
  exact lastChild_appendChild root hroot _ ⟨_, h⟩

/-- The `board` element written with defaults=false for a Board holding one Element:
the `element` node carries the four strings and x and y, and nothing else. -/
theorem boardWithElement_xmlElement (nt : NumberText) (name library package value : String) :
    (boardWithElement name library package value).xmlElement nt (QDomDocument.mk false)
      false =
      QDomNode.ref (DomTree.element "board" []
        [DomTree.element "plain" [] [], DomTree.element "libraries" [] [],
          DomTree.element "attributes" [] [], DomTree.element "variantdefs" [] [],
          DomTree.element "classes" [] [], DomTree.element "designrules" [("name", "")] [],
          DomTree.element "autorouter" [] [],
          DomTree.element "elements" []
            [DomTree.element "element"
              [("name", name), ("library", library), ("package", package), ("value", value),
                ("x", nt.argDouble 0), ("y", nt.argDouble 0)] []],
          DomTree.element "signals" [] [], DomTree.element "errors" [] []]) [] := by
  rfl

/-- What `CElement::readFromXML` makes of the written `element` node. -/
theorem element_read_written (nt : NumberText) (name library package value : String)
    (h0 : nt.toDouble (nt.argDouble 0) = some 0) :
    (CElement.readFromXML nt
      (QDomNode.ref (DomTree.element "element"
        [("name", name), ("library", library), ("package", package), ("value", value),
          ("x", nt.argDouble 0), ("y", nt.argDouble 0)] []) [])
      CElement.clear).2 =
      { m_Attributes := [], m_Variants := [], m_Name := name, m_Library := library,
        m_Package := package, m_Value := value, m_X := 0, m_Y := 0, m_Locked := false,
        m_Smashed := false, m_Rotation := 0, m_Reflection := false } := by
  have n0 := (QString.isEmpty_eq_false_iff _).mpr (nt.argDouble_ne_empty h0)
  have hd : ∀ v : ℚ, (if !QString.isEmpty (nt.argDouble 0) then
      match nt.toDouble (nt.argDouble 0) with
      | some value => value
      | none => v
    else v) = 0 := by
    intro v
    simp [n0, h0]
  refine CElement.ext rfl rfl ?_ ?_ ?_ ?_ ?_ ?_ rfl rfl rfl rfl
  · exact readString_written name
  · exact readString_written library
  · exact readString_written package
  · exact readString_written value
  · exact hd _
  · exact hd _

/-- C14: a cleared Board holding exactly one Element, cleared but for its name, library,
package and value (R1, lib, 0805, 10k or any other four strings), written with
defaults=false and read into a cleared Board, yields exactly one Element, with the same
four strings, x = 0, y = 0, rotation 0, locked = false, smashed = false, reflection =
false and no attributes or variants (the text written for 0 being read back as 0). -/
theorem C14_board_one_element_roundtrip (nt : NumberText)
    (name library package value : String) (host : QDomDocument) (root : QDomElement)
    (hhost : host.isNull = false) (hroot : root.isElement = true)
    (h0 : nt.toDouble (nt.argDouble 0) = some 0) :
    (CBoard.readFromXML nt
      ((boardWithElement name library package value).writeToXML nt host root
        false).2.lastChild CBoard.clear).1 = true ∧
    (CBoard.readFromXML nt
      ((boardWithElement name library package value).writeToXML nt host root
        false).2.lastChild CBoard.clear).2.m_Elements =
      [{ m_Attributes := [], m_Variants := [], m_Name := name, m_Library := library,
         m_Package := package, m_Value := value, m_X := 0, m_Y := 0, m_Locked := false,
         m_Smashed := false, m_Rotation := 0, m_Reflection := false }] := by
  have hh : host = QDomDocument.mk false := by
    cases host with
    | mk b =>
      simp only at hhost
      rw [hhost]
  subst hh
  rw [board_written nt _ _ root false rfl hroot, boardWithElement_xmlElement]
  refine ⟨rfl, ?_⟩
  rw [← element_read_written nt name library package value h0]
  rfl

/-- C14 at the spec's example, with the decimal number text. -/
theorem C14_board_one_element_roundtrip_witness :
    (CBoard.readFromXML decimalNumbers
      ((boardWithElement "R1" "lib" "0805" "10k").writeToXML decimalNumbers
        (QDomDocument.mk false) (QDomNode.ref (DomTree.element "drawing" [] []) [])
        false).2.lastChild CBoard.clear).2.m_Elements =
      [{ m_Attributes := [], m_Variants := [], m_Name := "R1", m_Library := "lib",
         m_Package := "0805", m_Value := "10k", m_X := 0, m_Y := 0, m_Locked := false,
         m_Smashed := false, m_Rotation := 0, m_Reflection := false }] :=
  (C14_board_one_element_roundtrip decimalNumbers "R1" "lib" "0805" "10k"
    (QDomDocument.mk false) (QDomNode.ref (DomTree.element "drawing" [] []) [])
    rfl rfl (by decide)).2

set_option linter.unusedTactic false in
set_option linter.unreachableTactic false in
theorem label_xmlElement_form (nt : NumberText) (x : CLabel) (host : QDomDocument)
    (hhost : host.isNull = false) (defaults : Bool) :
    ∃ a cs, x.xmlElement nt host defaults = QDomNode.ref (DomTree.element "label" a cs) [] := by
  simp only [CLabel.xmlElement]
  repeat' first
    | exact ⟨_, _, createElement_eq host hhost _⟩
    | apply keeps_setAttribute
    | apply keeps_appendChild
    | apply keeps_ite
    | apply keeps_foldl
    | (intro e y h; first | exact keeps_write _ _ _ h | exact description_write_keeps _ _ _ _ h)
    | apply description_write_keeps
    | apply designrule_write_keeps
    | apply keeps_write

theorem label_write (nt : NumberText) (x : CLabel) (host : QDomDocument) (hhost : host.isNull = false)
    (defaults : Bool) (n : String) (a : List (String × String)) (cs g : List DomTree) :
    (x.writeToXML nt host (QDomNode.ref (DomTree.element n a cs) g) defaults).2 =
      (QDomNode.ref (DomTree.element n a cs) g).appendChild (x.xmlElement nt host defaults) := by
  simp [CLabel.writeToXML, hhost]

/-- The node `CLabel::writeToXML` appends to an element `root` is the element it built. -/
theorem label_written (nt : NumberText) (x : CLabel) (host : QDomDocument)
    (root : QDomElement) (defaults : Bool) (hhost : host.isNull = false)
    (hroot : root.isElement = true) :
    (x.writeToXML nt host root defaults).2.lastChild = x.xmlElement nt host defaults := by
  simp only [CLabel.writeToXML, hhost, isNull_of_isElement root hroot, Bool.not_false,
    Bool.and_self, if_true]
  obtain ⟨a, cs, h⟩ := label_xmlElement_form nt x host hhost defaults
  exact lastChild_appendChild root hroot _ ⟨_, h⟩

set_option linter.unusedTactic false in
set_option linter.unreachableTactic false in
theorem variantdef_xmlElement_form (x : CVariantDef) (host : QDomDocument)
    (hhost : host.isNull = false) (defaults : Bool) :
    ∃ a cs, x.xmlElement host defaults = QDomNode.ref (DomTree.element "variantdef" a cs) [] := by
  simp only [CVariantDef.xmlElement]
  repeat' first
    | exact ⟨_, _, createElement_eq host hhost _⟩
    | apply keeps_setAttribute
    | apply keeps_appendChild
    | apply keeps_ite
    | apply keeps_foldl
    | (intro e y h; first | exact keeps_write _ _ _ h | exact description_write_keeps _ _ _ _ h)
    | apply description_write_keeps
    | apply designrule_write_keeps
    | apply keeps_write

theorem variantdef_write (x : CVariantDef) (host : QDomDocument) (hhost : host.isNull = false)
    (defaults : Bool) (n : String) (a : List (String × String)) (cs g : List DomTree) :
    (x.writeToXML host (QDomNode.ref (DomTree.element n a cs) g) defaults).2 =
      (QDomNode.ref (DomTree.element n a cs) g).appendChild (x.xmlElement host defaults) := by
  simp [CVariantDef.writeToXML, hhost]

/-- The node `CVariantDef::writeToXML` appends to an element `root` is the element it built. -/
theorem variantdef_written (x : CVariantDef) (host : QDomDocument)
    (root : QDomElement) (defaults : Bool) (hhost : host.isNull = false)
    (hroot : root.isElement = true) :
    (x.writeToXML host root defaults).2.lastChild = x.xmlElement host defaults := by
  simp only [CVariantDef.writeToXML, hhost, isNull_of_isElement root hroot, Bool.not_false,
    Bool.and_self, if_true]
  obtain ⟨a, cs, h⟩ := variantdef_xmlElement_form x host hhost defaults
  exact lastChild_appendChild root hroot _ ⟨_, h⟩

set_option linter.unusedTactic false in
set_option linter.unreachableTactic false in
theorem variant_xmlElement_form (x : CVariant) (host : QDomDocument)
    (hhost : host.isNull = false) (defaults : Bool) :
    ∃ a cs, x.xmlElement host defaults = QDomNode.ref (DomTree.element "variant" a cs) [] := by
  simp only [CVariant.xmlElement]
  repeat' first
    | exact ⟨_, _, createElement_eq host hhost _⟩
    | apply keeps_setAttribute
    | apply keeps_appendChild
    | apply keeps_ite
    | apply keeps_foldl
    | (intro e y h; first | exact keeps_write _ _ _ h | exact description_write_keeps _ _ _ _ h)
    | apply description_write_keeps
    | apply designrule_write_keeps
    | apply keeps_write

theorem variant_write (x : CVariant) (host : QDomDocument) (hhost : host.isNull = false)
    (defaults : Bool) (n : String) (a : List (String × String)) (cs g : List DomTree) :
    (x.writeToXML host (QDomNode.ref (DomTree.element n a cs) g) defaults).2 =
      (QDomNode.ref (DomTree.element n a cs) g).appendChild (x.xmlElement host defaults) := by
  simp [CVariant.writeToXML, hhost]

/-- The node `CVariant::writeToXML` appends to an element `root` is the element it built. -/
theorem variant_written (x : CVariant) (host : QDomDocument)
    (root : QDomElement) (defaults : Bool) (hhost : host.isNull = false)
    (hroot : root.isElement = true) :
    (x.writeToXML host root defaults).2.lastChild = x.xmlElement host defaults := by
  simp only [CVariant.writeToXML, hhost, isNull_of_isElement root hroot, Bool.not_false,
    Bool.and_self, if_true]
  obtain ⟨a, cs, h⟩ := variant_xmlElement_form x host hhost defaults
  exact lastChild_appendChild root hroot _ ⟨_, h⟩

set_option linter.unusedTactic false in
set_option linter.unreachableTactic false in
theorem attribute_xmlElement_form (nt : NumberText) (x : CAttribute) (host : QDomDocument)
    (hhost : host.isNull = false) (defaults : Bool) :
    ∃ a cs, x.xmlElement nt host defaults = QDomNode.ref (DomTree.element "attribute" a cs) [] := by
  simp only [CAttribute.xmlElement]
  repeat' first
    | exact ⟨_, _, createElement_eq host hhost _⟩
    | apply keeps_setAttribute
    | apply keeps_appendChild
    | apply keeps_ite
    | apply keeps_foldl
    | (intro e y h; first | exact keeps_write _ _ _ h | exact description_write_keeps _ _ _ _ h)
    | apply description_write_keeps
    | apply designrule_write_keeps
    | apply keeps_write

theorem attribute_write (nt : NumberText) (x : CAttribute) (host : QDomDocument) (hhost : host.isNull = false)
    (defaults : Bool) (n : String) (a : List (String × String)) (cs g : List DomTree) :
    (x.writeToXML nt host (QDomNode.ref (DomTree.element n a cs) g) defaults).2 =
      (QDomNode.ref (DomTree.element n a cs) g).appendChild (x.xmlElement nt host defaults) := by
  simp [CAttribute.writeToXML, hhost]

/-- The node `CAttribute::writeToXML` appends to an element `root` is the element it built. -/
theorem attribute_written (nt : NumberText) (x : CAttribute) (host : QDomDocument)
    (root : QDomElement) (defaults : Bool) (hhost : host.isNull = false)
    (hroot : root.isElement = true) :
    (x.writeToXML nt host root defaults).2.lastChild = x.xmlElement nt host defaults := by
  simp only [CAttribute.writeToXML, hhost, isNull_of_isElement root hroot, Bool.not_false,
    Bool.and_self, if_true]
  obtain ⟨a, cs, h⟩ := attribute_xmlElement_form nt x host hhost defaults
  exact lastChild_appendChild root hroot _ ⟨_, h⟩

set_option linter.unusedTactic false in
set_option linter.unreachableTactic false in
theorem part_xmlElement_form (nt : NumberText) (x : CPart) (host : QDomDocument)
    (hhost : host.isNull = false) (defaults : Bool) :
    ∃ a cs, x.xmlElement nt host defaults = QDomNode.ref (DomTree.element "part" a cs) [] := by
  simp only [CPart.xmlElement]
  repeat' first
    | exact ⟨_, _, createElement_eq host hhost _⟩
    | apply keeps_setAttribute
    | apply keeps_appendChild
    | apply keeps_ite
    | apply keeps_foldl
    | (intro e y h; first | exact keeps_write _ _ _ h | exact description_write_keeps _ _ _ _ h)
    | apply description_write_keeps
    | apply designrule_write_keeps
    | apply keeps_write

theorem part_write (nt : NumberText) (x : CPart) (host : QDomDocument) (hhost : host.isNull = false)
    (defaults : Bool) (n : String) (a : List (String × String)) (cs g : List DomTree) :
    (x.writeToXML nt host (QDomNode.ref (DomTree.element n a cs) g) defaults).2 =
      (QDomNode.ref (DomTree.element n a cs) g).appendChild (x.xmlElement nt host defaults) := by
  simp [CPart.writeToXML, hhost]

/-- The node `CPart::writeToXML` appends to an element `root` is the element it built. -/
theorem part_written (nt : NumberText) (x : CPart) (host : QDomDocument)
    (root : QDomElement) (defaults : Bool) (hhost : host.isNull = false)
    (hroot : root.isElement = true) :
    (x.writeToXML nt host root defaults).2.lastChild = x.xmlElement nt host defaults := by
  simp only [CPart.writeToXML, hhost, isNull_of_isElement root hroot, Bool.not_false,
    Bool.and_self, if_true]
  obtain ⟨a, cs, h⟩ := part_xmlElement_form nt x host hhost defaults
  exact lastChild_appendChild root hroot _ ⟨_, h⟩

/-! ## Reading back what was written -/

theorem readDouble_written (nt : NumberText) (n : String) (a : List (String × String))
    (cs f : List DomTree) (name : String) (field value : ℚ)
    (ha : getAttr name a = nt.argDouble value)
    (h : nt.toDouble (nt.argDouble value) = some value) :
    readDouble nt (QDomNode.ref (DomTree.element n a cs) f) name field = value := by
  have ne := (QString.isEmpty_eq_false_iff _).mpr (nt.argDouble_ne_empty h)
  simp [readDouble, ha, ne, h]

theorem readInt_written (nt : NumberText) (n : String) (a : List (String × String))
    (cs f : List DomTree) (name : String) (field value : Int)
    (ha : getAttr name a = nt.argInt value)
    (h : nt.toInt (nt.argInt value) = some value) :
    readInt nt (QDomNode.ref (DomTree.element n a cs) f) name field = value := by
  have ne := (QString.isEmpty_eq_false_iff _).mpr (nt.argInt_ne_empty h)
  simp [readInt, ha, ne, h]

theorem readBool_written (n : String) (a : List (String × String))
    (cs f : List DomTree) (name : String) (field value : Bool)
    (ha : getAttr name a = CEntity.toString value) :
    readBool (QDomNode.ref (DomTree.element n a cs) f) name field = value := by
  cases value
  · simp only [readBool, attribute_element, ha]
    rfl
  · simp only [readBool, attribute_element, ha]
    rfl

theorem readString_of_written (n : String) (a : List (String × String))
    (cs f : List DomTree) (name : String) (value : String)
    (ha : getAttr name a = value) :
    readString (QDomNode.ref (DomTree.element n a cs) f) name "" = value := by
  simp only [readString, attribute_element, ha]
  exact readString_written value

theorem document_eq (host : QDomDocument) (hhost : host.isNull = false) :
    host = QDomDocument.mk false := by
  cases host with
  | mk b =>
    simp only at hhost
    rw [hhost]

/-! ## Label -/

/-- The `label` element written with defaults=true: all eight attributes, the ratio as
the text of a `bool`. -/
theorem label_xmlElement_defaults (nt : NumberText) (l : CLabel) :
    l.xmlElement nt (QDomDocument.mk false) true =
      QDomNode.ref (DomTree.element "label"
        [("x", nt.argDouble l.m_X), ("y", nt.argDouble l.m_Y),
          ("size", nt.argDouble l.m_Size), ("layer", nt.argInt l.m_Layer),
          ("font", l.m_Font.toString), ("ratio", CEntity.toString (l.m_Ratio != 0)),
          ("rot", encodeTransformation nt l.m_Rotation l.m_Reflection false),
          ("xref", CEntity.toString l.m_XRef)] []) [] := by
  rfl

/-- C21 does not hold: `CLabel::writeToXML` writes the ratio with `toString(m_Ratio)`,
which is `CEntity::toString(const bool)`, so the `ratio` attribute is `yes` or `no`;
`CLabel::readFromXML` reads it with `toInt`, which rejects both, and the ratio of a
cleared Label stays at the default 8. Every other field is reproduced. -/
theorem C21_label_ratio_not_restored (nt : NumberText) (l : CLabel) (host : QDomDocument)
    (root : QDomElement) (hhost : host.isNull = false) (hroot : root.isElement = true)
    (hx : nt.toDouble (nt.argDouble l.m_X) = some l.m_X)
    (hy : nt.toDouble (nt.argDouble l.m_Y) = some l.m_Y)
    (hsize : nt.toDouble (nt.argDouble l.m_Size) = some l.m_Size)
    (hlayer : nt.toInt (nt.argInt l.m_Layer) = some l.m_Layer)
    (hrot : nt.toDouble (nt.argDouble l.m_Rotation) = some l.m_Rotation)
    (hyes : nt.toInt "yes" = none) (hno : nt.toInt "no" = none) :
    (l.writeToXML nt host root true).2.lastChild.attribute "ratio" =
      (if l.m_Ratio = 0 then "no" else "yes") ∧
    CLabel.readFromXML nt (l.writeToXML nt host root true).2.lastChild CLabel.clear =
      (true, { l with m_Ratio := CLabel.DEFAULT_RATIO }) := by
  have hh := document_eq host hhost
  subst hh
  rw [label_written nt l _ root true rfl hroot, label_xmlElement_defaults]
  have hratio : readInt nt
      (QDomNode.ref (DomTree.element "label"
        [("x", nt.argDouble l.m_X), ("y", nt.argDouble l.m_Y),
          ("size", nt.argDouble l.m_Size), ("layer", nt.argInt l.m_Layer),
          ("font", l.m_Font.toString), ("ratio", CEntity.toString (l.m_Ratio != 0)),
          ("rot", encodeTransformation nt l.m_Rotation l.m_Reflection false),
          ("xref", CEntity.toString l.m_XRef)] []) []) "ratio" CLabel.clear.m_Ratio =
      CLabel.DEFAULT_RATIO := by
    have ha : getAttr "ratio"
        [("x", nt.argDouble l.m_X), ("y", nt.argDouble l.m_Y),
          ("size", nt.argDouble l.m_Size), ("layer", nt.argInt l.m_Layer),
          ("font", l.m_Font.toString), ("ratio", CEntity.toString (l.m_Ratio != 0)),
          ("rot", encodeTransformation nt l.m_Rotation l.m_Reflection false),
          ("xref", CEntity.toString l.m_XRef)] = CEntity.toString (l.m_Ratio != 0) := rfl
    simp only [readInt, attribute_element, ha]
    cases (l.m_Ratio != 0)
    · show (if !QString.isEmpty "no" then
          match nt.toInt "no" with
          | some value => value
          | none => CLabel.clear.m_Ratio
        else CLabel.clear.m_Ratio) = CLabel.DEFAULT_RATIO
      rw [hno]
      rfl
    · show (if !QString.isEmpty "yes" then
          match nt.toInt "yes" with
          | some value => value
          | none => CLabel.clear.m_Ratio
        else CLabel.clear.m_Ratio) = CLabel.DEFAULT_RATIO
      rw [hyes]
      rfl
  constructor
  · show CEntity.toString (l.m_Ratio != 0) = _
    by_cases h0 : l.m_Ratio = 0
    · simp [h0, CEntity.toString]
    · simp [h0, CEntity.toString]
  · simp only [CLabel.readFromXML, select_element, isNull_ref, Bool.not_false, if_true]
    refine Prod.ext rfl (CLabel.ext ?_ ?_ ?_ ?_ ?_ ?_ ?_ ?_ ?_)
    · exact readDouble_written nt _ _ _ _ _ _ _ rfl hx
    · exact readDouble_written nt _ _ _ _ _ _ _ rfl hy
    · exact readDouble_written nt _ _ _ _ _ _ _ rfl hsize
    · exact readInt_written nt _ _ _ _ _ _ _ rfl hlayer
    · show (if !QString.isEmpty l.m_Font.toString then _ else _) = l.m_Font
      generalize l.m_Font = font
      cases font <;> rfl
    · exact hratio
    · show (if !QString.isEmpty (encodeTransformation nt l.m_Rotation l.m_Reflection false)
          then (decodeTransformation nt
            (encodeTransformation nt l.m_Rotation l.m_Reflection false) 0 false
              false).rotation
          else 0) = l.m_Rotation
      simp only [encode_not_empty, if_true, decode_encode nt _ _ _ hrot]
    · show (if !QString.isEmpty (encodeTransformation nt l.m_Rotation l.m_Reflection false)
          then (decodeTransformation nt
            (encodeTransformation nt l.m_Rotation l.m_Reflection false) 0 false
              false).reflection
          else false) = l.m_Reflection
      simp only [encode_not_empty, if_true, decode_encode nt _ _ _ hrot]
    · exact readBool_written _ _ _ _ _ _ _ rfl

/-- C21 at a failing input: a cleared Label with ratio 6 comes back with ratio 8. -/
theorem C21_label_ratio_not_restored_witness :
    CLabel.readFromXML decimalNumbers
      (CLabel.writeToXML decimalNumbers { CLabel.clear with m_Ratio := 6 }
        (QDomDocument.mk false) (QDomNode.ref (DomTree.element "segment" [] []) [])
        true).2.lastChild CLabel.clear =
      (true, { CLabel.clear with m_Ratio := 8 }) ∧
    ({ CLabel.clear with m_Ratio := 8 } : CLabel) ≠ { CLabel.clear with m_Ratio := 6 } :=
  ⟨(C21_label_ratio_not_restored decimalNumbers { CLabel.clear with m_Ratio := 6 }
      (QDomDocument.mk false) (QDomNode.ref (DomTree.element "segment" [] []) [])
      rfl rfl (by decide) (by decide) (by decide) (by decide) (by decide) (by decide)
      (by decide)).2,
    by decide⟩

/-! ## VariantDef -/

theorem findElement_null (tag : String) (l : List DomTree)
    (h : l.any (DomTree.isElementNamed tag) = false) : findElement tag l = QDomNode.null := by
  have hn := findElement_isNull tag l
  rw [h] at hn
  cases hf : findElement tag l with
  | null => rfl
  | ref t f =>
    rw [hf] at hn
    cases hn

/-- C22 does not hold: `CVariantDef::readFromXML` tests the node name against `designrule`
and looks for a later sibling of that name, so on the `variantdef` node that
`CVariantDef::writeToXML` appended last it finds nothing, returns false and leaves the
VariantDef as it was; the same happens on every `variantdef` node that no `designrule`
element follows. -/
theorem C22_variantdef_not_read (v x : CVariantDef) (host : QDomDocument)
    (root : QDomElement) (defaults : Bool) (hhost : host.isNull = false)
    (hroot : root.isElement = true) :
    (v.writeToXML host root defaults).2.lastChild.nodeName = "variantdef" ∧
    CVariantDef.readFromXML (v.writeToXML host root defaults).2.lastChild x = (false, x) ∧
    (∀ (a : List (String × String)) (cs f : List DomTree),
      f.any (DomTree.isElementNamed "designrule") = false →
      CVariantDef.readFromXML (QDomNode.ref (DomTree.element "variantdef" a cs) f) x =
        (false, x)) := by
  rw [variantdef_written v host root defaults hhost hroot]
  obtain ⟨a, cs, h⟩ := variantdef_xmlElement_form v host hhost defaults
  rw [h]
  refine ⟨rfl, rfl, ?_⟩
  intro a cs f hf
  have hnull : (QDomNode.ref (DomTree.element "variantdef" a cs) f).nextSiblingElement
      "designrule" = QDomNode.null := findElement_null "designrule" f hf
  have hsel : (if (QDomNode.ref (DomTree.element "variantdef" a cs) f).nodeName != "designrule"
      then (QDomNode.ref (DomTree.element "variantdef" a cs) f).nextSiblingElement "designrule"
      else QDomNode.ref (DomTree.element "variantdef" a cs) f) = QDomNode.null := by
    rw [hnull]
    rfl
  simp only [CVariantDef.readFromXML, hsel]
  rfl

/-- C22 at a failing input: the VariantDef named A with the current flag set is written
with defaults=true; the read into a cleared VariantDef returns false and the name stays
empty. -/
theorem C22_variantdef_not_read_witness :
    CVariantDef.readFromXML
      (CVariantDef.writeToXML { m_Name := "A", m_Current := true } (QDomDocument.mk false)
        (QDomNode.ref (DomTree.element "variantdefs" [] []) []) true).2.lastChild
      CVariantDef.clear = (false, { m_Name := "", m_Current := false }) :=
  (C22_variantdef_not_read { m_Name := "A", m_Current := true } CVariantDef.clear
    (QDomDocument.mk false) (QDomNode.ref (DomTree.element "variantdefs" [] []) []) true
    rfl rfl).2.1

/-! ## Part -/

theorem any_named_treesOf {α : Type} (tag tag2 : String) (f : α → QDomElement)
    (hf : ∀ x, ∃ a cs, f x = QDomNode.ref (DomTree.element tag2 a cs) []) (h : tag2 ≠ tag)
    (xs : List α) :
    (QDomNode.treesOf (xs.map f)).any (DomTree.isElementNamed tag) = false := by
  have hb : (tag2 == tag) = false := by simpa using h
  induction xs with
  | nil => rfl
  | cons x rest ih =>
    obtain ⟨a, cs, hx⟩ := hf x
    simp [QDomNode.treesOf, hx, DomTree.isElementNamed, hb, ih]

/-- The `variant` element written with defaults=true. -/
theorem variant_xmlElement_defaults (v : CVariant) :
    v.xmlElement (QDomDocument.mk false) true =
      QDomNode.ref (DomTree.element "variant"
        [("name", v.m_Name), ("populate", CEntity.toString v.m_Populate),
          ("value", v.m_Value), ("technology", v.m_Technology)] []) [] := by
  rfl

/-- A Variant written with defaults=true is read back as it was. -/
theorem variant_roundtrip (v : CVariant) :
    CVariant.readFromXML (v.xmlElement (QDomDocument.mk false) true) CVariant.clear =
      (true, v) := by
  rw [variant_xmlElement_defaults]
  simp only [CVariant.readFromXML, select_element, isNull_ref, Bool.not_false, if_true]
  refine Prod.ext rfl (CVariant.ext ?_ ?_ ?_ ?_)
  · exact readString_of_written _ _ _ _ _ _ rfl
  · exact readBool_written _ _ _ _ _ _ _ rfl
  · exact readString_of_written _ _ _ _ _ _ rfl
  · exact readString_of_written _ _ _ _ _ _ rfl

/-- The `part` element written with defaults=true: six attributes, then the `attribute`
children and the `variant` children. -/
theorem part_xmlElement_defaults (nt : NumberText) (p : CPart) :
    p.xmlElement nt (QDomDocument.mk false) true =
      QDomNode.ref (DomTree.element "part"
        [("name", p.m_Name), ("library", p.m_Library), ("deviceset", p.m_DeviceSet),
          ("device", p.m_Device), ("technology", p.m_Technology), ("value", p.m_Value)]
        (QDomNode.treesOf
            (p.m_Attributes.map (fun y => y.xmlElement nt (QDomDocument.mk false) true)) ++
          QDomNode.treesOf
            (p.m_Variants.map (fun y => y.xmlElement (QDomDocument.mk false) true)))) [] := by
  show List.foldl (fun e (y : CVariant) => (y.writeToXML (QDomDocument.mk false) e true).2)
      (List.foldl
        (fun e (y : CAttribute) => (y.writeToXML nt (QDomDocument.mk false) e true).2)
        (QDomNode.ref (DomTree.element "part"
          [("name", p.m_Name), ("library", p.m_Library), ("deviceset", p.m_DeviceSet),
            ("device", p.m_Device), ("technology", p.m_Technology), ("value", p.m_Value)]
          []) []) p.m_Attributes) p.m_Variants = _
  rw [foldl_write (fun (y : CAttribute) e => y.writeToXML nt (QDomDocument.mk false) e true)
    (fun y => y.xmlElement nt (QDomDocument.mk false) true)
    (fun y n a cs g => attribute_write nt y _ rfl true n a cs g)
    (fun y => by
      obtain ⟨a, cs, h⟩ := attribute_xmlElement_form nt y _ rfl true
      exact ⟨_, h⟩)]
  rw [foldl_write (fun (y : CVariant) e => y.writeToXML (QDomDocument.mk false) e true)
    (fun y => y.xmlElement (QDomDocument.mk false) true)
    (fun y n a cs g => variant_write y _ rfl true n a cs g)
    (fun y => by
      obtain ⟨a, cs, h⟩ := variant_xmlElement_form y _ rfl true
      exact ⟨_, h⟩)]
  simp only [List.nil_append]

/-- C23 does not hold: `CPart::readFromXML` starts its attribute loop at the first child
named `attibute`; `CPart::writeToXML` writes `attribute` children, so the loop never runs
and the parsed attribute list is empty. The six strings and the variant list are
reproduced. -/
theorem C23_part_attributes_not_read (nt : NumberText) (p : CPart) (host : QDomDocument)
    (root : QDomElement) (hhost : host.isNull = false) (hroot : root.isElement = true) :
    CPart.readFromXML nt (p.writeToXML nt host root true).2.lastChild CPart.clear =
      (true, { p with m_Attributes := [] }) := by
  have hh := document_eq host hhost
  subst hh
  rw [part_written nt p _ root true rfl hroot, part_xmlElement_defaults]
  have hfa := fun y => attribute_xmlElement_form nt y (QDomDocument.mk false) rfl true
  have hfv := fun y => variant_xmlElement_form y (QDomDocument.mk false) rfl true
  have hnone : findElement "attibute"
      (QDomNode.treesOf
          (p.m_Attributes.map (fun y => y.xmlElement nt (QDomDocument.mk false) true)) ++
        QDomNode.treesOf
          (p.m_Variants.map (fun y => y.xmlElement (QDomDocument.mk false) true))) =
      QDomNode.null := by
    apply findElement_null
    rw [List.any_append, any_named_treesOf "attibute" "attribute" _ hfa (by decide),
      any_named_treesOf "attibute" "variant" _ hfv (by decide)]
    rfl
  have hv := map_whileElements "variant"
    (fun c => (CVariant.readFromXML c CVariant.clear).2)
    (fun a cs f => rfl)
    (QDomNode.ref (DomTree.element "part"
      [("name", p.m_Name), ("library", p.m_Library), ("deviceset", p.m_DeviceSet),
        ("device", p.m_Device), ("technology", p.m_Technology), ("value", p.m_Value)]
      (QDomNode.treesOf
          (p.m_Attributes.map (fun y => y.xmlElement nt (QDomDocument.mk false) true)) ++
        QDomNode.treesOf
          (p.m_Variants.map (fun y => y.xmlElement (QDomDocument.mk false) true)))) [])
  have e1 := elementsNamed_treesOf "variant" "attribute"
    (fun y : CAttribute => y.xmlElement nt (QDomDocument.mk false) true) hfa p.m_Attributes
  have e2 := elementsNamed_treesOf "variant" "variant"
    (fun y : CVariant => y.xmlElement (QDomDocument.mk false) true) hfv p.m_Variants
  have m2 := map_treesOf (fun y : CVariant => y.xmlElement (QDomDocument.mk false) true)
    (fun c => (CVariant.readFromXML c CVariant.clear).2)
    (fun y => by
      obtain ⟨a, cs, h⟩ := hfv y
      exact ⟨_, h⟩) p.m_Variants
  simp only [childNodes_element, elementsNamed_append, e1, e2,
    if_neg (by decide : ¬ ("attribute" = "variant")), eq_self_iff_true, if_true,
    List.nil_append, m2, variant_roundtrip, List.map_id'] at hv
  simp only [CPart.readFromXML, select_element, isNull_ref, Bool.not_false, if_true,
    QDomNode.firstChildElement, childNodes_element, hnone] at hv ⊢
  rw [hv]
  refine Prod.ext rfl (CPart.ext ?_ ?_ ?_ ?_ ?_ ?_ ?_ ?_)
  · rfl
  · simp [CPart.clear]
  · exact readString_of_written _ _ _ _ _ _ rfl
  · exact readString_of_written _ _ _ _ _ _ rfl
  · exact readString_of_written _ _ _ _ _ _ rfl
  · exact readString_of_written _ _ _ _ _ _ rfl
  · exact readString_of_written _ _ _ _ _ _ rfl
  · exact readString_of_written _ _ _ _ _ _ rfl

/-- C23 at a failing input: a Part named IC1 holding one cleared Attribute comes back with
no attribute. -/
theorem C23_part_attributes_not_read_witness :
    (CPart.readFromXML decimalNumbers
      (CPart.writeToXML decimalNumbers
        { CPart.clear with m_Name := "IC1", m_Attributes := [CAttribute.clear] }
        (QDomDocument.mk false) (QDomNode.ref (DomTree.element "parts" [] []) [])
        true).2.lastChild CPart.clear).2.m_Attributes = [] ∧
    ({ CPart.clear with
        m_Name := "IC1", m_Attributes := [CAttribute.clear] } : CPart).m_Attributes.length =
      1 :=
  ⟨congrArg (fun r => r.2.m_Attributes)
      (C23_part_attributes_not_read decimalNumbers
        { CPart.clear with m_Name := "IC1", m_Attributes := [CAttribute.clear] }
        (QDomDocument.mk false) (QDomNode.ref (DomTree.element "parts" [] []) []) rfl rfl),
    rfl⟩

/-- The node `CSchematic::writeToXML` appends to an element `root` is the element it built. -/
theorem schematic_written (nt : NumberText) (x : CSchematic) (host : QDomDocument)
    (root : QDomElement) (defaults : Bool) (hhost : host.isNull = false)
    (hroot : root.isElement = true) :
    (x.writeToXML nt host root defaults).2.lastChild = x.xmlElement nt host defaults := by
  simp only [CSchematic.writeToXML, hhost, isNull_of_isElement root hroot, Bool.not_false,
    Bool.and_self, if_true]
  obtain ⟨a, cs, h⟩ := schematic_xmlElement_form nt x host hhost defaults
  exact lastChild_appendChild root hroot _ ⟨_, h⟩

/-! ## Schematic -/

theorem keepsA_foldl {α : Type} {tag : String} {a : List (String × String)}
    (w : QDomNode → α → QDomNode)
    (hw : ∀ e y, (∃ cs, e = QDomNode.ref (DomTree.element tag a cs) []) →
      ∃ cs, w e y = QDomNode.ref (DomTree.element tag a cs) [])
    (xs : List α) (e : QDomNode)
    (h : ∃ cs, e = QDomNode.ref (DomTree.element tag a cs) []) :
    ∃ cs, xs.foldl w e = QDomNode.ref (DomTree.element tag a cs) [] := by
  induction xs generalizing e with
  | nil => exact h
  | cons y rest ih => exact ih _ (hw e y h)

/-- A guarded `root.appendChild(e)` leaves the tag and the attributes of `root`. -/
theorem keepsA_write {tag : String} {a : List (String × String)} (b : Bool)
    (root c : QDomNode) (h : ∃ cs, root = QDomNode.ref (DomTree.element tag a cs) []) :
    ∃ cs, (if b then (true, root.appendChild c) else (false, root)).2 =
      QDomNode.ref (DomTree.element tag a cs) [] := by
  obtain ⟨cs, rfl⟩ := h
  cases b
  · exact ⟨_, rfl⟩
  · cases c with
    | null => exact ⟨_, rfl⟩
    | ref t g => exact ⟨_, rfl⟩

/-- In the element `CSchematic::writeToXML` builds, the two attributes sit on the
`schematic` element, and the first child named `errors` is the wrapper of the approved
errors, which has no attribute. -/
theorem schematic_xmlElement_errors (nt : NumberText) (s : CSchematic) (host : QDomDocument)
    (hhost : host.isNull = false) (defaults : Bool) :
    (s.xmlElement nt host defaults).attribute "xreflabel" = s.m_XRefLabel ∧
    (s.xmlElement nt host defaults).attribute "xrefpart" = s.m_XRefPart ∧
    ∃ ce, (s.xmlElement nt host defaults).firstChildElement "errors" =
      QDomNode.ref (DomTree.element "errors" [] ce) [] := by
  obtain ⟨a1, c1, h1⟩ : ∃ a cs,
      s.m_Libraries.foldl (fun c y => (y.writeToXML nt host c defaults).2)
        (host.createElement "libraries") =
        QDomNode.ref (DomTree.element "libraries" a cs) [] := by
    apply keeps_foldl
    · intro e y h
      exact keeps_write _ _ _ h
    · exact ⟨_, _, createElement_eq host hhost _⟩
  obtain ⟨a2, c2, h2⟩ : ∃ a cs,
      s.m_Attributes.foldl (fun c y => (y.writeToXML nt host c defaults).2)
        (host.createElement "attributes") =
        QDomNode.ref (DomTree.element "attributes" a cs) [] := by
    apply keeps_foldl
    · intro e y h
      exact keeps_write _ _ _ h
    · exact ⟨_, _, createElement_eq host hhost _⟩
  obtain ⟨a3, c3, h3⟩ : ∃ a cs,
      s.m_VariantDefs.foldl (fun c y => (y.writeToXML host c defaults).2)
        (host.createElement "variantdefs") =
        QDomNode.ref (DomTree.element "variantdefs" a cs) [] := by
    apply keeps_foldl
    · intro e y h
      exact keeps_write _ _ _ h
    · exact ⟨_, _, createElement_eq host hhost _⟩
  obtain ⟨a4, c4, h4⟩ : ∃ a cs,
      s.m_Classes.foldl (fun c y => (y.writeToXML nt host c defaults).2)
        (host.createElement "classes") =
        QDomNode.ref (DomTree.element "classes" a cs) [] := by
    apply keeps_foldl
    · intro e y h
      exact keeps_write _ _ _ h
    · exact ⟨_, _, createElement_eq host hhost _⟩
  obtain ⟨a5, c5, h5⟩ : ∃ a cs,
      s.m_Parts.foldl (fun c y => (y.writeToXML nt host c defaults).2)
        (host.createElement "parts") =
        QDomNode.ref (DomTree.element "parts" a cs) [] := by
    apply keeps_foldl
    · intro e y h
      exact keeps_write _ _ _ h
    · exact ⟨_, _, createElement_eq host hhost _⟩
  obtain ⟨a6, c6, h6⟩ : ∃ a cs,
      s.m_Sheets.foldl (fun c y => (y.writeToXML nt host c defaults).2)
        (host.createElement "sheets") =
        QDomNode.ref (DomTree.element "sheets" a cs) [] := by
    apply keeps_foldl
    · intro e y h
      exact keeps_write _ _ _ h
    · exact ⟨_, _, createElement_eq host hhost _⟩
  obtain ⟨c7, h7⟩ : ∃ cs,
      s.m_Errors.foldl (fun c y => (y.writeToXML host c defaults).2)
        (host.createElement "errors") =
        QDomNode.ref (DomTree.element "errors" [] cs) [] := by
    apply keepsA_foldl
    · intro e y h
      exact keepsA_write _ _ _ h
    · exact ⟨_, createElement_eq host hhost _⟩
  simp only [CSchematic.xmlElement, h1, h2, h3, h4, h5, h6, h7]
  simp only [createElement_eq host hhost, setAttribute_element, description_write host hhost,
    appendChild_element, attribute_element, QDomNode.firstChildElement, childNodes_element]
  refine ⟨rfl, rfl, c7, ?_⟩
  cases QString.isEmpty s.m_Description.m_Description <;> rfl

/-- Where `CSchematic::readFromXML` takes the two strings from: the first child named
`errors`. -/
theorem schematic_read_xref (nt : NumberText) (a : List (String × String))
    (cs f : List DomTree) (x : CSchematic) :
    (CSchematic.readFromXML nt (QDomNode.ref (DomTree.element "schematic" a cs) f)
      x).2.m_XRefLabel = readString (findElement "errors" cs) "xreflabel" x.m_XRefLabel ∧
    (CSchematic.readFromXML nt (QDomNode.ref (DomTree.element "schematic" a cs) f)
      x).2.m_XRefPart = readString (findElement "errors" cs) "xrefpart" x.m_XRefPart := by
  simp only [CSchematic.readFromXML, select_element, isNull_ref, Bool.not_false, if_true,
    QDomNode.firstChildElement, childNodes_element, and_self]

/-- C24 does not hold: `CSchematic::readFromXML` reads `xreflabel` and `xrefpart` with
`c.attribute(...)`, `c` being the `errors` child it looked up last, while
`CSchematic::writeToXML` sets them on the `schematic` element; the `errors` child carries
no attribute, so both strings of a cleared Schematic stay empty. -/
theorem C24_schematic_xref_not_read (nt : NumberText) (s : CSchematic)
    (host : QDomDocument) (root : QDomElement) (defaults : Bool)
    (hhost : host.isNull = false) (hroot : root.isElement = true) :
    (s.writeToXML nt host root defaults).2.lastChild.attribute "xreflabel" = s.m_XRefLabel ∧
    (s.writeToXML nt host root defaults).2.lastChild.attribute "xrefpart" = s.m_XRefPart ∧
    (CSchematic.readFromXML nt (s.writeToXML nt host root defaults).2.lastChild
      CSchematic.clear).2.m_XRefLabel = "" ∧
    (CSchematic.readFromXML nt (s.writeToXML nt host root defaults).2.lastChild
      CSchematic.clear).2.m_XRefPart = "" := by
  obtain ⟨hl, hp, ce, he⟩ := schematic_xmlElement_errors nt s host hhost defaults
  obtain ⟨a, cs, hform⟩ := schematic_xmlElement_form nt s host hhost defaults
  rw [schematic_written nt s host root defaults hhost hroot]
  refine ⟨hl, hp, ?_, ?_⟩
  · rw [hform] at he ⊢
    rw [(schematic_read_xref nt a cs [] CSchematic.clear).1]
    simp only [QDomNode.firstChildElement, childNodes_element] at he
    rw [he]
    rfl
  · rw [hform] at he ⊢
    rw [(schematic_read_xref nt a cs [] CSchematic.clear).2]
    simp only [QDomNode.firstChildElement, childNodes_element] at he
    rw [he]
    rfl

/-- C24 at a failing input: a cleared Schematic with xreflabel `%F%N/%S` and xrefpart
`/%S.%C%R` comes back with two empty strings. -/
theorem C24_schematic_xref_not_read_witness :
    (CSchematic.readFromXML decimalNumbers
      (CSchematic.writeToXML decimalNumbers
        { CSchematic.clear with m_XRefLabel := "%F%N/%S", m_XRefPart := "/%S.%C%R" }
        (QDomDocument.mk false) (QDomNode.ref (DomTree.element "drawing" [] []) [])
        true).2.lastChild CSchematic.clear).2.m_XRefLabel = "" ∧
    (CSchematic.readFromXML decimalNumbers
      (CSchematic.writeToXML decimalNumbers
        { CSchematic.clear with m_XRefLabel := "%F%N/%S", m_XRefPart := "/%S.%C%R" }
        (QDomDocument.mk false) (QDomNode.ref (DomTree.element "drawing" [] []) [])
        true).2.lastChild CSchematic.clear).2.m_XRefPart = "" :=
  (C24_schematic_xref_not_read decimalNumbers
    { CSchematic.clear with m_XRefLabel := "%F%N/%S", m_XRefPart := "/%S.%C%R" }
    (QDomDocument.mk false) (QDomNode.ref (DomTree.element "drawing" [] []) []) true
    rfl rfl).2.2

/-! ## Description -/

/-- C25 does not hold: `CDescription::readFromXML` passes the value of the text node
through `unescapeXml`, and `CDescription::writeToXML` stores the text as it is, so the
text read back is `unescapeXml` of the text written; it differs from the text whenever
the text contains one of the five entities, as `&amp;` does. The language is read back,
an empty language as `en`. -/
theorem C25_description_text_unescaped (d : CDescription) (host : QDomDocument)
    (root : QDomElement) (defaults : Bool) (hhost : host.isNull = false)
    (hroot : root.isElement = true) (htext : QString.isEmpty d.m_Description = false) :
    CDescription.readFromXML (d.writeToXML host root defaults).2.lastChild
        CDescription.clear =
      (true,
        { m_Description := unescapeXml d.m_Description,
          m_Language := if QString.isEmpty d.m_Language then "en" else d.m_Language }) ∧
    unescapeXml "&amp;" = "&" := by
  refine ⟨?_, by decide⟩
  have hlast : (d.writeToXML host root defaults).2.lastChild =
      QDomNode.ref (DomTree.element "description"
        (if defaults || !(d.m_Language == "en") then [("language", d.m_Language)] else [])
        [DomTree.text d.m_Description]) [] := by
    cases root with
    | null => cases hroot
    | ref node f =>
      cases node with
      | text t => cases hroot
      | element n a cs =>
        rw [description_write host hhost, htext]
        simp [QDomNode.lastChild]
  rw [hlast]
  have hread : ∀ L : List (String × String),
      CDescription.readFromXML
        (QDomNode.ref (DomTree.element "description" L [DomTree.text d.m_Description]) [])
        CDescription.clear =
      (true,
        { m_Description := unescapeXml d.m_Description,
          m_Language := if !QString.isEmpty (getAttr "language" L) then getAttr "language" L
            else "en" }) := fun L => rfl
  rw [hread]
  have hlang : (if !QString.isEmpty (getAttr "language"
        (if defaults || !(d.m_Language == "en") then [("language", d.m_Language)] else []))
      then getAttr "language"
        (if defaults || !(d.m_Language == "en") then [("language", d.m_Language)] else [])
      else "en") = (if QString.isEmpty d.m_Language then "en" else d.m_Language) := by
    by_cases hw : (defaults || !(d.m_Language == "en")) = true
    · rw [if_pos hw]
      show (if !QString.isEmpty d.m_Language then d.m_Language else "en") = _
      cases QString.isEmpty d.m_Language <;> rfl
    · rw [if_neg hw]
      have hen : d.m_Language = "en" := by
        have h2 : defaults = false ∧ d.m_Language = "en" := by simpa using hw
        exact h2.2
      rw [hen]
      rfl
  rw [hlang]

/-- C25 at a failing input: the text `Tom &amp; Jerry` comes back as `Tom & Jerry`. -/
theorem C25_description_text_unescaped_witness :
    CDescription.readFromXML
      (CDescription.writeToXML { m_Description := "Tom &amp; Jerry", m_Language := "en" }
        (QDomDocument.mk false) (QDomNode.ref (DomTree.element "package" [] []) [])
        true).2.lastChild CDescription.clear =
      (true, { m_Description := "Tom & Jerry", m_Language := "en" }) :=
  (C25_description_text_unescaped { m_Description := "Tom &amp; Jerry", m_Language := "en" }
    (QDomDocument.mk false) (QDomNode.ref (DomTree.element "package" [] []) []) true
    rfl rfl (by decide)).1.trans (by decide)

/-! ## Compatibility notes -/

set_option maxRecDepth 1000000 in
/-- C26 does not hold: `CEagleDocument::readFromXML` never reads a `compatibility` block
(the two calls are commented out), so on every node it leaves the pre-notes and the
post-notes as they were. A document with one pre-note is written as an `eagle` node with
a `compatibility` child before `drawing`, and a cleared document that reads this node
still has no pre-note. -/
theorem C26_notes_not_read :
    (∀ (nt : NumberText) (root : QDomElement) (x : CEagleDocument),
      (CEagleDocument.readFromXML nt root x).2.m_PreNotes = x.m_PreNotes ∧
      (CEagleDocument.readFromXML nt root x).2.m_PostNotes = x.m_PostNotes) ∧
    (exampleDocument.writeToXML decimalNumbers (QDomDocument.mk false) QDomNode.null
      true).2.childNodes.map DomTree.nodeName = ["compatibility", "drawing"] ∧
    (CEagleDocument.readFromXML decimalNumbers
      (exampleDocument.writeToXML decimalNumbers (QDomDocument.mk false) QDomNode.null
        true).2 exampleDocument.clear).2.m_PreNotes.m_Notes = [] ∧
    exampleDocument.m_PreNotes.m_Notes.length = 1 := by
  refine ⟨?_, by decide, ?_, rfl⟩
  · intro nt root x
    unfold CEagleDocument.readFromXML
    split
    · dsimp only
      split <;> exact ⟨rfl, rfl⟩
    · exact ⟨rfl, rfl⟩
  · rfl

/-! ## Copies -/

theorem clearance_copy_eq (y : CClearance) : CClearance.copy y = y := rfl

theorem description_copy_eq (y : CDescription) : CDescription.copy y = y := rfl

theorem param_copy_eq (y : CParam) : CParam.copy y = y := rfl

theorem approved_copy_eq (y : CApproved) : CApproved.copy y = y := rfl

theorem pass_copy_eq (y : CPass) : CPass.copy y = y := by
  have hparam : CParam.copy = id := funext param_copy_eq
  simp [CPass.copy, CPass.assign, CPass.clear, hparam]

theorem class_copy_eq (y : CClass) : CClass.copy y = y := by
  have hclearance : CClearance.copy = id := funext clearance_copy_eq
  simp [CClass.copy, CClass.assign, CClass.clear, hclearance]

theorem variantdef_copy_eq (y : CVariantDef) : CVariantDef.copy y = y := rfl

theorem variant_copy_eq (y : CVariant) : CVariant.copy y = y := rfl

theorem gate_copy_eq (y : CGate) : CGate.copy y = y := rfl

theorem wire_copy_eq (y : CWire) : CWire.copy y = y := rfl

theorem dimension_copy_eq (y : CDimension) : CDimension.copy y = y := rfl

theorem text_copy_eq (y : CText) : CText.copy y = y := rfl

theorem circle_copy_eq (y : CCircle) : CCircle.copy y = y := rfl

theorem frame_copy_eq (y : CFrame) : CFrame.copy y = y := rfl

theorem hole_copy_eq (y : CHole) : CHole.copy y = y := rfl

theorem pad_copy_eq (y : CPad) : CPad.copy y = y := rfl

theorem smd_copy_eq (y : CSMD) : CSMD.copy y = y := rfl

theorem via_copy_eq (y : CVia) : CVia.copy y = y := rfl

theorem vertex_copy_eq (y : CVertex) : CVertex.copy y = y := rfl

theorem polygon_copy_eq (y : CPolygon) : CPolygon.copy y = y := by
  have hvertex : CVertex.copy = id := funext vertex_copy_eq
  simp [CPolygon.copy, CPolygon.assign, CPolygon.clear, hvertex]

theorem connect_copy_eq (y : CConnect) : CConnect.copy y = y := rfl

theorem attribute_copy_eq (y : CAttribute) : CAttribute.copy y = y := rfl

theorem contactref_copy_eq (y : CContactRef) : CContactRef.copy y = y := rfl

theorem technology_copy_eq (y : CTechnology) : CTechnology.copy y = y := by
  have hattribute : CAttribute.copy = id := funext attribute_copy_eq
  simp [CTechnology.copy, CTechnology.assign, CTechnology.clear, hattribute]

theorem element_copy_eq (y : CElement) : CElement.copy y = y := by
  have hattribute : CAttribute.copy = id := funext attribute_copy_eq
  have hvariant : CVariant.copy = id := funext variant_copy_eq
  simp [CElement.copy, CElement.assign, CElement.clear, hattribute, hvariant]

theorem device_copy_eq (y : CDevice) : CDevice.copy y = y := by
  have hconnect : CConnect.copy = id := funext connect_copy_eq
  have htechnology : CTechnology.copy = id := funext technology_copy_eq
  simp [CDevice.copy, CDevice.assign, CDevice.clear, hconnect, htechnology]

/-! ## Assignment -/

/-- C27 does not hold: `CSignal::assign` copies the four lists element by element, but
ends with `m_Name.clear(); m_Class = 0; m_AirWiresHidden = false;` in place of the three
copies, so the name, the class and the flag of the signal are those of a cleared Signal
whatever `other` holds; assigning a Signal named GND of class 1 gives an empty name. -/
theorem C27_signal_assign_resets_name :
    (∀ x signal : CSignal,
      (x.assign signal).m_ContactRefs = signal.m_ContactRefs ∧
      (x.assign signal).m_Polygons = signal.m_Polygons ∧
      (x.assign signal).m_Wires = signal.m_Wires ∧
      (x.assign signal).m_Vias = signal.m_Vias ∧
      (x.assign signal).m_Name = "" ∧
      (x.assign signal).m_Class = 0 ∧
      (x.assign signal).m_AirWiresHidden = false) ∧
    (CSignal.clear.assign exampleSignal).m_Name ≠ exampleSignal.m_Name ∧
    (CSignal.clear.assign exampleSignal).m_Class ≠ exampleSignal.m_Class ∧
    (CSignal.clear.assign exampleSignal).m_AirWiresHidden ≠
      exampleSignal.m_AirWiresHidden := by
  refine ⟨?_, by decide, by decide, by decide⟩
  intro x signal
  have h1 : CContactRef.copy = id := funext contactref_copy_eq
  have h2 : CPolygon.copy = id := funext polygon_copy_eq
  have h3 : CWire.copy = id := funext wire_copy_eq
  have h4 : CVia.copy = id := funext via_copy_eq
  simp [CSignal.assign, CSignal.clear, h1, h2, h3, h4]

/-- C28 does not hold: `CInstance::assign` has no statement for `m_Reflection`, so after
its `clear()` the reflection is false whatever `other` holds; every other field, and the
attribute list element by element, equals `other`'s. -/
theorem C28_instance_assign_drops_reflection (x other : CInstance) :
    (x.assign other).m_Attributes = other.m_Attributes ∧
    (x.assign other).m_Part = other.m_Part ∧
    (x.assign other).m_Gate = other.m_Gate ∧
    (x.assign other).m_X = other.m_X ∧
    (x.assign other).m_Y = other.m_Y ∧
    (x.assign other).m_Smashed = other.m_Smashed ∧
    (x.assign other).m_Rotation = other.m_Rotation ∧
    (x.assign other).m_Spin = other.m_Spin ∧
    (x.assign other).m_Reflection = false ∧
    (CInstance.clear.assign { CInstance.clear with m_Reflection := true }).m_Reflection ≠
      ({ CInstance.clear with m_Reflection := true } : CInstance).m_Reflection := by
  have h1 : CAttribute.copy = id := funext attribute_copy_eq
  refine ⟨?_, rfl, rfl, rfl, rfl, rfl, rfl, rfl, rfl, by decide⟩
  simp [CInstance.assign, CInstance.clear, h1]

/-- C29 does not hold: `CDeviceSet::assign` does not call `clear()`, so the copies of
`b`'s gates and devices are appended to what `a` held; the result is the state that
`clear()` followed by the copy gives exactly when `a` held no gate and no device. The
description and the three plain fields are `b`'s. -/
theorem C29_deviceset_assign_appends (a b : CDeviceSet) :
    (a.assign b).m_Gates = a.m_Gates ++ b.m_Gates ∧
    (a.assign b).m_Devices = a.m_Devices ++ b.m_Devices ∧
    (a.assign b).m_Description = b.m_Description ∧
    (a.assign b).m_Name = b.m_Name ∧
    (a.assign b).m_Prefix = b.m_Prefix ∧
    (a.assign b).m_UserValue = b.m_UserValue ∧
    CDeviceSet.clearThenCopy a b = b ∧
    (a.assign b = CDeviceSet.clearThenCopy a b ↔ a.m_Gates = [] ∧ a.m_Devices = []) ∧
    ((({ CDeviceSet.clear with m_Gates := [CGate.clear] } : CDeviceSet).assign
      { CDeviceSet.clear with m_Gates := [CGate.clear] }).m_Gates.length = 2) := by
  have h1 : CGate.copy = id := funext gate_copy_eq
  have h2 : CDevice.copy = id := funext device_copy_eq
  have hg : (a.assign b).m_Gates = a.m_Gates ++ b.m_Gates := by
    simp [CDeviceSet.assign, h1]
  have hd : (a.assign b).m_Devices = a.m_Devices ++ b.m_Devices := by
    simp [CDeviceSet.assign, h2]
  have hspec : CDeviceSet.clearThenCopy a b = b := by
    simp [CDeviceSet.clearThenCopy, CDeviceSet.clear, h1, h2, description_copy_eq]
  refine ⟨hg, hd, rfl, rfl, rfl, rfl, hspec, ?_, rfl⟩
  rw [hspec]
  constructor
  · intro h
    have hg2 := hg
    have hd2 := hd
    rw [h] at hg2 hd2
    constructor
    · have := congrArg List.length hg2
      simp only [List.length_append] at this
      exact List.length_eq_zero.mp (by omega)
    · have := congrArg List.length hd2
      simp only [List.length_append] at this
      exact List.length_eq_zero.mp (by omega)
  · intro h
    apply CDeviceSet.ext
    · rfl
    · rw [hg, h.1, List.nil_append]
    · rw [hd, h.2, List.nil_append]
    · rfl
    · rfl
    · rfl

/-- C30 does not hold: `CBoard::assign` copies the description, the attributes, variant
definitions, classes, passes, elements and errors, and the plain section apart from its
rectangles, but it has no statement for `m_DesignRules`, which stays as `clear()` left
it; each library is built by the copy constructor of `CLibrary`, whose body is empty, so
the copy holds no name, package, symbol or device set; and each signal is copied by
`CSignal::assign`, which resets the name, the class and the air-wire flag. -/
theorem C30_board_assign_drops_libraries_and_rules :
    (∀ (storage : CRectangle) (x board : CBoard),
      (x.assign storage board).m_Description = board.m_Description ∧
      (x.assign storage board).m_Attributes = board.m_Attributes ∧
      (x.assign storage board).m_VariantDefs = board.m_VariantDefs ∧
      (x.assign storage board).m_Classes = board.m_Classes ∧
      (x.assign storage board).m_Passes = board.m_Passes ∧
      (x.assign storage board).m_Elements = board.m_Elements ∧
      (x.assign storage board).m_Errors = board.m_Errors ∧
      (x.assign storage board).m_Plain =
        { board.m_Plain with
          m_Rectangles := board.m_Plain.m_Rectangles.map (fun _ => storage) } ∧
      (x.assign storage board).m_Libraries =
        board.m_Libraries.map (fun _ => CLibrary.clear) ∧
      (x.assign storage board).m_DesignRules = CDesignRule.clear ∧
      (x.assign storage board).m_Signals =
        board.m_Signals.map (fun s =>
          { s with m_Name := "", m_Class := 0, m_AirWiresHidden := false })) ∧
    ((CBoard.clear.assign CRectangle.clear
        { CBoard.clear with
          m_Libraries := [{ CLibrary.clear with m_Name := "lib" }] }).m_Libraries.map
      CLibrary.m_Name = [""]) ∧
    ((CBoard.clear.assign CRectangle.clear
        { CBoard.clear with
          m_DesignRules :=
            { CDesignRule.clear with m_Name := "rules" } }).m_DesignRules.m_Name = "") := by
  refine ⟨?_, rfl, rfl⟩
  intro storage x board
  have h1 : CAttribute.copy = id := funext attribute_copy_eq
  have h2 : CVariantDef.copy = id := funext variantdef_copy_eq
  have h3 : CClass.copy = id := funext class_copy_eq
  have h4 : CPass.copy = id := funext pass_copy_eq
  have h5 : CElement.copy = id := funext element_copy_eq
  have h6 : CApproved.copy = id := funext approved_copy_eq
  have p1 : CPolygon.copy = id := funext polygon_copy_eq
  have p2 : CWire.copy = id := funext wire_copy_eq
  have p3 : CText.copy = id := funext text_copy_eq
  have p4 : CDimension.copy = id := funext dimension_copy_eq
  have p5 : CCircle.copy = id := funext circle_copy_eq
  have p6 : CFrame.copy = id := funext frame_copy_eq
  have p7 : CHole.copy = id := funext hole_copy_eq
  have s1 : CContactRef.copy = id := funext contactref_copy_eq
  have s4 : CVia.copy = id := funext via_copy_eq
  have hsig : CSignal.copy = fun s =>
      { s with m_Name := "", m_Class := 0, m_AirWiresHidden := false } := by
    funext s
    simp [CSignal.copy, CSignal.assign, CSignal.clear, s1, p1, p2, s4]
  have hlib : CLibrary.copy = fun _ => CLibrary.clear := rfl
  have hrect : CRectangle.copy storage = fun _ => storage := rfl
  refine ⟨rfl, ?_, ?_, ?_, ?_, ?_, ?_, ?_, ?_, rfl, ?_⟩
  · simp [CBoard.assign, CBoard.clear, h1]
  · simp [CBoard.assign, CBoard.clear, h2]
  · simp [CBoard.assign, CBoard.clear, h3]
  · simp [CBoard.assign, CBoard.clear, h4]
  · simp [CBoard.assign, CBoard.clear, h5]
  · simp [CBoard.assign, CBoard.clear, h6]
  · simp [CBoard.assign, CBoard.clear, CPlain.assign, CPlain.clear, p1, p2, p3, p4, p5, p6,
      p7, hrect]
  · simp [CBoard.assign, CBoard.clear, hlib]
  · simp [CBoard.assign, CBoard.clear, hsig]

/-! ## Escaping and unescaping -/

/-- The scan of `replace` with a one-character `before` rewrites character by character. -/
theorem replaceAux_single (b : Char) (after l : List Char) :
    QString.replaceAux [b] after l 0 = l.flatMap (fun c => if c = b then after else [c]) := by
  induction l with
  | nil => rfl
  | cons c rest ih =>
    by_cases h : c = b
    · subst h
      simp [QString.replaceAux, List.isPrefixOf, ih]
    · have hb : (b == c) = false := beq_eq_false_iff_ne.mpr (Ne.symm h)
      simp [QString.replaceAux, List.isPrefixOf, ih, h, hb]

/-- The scan passes over the characters of a replaced occurrence. -/
theorem replaceAux_skip (p a : List Char) (u R : List Char) :
    QString.replaceAux p a (u ++ R) u.length = QString.replaceAux p a R 0 := by
  induction u with
  | nil => rfl
  | cons c rest ih => simpa [QString.replaceAux] using ih

/-- The scan for a `before` that starts with `&` copies characters other than `&`. -/
theorem replaceAux_noamp (q a : List Char) (u R : List Char)
    (hu : ∀ x ∈ u, x ≠ '&') :
    QString.replaceAux ('&' :: q) a (u ++ R) 0 = u ++ QString.replaceAux ('&' :: q) a R 0 := by
  induction u with
  | nil => rfl
  | cons c rest ih =>
    have hc : ('&' == c) = false :=
      beq_eq_false_iff_ne.mpr (Ne.symm (hu c (List.mem_cons_self _ _)))
    have ih2 := ih (fun x hx => hu x (List.mem_cons_of_mem _ hx))
    simp [QString.replaceAux, List.isPrefixOf, hc, ih2]

/-- One pass of `unescapeXml` over a text made of pieces `f c`, each of them either the
entity `& q` that the pass replaces, or a piece in which the entity does not start and
whose characters after the first are not `&`: the pass rewrites piece by piece. -/
theorem replaceAux_flatMap (q a : List Char) (f g : Char → List Char)
    (h : ∀ c, (f c = '&' :: q ∧ g c = a) ∨
      (g c = f c ∧ ∃ d u, f c = d :: u ∧
        (∀ R, ('&' :: q).isPrefixOf (d :: (u ++ R)) = false) ∧ ∀ x ∈ u, x ≠ '&'))
    (l : List Char) :
    QString.replaceAux ('&' :: q) a (l.flatMap f) 0 = l.flatMap g := by
  induction l with
  | nil => rfl
  | cons c rest ih =>
    rw [List.flatMap_cons, List.flatMap_cons]
    rcases h c with ⟨hf, hg⟩ | ⟨hg, d, u, hf, hpre, hu⟩
    · rw [hf, hg]
      have hp : ('&' :: q).isPrefixOf ('&' :: (q ++ rest.flatMap f)) = true := by
        rw [List.isPrefixOf_iff_prefix]
        exact List.prefix_append ('&' :: q) _
      show QString.replaceAux ('&' :: q) a ('&' :: (q ++ rest.flatMap f)) 0 =
        a ++ rest.flatMap g
      rw [QString.replaceAux, if_pos hp]
      have hs := replaceAux_skip ('&' :: q) a q (rest.flatMap f)
      have hl : ('&' :: q).length - 1 = q.length := by simp
      rw [hl, hs, ih]
    · rw [hg, hf]
      show QString.replaceAux ('&' :: q) a (d :: (u ++ rest.flatMap f)) 0 =
        d :: (u ++ rest.flatMap g)
      rw [QString.replaceAux, if_neg (by rw [hpre]; exact Bool.false_ne_true),
        replaceAux_noamp q a u _ hu, ih]

/-- The text `escapeXml` returns: each of the five special characters is replaced by its
entity, every other character is kept. -/
theorem escapeXml_data (s : String) :
    (escapeXml s).data = s.data.flatMap (fun c =>
      if c = '&' then ['&', 'a', 'm', 'p', ';']
      else if c = '<' then ['&', 'l', 't', ';']
      else if c = '>' then ['&', 'g', 't', ';']
      else if c = Char.ofNat 39 then ['&', 'a', 'p', 'o', 's', ';']
      else if c = Char.ofNat 34 then ['&', 'q', 'u', 'o', 't', ';']
      else [c]) := by
  show QString.replaceAux [Char.ofNat 34] ['&', 'q', 'u', 'o', 't', ';']
    (QString.replaceAux [Char.ofNat 39] ['&', 'a', 'p', 'o', 's', ';']
      (QString.replaceAux ['>'] ['&', 'g', 't', ';']
        (QString.replaceAux ['<'] ['&', 'l', 't', ';']
          (QString.replaceAux ['&'] ['&', 'a', 'm', 'p', ';'] s.data 0) 0) 0) 0) 0 = _
  simp only [replaceAux_single, List.flatMap_assoc]
  congr 1
  funext c
  by_cases h1 : c = '&'
  · subst h1
    decide
  by_cases h2 : c = '<'
  · subst h2
    decide
  by_cases h3 : c = '>'
  · subst h3
    decide
  by_cases h4 : c = Char.ofNat 39
  · subst h4
    decide
  by_cases h5 : c = Char.ofNat 34
  · subst h5
    decide
  simp [h1, h2, h3, h4, h5]

/-- The five passes of `unescapeXml` undo `escapeXml`. -/
theorem unescape_escape_data (l : List Char) :
    QString.replaceAux ['&', 'a', 'm', 'p', ';'] ['&']
      (QString.replaceAux ['&', 'l', 't', ';'] ['<']
        (QString.replaceAux ['&', 'g', 't', ';'] ['>']
          (QString.replaceAux ['&', 'a', 'p', 'o', 's', ';'] [Char.ofNat 39]
            (QString.replaceAux ['&', 'q', 'u', 'o', 't', ';'] [Char.ofNat 34]
              (l.flatMap (fun c =>
                if c = '&' then ['&', 'a', 'm', 'p', ';']
                else if c = '<' then ['&', 'l', 't', ';']
                else if c = '>' then ['&', 'g', 't', ';']
                else if c = Char.ofNat 39 then ['&', 'a', 'p', 'o', 's', ';']
                else if c = Char.ofNat 34 then ['&', 'q', 'u', 'o', 't', ';']
                else [c])) 0) 0) 0) 0) 0 = l := by
  have s1 := replaceAux_flatMap ['q', 'u', 'o', 't', ';'] [Char.ofNat 34]
    (fun c =>
      if c = '&' then ['&', 'a', 'm', 'p', ';']
      else if c = '<' then ['&', 'l', 't', ';']
      else if c = '>' then ['&', 'g', 't', ';']
      else if c = Char.ofNat 39 then ['&', 'a', 'p', 'o', 's', ';']
      else if c = Char.ofNat 34 then ['&', 'q', 'u', 'o', 't', ';']
      else [c])
    (fun c =>
      if c = '&' then ['&', 'a', 'm', 'p', ';']
      else if c = '<' then ['&', 'l', 't', ';']
      else if c = '>' then ['&', 'g', 't', ';']
      else if c = Char.ofNat 39 then ['&', 'a', 'p', 'o', 's', ';']
      else [c])
    (by
      intro c
      by_cases h0 : c = '&'
      · subst h0
        exact Or.inr ⟨by decide, '&', ['a', 'm', 'p', ';'], by decide,
          fun R => rfl, by decide⟩
      by_cases h1 : c = '<'
      · subst h1
        exact Or.inr ⟨by decide, '&', ['l', 't', ';'], by decide,
          fun R => rfl, by decide⟩
      by_cases h2 : c = '>'
      · subst h2
        exact Or.inr ⟨by decide, '&', ['g', 't', ';'], by decide,
          fun R => rfl, by decide⟩
      by_cases h3 : c = Char.ofNat 39
      · subst h3
        exact Or.inr ⟨by decide, '&', ['a', 'p', 'o', 's', ';'], by decide,
          fun R => rfl, by decide⟩
      by_cases h4 : c = Char.ofNat 34
      · subst h4
        exact Or.inl ⟨by decide, by decide⟩
      have hb : ('&' == c) = false := beq_eq_false_iff_ne.mpr (Ne.symm h0)
      exact Or.inr ⟨by simp only [h0, h1, h2, h3, h4, if_false], c, [],
        by simp only [h0, h1, h2, h3, h4, if_false],
        fun R => by simp only [List.isPrefixOf, hb, Bool.false_and], by simp⟩)
  have s2 := replaceAux_flatMap ['a', 'p', 'o', 's', ';'] [Char.ofNat 39]
    (fun c =>
      if c = '&' then ['&', 'a', 'm', 'p', ';']
      else if c = '<' then ['&', 'l', 't', ';']
      else if c = '>' then ['&', 'g', 't', ';']
      else if c = Char.ofNat 39 then ['&', 'a', 'p', 'o', 's', ';']
      else [c])
    (fun c =>
      if c = '&' then ['&', 'a', 'm', 'p', ';']
      else if c = '<' then ['&', 'l', 't', ';']
      else if c = '>' then ['&', 'g', 't', ';']
      else [c])
    (by
      intro c
      by_cases h0 : c = '&'
      · subst h0
        exact Or.inr ⟨by decide, '&', ['a', 'm', 'p', ';'], by decide,
          fun R => rfl, by decide⟩
      by_cases h1 : c = '<'
      · subst h1
        exact Or.inr ⟨by decide, '&', ['l', 't', ';'], by decide,
          fun R => rfl, by decide⟩
      by_cases h2 : c = '>'
      · subst h2
        exact Or.inr ⟨by decide, '&', ['g', 't', ';'], by decide,
          fun R => rfl, by decide⟩
      by_cases h3 : c = Char.ofNat 39
      · subst h3
        exact Or.inl ⟨by decide, by decide⟩
      by_cases h4 : c = Char.ofNat 34
      · subst h4
        exact Or.inr ⟨by decide, Char.ofNat 34, [], by decide,
          fun R => rfl, by decide⟩
      have hb : ('&' == c) = false := beq_eq_false_iff_ne.mpr (Ne.symm h0)
      exact Or.inr ⟨by simp only [h0, h1, h2, h3, h4, if_false], c, [],
        by simp only [h0, h1, h2, h3, h4, if_false],
        fun R => by simp only [List.isPrefixOf, hb, Bool.false_and], by simp⟩)
  have s3 := replaceAux_flatMap ['g', 't', ';'] ['>']
    (fun c =>
      if c = '&' then ['&', 'a', 'm', 'p', ';']
      else if c = '<' then ['&', 'l', 't', ';']
      else if c = '>' then ['&', 'g', 't', ';']
      else [c])
    (fun c =>
      if c = '&' then ['&', 'a', 'm', 'p', ';']
      else if c = '<' then ['&', 'l', 't', ';']
      else [c])
    (by
      intro c
      by_cases h0 : c = '&'
      · subst h0
        exact Or.inr ⟨by decide, '&', ['a', 'm', 'p', ';'], by decide,
          fun R => rfl, by decide⟩
      by_cases h1 : c = '<'
      · subst h1
        exact Or.inr ⟨by decide, '&', ['l', 't', ';'], by decide,
          fun R => rfl, by decide⟩
      by_cases h2 : c = '>'
      · subst h2
        exact Or.inl ⟨by decide, by decide⟩
      by_cases h3 : c = Char.ofNat 39
      · subst h3
        exact Or.inr ⟨by decide, Char.ofNat 39, [], by decide,
          fun R => rfl, by decide⟩
      by_cases h4 : c = Char.ofNat 34
      · subst h4
        exact Or.inr ⟨by decide, Char.ofNat 34, [], by decide,
          fun R => rfl, by decide⟩
      have hb : ('&' == c) = false := beq_eq_false_iff_ne.mpr (Ne.symm h0)
      exact Or.inr ⟨by simp only [h0, h1, h2, h3, h4, if_false], c, [],
        by simp only [h0, h1, h2, h3, h4, if_false],
        fun R => by simp only [List.isPrefixOf, hb, Bool.false_and], by simp⟩)
  have s4 := replaceAux_flatMap ['l', 't', ';'] ['<']
    (fun c =>
      if c = '&' then ['&', 'a', 'm', 'p', ';']
      else if c = '<' then ['&', 'l', 't', ';']
      else [c])
    (fun c =>
      if c = '&' then ['&', 'a', 'm', 'p', ';']
      else [c])
    (by
      intro c
      by_cases h0 : c = '&'
      · subst h0
        exact Or.inr ⟨by decide, '&', ['a', 'm', 'p', ';'], by decide,
          fun R => rfl, by decide⟩
      by_cases h1 : c = '<'
      · subst h1
        exact Or.inl ⟨by decide, by decide⟩
      by_cases h2 : c = '>'
      · subst h2
        exact Or.inr ⟨by decide, '>', [], by decide,
          fun R => rfl, by decide⟩
      by_cases h3 : c = Char.ofNat 39
      · subst h3
        exact Or.inr ⟨by decide, Char.ofNat 39, [], by decide,
          fun R => rfl, by decide⟩
      by_cases h4 : c = Char.ofNat 34
      · subst h4
        exact Or.inr ⟨by decide, Char.ofNat 34, [], by decide,
          fun R => rfl, by decide⟩
      have hb : ('&' == c) = false := beq_eq_false_iff_ne.mpr (Ne.symm h0)
      exact Or.inr ⟨by simp only [h0, h1, h2, h3, h4, if_false], c, [],
        by simp only [h0, h1, h2, h3, h4, if_false],
        fun R => by simp only [List.isPrefixOf, hb, Bool.false_and], by simp⟩)
  have s5 := replaceAux_flatMap ['a', 'm', 'p', ';'] ['&']
    (fun c =>
      if c = '&' then ['&', 'a', 'm', 'p', ';']
      else [c])
    (fun c => [c])
    (by
      intro c
      by_cases h0 : c = '&'
      · subst h0
        exact Or.inl ⟨by decide, by decide⟩
      by_cases h1 : c = '<'
      · subst h1
        exact Or.inr ⟨by decide, '<', [], by decide,
          fun R => rfl, by decide⟩
      by_cases h2 : c = '>'
      · subst h2
        exact Or.inr ⟨by decide, '>', [], by decide,
          fun R => rfl, by decide⟩
      by_cases h3 : c = Char.ofNat 39
      · subst h3
        exact Or.inr ⟨by decide, Char.ofNat 39, [], by decide,
          fun R => rfl, by decide⟩
      by_cases h4 : c = Char.ofNat 34
      · subst h4
        exact Or.inr ⟨by decide, Char.ofNat 34, [], by decide,
          fun R => rfl, by decide⟩
      have hb : ('&' == c) = false := beq_eq_false_iff_ne.mpr (Ne.symm h0)
      exact Or.inr ⟨by simp only [h0, h1, h2, h3, h4, if_false], c, [],
        by simp only [h0, h1, h2, h3, h4, if_false],
        fun R => by simp only [List.isPrefixOf, hb, Bool.false_and], by simp⟩)
  rw [s1, s2, s3, s4, s5]
  induction l with
  | nil => rfl
  | cons c rest ih => rw [List.flatMap_cons, ih]; rfl

/-- C38: for every string `s`, `unescapeXml(escapeXml(s)) = s`. -/
theorem C38_unescape_escape (s : String) : unescapeXml (escapeXml s) = s := by
  apply String.ext
  show QString.replaceAux ['&', 'a', 'm', 'p', ';'] ['&']
    (QString.replaceAux ['&', 'l', 't', ';'] ['<']
      (QString.replaceAux ['&', 'g', 't', ';'] ['>']
        (QString.replaceAux ['&', 'a', 'p', 'o', 's', ';'] [Char.ofNat 39]
          (QString.replaceAux ['&', 'q', 'u', 'o', 't', ';'] [Char.ofNat 34]
            (escapeXml s).data 0) 0) 0) 0) 0 = s.data
  rw [escapeXml_data, unescape_escape_data]

/-! ## The transformation codec: positions read and dependence on the prior outputs -/

/-- C36 does not hold: `decodeTransformation` reads the three positions 0, 1 and 2 of the
string `SM`, whose length is 2; on every other string, the empty string and the
one-character strings included, every position it passes to `str.at()` is below the
length. -/
theorem C36_decode_reads_past_end (c : NumberText) (s : String) (rotation : ℚ)
    (reflection spin : Bool) :
    ((∀ p ∈ (decodeTransformation c s rotation reflection spin).reads, p < s.length) ↔
      s ≠ "SM") ∧
    (decodeTransformation c "SM" rotation reflection spin).reads = [0, 1, 2] ∧
    ("SM" : String).length = 2 := by
  refine ⟨?_, ?_, rfl⟩
  · by_cases h : 2 ≤ s.length
    · rw [decode_long c s rotation reflection spin h]
      rcases s with ⟨l⟩
      match l, h with
      | [], h => simp [String.length] at h
      | [_], h => simp [String.length] at h
      | c0 :: c1 :: rest, _ =>
        have e0 : QString.at ⟨c0 :: c1 :: rest⟩ 0 = c0 := rfl
        have e1 : QString.at ⟨c0 :: c1 :: rest⟩ 1 = c1 := rfl
        have hlen : (String.mk (c0 :: c1 :: rest)).length = rest.length + 2 := rfl
        have hSM : (String.mk (c0 :: c1 :: rest) = "SM") ↔
            (c0 = 'S' ∧ c1 = 'M' ∧ rest = []) := by
          constructor
          · intro hh
            have := congrArg String.data hh
            simpa using this
          · rintro ⟨rfl, rfl, rfl⟩
            rfl
        rw [Ne, hSM, hlen, e0]
        by_cases hS : c0 = 'S'
        · have hS2 : ('S' == c0) = true := by simp [hS]
          simp only [hS2, if_true, e1]
          by_cases hM : c1 = 'M'
          · have hM2 : ('M' == c1) = true := by simp [hM]
            simp only [hM2, if_true]
            cases rest with
            | nil => simp [hS, hM]
            | cons r rs => simp [hS, hM]
          · have hM2 : ('M' == c1) = false :=
            beq_eq_false_iff_ne.mpr (Ne.symm hM)
            simp [hM2, hS, hM]
        · have hS2 : ('S' == c0) = false :=
            beq_eq_false_iff_ne.mpr (Ne.symm hS)
          simp only [hS2, Bool.false_eq_true, if_false, e0]
          by_cases hM : c0 = 'M'
          · have hM2 : ('M' == c0) = true := by simp [hM]
            simp [hM2, hS]
          · have hM2 : ('M' == c0) = false :=
            beq_eq_false_iff_ne.mpr (Ne.symm hM)
            simp [hM2, hS]
    · rw [decode_short c s rotation reflection spin (by omega)]
      constructor
      · intro _ hs
        rw [hs] at h
        exact h (by decide)
      · intro _ p hp
        simp at hp
  · rw [decode_long c "SM" rotation reflection spin (by decide)]
    rfl

/-- C37 does not hold: when `decodeTransformation` returns true, the rotation and the
reflection it leaves are the same whatever the three outputs held before, but the spin is
assigned only when the string starts with `S`; on a string that does not, the spin keeps
its prior value, so two calls agree on it exactly when they started from the same
spin. -/
theorem C37_decode_spin_depends_on_prior (c : NumberText) (s : String) (r1 r2 : ℚ)
    (m1 m2 sp1 sp2 : Bool) (h : (decodeTransformation c s r1 m1 sp1).result = true) :
    (decodeTransformation c s r2 m2 sp2).result = true ∧
    (decodeTransformation c s r1 m1 sp1).rotation =
      (decodeTransformation c s r2 m2 sp2).rotation ∧
    (decodeTransformation c s r1 m1 sp1).reflection =
      (decodeTransformation c s r2 m2 sp2).reflection ∧
    ((decodeTransformation c s r1 m1 sp1).spin = (decodeTransformation c s r2 m2 sp2).spin ↔
      (QString.at s 0 = 'S' ∨ sp1 = sp2)) := by
  have hl : 2 ≤ s.length := by
    by_contra hn
    rw [decode_short c s r1 m1 sp1 (by omega)] at h
    exact Bool.false_ne_true h
  rw [decode_long c s r1 m1 sp1 hl] at h ⊢
  rw [decode_long c s r2 m2 sp2 hl]
  simp only [Bool.and_eq_true] at h
  refine ⟨by simp only [Bool.and_eq_true]; exact h, ?_, rfl, ?_⟩
  · simp only [h.1, if_true]
    cases hv : c.toDouble _ with
    | none => rw [hv] at h; exact absurd h.2 (by simp)
    | some v => rfl
  · by_cases hS : QString.at s 0 = 'S'
    · simp [hS]
    · have hS2 : ('S' == QString.at s 0) = false :=
            beq_eq_false_iff_ne.mpr (Ne.symm hS)
      simp [hS2, hS]

/-- Witness of C37: the string `R90` is accepted from both prior states, and the spin
afterwards is the prior one, true in one call and false in the other. -/
theorem C37_decode_spin_depends_on_prior_witness :
    (decodeTransformation decimalNumbers "R90" 0 false true).result = true ∧
    (decodeTransformation decimalNumbers "R90" 0 false false).result = true ∧
    (decodeTransformation decimalNumbers "R90" 0 false true).spin ≠
      (decodeTransformation decimalNumbers "R90" 0 false false).spin :=
  ⟨by decide,
    (C37_decode_spin_depends_on_prior decimalNumbers "R90" 0 0 false false true false
      (by decide)).1,
    fun heq =>
      absurd ((C37_decode_spin_depends_on_prior decimalNumbers "R90" 0 0 false false true
        false (by decide)).2.2.2.1 heq) (by decide)⟩

/-! ## Board reader, rotation setters, default layers -/

/-- C32 does not hold: when the node is not a `board` element and no later sibling is one,
`CBoard::readFromXML` leaves the Board unchanged, as claimed, but returns true: its only
`return` statement is `return true`, so it returns true on every node. -/
theorem C32_board_read_true_when_absent (nt : NumberText) (root : QDomElement) (x : CBoard)
    (h1 : root.nodeName ≠ "board") (h2 : (root.nextSiblingElement "board").isNull = true) :
    CBoard.readFromXML nt root x = (true, x) ∧
    ∀ (root2 : QDomElement) (x2 : CBoard), (CBoard.readFromXML nt root2 x2).1 = true := by
  constructor
  · have hb : (root.nodeName != "board") = true := by simpa using h1
    simp only [CBoard.readFromXML, hb, if_true, h2, Bool.not_true, Bool.false_eq_true,
      if_false]
  · intro root2 x2
    unfold CBoard.readFromXML
    dsimp only
    generalize (if (root2.nodeName != "board") = true then _ else root2) = e
    generalize (!e.isNull) = b
    cases b <;> rfl

/-- Witness of C32: a `plain` element without siblings, read into a cleared Board. -/
theorem C32_board_read_true_when_absent_witness :
    CBoard.readFromXML decimalNumbers (QDomNode.ref (DomTree.element "plain" [] []) [])
      CBoard.clear = (true, CBoard.clear) :=
  (C32_board_read_true_when_absent decimalNumbers
    (QDomNode.ref (DomTree.element "plain" [] []) []) CBoard.clear (by decide) rfl).1

/-- C34: after `CLabel::setRotation(v)` and after `CInstance::setRotation(v)` the rotation
is one of 0, 90, 180, 270, the same in both, for every rational `v`; for `0 ≤ v < 360` it
is `90 k` modulo 360 for the integer `k` with `90 k - 45 ≤ v < 90 k + 45`, that is, the
multiple of 90 nearest to `v` with the midpoints rounding up. -/
theorem C34_setRotation_nearest_quadrant (x : CLabel) (y : CInstance) (v : ℚ) :
    ((x.setRotation v).m_Rotation = 0 ∨ (x.setRotation v).m_Rotation = 90 ∨
      (x.setRotation v).m_Rotation = 180 ∨ (x.setRotation v).m_Rotation = 270) ∧
    (y.setRotation v).m_Rotation = (x.setRotation v).m_Rotation ∧
    (0 ≤ v → v < 360 →
      ∃ k : ℤ, 90 * (k : ℚ) - 45 ≤ v ∧ v < 90 * (k : ℚ) + 45 ∧
        (x.setRotation v).m_Rotation = ((90 * k % 360 : ℤ) : ℚ)) := by
  have hx : (x.setRotation v).m_Rotation =
      if v < 45 ∨ v ≥ 315 then 0 else if v < 135 then 90 else if v < 225 then 180
      else if v < 315 then 270 else x.m_Rotation := by
    unfold CLabel.setRotation
    split_ifs <;> rfl
  have hy : (y.setRotation v).m_Rotation =
      if v < 45 ∨ v ≥ 315 then 0 else if v < 135 then 90 else if v < 225 then 180
      else if v < 315 then 270 else y.m_Rotation := by
    unfold CInstance.setRotation
    split_ifs <;> rfl
  rw [hx, hy]
  by_cases h1 : v < 45 ∨ v ≥ 315
  · rw [if_pos h1, if_pos h1]
    refine ⟨Or.inl rfl, rfl, fun h0 h360 => ?_⟩
    rcases h1 with h1 | h1
    · exact ⟨0, by norm_num; linarith, by norm_num; linarith, by norm_num⟩
    · exact ⟨4, by norm_num; linarith, by norm_num; linarith, by norm_num⟩
  · rw [if_neg h1, if_neg h1]
    have h1a : 45 ≤ v := by
      by_contra hn
      exact h1 (Or.inl (lt_of_not_ge hn))
    have h1b : v < 315 := by
      by_contra hn
      exact h1 (Or.inr (le_of_not_gt hn))
    by_cases h2 : v < 135
    · rw [if_pos h2, if_pos h2]
      exact ⟨Or.inr (Or.inl rfl), rfl, fun _ _ =>
        ⟨1, by norm_num; linarith, by norm_num; linarith, by norm_num⟩⟩
    · rw [if_neg h2, if_neg h2]
      by_cases h3 : v < 225
      · rw [if_pos h3, if_pos h3]
        exact ⟨Or.inr (Or.inr (Or.inl rfl)), rfl, fun _ _ =>
          ⟨2, by norm_num; linarith, by norm_num; linarith, by norm_num⟩⟩
      · rw [if_neg h3, if_neg h3, if_pos h1b, if_pos h1b]
        exact ⟨Or.inr (Or.inr (Or.inr rfl)), rfl, fun _ _ =>
          ⟨3, by norm_num; linarith, by norm_num; linarith, by norm_num⟩⟩

/-- Witness of C34: the midpoint 45 is rounded up to 90. -/
theorem C34_setRotation_nearest_quadrant_witness :
    (0 : ℚ) ≤ 45 ∧ (45 : ℚ) < 360 ∧
    ∃ k : ℤ, 90 * (k : ℚ) - 45 ≤ 45 ∧ (45 : ℚ) < 90 * (k : ℚ) + 45 ∧
      (CLabel.clear.setRotation 45).m_Rotation = ((90 * k % 360 : ℤ) : ℚ) :=
  ⟨by norm_num, by norm_num,
    (C34_setRotation_nearest_quadrant CLabel.clear CInstance.clear 45).2.2
      (by norm_num) (by norm_num)⟩

/-- C35 does not hold: the rotation of a Label is one of 0, 90, 180, 270 after `clear()`
and after `setRotation`, and `scale` and `assign` carry the rotation over unchanged, but
`readFromXML` stores whatever angle the `rot` attribute decodes to: a `label` node with
`rot="R45"` read into a cleared Label leaves the rotation 45. -/
theorem C35_label_read_breaks_rotation_invariant :
    CLabel.clear.m_Rotation = 0 ∧
    (∀ (x : CLabel) (v : ℚ),
      (x.setRotation v).m_Rotation = 0 ∨ (x.setRotation v).m_Rotation = 90 ∨
      (x.setRotation v).m_Rotation = 180 ∨ (x.setRotation v).m_Rotation = 270) ∧
    (∀ (x : CLabel) (factor : ℚ), (x.scale factor).m_Rotation = x.m_Rotation) ∧
    (∀ x label : CLabel, (x.assign label).m_Rotation = label.m_Rotation) ∧
    CLabel.readFromXML decimalNumbers
        (QDomNode.ref (DomTree.element "label" [("rot", "R45")] []) []) CLabel.clear =
      (true, { CLabel.clear with m_Rotation := 45 }) ∧
    ¬ ((45 : ℚ) = 0 ∨ (45 : ℚ) = 90 ∨ (45 : ℚ) = 180 ∨ (45 : ℚ) = 270) := by
  refine ⟨rfl, ?_, fun _ _ => rfl, fun _ _ => rfl, by decide, by norm_num⟩
  intro x v
  unfold CLabel.setRotation
  split_ifs with h1 h2 h3 h4
  · exact Or.inl rfl
  · exact Or.inr (Or.inl rfl)
  · exact Or.inr (Or.inr (Or.inl rfl))
  · exact Or.inr (Or.inr (Or.inr rfl))
  · exfalso
    apply h1
    by_cases h : v < 45
    · exact Or.inl h
    · exact absurd (lt_of_not_ge (fun hh => h1 (Or.inr hh))) h4

/-- The layers that `CDrawing::initDefaultLayers` leaves do not depend on the Drawing. -/
theorem initDefaultLayers_layers (x : CDrawing) :
    x.initDefaultLayers.m_Layers = CDrawing.clear.initDefaultLayers.m_Layers := rfl

/-- The function `CLayer::layerName` gives the empty string outside 1 to 98. -/
theorem layerName_outside (n : Int) (h : n < 1 ∨ 98 < n) : CLayer.layerName n = "" := by
  unfold CLayer.layerName
  repeat rw [if_neg]
  all_goals (intro e; rw [e] at h; revert h; decide)

/-- C40: after `CDrawing::initDefaultLayers()`, whatever the Drawing held, the list has 59
layers whose numbers are 1 to 51 and 91 to 98 in increasing order, every layer is named
`CLayer::layerName` of its number and the name is not empty, and for every integer `n`,
`findLayerByID(n)` returns a layer exactly when `layerName(n)` is not empty, the layer
returned having the number `n`. -/
theorem C40_default_layers (x : CDrawing) :
    x.initDefaultLayers.m_Layers.length = 59 ∧
    x.initDefaultLayers.m_Layers.map CLayer.m_Layer =
      (List.range' 1 51 ++ List.range' 91 8).map Int.ofNat ∧
    (x.initDefaultLayers.m_Layers.map CLayer.m_Layer).Pairwise (fun a b => a < b) ∧
    (∀ l ∈ x.initDefaultLayers.m_Layers,
      l.m_Name = CLayer.layerName l.m_Layer ∧ l.m_Name ≠ "") ∧
    (∀ n : Int, (x.initDefaultLayers.findLayerByID n).isSome = true ↔
      CLayer.layerName n ≠ "") ∧
    (∀ (n : Int) (l : CLayer), x.initDefaultLayers.findLayerByID n = some l →
      l.m_Layer = n) := by
  have hfind : ∀ n, x.initDefaultLayers.findLayerByID n =
      CDrawing.clear.initDefaultLayers.findLayerByID n := fun _ => rfl
  have hnum : CDrawing.clear.initDefaultLayers.m_Layers.map CLayer.m_Layer =
      (List.range' 1 51 ++ List.range' 91 8).map Int.ofNat := by
    decide
  rw [initDefaultLayers_layers x]
  refine ⟨rfl, hnum, ?_, by decide, ?_, ?_⟩
  · rw [hnum]
    decide
  · intro n
    rw [hfind]
    by_cases h : n < 1 ∨ 98 < n
    · rw [layerName_outside n h]
      simp only [ne_eq, not_true_eq_false, iff_false]
      intro hs
      unfold CDrawing.findLayerByID at hs
      rw [List.find?_isSome] at hs
      obtain ⟨l, hl, hp⟩ := hs
      have hm : l.m_Layer ∈ CDrawing.clear.initDefaultLayers.m_Layers.map CLayer.m_Layer :=
        List.mem_map_of_mem _ hl
      rw [hnum] at hm
      have hr : ∀ k ∈ (List.range' 1 51 ++ List.range' 91 8).map Int.ofNat,
          (1 : Int) ≤ k ∧ k ≤ 98 := by
        decide
      have := hr _ hm
      have hp2 : l.m_Layer = n := by simpa using hp
      omega
    · have h1 : 1 ≤ n := by omega
      have h2 : n ≤ 98 := by omega
      interval_cases n <;> decide
  · intro n l hl
    rw [hfind] at hl
    have := List.find?_some hl
    simpa using this

/-- Witness of C40: `findLayerByID(16)` returns a layer, whose number is 16 and whose name
is Bottom. -/
theorem C40_default_layers_witness :
    ∃ l, CDrawing.clear.initDefaultLayers.findLayerByID 16 = some l ∧ l.m_Layer = 16 ∧
      l.m_Name = "Bottom" :=
  ⟨CLayer.new 16 "Bottom" 1 1 true true, rfl,
    (C40_default_layers CDrawing.clear).2.2.2.2.2 16 _ rfl, rfl⟩

/-! ## The return value of the Layer reader -/

/-- The return value of `CLayer::readFromXML` on a `layer` element: true exactly when each
of the six attributes was read. -/
theorem layer_read_result (nt : NumberText) (a : List (String × String))
    (cs f : List DomTree) (x : CLayer) :
    (CLayer.readFromXML nt (QDomNode.ref (DomTree.element "layer" a cs) f) x).1 = true ↔
      ((nt.toInt (getAttr "number" a)).isSome = true ∧ getAttr "name" a ≠ "" ∧
        (nt.toInt (getAttr "color" a)).isSome = true ∧
        (nt.toInt (getAttr "fill" a)).isSome = true ∧
        (getAttr "visible" a = "yes" ∨ getAttr "visible" a = "no") ∧
        (getAttr "active" a = "yes" ∨ getAttr "active" a = "no")) := by
  have stInt : ∀ (s : String) (bit : Nat) (g : CLayer → Int → CLayer) (r : CLayer × Nat),
      (if (!QString.isEmpty s) = true then
          (match nt.toInt s with
            | some value => (g r.1 value, r.2 ||| bit)
            | none => r)
        else r).2 = r.2 ||| (if (nt.toInt s).isSome = true then bit else 0) := by
    intro s bit g r
    cases h : nt.toInt s with
    | none => simp
    | some v =>
      have he : QString.isEmpty s = false := by
        rw [QString.isEmpty_eq_false_iff]
        intro h0
        rw [h0, nt.toInt_empty] at h
        cases h
      simp [he]
  have stStr : ∀ (s : String) (bit : Nat) (g : CLayer → CLayer) (r : CLayer × Nat),
      (if (!QString.isEmpty s) = true then (g r.1, r.2 ||| bit) else r).2 =
        r.2 ||| (if s ≠ "" then bit else 0) := by
    intro s bit g r
    cases h : QString.isEmpty s with
    | true => simp [(QString.isEmpty_eq_true_iff s).mp h]
    | false => simp [(QString.isEmpty_eq_false_iff s).mp h]
  have stBool : ∀ (s : String) (bit : Nat) (g : CLayer → Bool → CLayer) (r : CLayer × Nat),
      (if (!QString.isEmpty s) = true then
          if s = "yes" then (g r.1 true, r.2 ||| bit)
          else if s = "no" then (g r.1 false, r.2 ||| bit)
          else r
        else r).2 = r.2 ||| (if s = "yes" ∨ s = "no" then bit else 0) := by
    intro s bit g r
    by_cases h1 : s = "yes"
    · subst h1
      have : QString.isEmpty "yes" = false := rfl
      simp [this]
    · by_cases h2 : s = "no"
      · subst h2
        have : QString.isEmpty "no" = false := rfl
        simp [this]
      · simp [h1, h2]
  simp only [CLayer.readFromXML, select_element, isNull_ref, Bool.not_false, if_true,
    attribute_element]
  rw [stBool (getAttr "active" a) 0x20 (fun c b => { c with m_Active := b }),
    stBool (getAttr "visible" a) 0x10 (fun c b => { c with m_Visible := b })]
  erw [stInt (getAttr "fill" a) 0x08 (fun c v => { c with m_Fill := v }),
    stInt (getAttr "color" a) 0x04 (fun c v => { c with m_Color := v })]
  rw [stStr (getAttr "name" a) 0x02 (fun c => { c with m_Name := getAttr "name" a })]
  erw [stInt (getAttr "number" a) 0x01 (fun c v => { c with m_Layer := v })]
  by_cases c1 : (nt.toInt (getAttr "number" a)).isSome = true <;>
  by_cases c2 : getAttr "name" a = "" <;>
  by_cases c3 : (nt.toInt (getAttr "color" a)).isSome = true <;>
  by_cases c4 : (nt.toInt (getAttr "fill" a)).isSome = true <;>
  by_cases c5 : (getAttr "visible" a = "yes" ∨ getAttr "visible" a = "no") <;>
  by_cases c6 : (getAttr "active" a = "yes" ∨ getAttr "active" a = "no") <;>
  simp only [c1, c2, c3, c4, c5, c6, if_true, if_false, ne_eq, not_true_eq_false,
    not_false_eq_true, and_true, and_false, true_and, false_and, iff_true, iff_false] <;>
  decide

/-- C31 as stated does not hold: a `layer` node that carries `name`, `color`, `fill`,
`visible` and `active` but not the required `number` is refused, and so is a `layer` node
with no attribute at all. -/
theorem C31_layer_without_number_refused :
    (CLayer.readFromXML decimalNumbers
      (QDomNode.ref (DomTree.element "layer"
        [("name", "Top"), ("color", "4"), ("fill", "1"), ("visible", "yes"),
          ("active", "yes")] []) [])
      CLayer.clear).1 = false ∧
    (CLayer.readFromXML decimalNumbers (QDomNode.ref (DomTree.element "layer" [] []) [])
      CLayer.clear).1 = false := by
  constructor <;> decide

/-- C31, amended: on a node whose tag is `layer`, `CLayer::readFromXML` returns true only
when the four required attributes are read, that is, `number`, `color` and `fill` are
texts of integers and `name` is not empty; and it does return true when, besides, `visible`
and `active` are each `yes` or `no`. -/
theorem C31_layer_read_needs_required (nt : NumberText) (a : List (String × String))
    (cs f : List DomTree) (x : CLayer) :
    ((CLayer.readFromXML nt (QDomNode.ref (DomTree.element "layer" a cs) f) x).1 = true →
      (nt.toInt (getAttr "number" a)).isSome = true ∧ getAttr "name" a ≠ "" ∧
        (nt.toInt (getAttr "color" a)).isSome = true ∧
        (nt.toInt (getAttr "fill" a)).isSome = true) ∧
    ((nt.toInt (getAttr "number" a)).isSome = true → getAttr "name" a ≠ "" →
      (nt.toInt (getAttr "color" a)).isSome = true →
      (nt.toInt (getAttr "fill" a)).isSome = true →
      (getAttr "visible" a = "yes" ∨ getAttr "visible" a = "no") →
      (getAttr "active" a = "yes" ∨ getAttr "active" a = "no") →
      (CLayer.readFromXML nt (QDomNode.ref (DomTree.element "layer" a cs) f) x).1 = true) := by
  constructor
  · intro h
    have h6 := (layer_read_result nt a cs f x).mp h
    exact ⟨h6.1, h6.2.1, h6.2.2.1, h6.2.2.2.1⟩
  · intro h1 h2 h3 h4 h5 h6
    exact (layer_read_result nt a cs f x).mpr ⟨h1, h2, h3, h4, h5, h6⟩

/-- Witness of the amended C31: the `layer` node of the layer Top with all six attributes
is accepted, and its four required attributes are read. -/
theorem C31_layer_read_needs_required_witness :
    (CLayer.readFromXML decimalNumbers
      (QDomNode.ref (DomTree.element "layer"
        [("number", "1"), ("name", "Top"), ("color", "4"), ("fill", "1"),
          ("visible", "yes"), ("active", "yes")] []) [])
      CLayer.clear).1 = true ∧
    (decimalNumbers.toInt "1").isSome = true :=
  ⟨(C31_layer_read_needs_required decimalNumbers
      [("number", "1"), ("name", "Top"), ("color", "4"), ("fill", "1"),
        ("visible", "yes"), ("active", "yes")] [] [] CLayer.clear).2
      (by decide) (by decide) (by decide) (by decide) (by decide) (by decide),
    ((C31_layer_read_needs_required decimalNumbers
      [("number", "1"), ("name", "Top"), ("color", "4"), ("fill", "1"),
        ("visible", "yes"), ("active", "yes")] [] [] CLayer.clear).1 (by decide)).1⟩

/-! ## Reading a drawing twice -/

/-- The layer list after `CDrawing::readFromXML` on a `drawing` element: the list before,
followed by one layer for each `layer` element the loop visits. -/
theorem drawing_read_layers (nt : NumberText) (a : List (String × String))
    (cs f : List DomTree) (y : CDrawing) :
    (CDrawing.readFromXML nt (QDomNode.ref (DomTree.element "drawing" a cs) f) y).2.m_Layers =
      y.m_Layers ++
        (if !(findElement "layers" cs).isNull then
          (whileElements "layer" ((findElement "layers" cs).firstChildElement "layer")).map
            (fun cc => (CLayer.readFromXML nt cc CLayer.clear).2)
        else []) := by
  simp only [CDrawing.readFromXML, select_element, isNull_ref, Bool.not_false, if_true,
    QDomNode.firstChildElement, childNodes_element]
  split <;> simp

/-- C39 as stated does not hold: a `drawing` node with one `layer` element, parsed once
into a cleared Drawing, leaves one layer; parsed a second time into the same Drawing it
leaves two. -/
theorem C39_drawing_read_twice_differs :
    (CDrawing.readFromXML decimalNumbers
      (QDomNode.ref (DomTree.element "drawing" []
        [DomTree.element "layers" [] [DomTree.element "layer" [("number", "1")] []]]) [])
      CDrawing.clear).2.m_Layers.length = 1 ∧
    (CDrawing.readFromXML decimalNumbers
      (QDomNode.ref (DomTree.element "drawing" []
        [DomTree.element "layers" [] [DomTree.element "layer" [("number", "1")] []]]) [])
      (CDrawing.readFromXML decimalNumbers
        (QDomNode.ref (DomTree.element "drawing" []
          [DomTree.element "layers" [] [DomTree.element "layer" [("number", "1")] []]]) [])
        CDrawing.clear).2).2.m_Layers.length = 2 := by
  constructor <;> rfl

/-- C39, amended: `CDrawing::readFromXML` appends to the layer list and never empties it.
With `n` the number of `layer` elements under the `layers` child of a `drawing` node,
one parse into a Drawing leaves `n` layers more than it held, a second parse of the same
node appends the same `n` layers again, and the two states have the same layer list
exactly when `n = 0`; the mode is the same after one parse and after two. -/
theorem C39_drawing_read_twice_appends_layers (nt : NumberText)
    (a : List (String × String)) (cs f : List DomTree) (x : CDrawing) :
    let node := QDomNode.ref (DomTree.element "drawing" a cs) f
    let once := (CDrawing.readFromXML nt node x).2
    let twice := (CDrawing.readFromXML nt node once).2
    let n := (elementsNamed "layer" (findElement "layers" cs).childNodes).length
    once.m_Layers.length = x.m_Layers.length + n ∧
    twice.m_Layers.length = x.m_Layers.length + 2 * n ∧
    twice.m_Layers = once.m_Layers ++ once.m_Layers.drop x.m_Layers.length ∧
    (twice.m_Layers = once.m_Layers ↔ n = 0) ∧
    twice.m_Mode = once.m_Mode := by
  intro node once twice n
  have hlen : ∀ (β : Type) (g : QDomNode → β),
      ((if !(findElement "layers" cs).isNull then
          (whileElements "layer" ((findElement "layers" cs).firstChildElement "layer")).map g
        else []) : List β).length = n := by
    intro β g
    have hm := map_whileElements "layer" (fun _ => ()) (fun _ _ _ => rfl)
      (findElement "layers" cs)
    have hl := congrArg List.length hm
    simp only [List.length_map] at hl
    cases hnull : (findElement "layers" cs).isNull with
    | false => simpa using hl
    | true =>
      have hnil : (findElement "layers" cs).childNodes = [] := by
        cases hfe : findElement "layers" cs with
        | null => rfl
        | ref t fl => rw [hfe] at hnull; cases hnull
      simp [n, hnil, elementsNamed]
  obtain ⟨L, h1, h2, hL⟩ : ∃ L : List CLayer, once.m_Layers = x.m_Layers ++ L ∧
      twice.m_Layers = once.m_Layers ++ L ∧ L.length = n :=
    ⟨_, drawing_read_layers nt a cs f x, drawing_read_layers nt a cs f once, hlen _ _⟩
  have e1 : once.m_Layers.length = x.m_Layers.length + n := by
    rw [h1, List.length_append, hL]
  refine ⟨e1, ?_, ?_, ?_, ?_⟩
  · rw [h2, List.length_append, hL, e1]
    omega
  · rw [h2]
    congr 1
    rw [h1, List.drop_left]
  · constructor
    · intro h
      have := congrArg List.length h
      rw [h2, List.length_append, hL] at this
      omega
    · intro h
      rw [h] at hL
      rw [h2, List.length_eq_zero.mp hL, List.append_nil]
  · show (CDrawing.readFromXML nt node once).2.m_Mode = (CDrawing.readFromXML nt node x).2.m_Mode
    rw [drawing_read_mode, drawing_read_mode]

/-! ## Reading back a drawing written with default elision -/

/-- The `settings` element written with defaults=false for the vertical text Up: one
`setting` child, with the attribute `alwaysvectorfont`. -/
theorem settings_xmlElement_elided (x : CSettings) (host : QDomDocument)
    (hhost : host.isNull = false)
    (hv : x.m_VerticalText = CSettings.VerticalText.vtUp) :
    x.xmlElement host false =
      QDomNode.ref (DomTree.element "settings" []
        [DomTree.element "setting"
          [("alwaysvectorfont", CEntity.toString x.m_AlwaysVectorFont)] []]) [] := by
  rw [document_eq host hhost]
  cases x with
  | mk avf vt =>
    simp only at hv
    subst hv
    rfl

/-- The `settings` element is the first child of the element `CDrawing::writeToXML`
builds. -/
theorem drawing_first_child (nt : NumberText) (d : CDrawing) (host : QDomDocument)
    (hhost : host.isNull = false) (defaults : Bool) (a1 : List (String × String))
    (c1 : List DomTree)
    (h1 : d.m_Settings.xmlElement host defaults =
      QDomNode.ref (DomTree.element "settings" a1 c1) []) :
    ∃ a rest, d.xmlElement nt host defaults =
      QDomNode.ref (DomTree.element "drawing" a (DomTree.element "settings" a1 c1 :: rest))
        [] := by
  obtain ⟨a, cs, h⟩ := drawing_xmlElement_form nt d host hhost defaults
  obtain ⟨a2, c2, h2⟩ := grid_xmlElement_form nt d.m_Grid host hhost defaults
  obtain ⟨a3, c3, h3⟩ : ∃ a cs,
      d.m_Layers.foldl (fun c y => (y.writeToXML nt host c defaults).2)
        (host.createElement "layers") = QDomNode.ref (DomTree.element "layers" a cs) [] := by
    apply keeps_foldl
    · intro e y h
      exact keeps_write _ _ _ h
    · exact ⟨_, _, createElement_eq host hhost _⟩
  obtain ⟨a4, c4, h4⟩ := library_xmlElement_form nt d.m_Library host hhost defaults
  obtain ⟨a5, c5, h5⟩ := schematic_xmlElement_form nt d.m_Schematic host hhost defaults
  obtain ⟨a6, c6, h6⟩ := board_xmlElement_form nt d.m_Board host hhost defaults
  have hc : (d.xmlElement nt host defaults).childNodes =
      DomTree.element "settings" a1 c1 :: (d.xmlElement nt host defaults).childNodes.tail := by
    simp only [CDrawing.xmlElement, h3]
    simp only [createElement_eq host hhost, settings_write _ host hhost, h1,
      appendChild_element, grid_write nt _ host hhost, h2]
    cases d.m_Mode <;>
      simp [library_write nt _ host hhost, schematic_write nt _ host hhost,
        board_write nt _ host hhost, h4, h5, h6]
  rw [h] at hc ⊢
  simp only [childNodes_element] at hc
  exact ⟨a, cs.tail, by rw [← hc]⟩

/-- The return value of `CSettings::readFromXML` on a `settings` element whose only child
sets `alwaysvectorfont`: the bit of `verticaltext` is missing, the result is false. -/
theorem settings_read_elided (b : Bool) (fl : List DomTree) (y : CSettings) :
    (CSettings.readFromXML
      (QDomNode.ref (DomTree.element "settings" []
        [DomTree.element "setting" [("alwaysvectorfont", CEntity.toString b)] []]) fl)
      y).1 = false := by
  have hyes : QString.isEmpty "yes" = false := rfl
  have hno : QString.isEmpty "no" = false := rfl
  have hemp : QString.isEmpty "" = true := rfl
  cases b <;>
    simp [CSettings.readFromXML, QDomNode.firstChildElement, findElement, whileElements,
      siblingElements, CSettings.readSetting, CEntity.toString, QDomNode.attribute, getAttr,
      hyes, hno, hemp, QDomNode.childNodes]

/-- C33 does not hold: for every Drawing whose vertical text is Up, the default,
`CDrawing::writeToXML` with defaults=false writes a `settings` element without the
`verticaltext` setting, `CSettings::readFromXML` returns false on it because the bit of
that setting is missing, and so `CDrawing::readFromXML` on the written `drawing` node
returns false, whatever the layers are called and whatever it is read into. -/
theorem C33_drawing_elided_read_fails (nt : NumberText) (d x : CDrawing)
    (host : QDomDocument) (root : QDomElement) (hhost : host.isNull = false)
    (hroot : root.isElement = true)
    (hv : d.m_Settings.m_VerticalText = CSettings.VerticalText.vtUp) :
    (CDrawing.readFromXML nt (d.writeToXML nt host root false).2.lastChild x).1 = false := by
  rw [drawing_written nt d host root false hhost hroot]
  obtain ⟨a, rest, h⟩ := drawing_first_child nt d host hhost false _ _
    (settings_xmlElement_elided d.m_Settings host hhost hv)
  rw [h]
  simp only [CDrawing.readFromXML, select_element, isNull_ref, Bool.not_false, if_true,
    QDomNode.firstChildElement, childNodes_element, findElement, settings_read_elided,
    Bool.and_false, Bool.false_and]

/-- Witness of C33: a cleared Drawing given the one layer Top, written with
defaults=false, is not read back with a true result. -/
theorem C33_drawing_elided_read_fails_witness :
    (CDrawing.readFromXML decimalNumbers
      (({ CDrawing.clear with m_Layers := [CLayer.new 1 "Top" 4 1 true true] } :
        CDrawing).writeToXML decimalNumbers (QDomDocument.mk false)
        (QDomNode.ref (DomTree.element "eagle" [] []) []) false).2.lastChild
      CDrawing.clear).1 = false :=
  C33_drawing_elided_read_fails decimalNumbers
    { CDrawing.clear with m_Layers := [CLayer.new 1 "Top" 4 1 true true] } CDrawing.clear
    (QDomDocument.mk false) (QDomNode.ref (DomTree.element "eagle" [] []) []) rfl rfl rfl

end Eagle
